import Mathlib

/-!
Verification of the chaos-playbook engine's decision core against its
natural-language specification.

The embedding below follows the Python sources:
- `src/chaos_playbook_engine/agents/chaos_agent_universal.py`
    (`ChaosAgent._should_inject_chaos`, `ChaosAgent.select_error_code`,
     `ChaosAgent.mock_error_response`, `ChaosAgent.call`);
- `src/chaos_playbook_engine/agents/test_agent_adk_v2.py`
    (`TestAgentADK._tool_decide_retry`, `TestAgentADK._fallback_decide_retry`);
- `src/chaos_playbook_engine/agents/test_agent_adk_v3.py`
    (`decide_retry_tool`, `TestAgentADK._tool_check_playbook`,
     `TestAgentADK._tool_apply_backoff`, `TestAgentADK._run_single_test`);
- `src/chaos_playbook_engine/agents/test_agent_adk_v3_v2.py`
    (`TestAgentADK._tool_check_playbook`, `TestAgentADK._run_single_test`).

Python machine integers are unbounded, so `Nat`/`Int` model them exactly.
Python floats are embedded as exact rationals; every float value is a
rational, and all float comparisons appearing in the modelled code
(`rng.random() < failure_rate`, `failure_rate <= 0.0`, `failure_rate >= 1.0`,
`min(delay, 10)`) are exact on the values the code produces, so the
rational model is faithful on those comparisons.

The chaos decision calls `random.Random(varied_seed).random()`.  That is
CPython's Mersenne Twister (MT19937) seeded by `init_by_array` over the
32-bit limbs of the absolute value of the integer seed, after which
`random()` returns `((genrand() >> 5) * 2^26 + (genrand() >> 6)) / 2^53`.
The `PyRandom` namespace embeds exactly that computation.  The 624-word
`uint32` state array is represented as a single natural number in base
2^32 (word `i` occupies bits `32*i .. 32*i+31`); `getWord`/`setWord` are
the array read/write.  This packed representation keeps kernel reduction
shallow; the definitions below were cross-checked against CPython's
`random.Random(n).random()` for many seeds.
-/

namespace PyRandom

/-- Word modulus of the Mersenne Twister: 2^32. -/
def U32 : Nat := 4294967296

/-- Read 32-bit word `i` of a packed state. -/
def getWord (s i : Nat) : Nat := (s >>> (32 * i)) % U32

/-- Write 32-bit word `i` of a packed state (value taken mod 2^32). -/
def setWord (s i v : Nat) : Nat :=
  s - getWord s i * 2 ^ (32 * i) + v % U32 * 2 ^ (32 * i)

/-- One step of the CPython `init_genrand` loop: state is `(mt, i)` and
the body performs `mt[i] := (1812433253 * (mt[i-1] xor (mt[i-1] >> 30)) + i)`
in 32-bit arithmetic, then increments `i`. -/
def genStep (st : Nat × Nat) : Nat × Nat :=
  let w := getWord st.1 (st.2 - 1)
  (setWord st.1 st.2 ((1812433253 * (w ^^^ (w >>> 30)) + st.2) % U32), st.2 + 1)

/-- CPython `init_genrand(s)`: word 0 is `s mod 2^32` and the loop body
runs for `i = 1 .. 623`. -/
def initGenrand (s : Nat) : Nat := (genStep^[623] (s % U32, 1)).1

/-- One step of the first mixing loop of CPython `init_by_array`.  State is
`(mt, i, j)`; the body is
`mt[i] := ((mt[i] xor ((mt[i-1] xor (mt[i-1] >> 30)) * 1664525)) + key[j] + j)`
in 32-bit arithmetic, followed by the wrap-around
(`if i+1 >= 624 then mt[0] := mt[623]; i := 1`) and the key-index reset
(`if j+1 >= |key| then j := 0`), exactly as in the C code. -/
def mixKeyStep (key : List Nat) (st : Nat × Nat × Nat) : Nat × Nat × Nat :=
  let mt := st.1
  let i := st.2.1
  let j := st.2.2
  let prev := getWord mt (i - 1)
  let x := ((getWord mt i ^^^ ((prev ^^^ (prev >>> 30)) * 1664525 % U32))
            + key.getD j 0 + j) % U32
  let mt1 := setWord mt i x
  let w := if 624 ≤ i + 1 then (setWord mt1 0 (getWord mt1 623), 1) else (mt1, i + 1)
  (w.1, w.2, if key.length ≤ j + 1 then 0 else j + 1)

/-- One step of the second mixing loop of CPython `init_by_array`.  State is
`(mt, i)`; the body is
`mt[i] := ((mt[i] xor ((mt[i-1] xor (mt[i-1] >> 30)) * 1566083941)) - i)`
in 32-bit arithmetic (the loop index stays below 624, so the 32-bit
subtraction is `+ (2^32 - i)` followed by `mod 2^32`), with the same
wrap-around as the first loop. -/
def mixDecStep (st : Nat × Nat) : Nat × Nat :=
  let mt := st.1
  let i := st.2
  let prev := getWord mt (i - 1)
  let x := ((getWord mt i ^^^ ((prev ^^^ (prev >>> 30)) * 1566083941 % U32))
            + (U32 - i % U32)) % U32
  let mt1 := setWord mt i x
  if 624 ≤ i + 1 then (setWord mt1 0 (getWord mt1 623), 1) else (mt1, i + 1)

/-- CPython `init_by_array(key)`: seed with 19650218, run the key-mixing
loop `max(624, |key|)` times starting at `i = 1, j = 0`, run the
decrement-mixing loop 623 times continuing from the loop index the first
loop ended at, then force `mt[0] := 0x80000000`. -/
def initByArray (key : List Nat) : Nat :=
  let m1 := (mixKeyStep key)^[max 624 key.length] (initGenrand 19650218, 1, 0)
  let m2 := mixDecStep^[623] (m1.1, m1.2.1)
  setWord m2.1 0 2147483648

/-- The twist constant: `0x9908b0df` when the low bit is set, else 0. -/
def mag01 (y : Nat) : Nat := if y % 2 = 1 then 2567483615 else 0

/-- MT19937 output tempering. -/
def temper (y : Nat) : Nat :=
  let y1 := y ^^^ (y >>> 11)
  let y2 := y1 ^^^ ((y1 <<< 7) &&& 2636928640)
  let y3 := y2 ^^^ ((y2 <<< 15) &&& 4022730752)
  y3 ^^^ (y3 >>> 18)

/-- The first two 32-bit outputs of `genrand_uint32` after seeding.  The
first `random()` call triggers one full twist; the twist's words 0 and 1
only depend on pre-twist words 0, 1, 2, 397 and 398 (words 397 and 398
are not yet overwritten when words 0 and 1 are produced), which is what
is computed here. -/
def genrandFirstTwo (mt : Nat) : Nat × Nat :=
  let w0 := getWord mt 0
  let w1 := getWord mt 1
  let w2 := getWord mt 2
  let y0 := (w0 &&& 2147483648) ||| (w1 &&& 2147483647)
  let n0 := getWord mt 397 ^^^ (y0 >>> 1) ^^^ mag01 y0
  let y1 := (w1 &&& 2147483648) ||| (w2 &&& 2147483647)
  let n1 := getWord mt 398 ^^^ (y1 >>> 1) ^^^ mag01 y1
  (temper n0, temper n1)

/-- CPython `random_random`: a 53-bit integer built from the first two
tempered outputs, `(a >> 5) * 2^26 + (b >> 6)`. -/
def random53 (key : List Nat) : Nat :=
  let ab := genrandFirstTwo (initByArray key)
  (ab.1 >>> 5) * 67108864 + (ab.2 >>> 6)

/-- 32-bit little-endian limbs of a natural number (fuel-recursive so the
definition stays structurally recursive; the fuel `n` itself is always
enough since each step divides by 2^32). -/
def limbsAux : Nat → Nat → List Nat
  | 0, _ => []
  | fuel+1, n => if n = 0 then [] else (n % U32) :: limbsAux fuel (n / U32)

/-- CPython `random_seed` key for an integer seed: the 32-bit limbs of its
absolute value, with `[0]` for zero. -/
def pythonKey (z : Int) : List Nat :=
  if z.natAbs = 0 then [0] else limbsAux z.natAbs z.natAbs

/-- `random.Random(z).random()` as an exact rational: the 53-bit integer
divided by 2^53.  Every double produced by CPython's `random()` equals
this rational exactly. -/
def pyRandom (z : Int) : ℚ := (random53 (pythonKey z) : ℚ) / 9007199254740992

end PyRandom

namespace PyRandom

set_option maxRecDepth 4000
set_option exponentiation.threshold 25000

/-! Concrete evaluation of the seeding pipeline for the integer seeds 43
and 44 (the seeds the hidden-counter chaos decision actually uses for
`seed = 42`), chunked so each `rfl` stays within kernel stack limits.
The large literals are packed 624-word states; every chunk lemma just
advances the corresponding CPython loop by the stated iteration count. -/

theorem genChunk0 : genStep^[100] (19650218, 1) = (1084726865290196557850855329211014995359484414464461323347979177767251841718313331089409191863235809934436495740564281625260812977087250141989232617588169225436421862478933520913977838352365564511286118310881349913101698293592061705151440768174075437858789512161962826953922249448757020754222157774712375507370989094347043829311276457452132172658822393837608738755718870616869764265715968098365621601365561019672181642399770126292851670828803288493251530774270829252981511208861454768008264787284729595639683175548185379921026609139054853624051177958965511325598003088716970349689592817114221652278775543393150088443321837197135089625171850496522526216504151837275258369972434155184893429066551601595620252745700044949784999516385741342856886074713718554633995820463783226621173423463841199548840540974162966272165787401871534350631288442755203041372176917015889119508680418512450590051151815092913168497614208424531031778469678131705994205527212457883256021572883911005866, 101) := by rfl

theorem genChunk1 : genStep^[100] (1084726865290196557850855329211014995359484414464461323347979177767251841718313331089409191863235809934436495740564281625260812977087250141989232617588169225436421862478933520913977838352365564511286118310881349913101698293592061705151440768174075437858789512161962826953922249448757020754222157774712375507370989094347043829311276457452132172658822393837608738755718870616869764265715968098365621601365561019672181642399770126292851670828803288493251530774270829252981511208861454768008264787284729595639683175548185379921026609139054853624051177958965511325598003088716970349689592817114221652278775543393150088443321837197135089625171850496522526216504151837275258369972434155184893429066551601595620252745700044949784999516385741342856886074713718554633995820463783226621173423463841199548840540974162966272165787401871534350631288442755203041372176917015889119508680418512450590051151815092913168497614208424531031778469678131705994205527212457883256021572883911005866, 101) = (12590619919451270486772162988088512254522421066762948643107806112135480388888184719849156059797327032818867337320861670251561049107599442066131606314841639190286543819221803670606789212007240718138571507840964218122451489191570534096498294622701872724327653764098579657173936823668210114487398693030248383883640850944185494624651438948332490136105287469444548900510109206868278530054508219661720741875894793642635101975475419943566134539204850544156527110518024468045478602105804786940579428946180272305160388716131479002847039065261148355605121745022067940275748353654599417808955283689847329712640100392084978500735985581382987464798212037550813456079953247297151985807656018736719852445716643351336236619714028064124696348050925166307642467770518661816581624105012380157212542339119540378145272174877908149765952367431460515408917216122933988578469515165657779373954402636996234893413277572713672935120570071666567597395077658747554238191237484091680280600775987326986420519950270067835057170216292748759960131990165499248501964087897249267532499261949129748435660786498990809476790746968945670581773475382636921297047610527663564595823541429078009095359773135347584637097642199220839846158746132786383531767616487980394786421126314607045440214758057872888431882633241102364681663088977154951652913815070302012354427155473357926255911539173032032971907452797112167148751945182747196783176095784740074244988140674351853604404868780146148781330870416220252020079336016350172006919547163537824985621877841711376250408229539471192210643069321697284646600271985767403599078352050686832885928570119104257999151549281339064896185492214782802512901232663879199283642009105376499601416737968269329138993669730299318779096467525210026179910134978760907129307421109967073390795821123368507598113511457541389206698832345684384032446999672400767839395556146207266528121302557358485284853553532998122136181826804997017493250466150607142097796191914, 201) := by rfl

theorem genChunk2 : genStep^[100] (12590619919451270486772162988088512254522421066762948643107806112135480388888184719849156059797327032818867337320861670251561049107599442066131606314841639190286543819221803670606789212007240718138571507840964218122451489191570534096498294622701872724327653764098579657173936823668210114487398693030248383883640850944185494624651438948332490136105287469444548900510109206868278530054508219661720741875894793642635101975475419943566134539204850544156527110518024468045478602105804786940579428946180272305160388716131479002847039065261148355605121745022067940275748353654599417808955283689847329712640100392084978500735985581382987464798212037550813456079953247297151985807656018736719852445716643351336236619714028064124696348050925166307642467770518661816581624105012380157212542339119540378145272174877908149765952367431460515408917216122933988578469515165657779373954402636996234893413277572713672935120570071666567597395077658747554238191237484091680280600775987326986420519950270067835057170216292748759960131990165499248501964087897249267532499261949129748435660786498990809476790746968945670581773475382636921297047610527663564595823541429078009095359773135347584637097642199220839846158746132786383531767616487980394786421126314607045440214758057872888431882633241102364681663088977154951652913815070302012354427155473357926255911539173032032971907452797112167148751945182747196783176095784740074244988140674351853604404868780146148781330870416220252020079336016350172006919547163537824985621877841711376250408229539471192210643069321697284646600271985767403599078352050686832885928570119104257999151549281339064896185492214782802512901232663879199283642009105376499601416737968269329138993669730299318779096467525210026179910134978760907129307421109967073390795821123368507598113511457541389206698832345684384032446999672400767839395556146207266528121302557358485284853553532998122136181826804997017493250466150607142097796191914, 201) = (5159020118624937402862698817462567621474841658043376353711091753951890419643599453073606792567246547078856499498225923315748432146820770520798642959282764583589146282363813244118908974813877829584559247897765603632119775746719553871557358236524117235693587521751678950558625242635075609327390743774226690147804673634776161647470435093079072486641256662367446774556751589441564827241507432347782983122053279864000986505674627169385810948265809493154525315328312257729181124133122791696711366547750610391601563389175308909044419144292704893740394322034011299445134449462853345743454303288786897052455376161435521083766668424163323711160306467887176876157951702909859516115528903902224839254124173826266415410682344771522904079597090622941723317620000938643471122315376233063757192624143108413341200887376324674421800593722083323289969410744122626378201671963141809395977505918928969826214888681030047609487973232205813013808839235680295148294328567178473410512539917319475259503936480564786002158247144903611279955043774359195399198973058043158133633170086953076420376536349216423241876794218090239236740959445457729737961079028555934321001232957571813076964286350138196385316309382459656879532312165800628653165711788190189102169973441975896050643836587502743698811053963081164650740649191444827883520007453552211306874696257458049511507092126733690753010545059487857248371124249510689226303453692822181356697076178710708334310129271417811481375281931001039205328068019238063187780341888760062645657958607692927093152913059009273519673581445845780670900472942592387633994034629495756042125503793248345922525701571399884375699804704530672242312321480784504337436059462172875072382603832007893397125277212752919756212630950217947997986761929192779443118013416915169634292648907977581879843672889476155066762103368110473591150654820365391729110456632119959315706734841722730563459026174339436638892179835069402319552212301503260956478145874014671552016122166870424548819407607678710639940589897421119965555501328922321271984519674420432073041227856339778906579860628777803566149430947230547866735357607803244638763213329453811988093499758223096067254413538615313278198921466915720400734255244097813019935028981786998226042040080885072726067089949434046846127187139040882651171948158976660816594464797089453953637446733319633089365302280845396015664947397850235122688480267192705342428119559594912139221977305994691683198350819762165610029710426925001071088633182518702587479204524568200393759137847192924880381832692503761655720157502969743489169487801532967485475811590503482533287043863702485214655568197439952310157795186340029556283010443824598401006433673609920906876021379315600724729092829984948842675102934441252542835401602249414626060822440299610098505435619748741511895576384742620920324117935776629871357227657895965268066517060248954557803233548924998866884815426923853832607166113017222826, 301) := by rfl

theorem genChunk3 : genStep^[100] (5159020118624937402862698817462567621474841658043376353711091753951890419643599453073606792567246547078856499498225923315748432146820770520798642959282764583589146282363813244118908974813877829584559247897765603632119775746719553871557358236524117235693587521751678950558625242635075609327390743774226690147804673634776161647470435093079072486641256662367446774556751589441564827241507432347782983122053279864000986505674627169385810948265809493154525315328312257729181124133122791696711366547750610391601563389175308909044419144292704893740394322034011299445134449462853345743454303288786897052455376161435521083766668424163323711160306467887176876157951702909859516115528903902224839254124173826266415410682344771522904079597090622941723317620000938643471122315376233063757192624143108413341200887376324674421800593722083323289969410744122626378201671963141809395977505918928969826214888681030047609487973232205813013808839235680295148294328567178473410512539917319475259503936480564786002158247144903611279955043774359195399198973058043158133633170086953076420376536349216423241876794218090239236740959445457729737961079028555934321001232957571813076964286350138196385316309382459656879532312165800628653165711788190189102169973441975896050643836587502743698811053963081164650740649191444827883520007453552211306874696257458049511507092126733690753010545059487857248371124249510689226303453692822181356697076178710708334310129271417811481375281931001039205328068019238063187780341888760062645657958607692927093152913059009273519673581445845780670900472942592387633994034629495756042125503793248345922525701571399884375699804704530672242312321480784504337436059462172875072382603832007893397125277212752919756212630950217947997986761929192779443118013416915169634292648907977581879843672889476155066762103368110473591150654820365391729110456632119959315706734841722730563459026174339436638892179835069402319552212301503260956478145874014671552016122166870424548819407607678710639940589897421119965555501328922321271984519674420432073041227856339778906579860628777803566149430947230547866735357607803244638763213329453811988093499758223096067254413538615313278198921466915720400734255244097813019935028981786998226042040080885072726067089949434046846127187139040882651171948158976660816594464797089453953637446733319633089365302280845396015664947397850235122688480267192705342428119559594912139221977305994691683198350819762165610029710426925001071088633182518702587479204524568200393759137847192924880381832692503761655720157502969743489169487801532967485475811590503482533287043863702485214655568197439952310157795186340029556283010443824598401006433673609920906876021379315600724729092829984948842675102934441252542835401602249414626060822440299610098505435619748741511895576384742620920324117935776629871357227657895965268066517060248954557803233548924998866884815426923853832607166113017222826, 301) = (35609038853649145442994696476182676308758303969754875313570554533661677793349732768780199021214896200127772081979596143660312866154261551804193013327703968628508601054585635449388617564683190080541853672075288491433781219019480412074603948119986405033287643074857880869562420778041749405786371632267826977980188153109772350009225328224043988708911901732753348255595329378314318560918576753695120553418275608982013502784525444539948020470680582490848039573161311928340126393100781564657588316865404322439530704770738088320922279804918478808028337076758792059337312752138032812298908539870614863736055047621097757490273484810004139444891053001567699697382390987787648151479964829862662423091462460497264012228652138937246973690646930498616246043595054449258673090513181758735225494683895388447479953184076096383726606345457673475642324289348852799248733120052002821025205451075117243453526281361557262271492232719781579146055590244504080079028603457502947398129480885986038837539759361684471025277361134055045697263267641474227435761215063160083665910859059655602740279816703617152891367989113033013643778491677694041880543392651483147731991701429097760914089544470682165739392563734616548994144835659477690165207507213174636259417578357109426863983506246629711247903102749105291175135898667943676266073891170659100259209493689981711083932975872312321057404860514302394886909390749678860469529744514261017106702132251459983076010507087349271726569668608321897967260552947501877139254256981746097199613583211111900831462527332360178615245701620448867253662252234331201295098721167043458253571209973781362197856627864620097439587838575481526048228552908138551983463413695197856946328286694731497536414548549365118530300378148420436034405828718986522750833066098626117701674372116945543445232086795947899069680478364045907281709771598377456578653638713942768387173639520451390915917888404248167552533694647444477305373156496499690936656293550099376453292823100049549571451690767901987165760406745807457930480582057177101022948170470967770443199307547501751597737710038377623198498023770217465460642386556397996454287605024737735434671682162634031705098726389353053232122010435207402124339116617939693039827989208309767477552788645559226713504660223255427201142328470286302753678959637001708946097137517617352330547851882361865876439645381470170149569458072485136282425841392733411046413588505255706543322928898251591077696934048333155748147388493123430593481143928609586649396399370719752919166409118158047764831448956687543947588831442734796113103373586721196367093094455953366120744587993184832161551630159187985911950516210000939855083220854385552533223010334444385032163970084676569389492610466207094406881393916016128309446994978760511922692058802792826895483915839357956870817670140906121833142306719135524359825263038590937184981237576588151103051462526256632517682513370247706623570580780776856550754522060836622353278370457878172252215844390346907434222718328474897319517282729803850042876554941991579276068292636779791059600534670293711726116877136193313690322078331165055608999695173480313636759867536390271182193304876651117620237070849235379548793928550039866698554658058157366131531596500947861226590979849319572854717952669676758040388535507054227867948097834444056163881691369804745467836205901090675569836736899885619822574978035230919153831326251317811395248082426546804206960005293135220595652174526245686638577376446972058187253389369313984202130634184500728063609802402785283112665721814367675563380838377512066456104891067384458744855871853844185936798303438479978297703988124008216010229637803847385030838729012993483170394248460583527077888755881305904899239335100426491919107009158582316610949894854915045280155051621640747773200628142964597745317249728227473464112207832727805793244523398905083487609017026139075303062415229678164237999658666, 401) := by rfl

theorem genChunk4 : genStep^[100] (35609038853649145442994696476182676308758303969754875313570554533661677793349732768780199021214896200127772081979596143660312866154261551804193013327703968628508601054585635449388617564683190080541853672075288491433781219019480412074603948119986405033287643074857880869562420778041749405786371632267826977980188153109772350009225328224043988708911901732753348255595329378314318560918576753695120553418275608982013502784525444539948020470680582490848039573161311928340126393100781564657588316865404322439530704770738088320922279804918478808028337076758792059337312752138032812298908539870614863736055047621097757490273484810004139444891053001567699697382390987787648151479964829862662423091462460497264012228652138937246973690646930498616246043595054449258673090513181758735225494683895388447479953184076096383726606345457673475642324289348852799248733120052002821025205451075117243453526281361557262271492232719781579146055590244504080079028603457502947398129480885986038837539759361684471025277361134055045697263267641474227435761215063160083665910859059655602740279816703617152891367989113033013643778491677694041880543392651483147731991701429097760914089544470682165739392563734616548994144835659477690165207507213174636259417578357109426863983506246629711247903102749105291175135898667943676266073891170659100259209493689981711083932975872312321057404860514302394886909390749678860469529744514261017106702132251459983076010507087349271726569668608321897967260552947501877139254256981746097199613583211111900831462527332360178615245701620448867253662252234331201295098721167043458253571209973781362197856627864620097439587838575481526048228552908138551983463413695197856946328286694731497536414548549365118530300378148420436034405828718986522750833066098626117701674372116945543445232086795947899069680478364045907281709771598377456578653638713942768387173639520451390915917888404248167552533694647444477305373156496499690936656293550099376453292823100049549571451690767901987165760406745807457930480582057177101022948170470967770443199307547501751597737710038377623198498023770217465460642386556397996454287605024737735434671682162634031705098726389353053232122010435207402124339116617939693039827989208309767477552788645559226713504660223255427201142328470286302753678959637001708946097137517617352330547851882361865876439645381470170149569458072485136282425841392733411046413588505255706543322928898251591077696934048333155748147388493123430593481143928609586649396399370719752919166409118158047764831448956687543947588831442734796113103373586721196367093094455953366120744587993184832161551630159187985911950516210000939855083220854385552533223010334444385032163970084676569389492610466207094406881393916016128309446994978760511922692058802792826895483915839357956870817670140906121833142306719135524359825263038590937184981237576588151103051462526256632517682513370247706623570580780776856550754522060836622353278370457878172252215844390346907434222718328474897319517282729803850042876554941991579276068292636779791059600534670293711726116877136193313690322078331165055608999695173480313636759867536390271182193304876651117620237070849235379548793928550039866698554658058157366131531596500947861226590979849319572854717952669676758040388535507054227867948097834444056163881691369804745467836205901090675569836736899885619822574978035230919153831326251317811395248082426546804206960005293135220595652174526245686638577376446972058187253389369313984202130634184500728063609802402785283112665721814367675563380838377512066456104891067384458744855871853844185936798303438479978297703988124008216010229637803847385030838729012993483170394248460583527077888755881305904899239335100426491919107009158582316610949894854915045280155051621640747773200628142964597745317249728227473464112207832727805793244523398905083487609017026139075303062415229678164237999658666, 401) = (90043950063488874289796901820435577912599141604359690054861870644557662117436103472854521563064116549056280072080369516726692515514757636233741298499290037499750079728210316620074739709515698944126881864235509642034803931791303013105888988930655095454555357520904786224511258649820007149965930250239973317453670077027344415210617232027804226890064920593886293061436659584731667480842060910091283008970789136082811457193410053758068932813653521338095257469222428994883785610954681302808911516559183857826057909635814252574189976833592007331140692503899969339597476844741244675289007684909361956276585535313073258898311384420633817444933743896305080776480892145997790382239340996987808877363199375183813217561858001730423061684253401863183079821430272098195730188876221994188944758550930876602477588841741058155538906303293781898094381482034521872914752884948462368107519441741549653339772400441231806382249615607474589627660650777218573986751555297465817496635820999493041184912589250899807757512801592406773159519860339926662928256879868605362811791004179374669990406183083300922449585192306590453023901219849502518292256178744224874413718240017274659386472480435713907655294361529826283110065799085115144756398477303727531149255417874144772552304731309295890620147983728547138558711619932331457468257993276329297812420292065032469025763470048283975669300377775562734787692226710303660730688086047561889009689269802387012363055533519195886281014868387284387807494855712679611795032640514489775276380010202433512578239721752786389459378275542314126598674509064428320443492675114084031310792174485868116755476543466846597403417757804606953026140042103720574802813894215065658911930076768541708731918109361374386834582697790260500472988009455469115792491479650568244342310169189353499853616665329642860772596302521011380755571516750368495730689290171329989971746958259798508601741227028890711116173362454555583270142026694971797969658865497101901652460573055521537870186334634180714280729645904807374888238866421658271326945163891920972742156075077900585530543334328248016426097582831848366367511884747618092949645830217142496476602529847497570834055615271358530614823385187540931240927154775035114466824464760575348820117843089157592355667786053605606298491357720662175642185964998733097309334930816231145077430577205817482813362565508233977171478041371131565248608266583746651590592762597708773347481159154565871326772250064468900571862086173108735111931189824644082649339221072027718692626567599277338518456333063568768199693128334586430627951677595373443699838556265714343165599656522222268138407915578968105595675549934663389935966617918698200366207162144016184020718006328836821303792376471600439922501386993685420093986887310671275112097562789804324809563015515962850511835091463529292273534114518385601777627996656717231820767677920417913857228917630342349441536206556361129566546697264591277470178831802414886023964231733138215006350688555431699172727624961650132454175507771202605326160145994414781534402860710781986126072466855108082274567928670302912054813889492458717232400544185489403974472645566124996474191729220395163379726391180457826913701176239788703783676480331422863993829456360196604532641226441204611104420245893284875662872191385068597992560482058588847285486928341396783045932909858804712581504709332132295517462968687874385863871925399950242834467381263722202243424419071807703225070639607636389701626045917356577323717343622699144344770288741182803692056712815626603398258677500689105336460787708222075748198695992784971268767053129199281354643055237983455485870386374502934263851149010377369923185960248974789349213406651269188959880808405671440002417082094623203931971588627816065223093086578839706721258312522877783920862649397800305466677428776390955418485843498622956037112882220447404321806304467718761789842601828879639518606655997075000982695074020482026496609936996405647843700243296423696600107334781408130049428647771321105314414881116250016175884500094034279550484602237837563436172771463045766240355600949998911278466641834325804021146431749341438572345109625034410952251360286312668974563966086409794678102718214056438781483012420738650318117943651167244288428632624233385458953631549249268119949819109773354111153078288408730172146471129469471383654865361481805929563601659951903380553253407011593326716808501109817473749904783002424748150887159798095263425005224423419563810393246699144733942176800073549707406709412905433628504402733411551810979173517105195935573889669636896458388915483838660372157423855416114026216051035664989006048751982179433487662232951876487779840512838409708226138764571517023850579238508786332833697476966955665470757437834741183492979644985962767897005997399613777988432316340814602827641190644202640992252388355734321580459960387143963280970519474026043050, 501) := by rfl

theorem genChunk5 : genStep^[100] (90043950063488874289796901820435577912599141604359690054861870644557662117436103472854521563064116549056280072080369516726692515514757636233741298499290037499750079728210316620074739709515698944126881864235509642034803931791303013105888988930655095454555357520904786224511258649820007149965930250239973317453670077027344415210617232027804226890064920593886293061436659584731667480842060910091283008970789136082811457193410053758068932813653521338095257469222428994883785610954681302808911516559183857826057909635814252574189976833592007331140692503899969339597476844741244675289007684909361956276585535313073258898311384420633817444933743896305080776480892145997790382239340996987808877363199375183813217561858001730423061684253401863183079821430272098195730188876221994188944758550930876602477588841741058155538906303293781898094381482034521872914752884948462368107519441741549653339772400441231806382249615607474589627660650777218573986751555297465817496635820999493041184912589250899807757512801592406773159519860339926662928256879868605362811791004179374669990406183083300922449585192306590453023901219849502518292256178744224874413718240017274659386472480435713907655294361529826283110065799085115144756398477303727531149255417874144772552304731309295890620147983728547138558711619932331457468257993276329297812420292065032469025763470048283975669300377775562734787692226710303660730688086047561889009689269802387012363055533519195886281014868387284387807494855712679611795032640514489775276380010202433512578239721752786389459378275542314126598674509064428320443492675114084031310792174485868116755476543466846597403417757804606953026140042103720574802813894215065658911930076768541708731918109361374386834582697790260500472988009455469115792491479650568244342310169189353499853616665329642860772596302521011380755571516750368495730689290171329989971746958259798508601741227028890711116173362454555583270142026694971797969658865497101901652460573055521537870186334634180714280729645904807374888238866421658271326945163891920972742156075077900585530543334328248016426097582831848366367511884747618092949645830217142496476602529847497570834055615271358530614823385187540931240927154775035114466824464760575348820117843089157592355667786053605606298491357720662175642185964998733097309334930816231145077430577205817482813362565508233977171478041371131565248608266583746651590592762597708773347481159154565871326772250064468900571862086173108735111931189824644082649339221072027718692626567599277338518456333063568768199693128334586430627951677595373443699838556265714343165599656522222268138407915578968105595675549934663389935966617918698200366207162144016184020718006328836821303792376471600439922501386993685420093986887310671275112097562789804324809563015515962850511835091463529292273534114518385601777627996656717231820767677920417913857228917630342349441536206556361129566546697264591277470178831802414886023964231733138215006350688555431699172727624961650132454175507771202605326160145994414781534402860710781986126072466855108082274567928670302912054813889492458717232400544185489403974472645566124996474191729220395163379726391180457826913701176239788703783676480331422863993829456360196604532641226441204611104420245893284875662872191385068597992560482058588847285486928341396783045932909858804712581504709332132295517462968687874385863871925399950242834467381263722202243424419071807703225070639607636389701626045917356577323717343622699144344770288741182803692056712815626603398258677500689105336460787708222075748198695992784971268767053129199281354643055237983455485870386374502934263851149010377369923185960248974789349213406651269188959880808405671440002417082094623203931971588627816065223093086578839706721258312522877783920862649397800305466677428776390955418485843498622956037112882220447404321806304467718761789842601828879639518606655997075000982695074020482026496609936996405647843700243296423696600107334781408130049428647771321105314414881116250016175884500094034279550484602237837563436172771463045766240355600949998911278466641834325804021146431749341438572345109625034410952251360286312668974563966086409794678102718214056438781483012420738650318117943651167244288428632624233385458953631549249268119949819109773354111153078288408730172146471129469471383654865361481805929563601659951903380553253407011593326716808501109817473749904783002424748150887159798095263425005224423419563810393246699144733942176800073549707406709412905433628504402733411551810979173517105195935573889669636896458388915483838660372157423855416114026216051035664989006048751982179433487662232951876487779840512838409708226138764571517023850579238508786332833697476966955665470757437834741183492979644985962767897005997399613777988432316340814602827641190644202640992252388355734321580459960387143963280970519474026043050, 501) = (249808825493616580930902838933975679297670588823244197796883175148436100954988729797108566483651066233703312328182738797040760592093479086408065422426000971344877364276721546690820728461902532167503054881642672143605722766959206063601432360363254720884496166608123157389505942008486280518013248830351239755915859883554625431174891940819756632948629872892587346492053401609742942119417805371322725055267636136013639952832772924705521098055215077860114281290618096900564280795213664153905511397105616304608081218571715841595663617476357961317182694331506360404782472207909168537085052243181321731108100491816631320825766925294370704412464301366314732956108252907364521043737859211961954246082977874945799017918216446408637262086914697535875472586213870131191768919817548503722717457097420569288214120376292181744824386864315588153050491593300229363574555322139934292096888868364052102677837012106766594104563977489958905938574329087475362184738625104173125613249611841199379015422148132087445641340219636610541612202628466222058308086181574409161902755426492407589994715618652416123731653371196635541015703411384134103772741564472775077286547962156860001257221674110507389045572438794699224621425326405504383726289551622189430185137341984299170258324803142745678568778318568644081222262775010977539284730761842252214685279537002460041631688195372424752698191833620420914790240226033216027083453984796443435866726117119789290123392854955148070844440419864845599300179976574578217019940633288249264095595472969353349089072370838423200256746864724767837296522936315557365967826413447456004278664894527435645622181403148564378420136089938350428764625828559125018717116033501180603310451466186433332837174866723603156250382701110519123129646632574158441347328379948259414735145963530504299886891050073089566176561216724711830671960252625891681737072262347252886339265566743365528012195569690453291819978003359894904575603313908444626650771024766640010569908229276345092344453964005430145575100840517674674164888175415648495338697285695764340623155909088672211661223852519648262896717640391624756074789284786216447890876661370798234033697099292531289558636230385364780293848587814249798307589365563899097687940536817179120072363056935203688747184860034744876589166207205277854331301219582976620574287600972902984233995763019032701387612792616372756520884307741855365626790820188779207994004651437258517221710665632205373123743325861501801231210172390176768323473832607039416800596937075317743528366033435675950322046811238671602800104612594360648369552120345923812045646182570659985333730943309652926133183013612166045920070267482132742614527463818390224691761106500021267865271050436399284253377880067779480403066535783922405669804295013449314113456763038877223207918166752147256126871042371235875194487476970856938704412074589528084466047720889510598061926152840788373589148304278711147923339959126855452352589176111717609814676915206452186003011770794408052503426872229417567772939076365526149127407071964856262536665922084233081876192843059030910384706803686322945419450575613294006113222738630047158620375842995706195136715892301754543495484888696056961848851721186803404980946551408005019964213190368984599794100488633140490849445538507260872978087072366606122867495530524816025519890574974477802002426883421798925485528840493683992269846830725110711426156413594659443547352491754853092483124881113804857699040374899264725778860189630089994296107881203261126260680514275887461132588053640825297070493919042780078531894673173395003257029721129359483784863046153484963591777385485808678495636818391888091595995078551823236006991106483239384697092707519231498961879726382683139450541993076324780614009814859525816796897360847542381124075481139759029805428290373452779835594333766172008465383975181377810330451873971706570133188204448114378971825637890175108463473574519882756427702609141816469727285495634689459878905718090768675584286606759701736030800747959521395814721644390268557866692526367177848443199775692431557225726631935145646819486647141286293260070810090091745008778529370787260519338369428961338910495535082575104685896290555298988558829729327631944955843826432524972762743430783840301809918056287851677022898382125595922451036840433816089761240338378720131444410461280880174177483310337490107746136349701436685345998096729060605654297304278687556811870375999613305835908163754130331625613818391134238953293949515107081300710421458332024959623592435150426423002151743526841467594113536520275017805496867258277172564719390315096082765591549152063177839160654361400572240048792814721048295538925393733265477309667658257127089917066904072753658510110053504647472318262591709282398819393107890304322267937699325353959536628804464759280088364395468504540575465555904979609803900863494314917292342583417672665528001305651387523515923477794505044129672206703032250544295058623391243524800635728458010607153264902457411978234280562782120552522219755997000084385977395142447758913177864752013677030274024582483094136298684579183876864315210171627809025158962353376886067980416063563254119919057250381962657234204538684992142410994323881647187447284389940226137904301142658898573044409876940484568424037743631730241114239926495674691341796893170722768373963967823435764900432162391913576543626746523378066000400551856181930220289595780961728034992737437900156204641115996775408816322247374309269812247958424529695786573436859007455400824697759819045914672200818861105119667109440234383731798749854430389789641175160161637147610664190938964911516119395301319641389554431137074140179092446398452673013431468600383617716238930264186756814246460274131659914193974374343300680937953134232590825665910664883536046429895591317281805438809548874210309665034939574683522770184231899377011474446407338, 601) := by rfl

theorem genChunk6 : genStep^[23] (249808825493616580930902838933975679297670588823244197796883175148436100954988729797108566483651066233703312328182738797040760592093479086408065422426000971344877364276721546690820728461902532167503054881642672143605722766959206063601432360363254720884496166608123157389505942008486280518013248830351239755915859883554625431174891940819756632948629872892587346492053401609742942119417805371322725055267636136013639952832772924705521098055215077860114281290618096900564280795213664153905511397105616304608081218571715841595663617476357961317182694331506360404782472207909168537085052243181321731108100491816631320825766925294370704412464301366314732956108252907364521043737859211961954246082977874945799017918216446408637262086914697535875472586213870131191768919817548503722717457097420569288214120376292181744824386864315588153050491593300229363574555322139934292096888868364052102677837012106766594104563977489958905938574329087475362184738625104173125613249611841199379015422148132087445641340219636610541612202628466222058308086181574409161902755426492407589994715618652416123731653371196635541015703411384134103772741564472775077286547962156860001257221674110507389045572438794699224621425326405504383726289551622189430185137341984299170258324803142745678568778318568644081222262775010977539284730761842252214685279537002460041631688195372424752698191833620420914790240226033216027083453984796443435866726117119789290123392854955148070844440419864845599300179976574578217019940633288249264095595472969353349089072370838423200256746864724767837296522936315557365967826413447456004278664894527435645622181403148564378420136089938350428764625828559125018717116033501180603310451466186433332837174866723603156250382701110519123129646632574158441347328379948259414735145963530504299886891050073089566176561216724711830671960252625891681737072262347252886339265566743365528012195569690453291819978003359894904575603313908444626650771024766640010569908229276345092344453964005430145575100840517674674164888175415648495338697285695764340623155909088672211661223852519648262896717640391624756074789284786216447890876661370798234033697099292531289558636230385364780293848587814249798307589365563899097687940536817179120072363056935203688747184860034744876589166207205277854331301219582976620574287600972902984233995763019032701387612792616372756520884307741855365626790820188779207994004651437258517221710665632205373123743325861501801231210172390176768323473832607039416800596937075317743528366033435675950322046811238671602800104612594360648369552120345923812045646182570659985333730943309652926133183013612166045920070267482132742614527463818390224691761106500021267865271050436399284253377880067779480403066535783922405669804295013449314113456763038877223207918166752147256126871042371235875194487476970856938704412074589528084466047720889510598061926152840788373589148304278711147923339959126855452352589176111717609814676915206452186003011770794408052503426872229417567772939076365526149127407071964856262536665922084233081876192843059030910384706803686322945419450575613294006113222738630047158620375842995706195136715892301754543495484888696056961848851721186803404980946551408005019964213190368984599794100488633140490849445538507260872978087072366606122867495530524816025519890574974477802002426883421798925485528840493683992269846830725110711426156413594659443547352491754853092483124881113804857699040374899264725778860189630089994296107881203261126260680514275887461132588053640825297070493919042780078531894673173395003257029721129359483784863046153484963591777385485808678495636818391888091595995078551823236006991106483239384697092707519231498961879726382683139450541993076324780614009814859525816796897360847542381124075481139759029805428290373452779835594333766172008465383975181377810330451873971706570133188204448114378971825637890175108463473574519882756427702609141816469727285495634689459878905718090768675584286606759701736030800747959521395814721644390268557866692526367177848443199775692431557225726631935145646819486647141286293260070810090091745008778529370787260519338369428961338910495535082575104685896290555298988558829729327631944955843826432524972762743430783840301809918056287851677022898382125595922451036840433816089761240338378720131444410461280880174177483310337490107746136349701436685345998096729060605654297304278687556811870375999613305835908163754130331625613818391134238953293949515107081300710421458332024959623592435150426423002151743526841467594113536520275017805496867258277172564719390315096082765591549152063177839160654361400572240048792814721048295538925393733265477309667658257127089917066904072753658510110053504647472318262591709282398819393107890304322267937699325353959536628804464759280088364395468504540575465555904979609803900863494314917292342583417672665528001305651387523515923477794505044129672206703032250544295058623391243524800635728458010607153264902457411978234280562782120552522219755997000084385977395142447758913177864752013677030274024582483094136298684579183876864315210171627809025158962353376886067980416063563254119919057250381962657234204538684992142410994323881647187447284389940226137904301142658898573044409876940484568424037743631730241114239926495674691341796893170722768373963967823435764900432162391913576543626746523378066000400551856181930220289595780961728034992737437900156204641115996775408816322247374309269812247958424529695786573436859007455400824697759819045914672200818861105119667109440234383731798749854430389789641175160161637147610664190938964911516119395301319641389554431137074140179092446398452673013431468600383617716238930264186756814246460274131659914193974374343300680937953134232590825665910664883536046429895591317281805438809548874210309665034939574683522770184231899377011474446407338, 601) = (62685089405509111925910797243914719854890513935494713084094713797279779630627496305943786046941309007281293105221577504421353501605599255248785149356818580886163074212016138319710181437623915839386196989339984175865611290932895638485827512283879634622589907034847096838980553398268338905605705315464924834076955485269257682765843392777664062904318116756644819538761883164862381873685805923051342196114892111881287659915424456096361326051748180740843339721465950121631833352165428366344241754810081140762710579390137795215443629123183303201044796731629341661542390258966032612552126580439913324626563213547393121217728067632048719897064596438939163041106934301355643192260261867872030533878188557727018817797219012064641958276099544136480610826250078810896212505254064619595899307426216931651016613164877613570296351724055264357110051005104450572173606849938075379012356137114572525910752676385589168436483206759652170097284388598518122222819376116616668668677988651997615236221431416155794821321118852088948452164682783715959922435191327367306488124638818446090532334864386359317233873012285172875896330714873881780586230596002778688422250420590175698633544778262136505069053046737202152515000629854634631225453245996997340762744567896897683212149150732909707719966588817675821630380251456266588599804209831660991462715440400663143017564651072677052296295930367391822676512661642282350234567553218318066651318510488484545671729568971887621684270732981974442582657502555066960418690332945218280990034155505553171409775830458482159957769211244505225186771766058316021949327301666418107251589707938065072144733816368743637495699897181007119363672460040974223449086641663004605507793014252452324150238463715514559124307431648478948480649031081489229583165223570218974125422263886587593014744330199975749832650568652404661542746543584685860761547297457070273167102314576665676644281998277713093924236551494770138725647883566971887853912300960949802636372591951717316415323846182747445131420005722224687602711525724505110953736568981699982016588947035894059736087136235396798804019434387781559696138411966704777989194870090051835909943079457649936020314680876367897457337488804889342331824364904005266943816631681518612047693872607083945336048154993001716858914072302230374294986610531277637599664647525761147514008899238689946802093944865612982597431648203028809043429562401771290925843222821220221381984318518256971016750121270624021542153515130386081256853244444367484914891752438843250797295149886721543902585582757118492217204960123203770309672216674331373413106027454841661967870247822106376003696537006476355273043676224973894002060133928765135363584693312631060562155459381152426642778209514491263275588735458188352331628933634618912177576995916817414488324819680108333628484452298807271017999262374749573133359090629722111402666396222385680310709557844049479865847370371052888681758484468279513921172987571336140289500145715018352119752770038578015899178947425013401300127437407370742417936980607757405410607208376626705322894782663757703548808362869195819947150150865798288136994832911439410269353230208345410503242199606186650417333579047848825834242257112060317620885151293421378661990197161958015730358249113963865616811805417654957899792836277351433146683316643158745577273742588847277405020330699298979666450169324546781433015633218213248018986767013905101885085728066131985273947793365444250280947765884488609302913437528001802423347517836456663978922564542901160075954132077499502061844004777463229898312792357201472450520034421742281215395838957029567457078867297742321364249618062920323524100796395855490398720473188748064226082130624085325443879193454095100721902723688608983702297802922465778395428510531587340343771240068168890882622394112252370643121994567113348850616779414952571984309063927162547038575769391208822294299053225776973195785292510157058775147687493667385905281728614066936870793483631104130486096422866739022254251631022238998824784309871214211336594149372534724828516536519652291847191320934127662041939033266344757810255450761243406685982638804631309022215852991706323223872506356963395668107287976200691035733250165615782065576159415303394415966535152327550107294310945533761757937224536792146711105700674959937207778503501562879445241463662142281185819506210181780721218897488871995890898495582077564387715740371190275817001449471008660140255770382875594805433223352833476546594040372715841292252983175468170554585838014797017976570586587751089146553833551413146641975370517778330202052282190648141351908509904289169596729111939424597802445523234111653813513351586367960175769546506050051493655326103823629699245586418016468660736051425039803522537493270385743437525903109563398688573456345292160567787373069854610200635728800730405759403691875432721043746233636765094325962472698626875833148826372580999341547042531665331710768365982359935219565301595187067772247975847412037958098451506998773182171027695752045356894447709388159633645629545493246019135820915900506906032640701290570506299065346661219735445730896769091171352761432210047450382980030625592142825700677633624952217795344145832513082782540989616413040988227257601039794195623143595351637462190706636535912449334420058581521218743569834717812580171279915160794789675762903718339466089866492140118823551337811927493524761760551434001520245324751568861558716803095718510972066599595072196209156923318071322517301806566620458899402166430591631348363311478802800521980525250372511467674969151489645720009661369785217086930227581405674315978920044798755483144811069077253851302610194739624245401270682864202663540116818822475326676741780611737275972111438408802370422377608919256570335384654037352344114105999356653180812503717835632673409647782213628400383443178293619326757139369589058612122088577237252104060778375287897543799460272211546791798613974575310224299012205778134871255296492395729078221387894808011355820153110205338707003138385845672884757408327786763143168159295742358655797897448897721796416755370, 624) := by rfl

theorem initGenrand_19650218 : initGenrand 19650218 = 62685089405509111925910797243914719854890513935494713084094713797279779630627496305943786046941309007281293105221577504421353501605599255248785149356818580886163074212016138319710181437623915839386196989339984175865611290932895638485827512283879634622589907034847096838980553398268338905605705315464924834076955485269257682765843392777664062904318116756644819538761883164862381873685805923051342196114892111881287659915424456096361326051748180740843339721465950121631833352165428366344241754810081140762710579390137795215443629123183303201044796731629341661542390258966032612552126580439913324626563213547393121217728067632048719897064596438939163041106934301355643192260261867872030533878188557727018817797219012064641958276099544136480610826250078810896212505254064619595899307426216931651016613164877613570296351724055264357110051005104450572173606849938075379012356137114572525910752676385589168436483206759652170097284388598518122222819376116616668668677988651997615236221431416155794821321118852088948452164682783715959922435191327367306488124638818446090532334864386359317233873012285172875896330714873881780586230596002778688422250420590175698633544778262136505069053046737202152515000629854634631225453245996997340762744567896897683212149150732909707719966588817675821630380251456266588599804209831660991462715440400663143017564651072677052296295930367391822676512661642282350234567553218318066651318510488484545671729568971887621684270732981974442582657502555066960418690332945218280990034155505553171409775830458482159957769211244505225186771766058316021949327301666418107251589707938065072144733816368743637495699897181007119363672460040974223449086641663004605507793014252452324150238463715514559124307431648478948480649031081489229583165223570218974125422263886587593014744330199975749832650568652404661542746543584685860761547297457070273167102314576665676644281998277713093924236551494770138725647883566971887853912300960949802636372591951717316415323846182747445131420005722224687602711525724505110953736568981699982016588947035894059736087136235396798804019434387781559696138411966704777989194870090051835909943079457649936020314680876367897457337488804889342331824364904005266943816631681518612047693872607083945336048154993001716858914072302230374294986610531277637599664647525761147514008899238689946802093944865612982597431648203028809043429562401771290925843222821220221381984318518256971016750121270624021542153515130386081256853244444367484914891752438843250797295149886721543902585582757118492217204960123203770309672216674331373413106027454841661967870247822106376003696537006476355273043676224973894002060133928765135363584693312631060562155459381152426642778209514491263275588735458188352331628933634618912177576995916817414488324819680108333628484452298807271017999262374749573133359090629722111402666396222385680310709557844049479865847370371052888681758484468279513921172987571336140289500145715018352119752770038578015899178947425013401300127437407370742417936980607757405410607208376626705322894782663757703548808362869195819947150150865798288136994832911439410269353230208345410503242199606186650417333579047848825834242257112060317620885151293421378661990197161958015730358249113963865616811805417654957899792836277351433146683316643158745577273742588847277405020330699298979666450169324546781433015633218213248018986767013905101885085728066131985273947793365444250280947765884488609302913437528001802423347517836456663978922564542901160075954132077499502061844004777463229898312792357201472450520034421742281215395838957029567457078867297742321364249618062920323524100796395855490398720473188748064226082130624085325443879193454095100721902723688608983702297802922465778395428510531587340343771240068168890882622394112252370643121994567113348850616779414952571984309063927162547038575769391208822294299053225776973195785292510157058775147687493667385905281728614066936870793483631104130486096422866739022254251631022238998824784309871214211336594149372534724828516536519652291847191320934127662041939033266344757810255450761243406685982638804631309022215852991706323223872506356963395668107287976200691035733250165615782065576159415303394415966535152327550107294310945533761757937224536792146711105700674959937207778503501562879445241463662142281185819506210181780721218897488871995890898495582077564387715740371190275817001449471008660140255770382875594805433223352833476546594040372715841292252983175468170554585838014797017976570586587751089146553833551413146641975370517778330202052282190648141351908509904289169596729111939424597802445523234111653813513351586367960175769546506050051493655326103823629699245586418016468660736051425039803522537493270385743437525903109563398688573456345292160567787373069854610200635728800730405759403691875432721043746233636765094325962472698626875833148826372580999341547042531665331710768365982359935219565301595187067772247975847412037958098451506998773182171027695752045356894447709388159633645629545493246019135820915900506906032640701290570506299065346661219735445730896769091171352761432210047450382980030625592142825700677633624952217795344145832513082782540989616413040988227257601039794195623143595351637462190706636535912449334420058581521218743569834717812580171279915160794789675762903718339466089866492140118823551337811927493524761760551434001520245324751568861558716803095718510972066599595072196209156923318071322517301806566620458899402166430591631348363311478802800521980525250372511467674969151489645720009661369785217086930227581405674315978920044798755483144811069077253851302610194739624245401270682864202663540116818822475326676741780611737275972111438408802370422377608919256570335384654037352344114105999356653180812503717835632673409647782213628400383443178293619326757139369589058612122088577237252104060778375287897543799460272211546791798613974575310224299012205778134871255296492395729078221387894808011355820153110205338707003138385845672884757408327786763143168159295742358655797897448897721796416755370 := by
  show (genStep^[623] (19650218 % U32, 1)).1 = 62685089405509111925910797243914719854890513935494713084094713797279779630627496305943786046941309007281293105221577504421353501605599255248785149356818580886163074212016138319710181437623915839386196989339984175865611290932895638485827512283879634622589907034847096838980553398268338905605705315464924834076955485269257682765843392777664062904318116756644819538761883164862381873685805923051342196114892111881287659915424456096361326051748180740843339721465950121631833352165428366344241754810081140762710579390137795215443629123183303201044796731629341661542390258966032612552126580439913324626563213547393121217728067632048719897064596438939163041106934301355643192260261867872030533878188557727018817797219012064641958276099544136480610826250078810896212505254064619595899307426216931651016613164877613570296351724055264357110051005104450572173606849938075379012356137114572525910752676385589168436483206759652170097284388598518122222819376116616668668677988651997615236221431416155794821321118852088948452164682783715959922435191327367306488124638818446090532334864386359317233873012285172875896330714873881780586230596002778688422250420590175698633544778262136505069053046737202152515000629854634631225453245996997340762744567896897683212149150732909707719966588817675821630380251456266588599804209831660991462715440400663143017564651072677052296295930367391822676512661642282350234567553218318066651318510488484545671729568971887621684270732981974442582657502555066960418690332945218280990034155505553171409775830458482159957769211244505225186771766058316021949327301666418107251589707938065072144733816368743637495699897181007119363672460040974223449086641663004605507793014252452324150238463715514559124307431648478948480649031081489229583165223570218974125422263886587593014744330199975749832650568652404661542746543584685860761547297457070273167102314576665676644281998277713093924236551494770138725647883566971887853912300960949802636372591951717316415323846182747445131420005722224687602711525724505110953736568981699982016588947035894059736087136235396798804019434387781559696138411966704777989194870090051835909943079457649936020314680876367897457337488804889342331824364904005266943816631681518612047693872607083945336048154993001716858914072302230374294986610531277637599664647525761147514008899238689946802093944865612982597431648203028809043429562401771290925843222821220221381984318518256971016750121270624021542153515130386081256853244444367484914891752438843250797295149886721543902585582757118492217204960123203770309672216674331373413106027454841661967870247822106376003696537006476355273043676224973894002060133928765135363584693312631060562155459381152426642778209514491263275588735458188352331628933634618912177576995916817414488324819680108333628484452298807271017999262374749573133359090629722111402666396222385680310709557844049479865847370371052888681758484468279513921172987571336140289500145715018352119752770038578015899178947425013401300127437407370742417936980607757405410607208376626705322894782663757703548808362869195819947150150865798288136994832911439410269353230208345410503242199606186650417333579047848825834242257112060317620885151293421378661990197161958015730358249113963865616811805417654957899792836277351433146683316643158745577273742588847277405020330699298979666450169324546781433015633218213248018986767013905101885085728066131985273947793365444250280947765884488609302913437528001802423347517836456663978922564542901160075954132077499502061844004777463229898312792357201472450520034421742281215395838957029567457078867297742321364249618062920323524100796395855490398720473188748064226082130624085325443879193454095100721902723688608983702297802922465778395428510531587340343771240068168890882622394112252370643121994567113348850616779414952571984309063927162547038575769391208822294299053225776973195785292510157058775147687493667385905281728614066936870793483631104130486096422866739022254251631022238998824784309871214211336594149372534724828516536519652291847191320934127662041939033266344757810255450761243406685982638804631309022215852991706323223872506356963395668107287976200691035733250165615782065576159415303394415966535152327550107294310945533761757937224536792146711105700674959937207778503501562879445241463662142281185819506210181780721218897488871995890898495582077564387715740371190275817001449471008660140255770382875594805433223352833476546594040372715841292252983175468170554585838014797017976570586587751089146553833551413146641975370517778330202052282190648141351908509904289169596729111939424597802445523234111653813513351586367960175769546506050051493655326103823629699245586418016468660736051425039803522537493270385743437525903109563398688573456345292160567787373069854610200635728800730405759403691875432721043746233636765094325962472698626875833148826372580999341547042531665331710768365982359935219565301595187067772247975847412037958098451506998773182171027695752045356894447709388159633645629545493246019135820915900506906032640701290570506299065346661219735445730896769091171352761432210047450382980030625592142825700677633624952217795344145832513082782540989616413040988227257601039794195623143595351637462190706636535912449334420058581521218743569834717812580171279915160794789675762903718339466089866492140118823551337811927493524761760551434001520245324751568861558716803095718510972066599595072196209156923318071322517301806566620458899402166430591631348363311478802800521980525250372511467674969151489645720009661369785217086930227581405674315978920044798755483144811069077253851302610194739624245401270682864202663540116818822475326676741780611737275972111438408802370422377608919256570335384654037352344114105999356653180812503717835632673409647782213628400383443178293619326757139369589058612122088577237252104060778375287897543799460272211546791798613974575310224299012205778134871255296492395729078221387894808011355820153110205338707003138385845672884757408327786763143168159295742358655797897448897721796416755370
  rw [show (19650218 % U32 : Nat) = 19650218 from rfl,
      show (623 : Nat) = 23 + (100 + (100 + (100 + (100 + (100 + 100))))) from rfl,
      Function.iterate_add_apply, Function.iterate_add_apply, Function.iterate_add_apply,
      Function.iterate_add_apply, Function.iterate_add_apply, Function.iterate_add_apply,
      genChunk0, genChunk1, genChunk2, genChunk3, genChunk4, genChunk5, genChunk6]

theorem mixKeyChunk43x0 : (mixKeyStep [43])^[100] (62685089405509111925910797243914719854890513935494713084094713797279779630627496305943786046941309007281293105221577504421353501605599255248785149356818580886163074212016138319710181437623915839386196989339984175865611290932895638485827512283879634622589907034847096838980553398268338905605705315464924834076955485269257682765843392777664062904318116756644819538761883164862381873685805923051342196114892111881287659915424456096361326051748180740843339721465950121631833352165428366344241754810081140762710579390137795215443629123183303201044796731629341661542390258966032612552126580439913324626563213547393121217728067632048719897064596438939163041106934301355643192260261867872030533878188557727018817797219012064641958276099544136480610826250078810896212505254064619595899307426216931651016613164877613570296351724055264357110051005104450572173606849938075379012356137114572525910752676385589168436483206759652170097284388598518122222819376116616668668677988651997615236221431416155794821321118852088948452164682783715959922435191327367306488124638818446090532334864386359317233873012285172875896330714873881780586230596002778688422250420590175698633544778262136505069053046737202152515000629854634631225453245996997340762744567896897683212149150732909707719966588817675821630380251456266588599804209831660991462715440400663143017564651072677052296295930367391822676512661642282350234567553218318066651318510488484545671729568971887621684270732981974442582657502555066960418690332945218280990034155505553171409775830458482159957769211244505225186771766058316021949327301666418107251589707938065072144733816368743637495699897181007119363672460040974223449086641663004605507793014252452324150238463715514559124307431648478948480649031081489229583165223570218974125422263886587593014744330199975749832650568652404661542746543584685860761547297457070273167102314576665676644281998277713093924236551494770138725647883566971887853912300960949802636372591951717316415323846182747445131420005722224687602711525724505110953736568981699982016588947035894059736087136235396798804019434387781559696138411966704777989194870090051835909943079457649936020314680876367897457337488804889342331824364904005266943816631681518612047693872607083945336048154993001716858914072302230374294986610531277637599664647525761147514008899238689946802093944865612982597431648203028809043429562401771290925843222821220221381984318518256971016750121270624021542153515130386081256853244444367484914891752438843250797295149886721543902585582757118492217204960123203770309672216674331373413106027454841661967870247822106376003696537006476355273043676224973894002060133928765135363584693312631060562155459381152426642778209514491263275588735458188352331628933634618912177576995916817414488324819680108333628484452298807271017999262374749573133359090629722111402666396222385680310709557844049479865847370371052888681758484468279513921172987571336140289500145715018352119752770038578015899178947425013401300127437407370742417936980607757405410607208376626705322894782663757703548808362869195819947150150865798288136994832911439410269353230208345410503242199606186650417333579047848825834242257112060317620885151293421378661990197161958015730358249113963865616811805417654957899792836277351433146683316643158745577273742588847277405020330699298979666450169324546781433015633218213248018986767013905101885085728066131985273947793365444250280947765884488609302913437528001802423347517836456663978922564542901160075954132077499502061844004777463229898312792357201472450520034421742281215395838957029567457078867297742321364249618062920323524100796395855490398720473188748064226082130624085325443879193454095100721902723688608983702297802922465778395428510531587340343771240068168890882622394112252370643121994567113348850616779414952571984309063927162547038575769391208822294299053225776973195785292510157058775147687493667385905281728614066936870793483631104130486096422866739022254251631022238998824784309871214211336594149372534724828516536519652291847191320934127662041939033266344757810255450761243406685982638804631309022215852991706323223872506356963395668107287976200691035733250165615782065576159415303394415966535152327550107294310945533761757937224536792146711105700674959937207778503501562879445241463662142281185819506210181780721218897488871995890898495582077564387715740371190275817001449471008660140255770382875594805433223352833476546594040372715841292252983175468170554585838014797017976570586587751089146553833551413146641975370517778330202052282190648141351908509904289169596729111939424597802445523234111653813513351586367960175769546506050051493655326103823629699245586418016468660736051425039803522537493270385743437525903109563398688573456345292160567787373069854610200635728800730405759403691875432721043746233636765094325962472698626875833148826372580999341547042531665331710768365982359935219565301595187067772247975847412037958098451506998773182171027695752045356894447709388159633645629545493246019135820915900506906032640701290570506299065346661219735445730896769091171352761432210047450382980030625592142825700677633624952217795344145832513082782540989616413040988227257601039794195623143595351637462190706636535912449334420058581521218743569834717812580171279915160794789675762903718339466089866492140118823551337811927493524761760551434001520245324751568861558716803095718510972066599595072196209156923318071322517301806566620458899402166430591631348363311478802800521980525250372511467674969151489645720009661369785217086930227581405674315978920044798755483144811069077253851302610194739624245401270682864202663540116818822475326676741780611737275972111438408802370422377608919256570335384654037352344114105999356653180812503717835632673409647782213628400383443178293619326757139369589058612122088577237252104060778375287897543799460272211546791798613974575310224299012205778134871255296492395729078221387894808011355820153110205338707003138385845672884757408327786763143168159295742358655797897448897721796416755370, 1, 0) = (62685089405509111925910797243914719854890513935494713084094713797279779630627496305943786046941309007281293105221577504421353501605599255248785149356818580886163074212016138319710181437623915839386196989339984175865611290932895638485827512283879634622589907034847096838980553398268338905605705315464924834076955485269257682765843392777664062904318116756644819538761883164862381873685805923051342196114892111881287659915424456096361326051748180740843339721465950121631833352165428366344241754810081140762710579390137795215443629123183303201044796731629341661542390258966032612552126580439913324626563213547393121217728067632048719897064596438939163041106934301355643192260261867872030533878188557727018817797219012064641958276099544136480610826250078810896212505254064619595899307426216931651016613164877613570296351724055264357110051005104450572173606849938075379012356137114572525910752676385589168436483206759652170097284388598518122222819376116616668668677988651997615236221431416155794821321118852088948452164682783715959922435191327367306488124638818446090532334864386359317233873012285172875896330714873881780586230596002778688422250420590175698633544778262136505069053046737202152515000629854634631225453245996997340762744567896897683212149150732909707719966588817675821630380251456266588599804209831660991462715440400663143017564651072677052296295930367391822676512661642282350234567553218318066651318510488484545671729568971887621684270732981974442582657502555066960418690332945218280990034155505553171409775830458482159957769211244505225186771766058316021949327301666418107251589707938065072144733816368743637495699897181007119363672460040974223449086641663004605507793014252452324150238463715514559124307431648478948480649031081489229583165223570218974125422263886587593014744330199975749832650568652404661542746543584685860761547297457070273167102314576665676644281998277713093924236551494770138725647883566971887853912300960949802636372591951717316415323846182747445131420005722224687602711525724505110953736568981699982016588947035894059736087136235396798804019434387781559696138411966704777989194870090051835909943079457649936020314680876367897457337488804889342331824364904005266943816631681518612047693872607083945336048154993001716858914072302230374294986610531277637599664647525761147514008899238689946802093944865612982597431648203028809043429562401771290925843222821220221381984318518256971016750121270624021542153515130386081256853244444367484914891752438843250797295149886721543902585582757118492217204960123203770309672216674331373413106027454841661967870247822106376003696537006476355273043676224973894002060133928765135363584693312631060562155459381152426642778209514491263275588735458188352331628933634618912177576995916817414488324819680108333628484452298807271017999262374749573133359090629722111402666396222385680310709557844049479865847370371052888681758484468279513921172987571336140289500145715018352119752770038578015899178947425013401300127437407370742417936980607757405410607208376626705322894782663757703548808362869195819947150150865798288136994832911439410269353230208345410503242199606186650417333579047848825834242257112060317620885151293421378661990197161958015730358249113963865616811805417654957899792836277351433146683316643158745577273742588847277405020330699298979666450169324546781433015633218213248018986767013905101885085728066131985273947793365444250280947765884488609302913437528001802423347517836456663978922564542901160075954132077499502061844004777463229898312792357201472450520034421742281215395838957029567457078867297742321364249618062920323524100796395855490398720473188748064226082130624085325443879193454095100721902723688608983702297802922465778395428510531587340343771240068168890882622394112252370643121994567113348850616779414952571984309063927162547038575769391208822294299053225776973195785292510157058775147687493667385905281728614066936870793483631104130486096422866739022254251631022238998824784309871214211336594149372534724828516536519652291847191320934127662041939033266344757810255450761243406685982638804631309022215852991706323223872506356963395668107287976200691035733250165615782065576159415303394415966535152327550107294310945533761757937224536792146711105700674959937207778503501562879445241463662142281185819506210181780721218897488871995890898495582077564387715740371190275817001449471008660140255770382875594805433223352833476546594040372715841292252983175468170554585838014797017976570586587751089146553833551413146641975370517778330202052282190648141351908509904289169596729111939424597802445523234111653813513351586367960175769546506050051493655326103823629699245586418016468660736051425039803522537493270385743437525903109563398688573456345292160567787373069854610200635728800730405759403691875432721043746233636765094325962472698626875833148826372580999341547042531665331710768365982359935219565301595187067772247975847412037958098451506998773182171027695752045356894447709388159633645629545493246019135820915900506906032640701290570506299065346661219538268175232658275873707923538318452329418196662211577023221072453259904905099295354763608656693183834152400377547332354559073937734370091102514349717153467568908430432992806413791787974493952176590100530422913716231482838154978560080808198406263879236676691417515960090453218193368052334810608122960030433151602028982103480314354888543099701514920522725837697569468887484602121676138190929452254955095936975515496854223899874845780600206283144584027400498644685720992663519846193122100064394181842702271789757932384809534790474428549806872750026089274829750907074192464450611656249815154479467602058368217631776474276265937269168365153251077537637955323069482136856245248171063055311830417846656392117032305124703157241381275604492517781320798397017933571591744511568745373727387977529380766272355417546772591410648227307457402354477175102236126190200969507772251798241697053495186755665015933986755149800661171468795103812673740254061377185444286268416478918507856909994, 101, 0) := by rfl

theorem mixKeyChunk43x1 : (mixKeyStep [43])^[100] (62685089405509111925910797243914719854890513935494713084094713797279779630627496305943786046941309007281293105221577504421353501605599255248785149356818580886163074212016138319710181437623915839386196989339984175865611290932895638485827512283879634622589907034847096838980553398268338905605705315464924834076955485269257682765843392777664062904318116756644819538761883164862381873685805923051342196114892111881287659915424456096361326051748180740843339721465950121631833352165428366344241754810081140762710579390137795215443629123183303201044796731629341661542390258966032612552126580439913324626563213547393121217728067632048719897064596438939163041106934301355643192260261867872030533878188557727018817797219012064641958276099544136480610826250078810896212505254064619595899307426216931651016613164877613570296351724055264357110051005104450572173606849938075379012356137114572525910752676385589168436483206759652170097284388598518122222819376116616668668677988651997615236221431416155794821321118852088948452164682783715959922435191327367306488124638818446090532334864386359317233873012285172875896330714873881780586230596002778688422250420590175698633544778262136505069053046737202152515000629854634631225453245996997340762744567896897683212149150732909707719966588817675821630380251456266588599804209831660991462715440400663143017564651072677052296295930367391822676512661642282350234567553218318066651318510488484545671729568971887621684270732981974442582657502555066960418690332945218280990034155505553171409775830458482159957769211244505225186771766058316021949327301666418107251589707938065072144733816368743637495699897181007119363672460040974223449086641663004605507793014252452324150238463715514559124307431648478948480649031081489229583165223570218974125422263886587593014744330199975749832650568652404661542746543584685860761547297457070273167102314576665676644281998277713093924236551494770138725647883566971887853912300960949802636372591951717316415323846182747445131420005722224687602711525724505110953736568981699982016588947035894059736087136235396798804019434387781559696138411966704777989194870090051835909943079457649936020314680876367897457337488804889342331824364904005266943816631681518612047693872607083945336048154993001716858914072302230374294986610531277637599664647525761147514008899238689946802093944865612982597431648203028809043429562401771290925843222821220221381984318518256971016750121270624021542153515130386081256853244444367484914891752438843250797295149886721543902585582757118492217204960123203770309672216674331373413106027454841661967870247822106376003696537006476355273043676224973894002060133928765135363584693312631060562155459381152426642778209514491263275588735458188352331628933634618912177576995916817414488324819680108333628484452298807271017999262374749573133359090629722111402666396222385680310709557844049479865847370371052888681758484468279513921172987571336140289500145715018352119752770038578015899178947425013401300127437407370742417936980607757405410607208376626705322894782663757703548808362869195819947150150865798288136994832911439410269353230208345410503242199606186650417333579047848825834242257112060317620885151293421378661990197161958015730358249113963865616811805417654957899792836277351433146683316643158745577273742588847277405020330699298979666450169324546781433015633218213248018986767013905101885085728066131985273947793365444250280947765884488609302913437528001802423347517836456663978922564542901160075954132077499502061844004777463229898312792357201472450520034421742281215395838957029567457078867297742321364249618062920323524100796395855490398720473188748064226082130624085325443879193454095100721902723688608983702297802922465778395428510531587340343771240068168890882622394112252370643121994567113348850616779414952571984309063927162547038575769391208822294299053225776973195785292510157058775147687493667385905281728614066936870793483631104130486096422866739022254251631022238998824784309871214211336594149372534724828516536519652291847191320934127662041939033266344757810255450761243406685982638804631309022215852991706323223872506356963395668107287976200691035733250165615782065576159415303394415966535152327550107294310945533761757937224536792146711105700674959937207778503501562879445241463662142281185819506210181780721218897488871995890898495582077564387715740371190275817001449471008660140255770382875594805433223352833476546594040372715841292252983175468170554585838014797017976570586587751089146553833551413146641975370517778330202052282190648141351908509904289169596729111939424597802445523234111653813513351586367960175769546506050051493655326103823629699245586418016468660736051425039803522537493270385743437525903109563398688573456345292160567787373069854610200635728800730405759403691875432721043746233636765094325962472698626875833148826372580999341547042531665331710768365982359935219565301595187067772247975847412037958098451506998773182171027695752045356894447709388159633645629545493246019135820915900506906032640701290570506299065346661219538268175232658275873707923538318452329418196662211577023221072453259904905099295354763608656693183834152400377547332354559073937734370091102514349717153467568908430432992806413791787974493952176590100530422913716231482838154978560080808198406263879236676691417515960090453218193368052334810608122960030433151602028982103480314354888543099701514920522725837697569468887484602121676138190929452254955095936975515496854223899874845780600206283144584027400498644685720992663519846193122100064394181842702271789757932384809534790474428549806872750026089274829750907074192464450611656249815154479467602058368217631776474276265937269168365153251077537637955323069482136856245248171063055311830417846656392117032305124703157241381275604492517781320798397017933571591744511568745373727387977529380766272355417546772591410648227307457402354477175102236126190200969507772251798241697053495186755665015933986755149800661171468795103812673740254061377185444286268416478918507856909994, 101, 0) = (62685089405509111925910797243914719854890513935494713084094713797279779630627496305943786046941309007281293105221577504421353501605599255248785149356818580886163074212016138319710181437623915839386196989339984175865611290932895638485827512283879634622589907034847096838980553398268338905605705315464924834076955485269257682765843392777664062904318116756644819538761883164862381873685805923051342196114892111881287659915424456096361326051748180740843339721465950121631833352165428366344241754810081140762710579390137795215443629123183303201044796731629341661542390258966032612552126580439913324626563213547393121217728067632048719897064596438939163041106934301355643192260261867872030533878188557727018817797219012064641958276099544136480610826250078810896212505254064619595899307426216931651016613164877613570296351724055264357110051005104450572173606849938075379012356137114572525910752676385589168436483206759652170097284388598518122222819376116616668668677988651997615236221431416155794821321118852088948452164682783715959922435191327367306488124638818446090532334864386359317233873012285172875896330714873881780586230596002778688422250420590175698633544778262136505069053046737202152515000629854634631225453245996997340762744567896897683212149150732909707719966588817675821630380251456266588599804209831660991462715440400663143017564651072677052296295930367391822676512661642282350234567553218318066651318510488484545671729568971887621684270732981974442582657502555066960418690332945218280990034155505553171409775830458482159957769211244505225186771766058316021949327301666418107251589707938065072144733816368743637495699897181007119363672460040974223449086641663004605507793014252452324150238463715514559124307431648478948480649031081489229583165223570218974125422263886587593014744330199975749832650568652404661542746543584685860761547297457070273167102314576665676644281998277713093924236551494770138725647883566971887853912300960949802636372591951717316415323846182747445131420005722224687602711525724505110953736568981699982016588947035894059736087136235396798804019434387781559696138411966704777989194870090051835909943079457649936020314680876367897457337488804889342331824364904005266943816631681518612047693872607083945336048154993001716858914072302230374294986610531277637599664647525761147514008899238689946802093944865612982597431648203028809043429562401771290925843222821220221381984318518256971016750121270624021542153515130386081256853244444367484914891752438843250797295149886721543902585582757118492217204960123203770309672216674331373413106027454841661967870247822106376003696537006476355273043676224973894002060133928765135363584693312631060562155459381152426642778209514491263275588735458188352331628933634618912177576995916817414488324819680108333628484452298807271017999262374749573133359090629722111402666396222385680310709557844049479865847370371052888681758484468279513921172987571336140289500145715018352119752770038578015899178947425013401300127437407370742417936980607757405410607208376626705322894782663757703548808362869195819947150150865798288136994832911439410269353230208345410503242199606186650417333579047848825834242257112060317620885151293421378661990197161958015730358249113963865616811805417654957899792836277351433146683316643158745577273742588847277405020330699298979666450169324546781433015633218213248018986767013905101885085728066131985273947793365444250280947765884488609302913437528001802423347517836456663978922564542901160075954132077499502061844004777463229898312792357201472450520034421742281215395838957029567457078867297742321364249618062920323524100796395855490398720473188748064226082130624085325443879193454095100721902723688608983702297802922465778395428510531587340343771240068168890882622394112252370643121994567113348850616779414952571984309063927162547038575769391208822294299053225776973195785292510157058775147687493667385905281728614066936870793483631104130486096422866739022254251631022238998824784309871214211336594149372534724828516536519652291847191320934127662041939033266344757810255450761243406685982629520081417793653866429184915567542303752797474805552070077355084150357184384653652961894438262782095465513744250883527741146924607284758137581031582484920022345430584096069606162346404086691027361315360870568797944396252871453670739014253255218673315157000129920633005745481996920311726756241714358552040968208683603397334539464722570306311572867001289807418336693867511567870876616967734095109075339688309302745538418506429289010973518868120297499281072991579433510109297887915827912235199578712771522460653692710718949190615528376810629856735192967183547289666568747205166927330502864963120493627734553265045442357481930442249975620058069101323020868468290058374318231970992230953964498668737028342167078775229089319289073490125381112292388667866247767449818742494825876679461040524701214094377013486048014085760629767120390682870126258177021378429277521634689684302068831128389933073513825624988971211142181079936725709608623228367117948229280067644112098736549757942542792867434050846975957064258655711932904302888532404489591396165466257376874364536534501547708791359636424193583099539101865477073520059211184802130781961378223868578903784448644442792082567798907753515213281018537574853952918134997484522027620989751875316817379869229214568930330646744262861263723672450540474716911151159939416720558064461201483879651932317731083825811809524340033330899499437092368144471922925813985313746294751092837480478864042218818706316233753598917683419851261960334039384178147400900389230778179823475520886529215367939355645127037450016084365419491312033689471191361233410682363499312231701639019230574316515695786982872058888726969937645467892738807406731293150065642594255579108724518171164888896463578979176276977129206379586560853640883766967599287064597742032233416676943791934813020324967781857550551960209891755046744367324272347903246247498427380558606314102874252401401388554389504841540830761468384190606610303297882770134259370, 201, 0) := by rfl

theorem mixKeyChunk43x2 : (mixKeyStep [43])^[100] (62685089405509111925910797243914719854890513935494713084094713797279779630627496305943786046941309007281293105221577504421353501605599255248785149356818580886163074212016138319710181437623915839386196989339984175865611290932895638485827512283879634622589907034847096838980553398268338905605705315464924834076955485269257682765843392777664062904318116756644819538761883164862381873685805923051342196114892111881287659915424456096361326051748180740843339721465950121631833352165428366344241754810081140762710579390137795215443629123183303201044796731629341661542390258966032612552126580439913324626563213547393121217728067632048719897064596438939163041106934301355643192260261867872030533878188557727018817797219012064641958276099544136480610826250078810896212505254064619595899307426216931651016613164877613570296351724055264357110051005104450572173606849938075379012356137114572525910752676385589168436483206759652170097284388598518122222819376116616668668677988651997615236221431416155794821321118852088948452164682783715959922435191327367306488124638818446090532334864386359317233873012285172875896330714873881780586230596002778688422250420590175698633544778262136505069053046737202152515000629854634631225453245996997340762744567896897683212149150732909707719966588817675821630380251456266588599804209831660991462715440400663143017564651072677052296295930367391822676512661642282350234567553218318066651318510488484545671729568971887621684270732981974442582657502555066960418690332945218280990034155505553171409775830458482159957769211244505225186771766058316021949327301666418107251589707938065072144733816368743637495699897181007119363672460040974223449086641663004605507793014252452324150238463715514559124307431648478948480649031081489229583165223570218974125422263886587593014744330199975749832650568652404661542746543584685860761547297457070273167102314576665676644281998277713093924236551494770138725647883566971887853912300960949802636372591951717316415323846182747445131420005722224687602711525724505110953736568981699982016588947035894059736087136235396798804019434387781559696138411966704777989194870090051835909943079457649936020314680876367897457337488804889342331824364904005266943816631681518612047693872607083945336048154993001716858914072302230374294986610531277637599664647525761147514008899238689946802093944865612982597431648203028809043429562401771290925843222821220221381984318518256971016750121270624021542153515130386081256853244444367484914891752438843250797295149886721543902585582757118492217204960123203770309672216674331373413106027454841661967870247822106376003696537006476355273043676224973894002060133928765135363584693312631060562155459381152426642778209514491263275588735458188352331628933634618912177576995916817414488324819680108333628484452298807271017999262374749573133359090629722111402666396222385680310709557844049479865847370371052888681758484468279513921172987571336140289500145715018352119752770038578015899178947425013401300127437407370742417936980607757405410607208376626705322894782663757703548808362869195819947150150865798288136994832911439410269353230208345410503242199606186650417333579047848825834242257112060317620885151293421378661990197161958015730358249113963865616811805417654957899792836277351433146683316643158745577273742588847277405020330699298979666450169324546781433015633218213248018986767013905101885085728066131985273947793365444250280947765884488609302913437528001802423347517836456663978922564542901160075954132077499502061844004777463229898312792357201472450520034421742281215395838957029567457078867297742321364249618062920323524100796395855490398720473188748064226082130624085325443879193454095100721902723688608983702297802922465778395428510531587340343771240068168890882622394112252370643121994567113348850616779414952571984309063927162547038575769391208822294299053225776973195785292510157058775147687493667385905281728614066936870793483631104130486096422866739022254251631022238998824784309871214211336594149372534724828516536519652291847191320934127662041939033266344757810255450761243406685982629520081417793653866429184915567542303752797474805552070077355084150357184384653652961894438262782095465513744250883527741146924607284758137581031582484920022345430584096069606162346404086691027361315360870568797944396252871453670739014253255218673315157000129920633005745481996920311726756241714358552040968208683603397334539464722570306311572867001289807418336693867511567870876616967734095109075339688309302745538418506429289010973518868120297499281072991579433510109297887915827912235199578712771522460653692710718949190615528376810629856735192967183547289666568747205166927330502864963120493627734553265045442357481930442249975620058069101323020868468290058374318231970992230953964498668737028342167078775229089319289073490125381112292388667866247767449818742494825876679461040524701214094377013486048014085760629767120390682870126258177021378429277521634689684302068831128389933073513825624988971211142181079936725709608623228367117948229280067644112098736549757942542792867434050846975957064258655711932904302888532404489591396165466257376874364536534501547708791359636424193583099539101865477073520059211184802130781961378223868578903784448644442792082567798907753515213281018537574853952918134997484522027620989751875316817379869229214568930330646744262861263723672450540474716911151159939416720558064461201483879651932317731083825811809524340033330899499437092368144471922925813985313746294751092837480478864042218818706316233753598917683419851261960334039384178147400900389230778179823475520886529215367939355645127037450016084365419491312033689471191361233410682363499312231701639019230574316515695786982872058888726969937645467892738807406731293150065642594255579108724518171164888896463578979176276977129206379586560853640883766967599287064597742032233416676943791934813020324967781857550551960209891755046744367324272347903246247498427380558606314102874252401401388554389504841540830761468384190606610303297882770134259370, 201, 0) = (62685089405509111925910797243914719854890513935494713084094713797279779630627496305943786046941309007281293105221577504421353501605599255248785149356818580886163074212016138319710181437623915839386196989339984175865611290932895638485827512283879634622589907034847096838980553398268338905605705315464924834076955485269257682765843392777664062904318116756644819538761883164862381873685805923051342196114892111881287659915424456096361326051748180740843339721465950121631833352165428366344241754810081140762710579390137795215443629123183303201044796731629341661542390258966032612552126580439913324626563213547393121217728067632048719897064596438939163041106934301355643192260261867872030533878188557727018817797219012064641958276099544136480610826250078810896212505254064619595899307426216931651016613164877613570296351724055264357110051005104450572173606849938075379012356137114572525910752676385589168436483206759652170097284388598518122222819376116616668668677988651997615236221431416155794821321118852088948452164682783715959922435191327367306488124638818446090532334864386359317233873012285172875896330714873881780586230596002778688422250420590175698633544778262136505069053046737202152515000629854634631225453245996997340762744567896897683212149150732909707719966588817675821630380251456266588599804209831660991462715440400663143017564651072677052296295930367391822676512661642282350234567553218318066651318510488484545671729568971887621684270732981974442582657502555066960418690332945218280990034155505553171409775830458482159957769211244505225186771766058316021949327301666418107251589707938065072144733816368743637495699897181007119363672460040974223449086641663004605507793014252452324150238463715514559124307431648478948480649031081489229583165223570218974125422263886587593014744330199975749832650568652404661542746543584685860761547297457070273167102314576665676644281998277713093924236551494770138725647883566971887853912300960949802636372591951717316415323846182747445131420005722224687602711525724505110953736568981699982016588947035894059736087136235396798804019434387781559696138411966704777989194870090051835909943079457649936020314680876367897457337488804889342331824364904005266943816631681518612047693872607083945336048154993001716858914072302230374294986610531277637599664647525761147514008899238689946802093944865612982597431648203028809043429562401771290925843222821220221381984318518256971016750121270624021542153515130386081256853244444367484914891752438843250797295149886721543902585582757118492217204960123203770309672216674331373413106027454841661967870247822106376003696537006476355273043676224973894002060133928765135363584693312631060562155459381152426642778209514491263275588735458188352331628933634618912177576995916817414488324819680108333628484452298807271017999262374749573133359090629722111402666396222385680310709557844049479865847370371052888681758484468279513921172987571336140289500145715018352119752770038578015899178947425013401300127437407370742417936980607757405410607208376626705322894782663757703548808362869195819947150150865798288136994832911439410269353230208345411300101812814628747991627649698859384462064459181020374983800637698859859485923753317268623538986620350504925203390938362721878094876711731532952586374898230237078044501116313983057061709349050917867397168755379403036863747807349960082557817987787629853278995099140563428918824431315262272317117320663617494172430403117026386219761553524684324873547651775598146997261984514045983729338819659482726571503398758044204801074032412209941197359651690026326053497569674400672197299230037311156795990173576771236774381358246432692826006685091571182660330859721458527885037461942083792912477867543839844516813325358320234087789064249692293752962080611712447896082262409446416963199196530326141282267525554418682139012182706105501860409790032759029626055653933525527834221915194213747874987104588910292179407961254667289862572681785557872248266427439124417680607125899124871812678043993660185231787293818550250759536258071638042976036043806174800740747769771742349406631656090988199241641185313803063673385679132330788169410542993209538112429964660101252650671284284673224066275105418797657973755195536119148658105190439531518249430541889632966949831589417642511499010795029939490232713728997466396892958924153825729933343769817242248045757270148378561753685986930908790703885693461998112457447788635956303644707319133616091917721577483062347060362781517871280051978136235979152067432519323749463260978128082782157695040448507324825388952594124625073755467804441876579658026044082456977525355519889251819609591361103697022665438935453531537503575521580270313853839296288394994510186085709513498155026164111076120539851885458546947145046958479249321362823880488008575280668705692464675137951232602334196721774305764840559274888239084720392490497421510126497248436713467715374392154164878896503467093813968888272286489077713281110427427829005406893841817875154572474587473574102045844748047989348724351229278802979972179753693254337255196881849762824704613551640290632348804349310744412616846491895714156343632035965611101307638209461193917024421485206894559205155134983079973408637713695136935479220734795434657779591487310569865156942520754741599371176664795129146808447248767265775668403975805318792968499897689864112813916678042886073076334279758177855783040596937625451177088583333053666679990233948612864357250708360640967234763391736197891691320181522696627260701019485428176430989288668838818565553806015908332047376426456661736893846928985852718605093123729217150059306010218610464066189806695933477508200574921801230956153713214115264012623630073677412802844947672209042380691503644674784052961694011874652103715633954529908817017196505753757833753554977241724410825000116238095035874751679173938091384833455715276758650539005206173646572351419598519252067753888535676704428839126037059400133528005747685865914259508500574994077504740253956740036024622637924663939561372312528857097205865468318701226, 301, 0) := by rfl

theorem mixKeyChunk43x3 : (mixKeyStep [43])^[100] (62685089405509111925910797243914719854890513935494713084094713797279779630627496305943786046941309007281293105221577504421353501605599255248785149356818580886163074212016138319710181437623915839386196989339984175865611290932895638485827512283879634622589907034847096838980553398268338905605705315464924834076955485269257682765843392777664062904318116756644819538761883164862381873685805923051342196114892111881287659915424456096361326051748180740843339721465950121631833352165428366344241754810081140762710579390137795215443629123183303201044796731629341661542390258966032612552126580439913324626563213547393121217728067632048719897064596438939163041106934301355643192260261867872030533878188557727018817797219012064641958276099544136480610826250078810896212505254064619595899307426216931651016613164877613570296351724055264357110051005104450572173606849938075379012356137114572525910752676385589168436483206759652170097284388598518122222819376116616668668677988651997615236221431416155794821321118852088948452164682783715959922435191327367306488124638818446090532334864386359317233873012285172875896330714873881780586230596002778688422250420590175698633544778262136505069053046737202152515000629854634631225453245996997340762744567896897683212149150732909707719966588817675821630380251456266588599804209831660991462715440400663143017564651072677052296295930367391822676512661642282350234567553218318066651318510488484545671729568971887621684270732981974442582657502555066960418690332945218280990034155505553171409775830458482159957769211244505225186771766058316021949327301666418107251589707938065072144733816368743637495699897181007119363672460040974223449086641663004605507793014252452324150238463715514559124307431648478948480649031081489229583165223570218974125422263886587593014744330199975749832650568652404661542746543584685860761547297457070273167102314576665676644281998277713093924236551494770138725647883566971887853912300960949802636372591951717316415323846182747445131420005722224687602711525724505110953736568981699982016588947035894059736087136235396798804019434387781559696138411966704777989194870090051835909943079457649936020314680876367897457337488804889342331824364904005266943816631681518612047693872607083945336048154993001716858914072302230374294986610531277637599664647525761147514008899238689946802093944865612982597431648203028809043429562401771290925843222821220221381984318518256971016750121270624021542153515130386081256853244444367484914891752438843250797295149886721543902585582757118492217204960123203770309672216674331373413106027454841661967870247822106376003696537006476355273043676224973894002060133928765135363584693312631060562155459381152426642778209514491263275588735458188352331628933634618912177576995916817414488324819680108333628484452298807271017999262374749573133359090629722111402666396222385680310709557844049479865847370371052888681758484468279513921172987571336140289500145715018352119752770038578015899178947425013401300127437407370742417936980607757405410607208376626705322894782663757703548808362869195819947150150865798288136994832911439410269353230208345411300101812814628747991627649698859384462064459181020374983800637698859859485923753317268623538986620350504925203390938362721878094876711731532952586374898230237078044501116313983057061709349050917867397168755379403036863747807349960082557817987787629853278995099140563428918824431315262272317117320663617494172430403117026386219761553524684324873547651775598146997261984514045983729338819659482726571503398758044204801074032412209941197359651690026326053497569674400672197299230037311156795990173576771236774381358246432692826006685091571182660330859721458527885037461942083792912477867543839844516813325358320234087789064249692293752962080611712447896082262409446416963199196530326141282267525554418682139012182706105501860409790032759029626055653933525527834221915194213747874987104588910292179407961254667289862572681785557872248266427439124417680607125899124871812678043993660185231787293818550250759536258071638042976036043806174800740747769771742349406631656090988199241641185313803063673385679132330788169410542993209538112429964660101252650671284284673224066275105418797657973755195536119148658105190439531518249430541889632966949831589417642511499010795029939490232713728997466396892958924153825729933343769817242248045757270148378561753685986930908790703885693461998112457447788635956303644707319133616091917721577483062347060362781517871280051978136235979152067432519323749463260978128082782157695040448507324825388952594124625073755467804441876579658026044082456977525355519889251819609591361103697022665438935453531537503575521580270313853839296288394994510186085709513498155026164111076120539851885458546947145046958479249321362823880488008575280668705692464675137951232602334196721774305764840559274888239084720392490497421510126497248436713467715374392154164878896503467093813968888272286489077713281110427427829005406893841817875154572474587473574102045844748047989348724351229278802979972179753693254337255196881849762824704613551640290632348804349310744412616846491895714156343632035965611101307638209461193917024421485206894559205155134983079973408637713695136935479220734795434657779591487310569865156942520754741599371176664795129146808447248767265775668403975805318792968499897689864112813916678042886073076334279758177855783040596937625451177088583333053666679990233948612864357250708360640967234763391736197891691320181522696627260701019485428176430989288668838818565553806015908332047376426456661736893846928985852718605093123729217150059306010218610464066189806695933477508200574921801230956153713214115264012623630073677412802844947672209042380691503644674784052961694011874652103715633954529908817017196505753757833753554977241724410825000116238095035874751679173938091384833455715276758650539005206173646572351419598519252067753888535676704428839126037059400133528005747685865914259508500574994077504740253956740036024622637924663939561372312528857097205865468318701226, 301, 0) = (62685089405509111925910797243914719854890513935494713084094713797279779630627496305943786046941309007281293105221577504421353501605599255248785149356818580886163074212016138319710181437623915839386196989339984175865611290932895638485827512283879634622589907034847096838980553398268338905605705315464924834076955485269257682765843392777664062904318116756644819538761883164862381873685805923051342196114892111881287659915424456096361326051748180740843339721465950121631833352165428366344241754810081140762710579390137795215443629123183303201044796731629341661542390258966032612552126580439913324626563213547393121217728067632048719897064596438939163041106934301355643192260261867872030533878188557727018817797219012064641958276099544136480610826250078810896212505254064619595899307426216931651016613164877613570296351724055264357110051005104450572173606849938075379012356137114572525910752676385589168436483206759652170097284388598518122222819376116616668668677988651997615236221431416155794821321118852088948452164682783715959922435191327367306488124638818446090532334864386359317233873012285172875896330714873881780586230596002778688422250420590175698633544778262136505069053046737202152515000629854634631225453245996997340762744567896897683212149150732909707719966588817675821630380251456266588599804209831660991462715440400663143017564651072677052296295930367391822676512661642282350234567553218318066651318510488484545671729568971887621684270732981974442582657502555066960418690332945218280990034155505553171409775830458482159957769211244505225186771766058316021949327301666418107251589707938065072144733816368743637495699897181007119363672460040974223449086641663004605507793014252452324150238463715514559124307431648478948480649031081489229583165223570218974125422263886587593014744330199975749832650568652404661542746543584685860761547297457070273167102314576665676644281998277713093924236551494770138725647883566971887853912300960949802636372591951717316415323846182747445131420005722224687602711525724505110953736568981699982016588947035894059736087136235396798804019434387781559696138411966704777989194870090051835909943079457649936020314679678482241966630977639549496644438776441729859916723316960294474416445085260472745882430337875481508949418942689119762435899916776320344002877607105796275292403793292267773648768368878822467887335081357961963572307029923301551978576167881295406556927751680376382395172944132546853190050850185596952331432015454194989013611117365857837802115524249293716846732797794588701896345674937267858586809611820580969786133873799134474165313652592388710779716916528899844566170983739059016631022705033241662075927578286843780360173594124415865726785343443440295115009597579801015401398939190732479818929840341179897806991606263518954208436801865307690535872619787949613196801151153302485804029406380083651306504953528656508779739785641383074995605674415272726317914832606639235759894464694815356339276669942131896278168451962659751054023610655423960520117543069303577591918734913871006543292697160815703600551084792908231272607934967574554890181548917553058292542551602471573917054627222365377878299772137974922063237471706090940946682866149731374387152653509047005833421656226786732747667678240737231719975996945344878656963469712460990857486769245623858890897749477743858493387431318180981080963042253194694116698217333477879035574275188800734914094900023305984530685788143050471245908369066947731488358117777703827836391348149232447489762292124686653252304241156156739337129293713951681751620167495146007652701098985080393163003697419475691649756309212304077744030333851555537254150356845403939956471212901422833369009058340051227910315298447571259481562150928942983839850043533469480969685219877324079650340966149742245238906480730722997970056304259162129851644370812631899228151700925145487754928053452799242365330304346882847694906122862318576027391250994483757611834230848040236227612682072140314190613385215317987417173760887013721884943515613211059920953450431845598012544747408222011409054399793999546738008064866674466330347100851565686783127544200230121242732401812255476992278660419236521291180211640951110581403404182558216354568007337386180771764975068252849480429400761904007418987809406933300248450004196196486637855820068602931497144851054369041746949967492620093574092023986022738385935769117773074843857279181762672224953140266153713906407455740970290993170607388320093207947851966927498639507179633447500178942819185098636958737916283457973628852154771009610127464727875423156305554372028293506655496996240985527777318566069395735944242188256189539329223488742889658824020993810382981007736039293904233391936461640191511702102451182653273266711925932038709761106886755070160178417503338970702557835215036765617060764893714594637063232519344372413329396348950627806762074972758888790131242766866186122779511266903104540387984043350121719534786913663828052972326998103804733945415147466843480164458431336515490237430144168434928011389652213103109587808248616772357165303174993491379782448379783483135574636922698459681830964446554206344268615682472276705142666142608310453150947832172354137234875498917393317705974540500437179647701067069989440297779042644158050238186041183867251952160796243658981789625355237262959662402897211753577679987554494290828205715092468823448745517803188782966327946308586473951319409571227836494453345580504555498695348778434626052375774767978851500857654456807068428565096472480674639800974066039262861097297393492472896930488880315856160975026044415126007929161775824690714813793476795057755105494758573633733861748518605659500883756440056027538643391072137681146687153715143026549544523701215757795177321427922876658121417750617645956608626248471055116208439631844384433123706045653120890818227769758195188922985542664880859984471566637747511417719359058515216873793717933838590490437960250079488615471270412844698794954902624684579236866723687093822573803355349219804731541079221237514730879435470172975512045272391472810, 401, 0) := by rfl

theorem mixKeyChunk43x4 : (mixKeyStep [43])^[100] (62685089405509111925910797243914719854890513935494713084094713797279779630627496305943786046941309007281293105221577504421353501605599255248785149356818580886163074212016138319710181437623915839386196989339984175865611290932895638485827512283879634622589907034847096838980553398268338905605705315464924834076955485269257682765843392777664062904318116756644819538761883164862381873685805923051342196114892111881287659915424456096361326051748180740843339721465950121631833352165428366344241754810081140762710579390137795215443629123183303201044796731629341661542390258966032612552126580439913324626563213547393121217728067632048719897064596438939163041106934301355643192260261867872030533878188557727018817797219012064641958276099544136480610826250078810896212505254064619595899307426216931651016613164877613570296351724055264357110051005104450572173606849938075379012356137114572525910752676385589168436483206759652170097284388598518122222819376116616668668677988651997615236221431416155794821321118852088948452164682783715959922435191327367306488124638818446090532334864386359317233873012285172875896330714873881780586230596002778688422250420590175698633544778262136505069053046737202152515000629854634631225453245996997340762744567896897683212149150732909707719966588817675821630380251456266588599804209831660991462715440400663143017564651072677052296295930367391822676512661642282350234567553218318066651318510488484545671729568971887621684270732981974442582657502555066960418690332945218280990034155505553171409775830458482159957769211244505225186771766058316021949327301666418107251589707938065072144733816368743637495699897181007119363672460040974223449086641663004605507793014252452324150238463715514559124307431648478948480649031081489229583165223570218974125422263886587593014744330199975749832650568652404661542746543584685860761547297457070273167102314576665676644281998277713093924236551494770138725647883566971887853912300960949802636372591951717316415323846182747445131420005722224687602711525724505110953736568981699982016588947035894059736087136235396798804019434387781559696138411966704777989194870090051835909943079457649936020314679678482241966630977639549496644438776441729859916723316960294474416445085260472745882430337875481508949418942689119762435899916776320344002877607105796275292403793292267773648768368878822467887335081357961963572307029923301551978576167881295406556927751680376382395172944132546853190050850185596952331432015454194989013611117365857837802115524249293716846732797794588701896345674937267858586809611820580969786133873799134474165313652592388710779716916528899844566170983739059016631022705033241662075927578286843780360173594124415865726785343443440295115009597579801015401398939190732479818929840341179897806991606263518954208436801865307690535872619787949613196801151153302485804029406380083651306504953528656508779739785641383074995605674415272726317914832606639235759894464694815356339276669942131896278168451962659751054023610655423960520117543069303577591918734913871006543292697160815703600551084792908231272607934967574554890181548917553058292542551602471573917054627222365377878299772137974922063237471706090940946682866149731374387152653509047005833421656226786732747667678240737231719975996945344878656963469712460990857486769245623858890897749477743858493387431318180981080963042253194694116698217333477879035574275188800734914094900023305984530685788143050471245908369066947731488358117777703827836391348149232447489762292124686653252304241156156739337129293713951681751620167495146007652701098985080393163003697419475691649756309212304077744030333851555537254150356845403939956471212901422833369009058340051227910315298447571259481562150928942983839850043533469480969685219877324079650340966149742245238906480730722997970056304259162129851644370812631899228151700925145487754928053452799242365330304346882847694906122862318576027391250994483757611834230848040236227612682072140314190613385215317987417173760887013721884943515613211059920953450431845598012544747408222011409054399793999546738008064866674466330347100851565686783127544200230121242732401812255476992278660419236521291180211640951110581403404182558216354568007337386180771764975068252849480429400761904007418987809406933300248450004196196486637855820068602931497144851054369041746949967492620093574092023986022738385935769117773074843857279181762672224953140266153713906407455740970290993170607388320093207947851966927498639507179633447500178942819185098636958737916283457973628852154771009610127464727875423156305554372028293506655496996240985527777318566069395735944242188256189539329223488742889658824020993810382981007736039293904233391936461640191511702102451182653273266711925932038709761106886755070160178417503338970702557835215036765617060764893714594637063232519344372413329396348950627806762074972758888790131242766866186122779511266903104540387984043350121719534786913663828052972326998103804733945415147466843480164458431336515490237430144168434928011389652213103109587808248616772357165303174993491379782448379783483135574636922698459681830964446554206344268615682472276705142666142608310453150947832172354137234875498917393317705974540500437179647701067069989440297779042644158050238186041183867251952160796243658981789625355237262959662402897211753577679987554494290828205715092468823448745517803188782966327946308586473951319409571227836494453345580504555498695348778434626052375774767978851500857654456807068428565096472480674639800974066039262861097297393492472896930488880315856160975026044415126007929161775824690714813793476795057755105494758573633733861748518605659500883756440056027538643391072137681146687153715143026549544523701215757795177321427922876658121417750617645956608626248471055116208439631844384433123706045653120890818227769758195188922985542664880859984471566637747511417719359058515216873793717933838590490437960250079488615471270412844698794954902624684579236866723687093822573803355349219804731541079221237514730879435470172975512045272391472810, 401, 0) = (62685089405509111925910797243914719854890513935494713084094713797279779630627496305943786046941309007281293105221577504421353501605599255248785149356818580886163074212016138319710181437623915839386196989339984175865611290932895638485827512283879634622589907034847096838980553398268338905605705315464924834076955485269257682765843392777664062904318116756644819538761883164862381873685805923051342196114892111881287659915424456096361326051748180740843339721465950121631833352165428366344241754810081140762710579390137795215443629123183303201044796731629341661542390258966032612552126580439913324626563213547393121217728067632048719897064596438939163041106934301355643192260261867872030533878188557727018817797219012064641958276099544136480610826250078810896212505254064619595899307426216931651016613164877613570296351724055264357110051005104450572173606849938075379012356137114572525910752676385589168436483206759652170097284388598518122222819376116616668668677988651997615236221431416155794821321118852088948452164682783715959922435191327367306488124638818446090532334864386359317233873012285172875896330714873881780586230596002778688422250420590175698633544778262136505069053046737202091046728657346308486638336585119400129313328579310465925553241423089317034384693109050415792570501750704348153038667996669246235366684019236439543533445995017687490149811345756314088911758099811872481055562997079327304654620011255463431775087627928183899522776900507556361786165173810251822601711873591075202737349750042857643135562048813190326386113183733603323102000033795064084722550756470525561458317456439660987891403181519160198189376055031228434434516999536199420661196213890858516837040310369825814306167422350112957901158801601930621729124731022516845002539141951424802334354188309619636849053780261644451905753753268497815608492472392612257582540254792846559198206351441122727255953810299754018090002620403378342679016907471756953220306061043649163326814600362561577698539922766151736067545251313608321446735147060358468153731564177708321140525324236187073766227740745481178041921752896833618537689653647096552113544323217603062589024227033183280187568630671057798224114643207451920146121302714347644081008427675424295448620596913412252803129447210109525854006664705544338003256680433315600999959187367373618195761685873073116945662647748254671018151295001440897234693036363972735230972199860080194773429189937573431897307667940679972192096997072764839756005933088116460691058339118494847976195091554632681331815871909727656532323941507638704504400363735556403127178294436466620950175848767461507811885189167052105064365175947291162426494929993703489753799096485904575553690144807941742745878671128716135067870854084743281263437826252811369755417370334605872414483273879687741561558286993087420445435103682319380829357622694479686188476409409987813886481368907350960177320563424455241713772581917043652446296881371595116141382454666669577335210714891313024678045531069487022126842406677950419609065235443101055182699562947756284440232933651367768581812938696135871576904725463117734851520985763019191895304168285194378395384981244643737845068910293457458520769847805743907495007814700271468940679872626464823134729235116832537565492090762914785673414513351248674380763378058619010753287503124981079222362553482237911651823340107465086407538135833701626518368044980089729035745913129758874846844049069364142184247132395659300057385572740243343200483978852933115211452980058514823612206559224016758312917779162055732049047140739910952268498968688039276953550488643777456449212274577108975812433821182297274428768047654375232644400550063643286517805964981243222869349999310490622906033096782187973390233893875205233017137853002317549772065654015275284179306114308228829320343914606581688486908785626049233569339992756697712532570458516199764589375600350597786554687703943732953516654389862714633588008280491833539116760157643827248669331328677784230768764136370743752196424378139077177608708832842129402174645118935893460945380590889922382095480597450058647090023257805022925560620520988116345414034564537193193529897816163179974667471773934183354165809054151501200562600302900754564305613632159286214743365900995888800446431778781474126843250472135316245852376932806859599302531645725837994737590056401318049511844070004619644417939096850462770822425744796104376064380849160880197743234778396685382684832122673399125273458435666015023229838451093707550417146387302836201181030072223055329859238431120473077226274551616103737915366765467098132335754069604803342404372306222884254595010895573626996709241067918297399132411626359067087478824180432644844152601885924201325566316485672633069886964718087203710014822526472732295616947600519888405749819919981096528954394358830673929892696484512905106416359177313651788001994773167570152042333716615368454627501804050092220086350115741793861136973531485362796271022006018568780829209386311976983371202214533648901935036333463805912989264813655995803663500816115074747008949013009398216817709543742773795407508149050214033046295223375697014409774319486699587442913883182587806001631573946821981234283478513478167127994064263343307984166590468760017787788827040664974064392570324220479519094858684361072126180375398851968036173256482210911569605235844886373340541200579547923194695951041855590521775606251616626242332245037004505808227118406164682088058540098489907412625775907738144718702520029256682898099627608310212290567849920524480974650766621397582546539568734536139150571284055342049366341245826500852791267281780623255734869746776890177918435108152232352710545286084324128258149274749730112183098218509883070015780195700311770999142754463731242648014312257013285917489548418987462403232926346607283203447607267714557295828084604953075910913819385918246796808433795195808770812305185897755458783162265738402033515082234287799519795042613231283356195622678862946054853611049401008227578429081321742461817085350936020520098340227549171580453857152438114323333354598684330, 501, 0) := by rfl

theorem mixKeyChunk43x5 : (mixKeyStep [43])^[100] (62685089405509111925910797243914719854890513935494713084094713797279779630627496305943786046941309007281293105221577504421353501605599255248785149356818580886163074212016138319710181437623915839386196989339984175865611290932895638485827512283879634622589907034847096838980553398268338905605705315464924834076955485269257682765843392777664062904318116756644819538761883164862381873685805923051342196114892111881287659915424456096361326051748180740843339721465950121631833352165428366344241754810081140762710579390137795215443629123183303201044796731629341661542390258966032612552126580439913324626563213547393121217728067632048719897064596438939163041106934301355643192260261867872030533878188557727018817797219012064641958276099544136480610826250078810896212505254064619595899307426216931651016613164877613570296351724055264357110051005104450572173606849938075379012356137114572525910752676385589168436483206759652170097284388598518122222819376116616668668677988651997615236221431416155794821321118852088948452164682783715959922435191327367306488124638818446090532334864386359317233873012285172875896330714873881780586230596002778688422250420590175698633544778262136505069053046737202091046728657346308486638336585119400129313328579310465925553241423089317034384693109050415792570501750704348153038667996669246235366684019236439543533445995017687490149811345756314088911758099811872481055562997079327304654620011255463431775087627928183899522776900507556361786165173810251822601711873591075202737349750042857643135562048813190326386113183733603323102000033795064084722550756470525561458317456439660987891403181519160198189376055031228434434516999536199420661196213890858516837040310369825814306167422350112957901158801601930621729124731022516845002539141951424802334354188309619636849053780261644451905753753268497815608492472392612257582540254792846559198206351441122727255953810299754018090002620403378342679016907471756953220306061043649163326814600362561577698539922766151736067545251313608321446735147060358468153731564177708321140525324236187073766227740745481178041921752896833618537689653647096552113544323217603062589024227033183280187568630671057798224114643207451920146121302714347644081008427675424295448620596913412252803129447210109525854006664705544338003256680433315600999959187367373618195761685873073116945662647748254671018151295001440897234693036363972735230972199860080194773429189937573431897307667940679972192096997072764839756005933088116460691058339118494847976195091554632681331815871909727656532323941507638704504400363735556403127178294436466620950175848767461507811885189167052105064365175947291162426494929993703489753799096485904575553690144807941742745878671128716135067870854084743281263437826252811369755417370334605872414483273879687741561558286993087420445435103682319380829357622694479686188476409409987813886481368907350960177320563424455241713772581917043652446296881371595116141382454666669577335210714891313024678045531069487022126842406677950419609065235443101055182699562947756284440232933651367768581812938696135871576904725463117734851520985763019191895304168285194378395384981244643737845068910293457458520769847805743907495007814700271468940679872626464823134729235116832537565492090762914785673414513351248674380763378058619010753287503124981079222362553482237911651823340107465086407538135833701626518368044980089729035745913129758874846844049069364142184247132395659300057385572740243343200483978852933115211452980058514823612206559224016758312917779162055732049047140739910952268498968688039276953550488643777456449212274577108975812433821182297274428768047654375232644400550063643286517805964981243222869349999310490622906033096782187973390233893875205233017137853002317549772065654015275284179306114308228829320343914606581688486908785626049233569339992756697712532570458516199764589375600350597786554687703943732953516654389862714633588008280491833539116760157643827248669331328677784230768764136370743752196424378139077177608708832842129402174645118935893460945380590889922382095480597450058647090023257805022925560620520988116345414034564537193193529897816163179974667471773934183354165809054151501200562600302900754564305613632159286214743365900995888800446431778781474126843250472135316245852376932806859599302531645725837994737590056401318049511844070004619644417939096850462770822425744796104376064380849160880197743234778396685382684832122673399125273458435666015023229838451093707550417146387302836201181030072223055329859238431120473077226274551616103737915366765467098132335754069604803342404372306222884254595010895573626996709241067918297399132411626359067087478824180432644844152601885924201325566316485672633069886964718087203710014822526472732295616947600519888405749819919981096528954394358830673929892696484512905106416359177313651788001994773167570152042333716615368454627501804050092220086350115741793861136973531485362796271022006018568780829209386311976983371202214533648901935036333463805912989264813655995803663500816115074747008949013009398216817709543742773795407508149050214033046295223375697014409774319486699587442913883182587806001631573946821981234283478513478167127994064263343307984166590468760017787788827040664974064392570324220479519094858684361072126180375398851968036173256482210911569605235844886373340541200579547923194695951041855590521775606251616626242332245037004505808227118406164682088058540098489907412625775907738144718702520029256682898099627608310212290567849920524480974650766621397582546539568734536139150571284055342049366341245826500852791267281780623255734869746776890177918435108152232352710545286084324128258149274749730112183098218509883070015780195700311770999142754463731242648014312257013285917489548418987462403232926346607283203447607267714557295828084604953075910913819385918246796808433795195808770812305185897755458783162265738402033515082234287799519795042613231283356195622678862946054853611049401008227578429081321742461817085350936020520098340227549171580453857152438114323333354598684330, 501, 0) = (62685089405509111925910797243914719854890513935494713084094713797279779630627496305943786046941309007281293105221577504421353501605599255248785149356818580886163074212016138319710181437623915839386196989339984175865611290800038963094721688090729548555483229387689559826600332381715731399296510552729526462593581278713548047937435268108729963690940755805638329353761389188195335084142218831356187271293908859597986795568043262884836506530314519410042113337285700476281292362433904820457671873736376455028076903183043305519387923672121344189779638715047907218774246321457681810284570203774634712119084806568706644269869931083300736751822396849121618591903040826671791211783529989152722788683454402162711986590159751320439205659784995721567958503497010327471842319060544928695165872779452331424666217874394684372127396370746454670274030319882416408814241409461380709820544526215518731649992319163198328018166006151849767904315368300639324336543360319307185003592291085585243282141189285239025635237861112981793042103702107730940640395553976168367150914015751521739931242420838385198029021448338053914704458779307086030980115262776910940479031040783390168719906366294400644699568764406933977288167991454801620926210484072024381573539670550379495168301186820162690311677189442090363019653430601007472839702553345440451485862267138135809266246565711272420522316604045314463408914823779889458466234039867917579324187612820852177832122486157883186772698796121784279485290289418710882306364349612389577885951904137711707783145789499313601523167139953857322373059745562716903965036319018573045593355743002923897749930199220367446835848099589697042609202081462855392218540842527067688845428938533364410464067240507000930543172668216988969857577211328059849919168570964004353278139554285116236853381194600950148786689853931044943394414982095678984493896903254709782950538530333767369376978239629481600083985719474069321756226248599911933596483303874671184531861335319409169421776412123272634874871069462482343461632377685423425554978663245766788970096686190260291885030810459393929441629303411594326163617940112102364168857837207231101467127956929542314757103590438578368466235773833384475890095519984816316904647073840026916751690728713783911799014223940222977657105632527291365072654553525331786734304580534005293997948417396789680038320521756981712001094665950048564548716171374725717639872169248806480786225788918832465766048088916845609166651958144474281365848377576965811453998509804338836162614664286837814675421307553132067276880833528374141303868957096407678927687039350823275866226338316364676492588536709845154718686934576845835917075341737498828516994144786421832337734440434039170769755316166372781138973908213508864878256342371848210008906823021159602763709012659299257596621495802192816666969118826559788017561429711304293441216489890263036772887605784807724932141031221343753472290367281519224745274430563658740932511142678171925294513258356929989322033040186040191983248006754834116434545467760236952188555835476289204620763114652771421680773810619080727546165684055694195649485280375136600565337595209295055236398439097639083699937129470921034475810936526678279118367948352822095572211793718344669585367603434335410157252576793092368433991144597766636423293415804515183027527908625746213608951358975721162130971299472567114062519959948164152061159980155684234853346630337352754189978000184521833681085862700636621489297813073206708497941341024575940372366218906607104011348687561315576310720879066350239479751633271957854103203927223881974413572692864769472807682556103745128047295435404687917825533027779893829598527672504180864895638525826913757921166928619650888882780162249641302771105805050982198206785885271622962028951420932196667422741640674898765489880240087597180543897250990074892220571974396091351997381380139601885772790110122686319175643085859363039426773782004338782971198949646752205729077234773497537125555285889878268698703753596169055796776355270785455724253410844617880851019224736209579504397618310765117443750793510675067796250643758194113309858960526176406172844566325522574851898139297959877477012000302046246667110596073094072203529724878541758855543880742029555900392977006389944233724853707247449952176738696992021502166165182067737212667603641781089829677819184214554172502523407356313623109153225892315563282694488016052164967067030359764240593398446954001281508653483741314850459938249374118307752739195462513123135024260768519256335263780952454321143522517987881021457114074576192803804992277504843298347661414850107378359249082042612670731815059144302581882765255123786176777528747796158126405965510959558079167323178942765939317857062715416227459321082425766039565048906593151088008740822000823323635352802621662227587287612942867299965737882910475807686613859725856319503520558054143410764732147040840578704195489501228264999915065748154150543546498835935383222362900039093193108379929958634031848078398262602961703840001654120690312809529474523042318316507051578619831760701930237505855930941090069594338494926653357528926140798401062238852037447652440035130318404816445997338819906856210253592769447076462445371008439131361568248172396746998039756818388742841136925605743961914257681540351128847081547326402949298504883239403415580781852849272686661344231152843295641441049523129098249647364816207699215961224109668916559617591435788442771886796219474107132539589439652984681157025303750740655858681152036204800303114420798560475396604497361485970313041448109348177442231360574254177395318732423678990801334430330681459618816673551037429133912713044502392817529130580101664963045259045875475824880583479679366218129183665902483065965816676522898131115578931038617993626486189364409544105750293834098610346424431215488775310873826006079687467341512052523277957551449539930986998249740685899732182186255757361560662908021756032430015824511303981305521474852890688615976495414029921892714033171066760836187574986582841470995943412140015322595085137958610620016759103280810, 601, 0) := by rfl

theorem mixKeyChunk43x6 : (mixKeyStep [43])^[24] (62685089405509111925910797243914719854890513935494713084094713797279779630627496305943786046941309007281293105221577504421353501605599255248785149356818580886163074212016138319710181437623915839386196989339984175865611290800038963094721688090729548555483229387689559826600332381715731399296510552729526462593581278713548047937435268108729963690940755805638329353761389188195335084142218831356187271293908859597986795568043262884836506530314519410042113337285700476281292362433904820457671873736376455028076903183043305519387923672121344189779638715047907218774246321457681810284570203774634712119084806568706644269869931083300736751822396849121618591903040826671791211783529989152722788683454402162711986590159751320439205659784995721567958503497010327471842319060544928695165872779452331424666217874394684372127396370746454670274030319882416408814241409461380709820544526215518731649992319163198328018166006151849767904315368300639324336543360319307185003592291085585243282141189285239025635237861112981793042103702107730940640395553976168367150914015751521739931242420838385198029021448338053914704458779307086030980115262776910940479031040783390168719906366294400644699568764406933977288167991454801620926210484072024381573539670550379495168301186820162690311677189442090363019653430601007472839702553345440451485862267138135809266246565711272420522316604045314463408914823779889458466234039867917579324187612820852177832122486157883186772698796121784279485290289418710882306364349612389577885951904137711707783145789499313601523167139953857322373059745562716903965036319018573045593355743002923897749930199220367446835848099589697042609202081462855392218540842527067688845428938533364410464067240507000930543172668216988969857577211328059849919168570964004353278139554285116236853381194600950148786689853931044943394414982095678984493896903254709782950538530333767369376978239629481600083985719474069321756226248599911933596483303874671184531861335319409169421776412123272634874871069462482343461632377685423425554978663245766788970096686190260291885030810459393929441629303411594326163617940112102364168857837207231101467127956929542314757103590438578368466235773833384475890095519984816316904647073840026916751690728713783911799014223940222977657105632527291365072654553525331786734304580534005293997948417396789680038320521756981712001094665950048564548716171374725717639872169248806480786225788918832465766048088916845609166651958144474281365848377576965811453998509804338836162614664286837814675421307553132067276880833528374141303868957096407678927687039350823275866226338316364676492588536709845154718686934576845835917075341737498828516994144786421832337734440434039170769755316166372781138973908213508864878256342371848210008906823021159602763709012659299257596621495802192816666969118826559788017561429711304293441216489890263036772887605784807724932141031221343753472290367281519224745274430563658740932511142678171925294513258356929989322033040186040191983248006754834116434545467760236952188555835476289204620763114652771421680773810619080727546165684055694195649485280375136600565337595209295055236398439097639083699937129470921034475810936526678279118367948352822095572211793718344669585367603434335410157252576793092368433991144597766636423293415804515183027527908625746213608951358975721162130971299472567114062519959948164152061159980155684234853346630337352754189978000184521833681085862700636621489297813073206708497941341024575940372366218906607104011348687561315576310720879066350239479751633271957854103203927223881974413572692864769472807682556103745128047295435404687917825533027779893829598527672504180864895638525826913757921166928619650888882780162249641302771105805050982198206785885271622962028951420932196667422741640674898765489880240087597180543897250990074892220571974396091351997381380139601885772790110122686319175643085859363039426773782004338782971198949646752205729077234773497537125555285889878268698703753596169055796776355270785455724253410844617880851019224736209579504397618310765117443750793510675067796250643758194113309858960526176406172844566325522574851898139297959877477012000302046246667110596073094072203529724878541758855543880742029555900392977006389944233724853707247449952176738696992021502166165182067737212667603641781089829677819184214554172502523407356313623109153225892315563282694488016052164967067030359764240593398446954001281508653483741314850459938249374118307752739195462513123135024260768519256335263780952454321143522517987881021457114074576192803804992277504843298347661414850107378359249082042612670731815059144302581882765255123786176777528747796158126405965510959558079167323178942765939317857062715416227459321082425766039565048906593151088008740822000823323635352802621662227587287612942867299965737882910475807686613859725856319503520558054143410764732147040840578704195489501228264999915065748154150543546498835935383222362900039093193108379929958634031848078398262602961703840001654120690312809529474523042318316507051578619831760701930237505855930941090069594338494926653357528926140798401062238852037447652440035130318404816445997338819906856210253592769447076462445371008439131361568248172396746998039756818388742841136925605743961914257681540351128847081547326402949298504883239403415580781852849272686661344231152843295641441049523129098249647364816207699215961224109668916559617591435788442771886796219474107132539589439652984681157025303750740655858681152036204800303114420798560475396604497361485970313041448109348177442231360574254177395318732423678990801334430330681459618816673551037429133912713044502392817529130580101664963045259045875475824880583479679366218129183665902483065965816676522898131115578931038617993626486189364409544105750293834098610346424431215488775310873826006079687467341512052523277957551449539930986998249740685899732182186255757361560662908021756032430015824511303981305521474852890688615976495414029921892714033171066760836187574986582841470995943412140015322595085137958610620016759103280810, 601, 0) = (3822959328067886748574266660083664852823549338335814052061489704345135806448972048303689989244174875075082318311932172609039477136671741164518637722718255441513873187927192322328480695930549709238288877709953320533204823292856397677533548142562121538250941137287921363934625763980495510484730932770562478601503633722211219740687089639842929368155554935549362961775442136703965282945444782475925761775909540087018374152752364699528790173101935560878294485779253261237452730212819951987300381325037120115626006863257637865936262299031240846276967866300515781943399336117325586481081625882589640246870622903006404618204965048284702554093665008652007095738024034421645355485168900263753196575865592045649112072686233243653966215410973270612828913499337368604554476558559011599706114887512054395574414409736751709385930184179141780923213290586411593554839123403512617330748633051102435053596971676728302879274474134171722920559862662855167206993040188703132673777683155371878071807119053462354801425075372056385634858723118270373757992318783473004104014957608896217398182859473502430934960709418384072442250267354877359901054441866155611903641574990524390047791153589533764404431022120706464336244490378206844408858910442862743724016156519483203101277391574816592770565043223420348622932176410474445546387135776654041019460909364363666357182047595681050127456613054609818049696131643529512600714472775850731447063823001252242706072487812244832804138842543429661049285496317419017210231050672623423324602629137431269683277182602189443155862282353126862467509672976269115038122604193474065803642907189365075722298182802160504169250833496270436838873383647907936401223014968673535045528832518671533802081323842246582149712338591073336946952063844044378178663630970164036559249347741979898762103124957773515894085401000054519892121634208829007698859930210052082621888063583402154047531332150271699538781520748436299761547078390045277031695144312043773193369355175491394706014353648806517901943704380870042916924645012156906699861591410569766276618789963234664551812632418629668980370298736386731651510791509139229714627318721328805003910912723247979274988363315554645913012651865533321206850036988828485470201437678567646476101365903848679582056846688060136352415936605865074618131908842061259044510495588014966736635190905363932491339689388218745424385625911486706253769885181583037794331922070675377300154421161087293777101978849916353299016521032268628102170488572267587506134716409230568876911276078215764152850058115021361976444778102623688789700593937887018977531098754278870840252415388327856470531667555915972054346486504750481434825124131838583970999244903561771309055776264958489736019730698204391176155226183660172306301112414993700100127912359080264222864315375307497616994284636850528545560421403878269961175967669424341872089382899300684550016411017151915848728456070801975691818070673731825520495765641222701653287032060104523999186132443911564891459699974885400894518546216523840786014756173632875003351637650616927611045543788744354178591085717150476958863040297782819886344973708567877896263613674995133420241902002169176085085949792724172377838068122276796259944164409944401419860941399391801222150735977594298099767047124783728020301784939310069186586178564608853387003249081468526076703521437793216744501599791328948134882708025777630871020302093899582242427461943886903433334333316649973024488696455653429677663344047838205882236096060702138743388458954171542311938760429331505901918901082472067197093555885690294274351199089789933692957348186428837936286040863314325021250559627078595683106217515030242874441140696536607177914543070682995600731056306202260095174711102632146496449222313782380552149880377597470172280421183634950406412704764421269120701587625566994572059559502633314768712123430499935601822336615966491666963343580559801332264675533353709215814603307671089411642367609867216897221293536791217395485442853470052681313803039553931267628230687696309418448245186473360610453787211639831255210035637964136814877998497386813768593503581266905322313373660033354348868146932981099321535254101153735227440760051833875288784181714523871202242365076651337905034545610187486433284633155322935936977054346016591970194552312117465276920165157166622222398487294585486111716993582577116369225825305684716420651649735919560311290520451434684791866050055693282084114429547928138754023157301465625142024959052270846916651910589439626467358591476897764550050979415747761332349929663634699879639836648329254919370905315344696268119700882546962293663627065222483604605814875081676830759173531341850494123568368546032294479457351841891566210417149007257509996063625951984281914624309163359533410488453264290467932294830128822390170751834996825670837527366636205532414874239947397866003963201041805051596697037462800410362148944412936946436948404358369385869068307272077674102566648149681834185272679384280954782737034627629485340550698540672504374964357100692016211954329405509690496553864931678534181134372700742974128879763375316834989804595259650109853447891920736813036925632756746462876174696036811865840343544097908009090908844787594871601692058357397804941951308387930034965271254590139084601844973557987268278778875915131865859077578777227299973019027564061961040250801698215951635747809781969507951512996768239658330929095789888411808923845256926066147957105297841067814231108336023019392067096842072802263985199233076034875253880044521660387163616150006134555985957613843790398419051157187727971993712289074332757810809039919109313984783560187749294252405970349276887420680152690933588799831212481320415467716477350131058669610824085160525740558650067335935101506968783731176144968042440763028245152911784642908439460863740372269889857495324005974930449229979136667711790823915391976277256773585999765361100070842806065644302735253161413764853474803539323154462347828009245806375942807442883126344370197287332832202161813394351071332475352855028514797323457466460238103018824931650888948219828, 2, 0) := by rfl

theorem mixKeyAll43 : (mixKeyStep [43])^[624] (62685089405509111925910797243914719854890513935494713084094713797279779630627496305943786046941309007281293105221577504421353501605599255248785149356818580886163074212016138319710181437623915839386196989339984175865611290932895638485827512283879634622589907034847096838980553398268338905605705315464924834076955485269257682765843392777664062904318116756644819538761883164862381873685805923051342196114892111881287659915424456096361326051748180740843339721465950121631833352165428366344241754810081140762710579390137795215443629123183303201044796731629341661542390258966032612552126580439913324626563213547393121217728067632048719897064596438939163041106934301355643192260261867872030533878188557727018817797219012064641958276099544136480610826250078810896212505254064619595899307426216931651016613164877613570296351724055264357110051005104450572173606849938075379012356137114572525910752676385589168436483206759652170097284388598518122222819376116616668668677988651997615236221431416155794821321118852088948452164682783715959922435191327367306488124638818446090532334864386359317233873012285172875896330714873881780586230596002778688422250420590175698633544778262136505069053046737202152515000629854634631225453245996997340762744567896897683212149150732909707719966588817675821630380251456266588599804209831660991462715440400663143017564651072677052296295930367391822676512661642282350234567553218318066651318510488484545671729568971887621684270732981974442582657502555066960418690332945218280990034155505553171409775830458482159957769211244505225186771766058316021949327301666418107251589707938065072144733816368743637495699897181007119363672460040974223449086641663004605507793014252452324150238463715514559124307431648478948480649031081489229583165223570218974125422263886587593014744330199975749832650568652404661542746543584685860761547297457070273167102314576665676644281998277713093924236551494770138725647883566971887853912300960949802636372591951717316415323846182747445131420005722224687602711525724505110953736568981699982016588947035894059736087136235396798804019434387781559696138411966704777989194870090051835909943079457649936020314680876367897457337488804889342331824364904005266943816631681518612047693872607083945336048154993001716858914072302230374294986610531277637599664647525761147514008899238689946802093944865612982597431648203028809043429562401771290925843222821220221381984318518256971016750121270624021542153515130386081256853244444367484914891752438843250797295149886721543902585582757118492217204960123203770309672216674331373413106027454841661967870247822106376003696537006476355273043676224973894002060133928765135363584693312631060562155459381152426642778209514491263275588735458188352331628933634618912177576995916817414488324819680108333628484452298807271017999262374749573133359090629722111402666396222385680310709557844049479865847370371052888681758484468279513921172987571336140289500145715018352119752770038578015899178947425013401300127437407370742417936980607757405410607208376626705322894782663757703548808362869195819947150150865798288136994832911439410269353230208345410503242199606186650417333579047848825834242257112060317620885151293421378661990197161958015730358249113963865616811805417654957899792836277351433146683316643158745577273742588847277405020330699298979666450169324546781433015633218213248018986767013905101885085728066131985273947793365444250280947765884488609302913437528001802423347517836456663978922564542901160075954132077499502061844004777463229898312792357201472450520034421742281215395838957029567457078867297742321364249618062920323524100796395855490398720473188748064226082130624085325443879193454095100721902723688608983702297802922465778395428510531587340343771240068168890882622394112252370643121994567113348850616779414952571984309063927162547038575769391208822294299053225776973195785292510157058775147687493667385905281728614066936870793483631104130486096422866739022254251631022238998824784309871214211336594149372534724828516536519652291847191320934127662041939033266344757810255450761243406685982638804631309022215852991706323223872506356963395668107287976200691035733250165615782065576159415303394415966535152327550107294310945533761757937224536792146711105700674959937207778503501562879445241463662142281185819506210181780721218897488871995890898495582077564387715740371190275817001449471008660140255770382875594805433223352833476546594040372715841292252983175468170554585838014797017976570586587751089146553833551413146641975370517778330202052282190648141351908509904289169596729111939424597802445523234111653813513351586367960175769546506050051493655326103823629699245586418016468660736051425039803522537493270385743437525903109563398688573456345292160567787373069854610200635728800730405759403691875432721043746233636765094325962472698626875833148826372580999341547042531665331710768365982359935219565301595187067772247975847412037958098451506998773182171027695752045356894447709388159633645629545493246019135820915900506906032640701290570506299065346661219735445730896769091171352761432210047450382980030625592142825700677633624952217795344145832513082782540989616413040988227257601039794195623143595351637462190706636535912449334420058581521218743569834717812580171279915160794789675762903718339466089866492140118823551337811927493524761760551434001520245324751568861558716803095718510972066599595072196209156923318071322517301806566620458899402166430591631348363311478802800521980525250372511467674969151489645720009661369785217086930227581405674315978920044798755483144811069077253851302610194739624245401270682864202663540116818822475326676741780611737275972111438408802370422377608919256570335384654037352344114105999356653180812503717835632673409647782213628400383443178293619326757139369589058612122088577237252104060778375287897543799460272211546791798613974575310224299012205778134871255296492395729078221387894808011355820153110205338707003138385845672884757408327786763143168159295742358655797897448897721796416755370, 1, 0) = (3822959328067886748574266660083664852823549338335814052061489704345135806448972048303689989244174875075082318311932172609039477136671741164518637722718255441513873187927192322328480695930549709238288877709953320533204823292856397677533548142562121538250941137287921363934625763980495510484730932770562478601503633722211219740687089639842929368155554935549362961775442136703965282945444782475925761775909540087018374152752364699528790173101935560878294485779253261237452730212819951987300381325037120115626006863257637865936262299031240846276967866300515781943399336117325586481081625882589640246870622903006404618204965048284702554093665008652007095738024034421645355485168900263753196575865592045649112072686233243653966215410973270612828913499337368604554476558559011599706114887512054395574414409736751709385930184179141780923213290586411593554839123403512617330748633051102435053596971676728302879274474134171722920559862662855167206993040188703132673777683155371878071807119053462354801425075372056385634858723118270373757992318783473004104014957608896217398182859473502430934960709418384072442250267354877359901054441866155611903641574990524390047791153589533764404431022120706464336244490378206844408858910442862743724016156519483203101277391574816592770565043223420348622932176410474445546387135776654041019460909364363666357182047595681050127456613054609818049696131643529512600714472775850731447063823001252242706072487812244832804138842543429661049285496317419017210231050672623423324602629137431269683277182602189443155862282353126862467509672976269115038122604193474065803642907189365075722298182802160504169250833496270436838873383647907936401223014968673535045528832518671533802081323842246582149712338591073336946952063844044378178663630970164036559249347741979898762103124957773515894085401000054519892121634208829007698859930210052082621888063583402154047531332150271699538781520748436299761547078390045277031695144312043773193369355175491394706014353648806517901943704380870042916924645012156906699861591410569766276618789963234664551812632418629668980370298736386731651510791509139229714627318721328805003910912723247979274988363315554645913012651865533321206850036988828485470201437678567646476101365903848679582056846688060136352415936605865074618131908842061259044510495588014966736635190905363932491339689388218745424385625911486706253769885181583037794331922070675377300154421161087293777101978849916353299016521032268628102170488572267587506134716409230568876911276078215764152850058115021361976444778102623688789700593937887018977531098754278870840252415388327856470531667555915972054346486504750481434825124131838583970999244903561771309055776264958489736019730698204391176155226183660172306301112414993700100127912359080264222864315375307497616994284636850528545560421403878269961175967669424341872089382899300684550016411017151915848728456070801975691818070673731825520495765641222701653287032060104523999186132443911564891459699974885400894518546216523840786014756173632875003351637650616927611045543788744354178591085717150476958863040297782819886344973708567877896263613674995133420241902002169176085085949792724172377838068122276796259944164409944401419860941399391801222150735977594298099767047124783728020301784939310069186586178564608853387003249081468526076703521437793216744501599791328948134882708025777630871020302093899582242427461943886903433334333316649973024488696455653429677663344047838205882236096060702138743388458954171542311938760429331505901918901082472067197093555885690294274351199089789933692957348186428837936286040863314325021250559627078595683106217515030242874441140696536607177914543070682995600731056306202260095174711102632146496449222313782380552149880377597470172280421183634950406412704764421269120701587625566994572059559502633314768712123430499935601822336615966491666963343580559801332264675533353709215814603307671089411642367609867216897221293536791217395485442853470052681313803039553931267628230687696309418448245186473360610453787211639831255210035637964136814877998497386813768593503581266905322313373660033354348868146932981099321535254101153735227440760051833875288784181714523871202242365076651337905034545610187486433284633155322935936977054346016591970194552312117465276920165157166622222398487294585486111716993582577116369225825305684716420651649735919560311290520451434684791866050055693282084114429547928138754023157301465625142024959052270846916651910589439626467358591476897764550050979415747761332349929663634699879639836648329254919370905315344696268119700882546962293663627065222483604605814875081676830759173531341850494123568368546032294479457351841891566210417149007257509996063625951984281914624309163359533410488453264290467932294830128822390170751834996825670837527366636205532414874239947397866003963201041805051596697037462800410362148944412936946436948404358369385869068307272077674102566648149681834185272679384280954782737034627629485340550698540672504374964357100692016211954329405509690496553864931678534181134372700742974128879763375316834989804595259650109853447891920736813036925632756746462876174696036811865840343544097908009090908844787594871601692058357397804941951308387930034965271254590139084601844973557987268278778875915131865859077578777227299973019027564061961040250801698215951635747809781969507951512996768239658330929095789888411808923845256926066147957105297841067814231108336023019392067096842072802263985199233076034875253880044521660387163616150006134555985957613843790398419051157187727971993712289074332757810809039919109313984783560187749294252405970349276887420680152690933588799831212481320415467716477350131058669610824085160525740558650067335935101506968783731176144968042440763028245152911784642908439460863740372269889857495324005974930449229979136667711790823915391976277256773585999765361100070842806065644302735253161413764853474803539323154462347828009245806375942807442883126344370197287332832202161813394351071332475352855028514797323457466460238103018824931650888948219828, 2, 0) := by
  rw [show (624 : Nat) = 24 + (100 + (100 + (100 + (100 + (100 + 100))))) from rfl,
      Function.iterate_add_apply, Function.iterate_add_apply, Function.iterate_add_apply,
      Function.iterate_add_apply, Function.iterate_add_apply, Function.iterate_add_apply,
      mixKeyChunk43x0, mixKeyChunk43x1, mixKeyChunk43x2, mixKeyChunk43x3,
      mixKeyChunk43x4, mixKeyChunk43x5, mixKeyChunk43x6]

theorem mixDecChunk43x0 : mixDecStep^[100] (3822959328067886748574266660083664852823549338335814052061489704345135806448972048303689989244174875075082318311932172609039477136671741164518637722718255441513873187927192322328480695930549709238288877709953320533204823292856397677533548142562121538250941137287921363934625763980495510484730932770562478601503633722211219740687089639842929368155554935549362961775442136703965282945444782475925761775909540087018374152752364699528790173101935560878294485779253261237452730212819951987300381325037120115626006863257637865936262299031240846276967866300515781943399336117325586481081625882589640246870622903006404618204965048284702554093665008652007095738024034421645355485168900263753196575865592045649112072686233243653966215410973270612828913499337368604554476558559011599706114887512054395574414409736751709385930184179141780923213290586411593554839123403512617330748633051102435053596971676728302879274474134171722920559862662855167206993040188703132673777683155371878071807119053462354801425075372056385634858723118270373757992318783473004104014957608896217398182859473502430934960709418384072442250267354877359901054441866155611903641574990524390047791153589533764404431022120706464336244490378206844408858910442862743724016156519483203101277391574816592770565043223420348622932176410474445546387135776654041019460909364363666357182047595681050127456613054609818049696131643529512600714472775850731447063823001252242706072487812244832804138842543429661049285496317419017210231050672623423324602629137431269683277182602189443155862282353126862467509672976269115038122604193474065803642907189365075722298182802160504169250833496270436838873383647907936401223014968673535045528832518671533802081323842246582149712338591073336946952063844044378178663630970164036559249347741979898762103124957773515894085401000054519892121634208829007698859930210052082621888063583402154047531332150271699538781520748436299761547078390045277031695144312043773193369355175491394706014353648806517901943704380870042916924645012156906699861591410569766276618789963234664551812632418629668980370298736386731651510791509139229714627318721328805003910912723247979274988363315554645913012651865533321206850036988828485470201437678567646476101365903848679582056846688060136352415936605865074618131908842061259044510495588014966736635190905363932491339689388218745424385625911486706253769885181583037794331922070675377300154421161087293777101978849916353299016521032268628102170488572267587506134716409230568876911276078215764152850058115021361976444778102623688789700593937887018977531098754278870840252415388327856470531667555915972054346486504750481434825124131838583970999244903561771309055776264958489736019730698204391176155226183660172306301112414993700100127912359080264222864315375307497616994284636850528545560421403878269961175967669424341872089382899300684550016411017151915848728456070801975691818070673731825520495765641222701653287032060104523999186132443911564891459699974885400894518546216523840786014756173632875003351637650616927611045543788744354178591085717150476958863040297782819886344973708567877896263613674995133420241902002169176085085949792724172377838068122276796259944164409944401419860941399391801222150735977594298099767047124783728020301784939310069186586178564608853387003249081468526076703521437793216744501599791328948134882708025777630871020302093899582242427461943886903433334333316649973024488696455653429677663344047838205882236096060702138743388458954171542311938760429331505901918901082472067197093555885690294274351199089789933692957348186428837936286040863314325021250559627078595683106217515030242874441140696536607177914543070682995600731056306202260095174711102632146496449222313782380552149880377597470172280421183634950406412704764421269120701587625566994572059559502633314768712123430499935601822336615966491666963343580559801332264675533353709215814603307671089411642367609867216897221293536791217395485442853470052681313803039553931267628230687696309418448245186473360610453787211639831255210035637964136814877998497386813768593503581266905322313373660033354348868146932981099321535254101153735227440760051833875288784181714523871202242365076651337905034545610187486433284633155322935936977054346016591970194552312117465276920165157166622222398487294585486111716993582577116369225825305684716420651649735919560311290520451434684791866050055693282084114429547928138754023157301465625142024959052270846916651910589439626467358591476897764550050979415747761332349929663634699879639836648329254919370905315344696268119700882546962293663627065222483604605814875081676830759173531341850494123568368546032294479457351841891566210417149007257509996063625951984281914624309163359533410488453264290467932294830128822390170751834996825670837527366636205532414874239947397866003963201041805051596697037462800410362148944412936946436948404358369385869068307272077674102566648149681834185272679384280954782737034627629485340550698540672504374964357100692016211954329405509690496553864931678534181134372700742974128879763375316834989804595259650109853447891920736813036925632756746462876174696036811865840343544097908009090908844787594871601692058357397804941951308387930034965271254590139084601844973557987268278778875915131865859077578777227299973019027564061961040250801698215951635747809781969507951512996768239658330929095789888411808923845256926066147957105297841067814231108336023019392067096842072802263985199233076034875253880044521660387163616150006134555985957613843790398419051157187727971993712289074332757810809039919109313984783560187749294252405970349276887420680152690933588799831212481320415467716477350131058669610824085160525740558650067335935101506968783731176144968042440763028245152911784642908439460863740372269889857495324005974930449229979136667711790823915391976277256773585999765361100070842806065644302735253161413764853474803539323154462347828009245806375942807442883126344370197287332832202161813394351071332475352855028514797323457466460238103018824931650888948219828, 2) = (3822959328067886748574266660083664852823549338335814052061489704345135806448972048303689989244174875075082318311932172609039477136671741164518637722718255441513873187927192322328480695930549709238288877709953320533204823292856397677533548142562121538250941137287921363934625763980495510484730932770562478601503633722211219740687089639842929368155554935549362961775442136703965282945444782475925761775909540087018374152752364699528790173101935560878294485779253261237452730212819951987300381325037120115626006863257637865936262299031240846276967866300515781943399336117325586481081625882589640246870622903006404618204965048284702554093665008652007095738024034421645355485168900263753196575865592045649112072686233243653966215410973270612828913499337368604554476558559011599706114887512054395574414409736751709385930184179141780923213290586411593554839123403512617330748633051102435053596971676728302879274474134171722920559862662855167206993040188703132673777683155371878071807119053462354801425075372056385634858723118270373757992318783473004104014957608896217398182859473502430934960709418384072442250267354877359901054441866155611903641574990524390047791153589533764404431022120706464336244490378206844408858910442862743724016156519483203101277391574816592770565043223420348622932176410474445546387135776654041019460909364363666357182047595681050127456613054609818049696131643529512600714472775850731447063823001252242706072487812244832804138842543429661049285496317419017210231050672623423324602629137431269683277182602189443155862282353126862467509672976269115038122604193474065803642907189365075722298182802160504169250833496270436838873383647907936401223014968673535045528832518671533802081323842246582149712338591073336946952063844044378178663630970164036559249347741979898762103124957773515894085401000054519892121634208829007698859930210052082621888063583402154047531332150271699538781520748436299761547078390045277031695144312043773193369355175491394706014353648806517901943704380870042916924645012156906699861591410569766276618789963234664551812632418629668980370298736386731651510791509139229714627318721328805003910912723247979274988363315554645913012651865533321206850036988828485470201437678567646476101365903848679582056846688060136352415936605865074618131908842061259044510495588014966736635190905363932491339689388218745424385625911486706253769885181583037794331922070675377300154421161087293777101978849916353299016521032268628102170488572267587506134716409230568876911276078215764152850058115021361976444778102623688789700593937887018977531098754278870840252415388327856470531667555915972054346486504750481434825124131838583970999244903561771309055776264958489736019730698204391176155226183660172306301112414993700100127912359080264222864315375307497616994284636850528545560421403878269961175967669424341872089382899300684550016411017151915848728456070801975691818070673731825520495765641222701653287032060104523999186132443911564891459699974885400894518546216523840786014756173632875003351637650616927611045543788744354178591085717150476958863040297782819886344973708567877896263613674995133420241902002169176085085949792724172377838068122276796259944164409944401419860941399391801222150735977594298099767047124783728020301784939310069186586178564608853387003249081468526076703521437793216744501599791328948134882708025777630871020302093899582242427461943886903433334333316649973024488696455653429677663344047838205882236096060702138743388458954171542311938760429331505901918901082472067197093555885690294274351199089789933692957348186428837936286040863314325021250559627078595683106217515030242874441140696536607177914543070682995600731056306202260095174711102632146496449222313782380552149880377597470172280421183634950406412704764421269120701587625566994572059559502633314768712123430499935601822336615966491666963343580559801332264675533353709215814603307671089411642367609867216897221293536791217395485442853470052681313803039553931267628230687696309418448245186473360610453787211639831255210035637964136814877998497386813768593503581266905322313373660033354348868146932981099321535254101153735227440760051833875288784181714523871202242365076651337905034545610187486433284633155322935936977054346016591970194552312117465276920165157166622222398487294585486111716993582577116369225825305684716420651649735919560311290520451434684791866050055693282084114429547928138754023157301465625142024959052270846916651910589439626467358591476897764550050979415747761332349929663634699879639836648329254919370905315344696268119700882546962293663627065222483604605814875081676830759173531341850494123568368546032294479457351841891566210417149007257509996063625951984281914624309163359533410488453264290467932294830128822390170751834996825670837527366636205532414874239947397866003963201041805051596697037462800410362148944412936946436948404358369385869068307272077674102566648149681834185272679384280954782737034627629485340550698540672504374964357100692016211954329405509690496553864931678534181134372700742974128884938544236155690041300567924168038909620930749121325021591828089874832089290957604875297729708718200334097653338847175355169523131567800134302515806297033445037347450893030709998077994400372013436600124087253194552352237577254702701148399731879985906328697230400959821810904942346734730851092387066399789792114445749057660292531177852961737877381810384512104268308326860827213801705297116548069322281610218039849059811385778457901006070549604735602586250186014089147865191649463103204733104750411352716087096505222280853859763086965235778683686572624021262971105048144827302958018310143341807582107265459257421098105899934827228172111570727687817832331236769030832511816331753242316918287712275808746390807667396258626811431719495665121368257455046823318593458873820414631876967179520386264956974837483658087291089157017612894659179524379185737323355494697639786635105893643270441478403253386925109645318616331052239268022561602101107954102759019704383559772548113548580469192228788, 102) := by rfl

theorem mixDecChunk43x1 : mixDecStep^[100] (3822959328067886748574266660083664852823549338335814052061489704345135806448972048303689989244174875075082318311932172609039477136671741164518637722718255441513873187927192322328480695930549709238288877709953320533204823292856397677533548142562121538250941137287921363934625763980495510484730932770562478601503633722211219740687089639842929368155554935549362961775442136703965282945444782475925761775909540087018374152752364699528790173101935560878294485779253261237452730212819951987300381325037120115626006863257637865936262299031240846276967866300515781943399336117325586481081625882589640246870622903006404618204965048284702554093665008652007095738024034421645355485168900263753196575865592045649112072686233243653966215410973270612828913499337368604554476558559011599706114887512054395574414409736751709385930184179141780923213290586411593554839123403512617330748633051102435053596971676728302879274474134171722920559862662855167206993040188703132673777683155371878071807119053462354801425075372056385634858723118270373757992318783473004104014957608896217398182859473502430934960709418384072442250267354877359901054441866155611903641574990524390047791153589533764404431022120706464336244490378206844408858910442862743724016156519483203101277391574816592770565043223420348622932176410474445546387135776654041019460909364363666357182047595681050127456613054609818049696131643529512600714472775850731447063823001252242706072487812244832804138842543429661049285496317419017210231050672623423324602629137431269683277182602189443155862282353126862467509672976269115038122604193474065803642907189365075722298182802160504169250833496270436838873383647907936401223014968673535045528832518671533802081323842246582149712338591073336946952063844044378178663630970164036559249347741979898762103124957773515894085401000054519892121634208829007698859930210052082621888063583402154047531332150271699538781520748436299761547078390045277031695144312043773193369355175491394706014353648806517901943704380870042916924645012156906699861591410569766276618789963234664551812632418629668980370298736386731651510791509139229714627318721328805003910912723247979274988363315554645913012651865533321206850036988828485470201437678567646476101365903848679582056846688060136352415936605865074618131908842061259044510495588014966736635190905363932491339689388218745424385625911486706253769885181583037794331922070675377300154421161087293777101978849916353299016521032268628102170488572267587506134716409230568876911276078215764152850058115021361976444778102623688789700593937887018977531098754278870840252415388327856470531667555915972054346486504750481434825124131838583970999244903561771309055776264958489736019730698204391176155226183660172306301112414993700100127912359080264222864315375307497616994284636850528545560421403878269961175967669424341872089382899300684550016411017151915848728456070801975691818070673731825520495765641222701653287032060104523999186132443911564891459699974885400894518546216523840786014756173632875003351637650616927611045543788744354178591085717150476958863040297782819886344973708567877896263613674995133420241902002169176085085949792724172377838068122276796259944164409944401419860941399391801222150735977594298099767047124783728020301784939310069186586178564608853387003249081468526076703521437793216744501599791328948134882708025777630871020302093899582242427461943886903433334333316649973024488696455653429677663344047838205882236096060702138743388458954171542311938760429331505901918901082472067197093555885690294274351199089789933692957348186428837936286040863314325021250559627078595683106217515030242874441140696536607177914543070682995600731056306202260095174711102632146496449222313782380552149880377597470172280421183634950406412704764421269120701587625566994572059559502633314768712123430499935601822336615966491666963343580559801332264675533353709215814603307671089411642367609867216897221293536791217395485442853470052681313803039553931267628230687696309418448245186473360610453787211639831255210035637964136814877998497386813768593503581266905322313373660033354348868146932981099321535254101153735227440760051833875288784181714523871202242365076651337905034545610187486433284633155322935936977054346016591970194552312117465276920165157166622222398487294585486111716993582577116369225825305684716420651649735919560311290520451434684791866050055693282084114429547928138754023157301465625142024959052270846916651910589439626467358591476897764550050979415747761332349929663634699879639836648329254919370905315344696268119700882546962293663627065222483604605814875081676830759173531341850494123568368546032294479457351841891566210417149007257509996063625951984281914624309163359533410488453264290467932294830128822390170751834996825670837527366636205532414874239947397866003963201041805051596697037462800410362148944412936946436948404358369385869068307272077674102566648149681834185272679384280954782737034627629485340550698540672504374964357100692016211954329405509690496553864931678534181134372700742974128884938544236155690041300567924168038909620930749121325021591828089874832089290957604875297729708718200334097653338847175355169523131567800134302515806297033445037347450893030709998077994400372013436600124087253194552352237577254702701148399731879985906328697230400959821810904942346734730851092387066399789792114445749057660292531177852961737877381810384512104268308326860827213801705297116548069322281610218039849059811385778457901006070549604735602586250186014089147865191649463103204733104750411352716087096505222280853859763086965235778683686572624021262971105048144827302958018310143341807582107265459257421098105899934827228172111570727687817832331236769030832511816331753242316918287712275808746390807667396258626811431719495665121368257455046823318593458873820414631876967179520386264956974837483658087291089157017612894659179524379185737323355494697639786635105893643270441478403253386925109645318616331052239268022561602101107954102759019704383559772548113548580469192228788, 102) = (3822959328067886748574266660083664852823549338335814052061489704345135806448972048303689989244174875075082318311932172609039477136671741164518637722718255441513873187927192322328480695930549709238288877709953320533204823292856397677533548142562121538250941137287921363934625763980495510484730932770562478601503633722211219740687089639842929368155554935549362961775442136703965282945444782475925761775909540087018374152752364699528790173101935560878294485779253261237452730212819951987300381325037120115626006863257637865936262299031240846276967866300515781943399336117325586481081625882589640246870622903006404618204965048284702554093665008652007095738024034421645355485168900263753196575865592045649112072686233243653966215410973270612828913499337368604554476558559011599706114887512054395574414409736751709385930184179141780923213290586411593554839123403512617330748633051102435053596971676728302879274474134171722920559862662855167206993040188703132673777683155371878071807119053462354801425075372056385634858723118270373757992318783473004104014957608896217398182859473502430934960709418384072442250267354877359901054441866155611903641574990524390047791153589533764404431022120706464336244490378206844408858910442862743724016156519483203101277391574816592770565043223420348622932176410474445546387135776654041019460909364363666357182047595681050127456613054609818049696131643529512600714472775850731447063823001252242706072487812244832804138842543429661049285496317419017210231050672623423324602629137431269683277182602189443155862282353126862467509672976269115038122604193474065803642907189365075722298182802160504169250833496270436838873383647907936401223014968673535045528832518671533802081323842246582149712338591073336946952063844044378178663630970164036559249347741979898762103124957773515894085401000054519892121634208829007698859930210052082621888063583402154047531332150271699538781520748436299761547078390045277031695144312043773193369355175491394706014353648806517901943704380870042916924645012156906699861591410569766276618789963234664551812632418629668980370298736386731651510791509139229714627318721328805003910912723247979274988363315554645913012651865533321206850036988828485470201437678567646476101365903848679582056846688060136352415936605865074618131908842061259044510495588014966736635190905363932491339689388218745424385625911486706253769885181583037794331922070675377300154421161087293777101978849916353299016521032268628102170488572267587506134716409230568876911276078215764152850058115021361976444778102623688789700593937887018977531098754278870840252415388327856470531667555915972054346486504750481434825124131838583970999244903561771309055776264958489736019730698204391176155226183660172306301112414993700100127912359080264222864315375307497616994284636850528545560421403878269961175967669424341872089382899300684550016411017151915848728456070801975691818070673731825520495765641222701653287032060104523999186132443911564891459699974885400894518546216523840786014756173632875003351637650616927611045543788744354178591085717150476958863040297782819886344973708567877896263613674995133420241902002169176085085949792724172377838068122276796259944164409944401419860941399391801222150735977594298099767047124783728020301784939310069186586178564608853387003249081468526076703521437793216744501599791328948134882708025777630871020302093899582242427461943886903433334333316649973024488696455653429677663344047838205882236096060702138743388458954171542311938760429331505901918901082472067197093555885690294274351199089789933692957348186428837936286040863314325021250559627078595683106217515030242874441140696536607177914543070682995600731056306202260095174711102632146496449222313782380552149880377597470172280421183634950406412704764421269120701587625566994572059559502633314768712123430499935601822336615966491666963343580559801332264675533353709215814603307671089411642367609867216897221293536791217395485442853470052681313803039553931267628230687696309418448245186473360610453787211639831255210035637964136814877998497386813768593503581266871425581709771675286834435406845762093616692308404655008977353095204945037423659216457888613761994387989050106295706827831412851619986122176874129779757959205520927680497060240453731503637189845213259909382097557336928707755665170717874508857096133965872787049339801424603021491474877644694162718722284229482255877496148689526977651704685061228748999953373388050075500772208681004786165778922434907943596686564229727096918382713816708258063533313567903279196018084836232666837301925776610992946777542546291423354115357424144947922199265789472605633889713489082637682824544434088371815500071585869428876635961361825996811769453666735963608745448063589016512373020405330186434597130226286692408280873044572340571647316993045965584680290897030567668956621102468402311617179978018157651140948389643223706695538315228606176077709389969728736377702083645980871107953890378836276359574620749364718880765414350972984602364440418450341715612353812455375856660424257982826934763120072931509875819483168250032999467414917174278882966770244443844714695582212294090003334488928043054952215834136668686840440480045931632072221563286238038523840364464229102637440406080174878086587087201004956961453934296432499802964291844165974855534140637909210175840892238371605257425553031635422692827542055315157780962458412893180604249847562244822479960120902776182921847205767881103364488392966713784774609665744407441155928213874875834566182360505163684195473649044927423706345989109416609636743622831255521833647168552259940653279734445758572155635851378489542283661593042389001059267951522298287763583934584351663590705599631454133826235482381975886973254009935384698039395495319152103211324375625037076052759750631671906159601359922971540333857171768809666852734114954736318386717506555816719484973006159280407164553881440841356583227769605576783287711672188601366427409384257203754827610864181625672975904280066601707066119677123832466836936089680197627668375502772, 202) := by rfl

theorem mixDecChunk43x2 : mixDecStep^[100] (3822959328067886748574266660083664852823549338335814052061489704345135806448972048303689989244174875075082318311932172609039477136671741164518637722718255441513873187927192322328480695930549709238288877709953320533204823292856397677533548142562121538250941137287921363934625763980495510484730932770562478601503633722211219740687089639842929368155554935549362961775442136703965282945444782475925761775909540087018374152752364699528790173101935560878294485779253261237452730212819951987300381325037120115626006863257637865936262299031240846276967866300515781943399336117325586481081625882589640246870622903006404618204965048284702554093665008652007095738024034421645355485168900263753196575865592045649112072686233243653966215410973270612828913499337368604554476558559011599706114887512054395574414409736751709385930184179141780923213290586411593554839123403512617330748633051102435053596971676728302879274474134171722920559862662855167206993040188703132673777683155371878071807119053462354801425075372056385634858723118270373757992318783473004104014957608896217398182859473502430934960709418384072442250267354877359901054441866155611903641574990524390047791153589533764404431022120706464336244490378206844408858910442862743724016156519483203101277391574816592770565043223420348622932176410474445546387135776654041019460909364363666357182047595681050127456613054609818049696131643529512600714472775850731447063823001252242706072487812244832804138842543429661049285496317419017210231050672623423324602629137431269683277182602189443155862282353126862467509672976269115038122604193474065803642907189365075722298182802160504169250833496270436838873383647907936401223014968673535045528832518671533802081323842246582149712338591073336946952063844044378178663630970164036559249347741979898762103124957773515894085401000054519892121634208829007698859930210052082621888063583402154047531332150271699538781520748436299761547078390045277031695144312043773193369355175491394706014353648806517901943704380870042916924645012156906699861591410569766276618789963234664551812632418629668980370298736386731651510791509139229714627318721328805003910912723247979274988363315554645913012651865533321206850036988828485470201437678567646476101365903848679582056846688060136352415936605865074618131908842061259044510495588014966736635190905363932491339689388218745424385625911486706253769885181583037794331922070675377300154421161087293777101978849916353299016521032268628102170488572267587506134716409230568876911276078215764152850058115021361976444778102623688789700593937887018977531098754278870840252415388327856470531667555915972054346486504750481434825124131838583970999244903561771309055776264958489736019730698204391176155226183660172306301112414993700100127912359080264222864315375307497616994284636850528545560421403878269961175967669424341872089382899300684550016411017151915848728456070801975691818070673731825520495765641222701653287032060104523999186132443911564891459699974885400894518546216523840786014756173632875003351637650616927611045543788744354178591085717150476958863040297782819886344973708567877896263613674995133420241902002169176085085949792724172377838068122276796259944164409944401419860941399391801222150735977594298099767047124783728020301784939310069186586178564608853387003249081468526076703521437793216744501599791328948134882708025777630871020302093899582242427461943886903433334333316649973024488696455653429677663344047838205882236096060702138743388458954171542311938760429331505901918901082472067197093555885690294274351199089789933692957348186428837936286040863314325021250559627078595683106217515030242874441140696536607177914543070682995600731056306202260095174711102632146496449222313782380552149880377597470172280421183634950406412704764421269120701587625566994572059559502633314768712123430499935601822336615966491666963343580559801332264675533353709215814603307671089411642367609867216897221293536791217395485442853470052681313803039553931267628230687696309418448245186473360610453787211639831255210035637964136814877998497386813768593503581266871425581709771675286834435406845762093616692308404655008977353095204945037423659216457888613761994387989050106295706827831412851619986122176874129779757959205520927680497060240453731503637189845213259909382097557336928707755665170717874508857096133965872787049339801424603021491474877644694162718722284229482255877496148689526977651704685061228748999953373388050075500772208681004786165778922434907943596686564229727096918382713816708258063533313567903279196018084836232666837301925776610992946777542546291423354115357424144947922199265789472605633889713489082637682824544434088371815500071585869428876635961361825996811769453666735963608745448063589016512373020405330186434597130226286692408280873044572340571647316993045965584680290897030567668956621102468402311617179978018157651140948389643223706695538315228606176077709389969728736377702083645980871107953890378836276359574620749364718880765414350972984602364440418450341715612353812455375856660424257982826934763120072931509875819483168250032999467414917174278882966770244443844714695582212294090003334488928043054952215834136668686840440480045931632072221563286238038523840364464229102637440406080174878086587087201004956961453934296432499802964291844165974855534140637909210175840892238371605257425553031635422692827542055315157780962458412893180604249847562244822479960120902776182921847205767881103364488392966713784774609665744407441155928213874875834566182360505163684195473649044927423706345989109416609636743622831255521833647168552259940653279734445758572155635851378489542283661593042389001059267951522298287763583934584351663590705599631454133826235482381975886973254009935384698039395495319152103211324375625037076052759750631671906159601359922971540333857171768809666852734114954736318386717506555816719484973006159280407164553881440841356583227769605576783287711672188601366427409384257203754827610864181625672975904280066601707066119677123832466836936089680197627668375502772, 202) = (3822959328067886748574266660083664852823549338335814052061489704345135806448972048303689989244174875075082318311932172609039477136671741164518637722718255441513873187927192322328480695930549709238288877709953320533204823292856397677533548142562121538250941137287921363934625763980495510484730932770562478601503633722211219740687089639842929368155554935549362961775442136703965282945444782475925761775909540087018374152752364699528790173101935560878294485779253261237452730212819951987300381325037120115626006863257637865936262299031240846276967866300515781943399336117325586481081625882589640246870622903006404618204965048284702554093665008652007095738024034421645355485168900263753196575865592045649112072686233243653966215410973270612828913499337368604554476558559011599706114887512054395574414409736751709385930184179141780923213290586411593554839123403512617330748633051102435053596971676728302879274474134171722920559862662855167206993040188703132673777683155371878071807119053462354801425075372056385634858723118270373757992318783473004104014957608896217398182859473502430934960709418384072442250267354877359901054441866155611903641574990524390047791153589533764404431022120706464336244490378206844408858910442862743724016156519483203101277391574816592770565043223420348622932176410474445546387135776654041019460909364363666357182047595681050127456613054609818049696131643529512600714472775850731447063823001252242706072487812244832804138842543429661049285496317419017210231050672623423324602629137431269683277182602189443155862282353126862467509672976269115038122604193474065803642907189365075722298182802160504169250833496270436838873383647907936401223014968673535045528832518671533802081323842246582149712338591073336946952063844044378178663630970164036559249347741979898762103124957773515894085401000054519892121634208829007698859930210052082621888063583402154047531332150271699538781520748436299761547078390045277031695144312043773193369355175491394706014353648806517901943704380870042916924645012156906699861591410569766276618789963234664551812632418629668980370298736386731651510791509139229714627318721328805003910912723247979274988363315554645913012651865533321206850036988828485470201437678567646476101365903848679582056846688060136352415936605865074618131908842061259044510495588014966736635190905363932491339689388218745424385625911486706253769885181583037794331922070675377300154421161087293777101978849916353299016521032268628102170488572267587506134716409230568876911276078215764152850058115021361976444778102623688789700593937887018977531098754278870840252415388327856470531667555915972054346486504750481434825124131838583970999244903561771309055776264958489736019730698204391176155226183660172306301112414993700100127912359080264222864315375307497616994284636850528545560421403878269961175967669424341872089382899300684550016411017151915848728456070801975691818070673731825520495765641222701653287032060104523999186132443911564891459699974885400894518546216523840786014756173632875003351637650616927611045543788744354178591085717150476958863040297782819886344973708567877896263625227951608805245451877952713915185057509997631812213955689610055814706282433121188193932971260592536209132027983402425192988949305966080363624309035617446970004469699282304822081763374101461912052670966968995868594433802809312043645285886889125021784927937166802774268051962072451477507692598220317407413056949941545093323729119053243531325167953324712316527198864427095082358172727826704285782831466820627706491328793387634821268354588680770590684393469668053412098753106759060241120760658682622929284069894683253368020369356270045662782819423636992580791218604259256674838709514822871315443221017952721004942143050471720268601808815019320278756514068547033667953706617767118266396876972524159362581003527647989736068649985844118247108340615416792596793040484867745361722356784388159435422182952683518796082759417585537088380867987125915293771154235484076033084481347522730920134371296580241614675369044586319044520052666531511042978830982331764777323979221203486227985411194356760142027634687191625731003424967001490202185510311577247730559968720752850412141472529667500830324821459724301157291475392490665127827810560656181162182972991115690480065232530365760428063407373124526054214043200325134783600585782573251637911143447275780672185950206758314178223330345102130968448278770036815997722959226616427542466855331424492557794517192421759237623138128227253298524315776760483477178305124243552732433160518341635807478072240823581898116552139748136514490820814523247798262187528007047310527509137725886331123698065942702023176947205108672611782235380562737494030716236011012845003205455667888747228171685817273431225386087013976539625131052883477065921204446076295108567409929020708379279350907687610652955767101255548936019691605493114159442954996360746961261987518344792887769157171224715632354370331243250932999809588908459806427174399191813739867442518084941592934326360897007574596444864478865904274598269331800734177391657593338485725817452895468323597849457238086473906723133150455338866862918939197532829190723684883663161367506352205186799637137064017824357782632522081833659024676760688566054959060186530264480772978853585002096966689625952723236422222311853817306138446677074010710418143061106480774252577727596678473822233278185675485553866193339791666289589835856181469040783344007541953153178409123513912065650205280016621302644801159114720686342844728734042932982886994701668001878280305237490053586951277453251820191092884010524151140176283576214527146788645859703676487728893907458509572284543505797277956414113533997205677438849712696932530946678179544173368994918719407920900718282024747338718790406756814693908855155638628614636970743828290643652647922892185327981730206884639487654287013049194848651338433011038741889101643604970092716531672998586550739563739951563479108109326208500546925305614416552905467909104364485839466153376445263533425075876449715398836005184881158961545314228, 302) := by rfl

theorem mixDecChunk43x3 : mixDecStep^[100] (3822959328067886748574266660083664852823549338335814052061489704345135806448972048303689989244174875075082318311932172609039477136671741164518637722718255441513873187927192322328480695930549709238288877709953320533204823292856397677533548142562121538250941137287921363934625763980495510484730932770562478601503633722211219740687089639842929368155554935549362961775442136703965282945444782475925761775909540087018374152752364699528790173101935560878294485779253261237452730212819951987300381325037120115626006863257637865936262299031240846276967866300515781943399336117325586481081625882589640246870622903006404618204965048284702554093665008652007095738024034421645355485168900263753196575865592045649112072686233243653966215410973270612828913499337368604554476558559011599706114887512054395574414409736751709385930184179141780923213290586411593554839123403512617330748633051102435053596971676728302879274474134171722920559862662855167206993040188703132673777683155371878071807119053462354801425075372056385634858723118270373757992318783473004104014957608896217398182859473502430934960709418384072442250267354877359901054441866155611903641574990524390047791153589533764404431022120706464336244490378206844408858910442862743724016156519483203101277391574816592770565043223420348622932176410474445546387135776654041019460909364363666357182047595681050127456613054609818049696131643529512600714472775850731447063823001252242706072487812244832804138842543429661049285496317419017210231050672623423324602629137431269683277182602189443155862282353126862467509672976269115038122604193474065803642907189365075722298182802160504169250833496270436838873383647907936401223014968673535045528832518671533802081323842246582149712338591073336946952063844044378178663630970164036559249347741979898762103124957773515894085401000054519892121634208829007698859930210052082621888063583402154047531332150271699538781520748436299761547078390045277031695144312043773193369355175491394706014353648806517901943704380870042916924645012156906699861591410569766276618789963234664551812632418629668980370298736386731651510791509139229714627318721328805003910912723247979274988363315554645913012651865533321206850036988828485470201437678567646476101365903848679582056846688060136352415936605865074618131908842061259044510495588014966736635190905363932491339689388218745424385625911486706253769885181583037794331922070675377300154421161087293777101978849916353299016521032268628102170488572267587506134716409230568876911276078215764152850058115021361976444778102623688789700593937887018977531098754278870840252415388327856470531667555915972054346486504750481434825124131838583970999244903561771309055776264958489736019730698204391176155226183660172306301112414993700100127912359080264222864315375307497616994284636850528545560421403878269961175967669424341872089382899300684550016411017151915848728456070801975691818070673731825520495765641222701653287032060104523999186132443911564891459699974885400894518546216523840786014756173632875003351637650616927611045543788744354178591085717150476958863040297782819886344973708567877896263625227951608805245451877952713915185057509997631812213955689610055814706282433121188193932971260592536209132027983402425192988949305966080363624309035617446970004469699282304822081763374101461912052670966968995868594433802809312043645285886889125021784927937166802774268051962072451477507692598220317407413056949941545093323729119053243531325167953324712316527198864427095082358172727826704285782831466820627706491328793387634821268354588680770590684393469668053412098753106759060241120760658682622929284069894683253368020369356270045662782819423636992580791218604259256674838709514822871315443221017952721004942143050471720268601808815019320278756514068547033667953706617767118266396876972524159362581003527647989736068649985844118247108340615416792596793040484867745361722356784388159435422182952683518796082759417585537088380867987125915293771154235484076033084481347522730920134371296580241614675369044586319044520052666531511042978830982331764777323979221203486227985411194356760142027634687191625731003424967001490202185510311577247730559968720752850412141472529667500830324821459724301157291475392490665127827810560656181162182972991115690480065232530365760428063407373124526054214043200325134783600585782573251637911143447275780672185950206758314178223330345102130968448278770036815997722959226616427542466855331424492557794517192421759237623138128227253298524315776760483477178305124243552732433160518341635807478072240823581898116552139748136514490820814523247798262187528007047310527509137725886331123698065942702023176947205108672611782235380562737494030716236011012845003205455667888747228171685817273431225386087013976539625131052883477065921204446076295108567409929020708379279350907687610652955767101255548936019691605493114159442954996360746961261987518344792887769157171224715632354370331243250932999809588908459806427174399191813739867442518084941592934326360897007574596444864478865904274598269331800734177391657593338485725817452895468323597849457238086473906723133150455338866862918939197532829190723684883663161367506352205186799637137064017824357782632522081833659024676760688566054959060186530264480772978853585002096966689625952723236422222311853817306138446677074010710418143061106480774252577727596678473822233278185675485553866193339791666289589835856181469040783344007541953153178409123513912065650205280016621302644801159114720686342844728734042932982886994701668001878280305237490053586951277453251820191092884010524151140176283576214527146788645859703676487728893907458509572284543505797277956414113533997205677438849712696932530946678179544173368994918719407920900718282024747338718790406756814693908855155638628614636970743828290643652647922892185327981730206884639487654287013049194848651338433011038741889101643604970092716531672998586550739563739951563479108109326208500546925305614416552905467909104364485839466153376445263533425075876449715398836005184881158961545314228, 302) = (3822959328067886748574266660083664852823549338335814052061489704345135806448972048303689989244174875075082318311932172609039477136671741164518637722718255441513873187927192322328480695930549709238288877709953320533204823292856397677533548142562121538250941137287921363934625763980495510484730932770562478601503633722211219740687089639842929368155554935549362961775442136703965282945444782475925761775909540087018374152752364699528790173101935560878294485779253261237452730212819951987300381325037120115626006863257637865936262299031240846276967866300515781943399336117325586481081625882589640246870622903006404618204965048284702554093665008652007095738024034421645355485168900263753196575865592045649112072686233243653966215410973270612828913499337368604554476558559011599706114887512054395574414409736751709385930184179141780923213290586411593554839123403512617330748633051102435053596971676728302879274474134171722920559862662855167206993040188703132673777683155371878071807119053462354801425075372056385634858723118270373757992318783473004104014957608896217398182859473502430934960709418384072442250267354877359901054441866155611903641574990524390047791153589533764404431022120706464336244490378206844408858910442862743724016156519483203101277391574816592770565043223420348622932176410474445546387135776654041019460909364363666357182047595681050127456613054609818049696131643529512600714472775850731447063823001252242706072487812244832804138842543429661049285496317419017210231050672623423324602629137431269683277182602189443155862282353126862467509672976269115038122604193474065803642907189365075722298182802160504169250833496270436838873383647907936401223014968673535045528832518671533802081323842246582149712338591073336946952063844044378178663630970164036559249347741979898762103124957773515894085401000054519892121634208829007698859930210052082621888063583402154047531332150271699538781520748436299761547078390045277031695144312043773193369355175491394706014353648806517901943704380870042916924645012156906699861591410569766276618789963234664551812632418629668980370298736386731651510791509139229714627318721328805003910912723248040113026977927109303768833430470757475729881404860048075383251399953807194785649325214036190627054936529176486494221969658801124208702962067801923619099436212479867275075752037528727987408476562477386208403017682073258583549064216856840487028600757446539245798372478928495477577992765114012099353009347612628026605048831465399210856339066941087774230378342625078806188893838532750020966556441349627856761562283558731689566256269061958385346387790848430768088197098814785030655044861474905566157353897464676895524538293472766818872983833260848738019335210932658094996342360897508558118292734057573799609265617080926649757075464143400907639594603348003721581286517602593781812402782478576780593805060381283915004634060995371596299287825955256295678764999402270025757993269814781774617669766447047310440606107430607533547669920346697642046778861388150648375610926744173714554904660940581418857382313273533773486426528464040982835954216155308359641371769677144232419323325211671361782267238749810165921050309927210538159105397222855026146951664609147071688818432762384624187082350267950682117730529256707160625885380721455702994845896592672248945790340222619003199308779837046147511594920724000982892254382554307610842808172188736921682974027652947548285334798278680391369170955565075280090576057743573800033660027891432913542942970221796204817006342001033140707161177480999954246696707723278906908253644310013951790998252518371116489406715341573264349929051423606778641670536302697224148998167602387750045780534089935223466687032172943285184168954200192158742632228387693402280129007380324468035034686365478621285990699590732239488817210595319006857718763700210266760282730686706570972750809473528759847365816492288643541977715124018919452630205871399817014364947851587010806091555731679580204045569125439422537091869718639319276188442587682585898572490179579070820617529755117058964194818897514346610366066677707141145720512650946299095938012964310096816198987525881860820239605255225054216784914841649574122776047225517006309688208391862497006547837071529726755573253679421037286169313054432042355671407667420397148921487226565577595132879005205031682930527539301488870132514519432993464566550326041794343573838659132819909513916139553670504274537252563321463067814058929914432568563795616148792442729492315072951909445699316394188548917957919770798332939187780384204395417834034764123668871178588451565733530497258594213353062991443940679381131760827864668325860933050278353636769264832838591363952901491236462677407627783732426209252459655879878795936147422288835614239650407548968486204201996747978255345763686961439734857465677990984347081424528762623116880309767766705065458598087566085723787829983843370618130247810135373512048297371305291222569366122389749272649242671799719521437594729661719860717174645139201444880068159185201140536651682070739234688774060160546962794878253942004891508455048387079436467033884636226814414446577067191717768318754829051682602263764546329405540264637780188782101404460215497937445204150873677802712446587283468838751965697334145985906243543916527020865228113054146805962822556176621448213243810210149211032462202881909082552906331016799884673358800901215264316985129827154651502504985806770022878640749031825643694034629319024922021225712056140141885191296740560411053315795640838678167276601067467281906140156646307920362206946421654138695560541529109145811652133675251170278511072048026958232559822568280219908140413287429983397582556864229271641632218558515991883870852765962625968097281725170218325243160660288358685442995638231128392093447097377403706217829851599972584597523680134839828711826955743421811948689844030531787104232714492408415685328028197387250750522497649815546298848945001047406257128597120791633728598230125556163714715493841464098739763574292674561509110828540921056133137305425968585688481446631101401366452, 402) := by rfl

theorem mixDecChunk43x4 : mixDecStep^[100] (3822959328067886748574266660083664852823549338335814052061489704345135806448972048303689989244174875075082318311932172609039477136671741164518637722718255441513873187927192322328480695930549709238288877709953320533204823292856397677533548142562121538250941137287921363934625763980495510484730932770562478601503633722211219740687089639842929368155554935549362961775442136703965282945444782475925761775909540087018374152752364699528790173101935560878294485779253261237452730212819951987300381325037120115626006863257637865936262299031240846276967866300515781943399336117325586481081625882589640246870622903006404618204965048284702554093665008652007095738024034421645355485168900263753196575865592045649112072686233243653966215410973270612828913499337368604554476558559011599706114887512054395574414409736751709385930184179141780923213290586411593554839123403512617330748633051102435053596971676728302879274474134171722920559862662855167206993040188703132673777683155371878071807119053462354801425075372056385634858723118270373757992318783473004104014957608896217398182859473502430934960709418384072442250267354877359901054441866155611903641574990524390047791153589533764404431022120706464336244490378206844408858910442862743724016156519483203101277391574816592770565043223420348622932176410474445546387135776654041019460909364363666357182047595681050127456613054609818049696131643529512600714472775850731447063823001252242706072487812244832804138842543429661049285496317419017210231050672623423324602629137431269683277182602189443155862282353126862467509672976269115038122604193474065803642907189365075722298182802160504169250833496270436838873383647907936401223014968673535045528832518671533802081323842246582149712338591073336946952063844044378178663630970164036559249347741979898762103124957773515894085401000054519892121634208829007698859930210052082621888063583402154047531332150271699538781520748436299761547078390045277031695144312043773193369355175491394706014353648806517901943704380870042916924645012156906699861591410569766276618789963234664551812632418629668980370298736386731651510791509139229714627318721328805003910912723248040113026977927109303768833430470757475729881404860048075383251399953807194785649325214036190627054936529176486494221969658801124208702962067801923619099436212479867275075752037528727987408476562477386208403017682073258583549064216856840487028600757446539245798372478928495477577992765114012099353009347612628026605048831465399210856339066941087774230378342625078806188893838532750020966556441349627856761562283558731689566256269061958385346387790848430768088197098814785030655044861474905566157353897464676895524538293472766818872983833260848738019335210932658094996342360897508558118292734057573799609265617080926649757075464143400907639594603348003721581286517602593781812402782478576780593805060381283915004634060995371596299287825955256295678764999402270025757993269814781774617669766447047310440606107430607533547669920346697642046778861388150648375610926744173714554904660940581418857382313273533773486426528464040982835954216155308359641371769677144232419323325211671361782267238749810165921050309927210538159105397222855026146951664609147071688818432762384624187082350267950682117730529256707160625885380721455702994845896592672248945790340222619003199308779837046147511594920724000982892254382554307610842808172188736921682974027652947548285334798278680391369170955565075280090576057743573800033660027891432913542942970221796204817006342001033140707161177480999954246696707723278906908253644310013951790998252518371116489406715341573264349929051423606778641670536302697224148998167602387750045780534089935223466687032172943285184168954200192158742632228387693402280129007380324468035034686365478621285990699590732239488817210595319006857718763700210266760282730686706570972750809473528759847365816492288643541977715124018919452630205871399817014364947851587010806091555731679580204045569125439422537091869718639319276188442587682585898572490179579070820617529755117058964194818897514346610366066677707141145720512650946299095938012964310096816198987525881860820239605255225054216784914841649574122776047225517006309688208391862497006547837071529726755573253679421037286169313054432042355671407667420397148921487226565577595132879005205031682930527539301488870132514519432993464566550326041794343573838659132819909513916139553670504274537252563321463067814058929914432568563795616148792442729492315072951909445699316394188548917957919770798332939187780384204395417834034764123668871178588451565733530497258594213353062991443940679381131760827864668325860933050278353636769264832838591363952901491236462677407627783732426209252459655879878795936147422288835614239650407548968486204201996747978255345763686961439734857465677990984347081424528762623116880309767766705065458598087566085723787829983843370618130247810135373512048297371305291222569366122389749272649242671799719521437594729661719860717174645139201444880068159185201140536651682070739234688774060160546962794878253942004891508455048387079436467033884636226814414446577067191717768318754829051682602263764546329405540264637780188782101404460215497937445204150873677802712446587283468838751965697334145985906243543916527020865228113054146805962822556176621448213243810210149211032462202881909082552906331016799884673358800901215264316985129827154651502504985806770022878640749031825643694034629319024922021225712056140141885191296740560411053315795640838678167276601067467281906140156646307920362206946421654138695560541529109145811652133675251170278511072048026958232559822568280219908140413287429983397582556864229271641632218558515991883870852765962625968097281725170218325243160660288358685442995638231128392093447097377403706217829851599972584597523680134839828711826955743421811948689844030531787104232714492408415685328028197387250750522497649815546298848945001047406257128597120791633728598230125556163714715493841464098739763574292674561509110828540921056133137305425968585688481446631101401366452, 402) = (3822959328067886748574266660083664852823549338335814052061489704345135806448972048303689989244174875075082318311932172609039477136671741164518637722718255441513873187927192322328480695930549709238288877709953320533204823292856397677533548142562121538250941137287921363934625763980495510484730932770562478601503633722211219740687089639842929368155554935549362961775442136703965282945444782475925761775909540087018374152752364699528790173101935560878294485779253261237452730212819951987300381325037120115626006863257637865936262299031240846276967866300515781943399336117325586481081625882589640246870622903006404618204965048284702554093665008652007095738024034421645355485168900263753196575865592045649112072686233243653966215410973270612828913499337368604554476558559011599706114887512054395574414409736751709385930184179141780923213290586411593554839123403512617330748633051102435053596971676728302879274474134171722920559862662855167206993040188703132673777683155371878071807119053462354801425075372056385634858723118270373757992318783473004104014957608896217398182859473502430934960709418384072442250267354877359901054441866155611903641574990524390047791153589533764404431008927368945773909745529201465008831715838848094650956139522218965373371577051284889287255757114434418959174396708398143569266415617872804322271742267733722301357397749080597244747711247866794029360117533626819858515716022399633624984530391780236353263081720950321278786287535667867811165641368127282333455898741576965566971537813040926618381367942003376109273879524550570071727877476341585118967027880722927617875752293430954996259273032045245829771025108430700193915049868311255208499941928087001438914044032853367908010229812045850882859898310821315389845691131449012567076899763867228823248365003579005676038760089232159824108415720389219951143394403382174084654207794238428766470215633157208824130394099640818798503212554025472858337267790046387831127912676340284113108426521658893457999333751140530258648579909617803547248707369150300529277831512294123516391446653353040758580525592528740267398484895365435024665157875718506530227553293816375104328179067582599662351199315504425475417487198405652288281701812088097970469341446304527031650960405040966411832265485870887472913087732112633647115955004274563018503765956801877108797145694477122160887270757491889972047674321679297985197130186639214960328149488681821387526544739450912870146191749066850332798946420279114405430191844691167509581430216418034608904298734767888922657478542612423009556390538970960953499826974780396485280140409156780111482847319675644886840670497794321413411747900231474731253730402868199854085762562457202255941283782633935362101229049970408622566502399601453979645115943469195999334990368630738808800119367474860288040930262847579148495666581442642921999390498930986906987015323657669800398995103949983999908530461772025141975136646629850783165469895254830709556563149273170340725304385460316870802923449095379778180175053004452919706283481454508154748021352608321897612345868313896788066633030324558747269547627318346074904450947529064785203064304994029062409786556521598783980556579116274390047741285736201774662705729298143027725957100370383364085892229489402024791754953745823807068221455527360556926171591450188067866092025143729104987322484282809855639378367813811708048365330744424098178153037858152628843704479236109544896801356017855995829472896902391818436232174206690333536589138298735936291342608835354384230644228322918016364338438666087081865328575930088116069355391410219065615412703905856372483276612391564628508356899554309225474805894845285748683805192312251344240912436551674815927647956626174550588270730075697683726322505495791821856550751559382348774467985031597016104968211092449862122562292034991858953920947985943974614346606065575432067257427205920068616129099829454028133456034511742971827005026437002096756378584744632659033479529636523657154646880672250634972039294342232695623207364830747363106124967825649120738235424865733573292337513096091615620130549249276770056974958084744532511320262973714879968538115275702339993914825051348852515075630042163714512913165959486047171567437702238188515197079438295654698431686094928420821669587993255922294231361278108147396890976867087636350871190635621928030568544509389990559432578617010027163163609328506091420078473078373927341512609929302243384151646934235800078124224394236489209629427810429345355331457323123425701032387969407310179378431745485393077602832954999894948611275282615496491637714377083443268711404874911644880637760693303813436027155350736994544830136200429877946238397143079738696218154661678939805967502306356503483439407204707038734567508837907711279745248173743018739455800814990630618749625745291195514428936782443055621966062660036498980646577505187590692528430476074223769564545328200259280556289415613546213400461858880870318464100949562394166022717160924845072762250058768074240894789049640133385932540508532794610409794290696719656332648222713319903361681533221113127462582598175047212716878495602813022850362565556325435055943938372333920604750415907603570307436900265690663412071984530835655612611915162558913001047967393437877995939570828524047613274767180332600611310679335102069681380613425572442026075278856837685633060507226656740677915835305115975627332792704987899394714729089358491975727032855719046425783399703782301521007959908385180847713189345527292144467856641133930113642132764338343908502219720565014832504007294002525835685625362516586403131064081358748804306881929508422077041014282249109416343640608708331589004554831995408150183436572472247598043581363428960305038737986408275725041284366676087951266770423312767418083050182808673160758454437917888271672740064998633645217332488897217705832803789373159717428237417752649277357631481398570219861653916524639386484964775606235901476958742871665550700102055598340964866259221613992481892719621187272106967502832960818704667329597554106426779605336462757716903978620761479242316742580, 502) := by rfl

theorem mixDecChunk43x5 : mixDecStep^[100] (3822959328067886748574266660083664852823549338335814052061489704345135806448972048303689989244174875075082318311932172609039477136671741164518637722718255441513873187927192322328480695930549709238288877709953320533204823292856397677533548142562121538250941137287921363934625763980495510484730932770562478601503633722211219740687089639842929368155554935549362961775442136703965282945444782475925761775909540087018374152752364699528790173101935560878294485779253261237452730212819951987300381325037120115626006863257637865936262299031240846276967866300515781943399336117325586481081625882589640246870622903006404618204965048284702554093665008652007095738024034421645355485168900263753196575865592045649112072686233243653966215410973270612828913499337368604554476558559011599706114887512054395574414409736751709385930184179141780923213290586411593554839123403512617330748633051102435053596971676728302879274474134171722920559862662855167206993040188703132673777683155371878071807119053462354801425075372056385634858723118270373757992318783473004104014957608896217398182859473502430934960709418384072442250267354877359901054441866155611903641574990524390047791153589533764404431008927368945773909745529201465008831715838848094650956139522218965373371577051284889287255757114434418959174396708398143569266415617872804322271742267733722301357397749080597244747711247866794029360117533626819858515716022399633624984530391780236353263081720950321278786287535667867811165641368127282333455898741576965566971537813040926618381367942003376109273879524550570071727877476341585118967027880722927617875752293430954996259273032045245829771025108430700193915049868311255208499941928087001438914044032853367908010229812045850882859898310821315389845691131449012567076899763867228823248365003579005676038760089232159824108415720389219951143394403382174084654207794238428766470215633157208824130394099640818798503212554025472858337267790046387831127912676340284113108426521658893457999333751140530258648579909617803547248707369150300529277831512294123516391446653353040758580525592528740267398484895365435024665157875718506530227553293816375104328179067582599662351199315504425475417487198405652288281701812088097970469341446304527031650960405040966411832265485870887472913087732112633647115955004274563018503765956801877108797145694477122160887270757491889972047674321679297985197130186639214960328149488681821387526544739450912870146191749066850332798946420279114405430191844691167509581430216418034608904298734767888922657478542612423009556390538970960953499826974780396485280140409156780111482847319675644886840670497794321413411747900231474731253730402868199854085762562457202255941283782633935362101229049970408622566502399601453979645115943469195999334990368630738808800119367474860288040930262847579148495666581442642921999390498930986906987015323657669800398995103949983999908530461772025141975136646629850783165469895254830709556563149273170340725304385460316870802923449095379778180175053004452919706283481454508154748021352608321897612345868313896788066633030324558747269547627318346074904450947529064785203064304994029062409786556521598783980556579116274390047741285736201774662705729298143027725957100370383364085892229489402024791754953745823807068221455527360556926171591450188067866092025143729104987322484282809855639378367813811708048365330744424098178153037858152628843704479236109544896801356017855995829472896902391818436232174206690333536589138298735936291342608835354384230644228322918016364338438666087081865328575930088116069355391410219065615412703905856372483276612391564628508356899554309225474805894845285748683805192312251344240912436551674815927647956626174550588270730075697683726322505495791821856550751559382348774467985031597016104968211092449862122562292034991858953920947985943974614346606065575432067257427205920068616129099829454028133456034511742971827005026437002096756378584744632659033479529636523657154646880672250634972039294342232695623207364830747363106124967825649120738235424865733573292337513096091615620130549249276770056974958084744532511320262973714879968538115275702339993914825051348852515075630042163714512913165959486047171567437702238188515197079438295654698431686094928420821669587993255922294231361278108147396890976867087636350871190635621928030568544509389990559432578617010027163163609328506091420078473078373927341512609929302243384151646934235800078124224394236489209629427810429345355331457323123425701032387969407310179378431745485393077602832954999894948611275282615496491637714377083443268711404874911644880637760693303813436027155350736994544830136200429877946238397143079738696218154661678939805967502306356503483439407204707038734567508837907711279745248173743018739455800814990630618749625745291195514428936782443055621966062660036498980646577505187590692528430476074223769564545328200259280556289415613546213400461858880870318464100949562394166022717160924845072762250058768074240894789049640133385932540508532794610409794290696719656332648222713319903361681533221113127462582598175047212716878495602813022850362565556325435055943938372333920604750415907603570307436900265690663412071984530835655612611915162558913001047967393437877995939570828524047613274767180332600611310679335102069681380613425572442026075278856837685633060507226656740677915835305115975627332792704987899394714729089358491975727032855719046425783399703782301521007959908385180847713189345527292144467856641133930113642132764338343908502219720565014832504007294002525835685625362516586403131064081358748804306881929508422077041014282249109416343640608708331589004554831995408150183436572472247598043581363428960305038737986408275725041284366676087951266770423312767418083050182808673160758454437917888271672740064998633645217332488897217705832803789373159717428237417752649277357631481398570219861653916524639386484964775606235901476958742871665550700102055598340964866259221613992481892719621187272106967502832960818704667329597554106426779605336462757716903978620761479242316742580, 502) = (3822959328067886748574266660083664852823549338335814052061489704345135806448972048303689989244174875075082318311932172609039477136671741164518637722718255441513873187927192322328480695930549709238288877709953320418552202420396804839391857682830012337899036986146003861163761534451680273499976075244838281049057512059091193978078520703382400577114381174947621209619064629973899464579857330622584518079084016302712560698226126860133608424216507769833269716845007682946380485031826324535018592460208243644335878113538879588440870470305971000623564234196113088122528701610352953978445577381222038691774005177569268014300087752848207478863634294066339894920694568817912764693576131162914035659304092456403100194708456108125451923768797911362515587732006057625303184137611112794246360341547245397174647153413678165734300076065305973644988399360443779078537810679228971815235012132729363435307850550132130884154878284057291548997242041529344544724976404179591710012937637441231461921970144121406315214201317560950877031581615515540652504107326964777194800635104045272307152012183817639094438189736370362624752754442630894123527688738133210950455014218948117904785816240831207764295008248731562288460362054496405806564068810166078255074027248304609883316028552566911822454102133602789467969262293838487095479745389730022285526182872778842609103984510008903605323216245971280201021628670180053957769015840076759340949903834911806903432936725205279976211419209421675812474936591687760430644011238880340050306054990356898998888492401202594619468338214920157421536915294880992112721818352939476367435200419437892119691182979951304641249596922400595149296665417340049686652054986749270927000869452183771781477898133737780941359736943139678539205335622501611150545519983667643656596903316018254505354302677780845807627277215381363883760588184670605745685368231835265604026929248411936169128075160750271964699471283671089916629158447029405551471761076232582562406071159298614871936851595232053952413180987445408229531538490230892458693435306112961614161488303046620232386815415985300768115296883051200355720490998977345367540983875209117144914793806193982632084206800136426942830193088312584918869883127603001713887752043896531637632827448438777274940828231522390234440482961272440093723375325236699861552482415833742967939846813983248444202188539424304227309757092080151865830717860010078492865855331966894509234893077607045577254348393368230200838665392041305467974878772936691380443472314964324328939965548263502303725754368274382071643212202476420383596513516146785082125123398005050339916860434327694318029466495770294721163331494395554699269580300834380251873281479099274282593182044291133343737485033697171825241221892964735121984649352938301700995828515815263241361233144224189472300552695552711730209344725729492729478475742099555841123691105469097346713033665821421921356932986127536661484665252422954730071680607623165632197358284185737674490355459714818443313785458675357795528168648694812041412489429372854714179554619330498184398491809849167963504805977631004977721400422311767346871615231869524548783551150369805264385494905995251357061859902509561117029650801521876593437601657890779743094334180119326352652763925013091494862309709935473556293760094694832914647520611250357451025395425341425832956249468313407770450084120817563121407235951389657581669997781425739763149942753009739886416652095690330043081526234334594255815035854265729034203113391630179035207679059880070017581326851266163584664192086236189912437100455375986475957146975788433218197233952249692220942063987520948293384629247868278733710835588399233128563273135001350804890081598241025626459168187399218135065785624691697869245276457157154321817873987134555408263256596005117623359516130745085559091506579576591285665478583528817628573716700379593729611033457526306981575816954524281501797924290003987579762373616137327821968835235065868877178022022876578503908826906655135342451235448012636782435954010525508735591202157020284907445034675663293946493862744740410389065690754285107200914085525513175832087618649585007695756783338910874524160375934354080350300545283086627865948140468129882142260174305533675719288547854172111653092152524483597277958396641094269008030424112815394029504991451372669781808005901807581762883125587502465194829195664175834820157516643127540507196697149627065105343782892398366208538618935559212012794170060342914862045917700241045041998778051831244877791738472890337607936450856017364614152862780446297041708365758126022781926349913272713420660243321191810076718760206732902551641718956991922956467822567474510547804787814161034472557390383316625656460675895833138494929371218493577707757616350652763677359682443091175948145656807254786060534146907339869144282541740971657635269157265948477070458211697793602207819792917295202271157056436747902754269094786812095577400911367680632410448580993520576010258318394152420859566031447176261876862941725293069502978535525963070623207430926381308998981211646983477990311998964583697117281044418606345596416159529950219992003229502415542023303238971827043887441305984130026754085277497705012593322622625532249649791659670341104569974749786264052762095837788689832875495867045652927028505543462600905651953922035992622627195148524609986063355826209690437778719462196348062331695193562679032835659863259143796907003930064097110190219994916292899169041875153154324890053689164167457924143717391808348681751205827490440500928128121270064364023743703604553999018394078005081348915977587411410451725615783296715250956240140797461758222546653915823456868637770151139497848727788997232859999738778328300270384291036728183752436059148916021256963805157674621518689044682533856719173900423626367344987800184431485473681065452264196584130470650704270444302098067160465027545921361803670420872209669630621147542501540641970095594311822415871017388105025213588294212685721138833208638031581172495645060545136441104714009043923024642400126155524279643771663976510257231330470647261265844, 602) := by rfl

theorem mixDecChunk43x6 : mixDecStep^[23] (3822959328067886748574266660083664852823549338335814052061489704345135806448972048303689989244174875075082318311932172609039477136671741164518637722718255441513873187927192322328480695930549709238288877709953320418552202420396804839391857682830012337899036986146003861163761534451680273499976075244838281049057512059091193978078520703382400577114381174947621209619064629973899464579857330622584518079084016302712560698226126860133608424216507769833269716845007682946380485031826324535018592460208243644335878113538879588440870470305971000623564234196113088122528701610352953978445577381222038691774005177569268014300087752848207478863634294066339894920694568817912764693576131162914035659304092456403100194708456108125451923768797911362515587732006057625303184137611112794246360341547245397174647153413678165734300076065305973644988399360443779078537810679228971815235012132729363435307850550132130884154878284057291548997242041529344544724976404179591710012937637441231461921970144121406315214201317560950877031581615515540652504107326964777194800635104045272307152012183817639094438189736370362624752754442630894123527688738133210950455014218948117904785816240831207764295008248731562288460362054496405806564068810166078255074027248304609883316028552566911822454102133602789467969262293838487095479745389730022285526182872778842609103984510008903605323216245971280201021628670180053957769015840076759340949903834911806903432936725205279976211419209421675812474936591687760430644011238880340050306054990356898998888492401202594619468338214920157421536915294880992112721818352939476367435200419437892119691182979951304641249596922400595149296665417340049686652054986749270927000869452183771781477898133737780941359736943139678539205335622501611150545519983667643656596903316018254505354302677780845807627277215381363883760588184670605745685368231835265604026929248411936169128075160750271964699471283671089916629158447029405551471761076232582562406071159298614871936851595232053952413180987445408229531538490230892458693435306112961614161488303046620232386815415985300768115296883051200355720490998977345367540983875209117144914793806193982632084206800136426942830193088312584918869883127603001713887752043896531637632827448438777274940828231522390234440482961272440093723375325236699861552482415833742967939846813983248444202188539424304227309757092080151865830717860010078492865855331966894509234893077607045577254348393368230200838665392041305467974878772936691380443472314964324328939965548263502303725754368274382071643212202476420383596513516146785082125123398005050339916860434327694318029466495770294721163331494395554699269580300834380251873281479099274282593182044291133343737485033697171825241221892964735121984649352938301700995828515815263241361233144224189472300552695552711730209344725729492729478475742099555841123691105469097346713033665821421921356932986127536661484665252422954730071680607623165632197358284185737674490355459714818443313785458675357795528168648694812041412489429372854714179554619330498184398491809849167963504805977631004977721400422311767346871615231869524548783551150369805264385494905995251357061859902509561117029650801521876593437601657890779743094334180119326352652763925013091494862309709935473556293760094694832914647520611250357451025395425341425832956249468313407770450084120817563121407235951389657581669997781425739763149942753009739886416652095690330043081526234334594255815035854265729034203113391630179035207679059880070017581326851266163584664192086236189912437100455375986475957146975788433218197233952249692220942063987520948293384629247868278733710835588399233128563273135001350804890081598241025626459168187399218135065785624691697869245276457157154321817873987134555408263256596005117623359516130745085559091506579576591285665478583528817628573716700379593729611033457526306981575816954524281501797924290003987579762373616137327821968835235065868877178022022876578503908826906655135342451235448012636782435954010525508735591202157020284907445034675663293946493862744740410389065690754285107200914085525513175832087618649585007695756783338910874524160375934354080350300545283086627865948140468129882142260174305533675719288547854172111653092152524483597277958396641094269008030424112815394029504991451372669781808005901807581762883125587502465194829195664175834820157516643127540507196697149627065105343782892398366208538618935559212012794170060342914862045917700241045041998778051831244877791738472890337607936450856017364614152862780446297041708365758126022781926349913272713420660243321191810076718760206732902551641718956991922956467822567474510547804787814161034472557390383316625656460675895833138494929371218493577707757616350652763677359682443091175948145656807254786060534146907339869144282541740971657635269157265948477070458211697793602207819792917295202271157056436747902754269094786812095577400911367680632410448580993520576010258318394152420859566031447176261876862941725293069502978535525963070623207430926381308998981211646983477990311998964583697117281044418606345596416159529950219992003229502415542023303238971827043887441305984130026754085277497705012593322622625532249649791659670341104569974749786264052762095837788689832875495867045652927028505543462600905651953922035992622627195148524609986063355826209690437778719462196348062331695193562679032835659863259143796907003930064097110190219994916292899169041875153154324890053689164167457924143717391808348681751205827490440500928128121270064364023743703604553999018394078005081348915977587411410451725615783296715250956240140797461758222546653915823456868637770151139497848727788997232859999738778328300270384291036728183752436059148916021256963805157674621518689044682533856719173900423626367344987800184431485473681065452264196584130470650704270444302098067160465027545921361803670420872209669630621147542501540641970095594311822415871017388105025213588294212685721138833208638031581172495645060545136441104714009043923024642400126155524279643771663976510257231330470647261265844, 602) = (18074206931052001020399850565197325311912901670326887761188707924227434343681770422998948077092893502716304251109282569068808170401861984466852271206753927842623302389933963858728805269033615178137748654980007679551686319229519241494204002954103485316397706946454732003374335374039699598252492413606765644461107499838735028579570349164410419320462362830857779586153458921227535191264125768610642483258056552478416730999252860105326181732619450832225619233657976073528745885263167647688391591124784473124755068510558754756922433998383580465870608205654766335338178809237879224656220989147261903630902478051224437430939234008784401371310689620649590469024280118419342547377340956474440666617248400220764216160242767756342214085960290720508963035067165118239724912567633877209562749632430697449493978178420397810463516954759549329073708694917014652323215457104972237415625022829151411667500147652047973766847098894263176940206631372027182628387585543116385771874906780625934856763781695443588297545762342941111759029375406151773618679481481074599139968967981374804155375285107525461330178925994476568897741458619011549647123240172422136883015095420214951599931639896457737273431334927084144906572212901064851348390191751460769462979193997424589714007824516965725062964586872387951846869354783655291583525400893704706708493217257924316670232927707820890041423162589217732563453424863613584389229063747048121196286336763350216961590102465049378748573413237055242465988973614581892676972681718548482781969717107839677803303215970269851514310195671869594497387881922421376304225811824874650588216259458669547745338298340838772460545073142056034437842543751962520622928455524003550230497542001046511503356347871500162917127437549011792017523304597887524651654558375292063399837345503437821685482932248908172238245321175023066893701086031598580969817733382899457217936724458896399212528590055558013748567905534450353467234242542473599799220731396677727368285539041559626439690763470743095302395132026888471100540277421396100749556493981544351188945982052234741374297576248142040931584089603914197774784690866451281916883937453502036322341098699779637916002597371689214127976780435519878238877428853327272437466659043543477167307632246540448276326264066765339281103760705781487251594057647620581772632503124271043676487407960960225961111733524475622936296625705595957436819925155715612719956552126431190706244332355041595861354627203427785485140066102941805907118747877266188330322341901936426975013420746215492970398284681164393222126401568710466979527865963312950138890908906451731741904355623327283581664721826186869184511555069262837654632358158333371613734160681951449524894390830997540931207331702656690210746633141731550065833079017861782353591517349587254151606290746729961815138414679728707594622820660617924978116882335994925475391516521790150221116098671390837588232242917354100644132594229160209807349167224918503660332124440661021542847190110177112460837845264296904842603314453360560122414284731136332144343146656833982161434332803703617470250679976045290926482485046547829842463085242630649151456199438343819956362205130753038022048048600177031598276429143025140121751821898609615650234516038281913784255678596716418814164374585826932467835476798877310581971556703949170871831446573391658747183336397011336622299546298987391827678711268525999106570636058632390096590332399763323433764286231089472707443899320617684436240319347194260525408220502154272012081081158620018816058845071769527500237302677620530867845010545417208759774561943847739795722929768732082671358068062784578121853853492983247606208583429157252918099748806100167036701792111551435265799189504958536640429424649709065311022666771761627572393278112961745444296767433125033293471571037182040463413038784659557934401717786566013189801053153623414386155702671616748795739337345872002180282327103878056640960604254236163509452126311805722057827231182665259404991627861962396790843013217947712260849252700722995813668409264485674362490531096041944480123069497494089487864112704734882792143806511092074394818346186261333788783692751033331895688518850184661838288903384133734424915130211426117188486900252953869942226136749135431831266200006409954523557450486759158419741161938096080361687488602419849305873353489857345781815779093973778367006363361010644042646998482365453254969989698929657619940537567803829095775300582834752273702941439916078554037576327197979366553996113819460183385995843835976733991259609151415375912602230662025325791740871760857052372598579134395259486540642774049869763123495431128783054002994084473852350934749830866294512352361998506354652710403505984234286669490843449529732204568216042992966138731958085742502536276652060733525389220031201183962010871829308093003787399396118299505557289054908444816438991883661023488404609554675074093190052001699354055257463482241297286917134479165442958593368261257059981046132298490594256091895028398394725470377903109352087340221382850177484212414475402309969638114358572917031391005093731659789546906486308238939830050120854098444642952869118091353508440044613333491921586837006148784830720660542814944701097112345803638571534003107827603786065204358711275489784852723346031207033621737942997579606516298827705291760578487874609332708574780479271818946475727217255019834311255070542141970699750907520022422273563633309194635476187337965270820917417967099602585463032617378859298206628601665602597526918910261237765272486397111790497088106416068277809360613923967719422165027312684783382743336702033961798686575394634540221393042397558254838502614923215705669654542335657885776413020199611271828007118954011023551054063322232575560891069026115497453233645706493740100552785353553872335695578731855295346222018070819456278952019929891521504503787828851593170405147266769396947501324316256077074347150318488242268078285142477065767153543401796104357560715447192509800862472661605007322113434189752485522571258907552239275337448561673950292741716003917066566424915695489415040048555, 2) := by rfl

theorem mixDecAll43 : mixDecStep^[623] (3822959328067886748574266660083664852823549338335814052061489704345135806448972048303689989244174875075082318311932172609039477136671741164518637722718255441513873187927192322328480695930549709238288877709953320533204823292856397677533548142562121538250941137287921363934625763980495510484730932770562478601503633722211219740687089639842929368155554935549362961775442136703965282945444782475925761775909540087018374152752364699528790173101935560878294485779253261237452730212819951987300381325037120115626006863257637865936262299031240846276967866300515781943399336117325586481081625882589640246870622903006404618204965048284702554093665008652007095738024034421645355485168900263753196575865592045649112072686233243653966215410973270612828913499337368604554476558559011599706114887512054395574414409736751709385930184179141780923213290586411593554839123403512617330748633051102435053596971676728302879274474134171722920559862662855167206993040188703132673777683155371878071807119053462354801425075372056385634858723118270373757992318783473004104014957608896217398182859473502430934960709418384072442250267354877359901054441866155611903641574990524390047791153589533764404431022120706464336244490378206844408858910442862743724016156519483203101277391574816592770565043223420348622932176410474445546387135776654041019460909364363666357182047595681050127456613054609818049696131643529512600714472775850731447063823001252242706072487812244832804138842543429661049285496317419017210231050672623423324602629137431269683277182602189443155862282353126862467509672976269115038122604193474065803642907189365075722298182802160504169250833496270436838873383647907936401223014968673535045528832518671533802081323842246582149712338591073336946952063844044378178663630970164036559249347741979898762103124957773515894085401000054519892121634208829007698859930210052082621888063583402154047531332150271699538781520748436299761547078390045277031695144312043773193369355175491394706014353648806517901943704380870042916924645012156906699861591410569766276618789963234664551812632418629668980370298736386731651510791509139229714627318721328805003910912723247979274988363315554645913012651865533321206850036988828485470201437678567646476101365903848679582056846688060136352415936605865074618131908842061259044510495588014966736635190905363932491339689388218745424385625911486706253769885181583037794331922070675377300154421161087293777101978849916353299016521032268628102170488572267587506134716409230568876911276078215764152850058115021361976444778102623688789700593937887018977531098754278870840252415388327856470531667555915972054346486504750481434825124131838583970999244903561771309055776264958489736019730698204391176155226183660172306301112414993700100127912359080264222864315375307497616994284636850528545560421403878269961175967669424341872089382899300684550016411017151915848728456070801975691818070673731825520495765641222701653287032060104523999186132443911564891459699974885400894518546216523840786014756173632875003351637650616927611045543788744354178591085717150476958863040297782819886344973708567877896263613674995133420241902002169176085085949792724172377838068122276796259944164409944401419860941399391801222150735977594298099767047124783728020301784939310069186586178564608853387003249081468526076703521437793216744501599791328948134882708025777630871020302093899582242427461943886903433334333316649973024488696455653429677663344047838205882236096060702138743388458954171542311938760429331505901918901082472067197093555885690294274351199089789933692957348186428837936286040863314325021250559627078595683106217515030242874441140696536607177914543070682995600731056306202260095174711102632146496449222313782380552149880377597470172280421183634950406412704764421269120701587625566994572059559502633314768712123430499935601822336615966491666963343580559801332264675533353709215814603307671089411642367609867216897221293536791217395485442853470052681313803039553931267628230687696309418448245186473360610453787211639831255210035637964136814877998497386813768593503581266905322313373660033354348868146932981099321535254101153735227440760051833875288784181714523871202242365076651337905034545610187486433284633155322935936977054346016591970194552312117465276920165157166622222398487294585486111716993582577116369225825305684716420651649735919560311290520451434684791866050055693282084114429547928138754023157301465625142024959052270846916651910589439626467358591476897764550050979415747761332349929663634699879639836648329254919370905315344696268119700882546962293663627065222483604605814875081676830759173531341850494123568368546032294479457351841891566210417149007257509996063625951984281914624309163359533410488453264290467932294830128822390170751834996825670837527366636205532414874239947397866003963201041805051596697037462800410362148944412936946436948404358369385869068307272077674102566648149681834185272679384280954782737034627629485340550698540672504374964357100692016211954329405509690496553864931678534181134372700742974128879763375316834989804595259650109853447891920736813036925632756746462876174696036811865840343544097908009090908844787594871601692058357397804941951308387930034965271254590139084601844973557987268278778875915131865859077578777227299973019027564061961040250801698215951635747809781969507951512996768239658330929095789888411808923845256926066147957105297841067814231108336023019392067096842072802263985199233076034875253880044521660387163616150006134555985957613843790398419051157187727971993712289074332757810809039919109313984783560187749294252405970349276887420680152690933588799831212481320415467716477350131058669610824085160525740558650067335935101506968783731176144968042440763028245152911784642908439460863740372269889857495324005974930449229979136667711790823915391976277256773585999765361100070842806065644302735253161413764853474803539323154462347828009245806375942807442883126344370197287332832202161813394351071332475352855028514797323457466460238103018824931650888948219828, 2) = (18074206931052001020399850565197325311912901670326887761188707924227434343681770422998948077092893502716304251109282569068808170401861984466852271206753927842623302389933963858728805269033615178137748654980007679551686319229519241494204002954103485316397706946454732003374335374039699598252492413606765644461107499838735028579570349164410419320462362830857779586153458921227535191264125768610642483258056552478416730999252860105326181732619450832225619233657976073528745885263167647688391591124784473124755068510558754756922433998383580465870608205654766335338178809237879224656220989147261903630902478051224437430939234008784401371310689620649590469024280118419342547377340956474440666617248400220764216160242767756342214085960290720508963035067165118239724912567633877209562749632430697449493978178420397810463516954759549329073708694917014652323215457104972237415625022829151411667500147652047973766847098894263176940206631372027182628387585543116385771874906780625934856763781695443588297545762342941111759029375406151773618679481481074599139968967981374804155375285107525461330178925994476568897741458619011549647123240172422136883015095420214951599931639896457737273431334927084144906572212901064851348390191751460769462979193997424589714007824516965725062964586872387951846869354783655291583525400893704706708493217257924316670232927707820890041423162589217732563453424863613584389229063747048121196286336763350216961590102465049378748573413237055242465988973614581892676972681718548482781969717107839677803303215970269851514310195671869594497387881922421376304225811824874650588216259458669547745338298340838772460545073142056034437842543751962520622928455524003550230497542001046511503356347871500162917127437549011792017523304597887524651654558375292063399837345503437821685482932248908172238245321175023066893701086031598580969817733382899457217936724458896399212528590055558013748567905534450353467234242542473599799220731396677727368285539041559626439690763470743095302395132026888471100540277421396100749556493981544351188945982052234741374297576248142040931584089603914197774784690866451281916883937453502036322341098699779637916002597371689214127976780435519878238877428853327272437466659043543477167307632246540448276326264066765339281103760705781487251594057647620581772632503124271043676487407960960225961111733524475622936296625705595957436819925155715612719956552126431190706244332355041595861354627203427785485140066102941805907118747877266188330322341901936426975013420746215492970398284681164393222126401568710466979527865963312950138890908906451731741904355623327283581664721826186869184511555069262837654632358158333371613734160681951449524894390830997540931207331702656690210746633141731550065833079017861782353591517349587254151606290746729961815138414679728707594622820660617924978116882335994925475391516521790150221116098671390837588232242917354100644132594229160209807349167224918503660332124440661021542847190110177112460837845264296904842603314453360560122414284731136332144343146656833982161434332803703617470250679976045290926482485046547829842463085242630649151456199438343819956362205130753038022048048600177031598276429143025140121751821898609615650234516038281913784255678596716418814164374585826932467835476798877310581971556703949170871831446573391658747183336397011336622299546298987391827678711268525999106570636058632390096590332399763323433764286231089472707443899320617684436240319347194260525408220502154272012081081158620018816058845071769527500237302677620530867845010545417208759774561943847739795722929768732082671358068062784578121853853492983247606208583429157252918099748806100167036701792111551435265799189504958536640429424649709065311022666771761627572393278112961745444296767433125033293471571037182040463413038784659557934401717786566013189801053153623414386155702671616748795739337345872002180282327103878056640960604254236163509452126311805722057827231182665259404991627861962396790843013217947712260849252700722995813668409264485674362490531096041944480123069497494089487864112704734882792143806511092074394818346186261333788783692751033331895688518850184661838288903384133734424915130211426117188486900252953869942226136749135431831266200006409954523557450486759158419741161938096080361687488602419849305873353489857345781815779093973778367006363361010644042646998482365453254969989698929657619940537567803829095775300582834752273702941439916078554037576327197979366553996113819460183385995843835976733991259609151415375912602230662025325791740871760857052372598579134395259486540642774049869763123495431128783054002994084473852350934749830866294512352361998506354652710403505984234286669490843449529732204568216042992966138731958085742502536276652060733525389220031201183962010871829308093003787399396118299505557289054908444816438991883661023488404609554675074093190052001699354055257463482241297286917134479165442958593368261257059981046132298490594256091895028398394725470377903109352087340221382850177484212414475402309969638114358572917031391005093731659789546906486308238939830050120854098444642952869118091353508440044613333491921586837006148784830720660542814944701097112345803638571534003107827603786065204358711275489784852723346031207033621737942997579606516298827705291760578487874609332708574780479271818946475727217255019834311255070542141970699750907520022422273563633309194635476187337965270820917417967099602585463032617378859298206628601665602597526918910261237765272486397111790497088106416068277809360613923967719422165027312684783382743336702033961798686575394634540221393042397558254838502614923215705669654542335657885776413020199611271828007118954011023551054063322232575560891069026115497453233645706493740100552785353553872335695578731855295346222018070819456278952019929891521504503787828851593170405147266769396947501324316256077074347150318488242268078285142477065767153543401796104357560715447192509800862472661605007322113434189752485522571258907552239275337448561673950292741716003917066566424915695489415040048555, 2) := by
  rw [show (623 : Nat) = 23 + (100 + (100 + (100 + (100 + (100 + 100))))) from rfl,
      Function.iterate_add_apply, Function.iterate_add_apply, Function.iterate_add_apply,
      Function.iterate_add_apply, Function.iterate_add_apply, Function.iterate_add_apply,
      mixDecChunk43x0, mixDecChunk43x1, mixDecChunk43x2, mixDecChunk43x3,
      mixDecChunk43x4, mixDecChunk43x5, mixDecChunk43x6]

theorem initByArray_43 : initByArray [43] = 18074206931052001020399850565197325311912901670326887761188707924227434343681770422998948077092893502716304251109282569068808170401861984466852271206753927842623302389933963858728805269033615178137748654980007679551686319229519241494204002954103485316397706946454732003374335374039699598252492413606765644461107499838735028579570349164410419320462362830857779586153458921227535191264125768610642483258056552478416730999252860105326181732619450832225619233657976073528745885263167647688391591124784473124755068510558754756922433998383580465870608205654766335338178809237879224656220989147261903630902478051224437430939234008784401371310689620649590469024280118419342547377340956474440666617248400220764216160242767756342214085960290720508963035067165118239724912567633877209562749632430697449493978178420397810463516954759549329073708694917014652323215457104972237415625022829151411667500147652047973766847098894263176940206631372027182628387585543116385771874906780625934856763781695443588297545762342941111759029375406151773618679481481074599139968967981374804155375285107525461330178925994476568897741458619011549647123240172422136883015095420214951599931639896457737273431334927084144906572212901064851348390191751460769462979193997424589714007824516965725062964586872387951846869354783655291583525400893704706708493217257924316670232927707820890041423162589217732563453424863613584389229063747048121196286336763350216961590102465049378748573413237055242465988973614581892676972681718548482781969717107839677803303215970269851514310195671869594497387881922421376304225811824874650588216259458669547745338298340838772460545073142056034437842543751962520622928455524003550230497542001046511503356347871500162917127437549011792017523304597887524651654558375292063399837345503437821685482932248908172238245321175023066893701086031598580969817733382899457217936724458896399212528590055558013748567905534450353467234242542473599799220731396677727368285539041559626439690763470743095302395132026888471100540277421396100749556493981544351188945982052234741374297576248142040931584089603914197774784690866451281916883937453502036322341098699779637916002597371689214127976780435519878238877428853327272437466659043543477167307632246540448276326264066765339281103760705781487251594057647620581772632503124271043676487407960960225961111733524475622936296625705595957436819925155715612719956552126431190706244332355041595861354627203427785485140066102941805907118747877266188330322341901936426975013420746215492970398284681164393222126401568710466979527865963312950138890908906451731741904355623327283581664721826186869184511555069262837654632358158333371613734160681951449524894390830997540931207331702656690210746633141731550065833079017861782353591517349587254151606290746729961815138414679728707594622820660617924978116882335994925475391516521790150221116098671390837588232242917354100644132594229160209807349167224918503660332124440661021542847190110177112460837845264296904842603314453360560122414284731136332144343146656833982161434332803703617470250679976045290926482485046547829842463085242630649151456199438343819956362205130753038022048048600177031598276429143025140121751821898609615650234516038281913784255678596716418814164374585826932467835476798877310581971556703949170871831446573391658747183336397011336622299546298987391827678711268525999106570636058632390096590332399763323433764286231089472707443899320617684436240319347194260525408220502154272012081081158620018816058845071769527500237302677620530867845010545417208759774561943847739795722929768732082671358068062784578121853853492983247606208583429157252918099748806100167036701792111551435265799189504958536640429424649709065311022666771761627572393278112961745444296767433125033293471571037182040463413038784659557934401717786566013189801053153623414386155702671616748795739337345872002180282327103878056640960604254236163509452126311805722057827231182665259404991627861962396790843013217947712260849252700722995813668409264485674362490531096041944480123069497494089487864112704734882792143806511092074394818346186261333788783692751033331895688518850184661838288903384133734424915130211426117188486900252953869942226136749135431831266200006409954523557450486759158419741161938096080361687488602419849305873353489857345781815779093973778367006363361010644042646998482365453254969989698929657619940537567803829095775300582834752273702941439916078554037576327197979366553996113819460183385995843835976733991259609151415375912602230662025325791740871760857052372598579134395259486540642774049869763123495431128783054002994084473852350934749830866294512352361998506354652710403505984234286669490843449529732204568216042992966138731958085742502536276652060733525389220031201183962010871829308093003787399396118299505557289054908444816438991883661023488404609554675074093190052001699354055257463482241297286917134479165442958593368261257059981046132298490594256091895028398394725470377903109352087340221382850177484212414475402309969638114358572917031391005093731659789546906486308238939830050120854098444642952869118091353508440044613333491921586837006148784830720660542814944701097112345803638571534003107827603786065204358711275489784852723346031207033621737942997579606516298827705291760578487874609332708574780479271818946475727217255019834311255070542141970699750907520022422273563633309194635476187337965270820917417967099602585463032617378859298206628601665602597526918910261237765272486397111790497088106416068277809360613923967719422165027312684783382743336702033961798686575394634540221393042397558254838502614923215705669654542335657885776413020199611271828007118954011023551054063322232575560891069026115497453233645706493740100552785353553872335695578731855295346222018070819456278952019929891521504503787828851593170405147266769396947501324316256077074347150318488242268078285142477065767153543401796104357560715447192509800862472661605007322113434189752485522571258907552239275337448561673950292741716003917066566424915695489416349876224 := by
  simp only [initByArray]
  rw [show (max 624 (List.length ([43] : List Nat))) = 624 from rfl,
      initGenrand_19650218, mixKeyAll43]
  rw [show (((3822959328067886748574266660083664852823549338335814052061489704345135806448972048303689989244174875075082318311932172609039477136671741164518637722718255441513873187927192322328480695930549709238288877709953320533204823292856397677533548142562121538250941137287921363934625763980495510484730932770562478601503633722211219740687089639842929368155554935549362961775442136703965282945444782475925761775909540087018374152752364699528790173101935560878294485779253261237452730212819951987300381325037120115626006863257637865936262299031240846276967866300515781943399336117325586481081625882589640246870622903006404618204965048284702554093665008652007095738024034421645355485168900263753196575865592045649112072686233243653966215410973270612828913499337368604554476558559011599706114887512054395574414409736751709385930184179141780923213290586411593554839123403512617330748633051102435053596971676728302879274474134171722920559862662855167206993040188703132673777683155371878071807119053462354801425075372056385634858723118270373757992318783473004104014957608896217398182859473502430934960709418384072442250267354877359901054441866155611903641574990524390047791153589533764404431022120706464336244490378206844408858910442862743724016156519483203101277391574816592770565043223420348622932176410474445546387135776654041019460909364363666357182047595681050127456613054609818049696131643529512600714472775850731447063823001252242706072487812244832804138842543429661049285496317419017210231050672623423324602629137431269683277182602189443155862282353126862467509672976269115038122604193474065803642907189365075722298182802160504169250833496270436838873383647907936401223014968673535045528832518671533802081323842246582149712338591073336946952063844044378178663630970164036559249347741979898762103124957773515894085401000054519892121634208829007698859930210052082621888063583402154047531332150271699538781520748436299761547078390045277031695144312043773193369355175491394706014353648806517901943704380870042916924645012156906699861591410569766276618789963234664551812632418629668980370298736386731651510791509139229714627318721328805003910912723247979274988363315554645913012651865533321206850036988828485470201437678567646476101365903848679582056846688060136352415936605865074618131908842061259044510495588014966736635190905363932491339689388218745424385625911486706253769885181583037794331922070675377300154421161087293777101978849916353299016521032268628102170488572267587506134716409230568876911276078215764152850058115021361976444778102623688789700593937887018977531098754278870840252415388327856470531667555915972054346486504750481434825124131838583970999244903561771309055776264958489736019730698204391176155226183660172306301112414993700100127912359080264222864315375307497616994284636850528545560421403878269961175967669424341872089382899300684550016411017151915848728456070801975691818070673731825520495765641222701653287032060104523999186132443911564891459699974885400894518546216523840786014756173632875003351637650616927611045543788744354178591085717150476958863040297782819886344973708567877896263613674995133420241902002169176085085949792724172377838068122276796259944164409944401419860941399391801222150735977594298099767047124783728020301784939310069186586178564608853387003249081468526076703521437793216744501599791328948134882708025777630871020302093899582242427461943886903433334333316649973024488696455653429677663344047838205882236096060702138743388458954171542311938760429331505901918901082472067197093555885690294274351199089789933692957348186428837936286040863314325021250559627078595683106217515030242874441140696536607177914543070682995600731056306202260095174711102632146496449222313782380552149880377597470172280421183634950406412704764421269120701587625566994572059559502633314768712123430499935601822336615966491666963343580559801332264675533353709215814603307671089411642367609867216897221293536791217395485442853470052681313803039553931267628230687696309418448245186473360610453787211639831255210035637964136814877998497386813768593503581266905322313373660033354348868146932981099321535254101153735227440760051833875288784181714523871202242365076651337905034545610187486433284633155322935936977054346016591970194552312117465276920165157166622222398487294585486111716993582577116369225825305684716420651649735919560311290520451434684791866050055693282084114429547928138754023157301465625142024959052270846916651910589439626467358591476897764550050979415747761332349929663634699879639836648329254919370905315344696268119700882546962293663627065222483604605814875081676830759173531341850494123568368546032294479457351841891566210417149007257509996063625951984281914624309163359533410488453264290467932294830128822390170751834996825670837527366636205532414874239947397866003963201041805051596697037462800410362148944412936946436948404358369385869068307272077674102566648149681834185272679384280954782737034627629485340550698540672504374964357100692016211954329405509690496553864931678534181134372700742974128879763375316834989804595259650109853447891920736813036925632756746462876174696036811865840343544097908009090908844787594871601692058357397804941951308387930034965271254590139084601844973557987268278778875915131865859077578777227299973019027564061961040250801698215951635747809781969507951512996768239658330929095789888411808923845256926066147957105297841067814231108336023019392067096842072802263985199233076034875253880044521660387163616150006134555985957613843790398419051157187727971993712289074332757810809039919109313984783560187749294252405970349276887420680152690933588799831212481320415467716477350131058669610824085160525740558650067335935101506968783731176144968042440763028245152911784642908439460863740372269889857495324005974930449229979136667711790823915391976277256773585999765361100070842806065644302735253161413764853474803539323154462347828009245806375942807442883126344370197287332832202161813394351071332475352855028514797323457466460238103018824931650888948219828, 2, 0) : Nat × Nat × Nat).1, ((3822959328067886748574266660083664852823549338335814052061489704345135806448972048303689989244174875075082318311932172609039477136671741164518637722718255441513873187927192322328480695930549709238288877709953320533204823292856397677533548142562121538250941137287921363934625763980495510484730932770562478601503633722211219740687089639842929368155554935549362961775442136703965282945444782475925761775909540087018374152752364699528790173101935560878294485779253261237452730212819951987300381325037120115626006863257637865936262299031240846276967866300515781943399336117325586481081625882589640246870622903006404618204965048284702554093665008652007095738024034421645355485168900263753196575865592045649112072686233243653966215410973270612828913499337368604554476558559011599706114887512054395574414409736751709385930184179141780923213290586411593554839123403512617330748633051102435053596971676728302879274474134171722920559862662855167206993040188703132673777683155371878071807119053462354801425075372056385634858723118270373757992318783473004104014957608896217398182859473502430934960709418384072442250267354877359901054441866155611903641574990524390047791153589533764404431022120706464336244490378206844408858910442862743724016156519483203101277391574816592770565043223420348622932176410474445546387135776654041019460909364363666357182047595681050127456613054609818049696131643529512600714472775850731447063823001252242706072487812244832804138842543429661049285496317419017210231050672623423324602629137431269683277182602189443155862282353126862467509672976269115038122604193474065803642907189365075722298182802160504169250833496270436838873383647907936401223014968673535045528832518671533802081323842246582149712338591073336946952063844044378178663630970164036559249347741979898762103124957773515894085401000054519892121634208829007698859930210052082621888063583402154047531332150271699538781520748436299761547078390045277031695144312043773193369355175491394706014353648806517901943704380870042916924645012156906699861591410569766276618789963234664551812632418629668980370298736386731651510791509139229714627318721328805003910912723247979274988363315554645913012651865533321206850036988828485470201437678567646476101365903848679582056846688060136352415936605865074618131908842061259044510495588014966736635190905363932491339689388218745424385625911486706253769885181583037794331922070675377300154421161087293777101978849916353299016521032268628102170488572267587506134716409230568876911276078215764152850058115021361976444778102623688789700593937887018977531098754278870840252415388327856470531667555915972054346486504750481434825124131838583970999244903561771309055776264958489736019730698204391176155226183660172306301112414993700100127912359080264222864315375307497616994284636850528545560421403878269961175967669424341872089382899300684550016411017151915848728456070801975691818070673731825520495765641222701653287032060104523999186132443911564891459699974885400894518546216523840786014756173632875003351637650616927611045543788744354178591085717150476958863040297782819886344973708567877896263613674995133420241902002169176085085949792724172377838068122276796259944164409944401419860941399391801222150735977594298099767047124783728020301784939310069186586178564608853387003249081468526076703521437793216744501599791328948134882708025777630871020302093899582242427461943886903433334333316649973024488696455653429677663344047838205882236096060702138743388458954171542311938760429331505901918901082472067197093555885690294274351199089789933692957348186428837936286040863314325021250559627078595683106217515030242874441140696536607177914543070682995600731056306202260095174711102632146496449222313782380552149880377597470172280421183634950406412704764421269120701587625566994572059559502633314768712123430499935601822336615966491666963343580559801332264675533353709215814603307671089411642367609867216897221293536791217395485442853470052681313803039553931267628230687696309418448245186473360610453787211639831255210035637964136814877998497386813768593503581266905322313373660033354348868146932981099321535254101153735227440760051833875288784181714523871202242365076651337905034545610187486433284633155322935936977054346016591970194552312117465276920165157166622222398487294585486111716993582577116369225825305684716420651649735919560311290520451434684791866050055693282084114429547928138754023157301465625142024959052270846916651910589439626467358591476897764550050979415747761332349929663634699879639836648329254919370905315344696268119700882546962293663627065222483604605814875081676830759173531341850494123568368546032294479457351841891566210417149007257509996063625951984281914624309163359533410488453264290467932294830128822390170751834996825670837527366636205532414874239947397866003963201041805051596697037462800410362148944412936946436948404358369385869068307272077674102566648149681834185272679384280954782737034627629485340550698540672504374964357100692016211954329405509690496553864931678534181134372700742974128879763375316834989804595259650109853447891920736813036925632756746462876174696036811865840343544097908009090908844787594871601692058357397804941951308387930034965271254590139084601844973557987268278778875915131865859077578777227299973019027564061961040250801698215951635747809781969507951512996768239658330929095789888411808923845256926066147957105297841067814231108336023019392067096842072802263985199233076034875253880044521660387163616150006134555985957613843790398419051157187727971993712289074332757810809039919109313984783560187749294252405970349276887420680152690933588799831212481320415467716477350131058669610824085160525740558650067335935101506968783731176144968042440763028245152911784642908439460863740372269889857495324005974930449229979136667711790823915391976277256773585999765361100070842806065644302735253161413764853474803539323154462347828009245806375942807442883126344370197287332832202161813394351071332475352855028514797323457466460238103018824931650888948219828, 2, 0) : Nat × Nat × Nat).2.1) = ((3822959328067886748574266660083664852823549338335814052061489704345135806448972048303689989244174875075082318311932172609039477136671741164518637722718255441513873187927192322328480695930549709238288877709953320533204823292856397677533548142562121538250941137287921363934625763980495510484730932770562478601503633722211219740687089639842929368155554935549362961775442136703965282945444782475925761775909540087018374152752364699528790173101935560878294485779253261237452730212819951987300381325037120115626006863257637865936262299031240846276967866300515781943399336117325586481081625882589640246870622903006404618204965048284702554093665008652007095738024034421645355485168900263753196575865592045649112072686233243653966215410973270612828913499337368604554476558559011599706114887512054395574414409736751709385930184179141780923213290586411593554839123403512617330748633051102435053596971676728302879274474134171722920559862662855167206993040188703132673777683155371878071807119053462354801425075372056385634858723118270373757992318783473004104014957608896217398182859473502430934960709418384072442250267354877359901054441866155611903641574990524390047791153589533764404431022120706464336244490378206844408858910442862743724016156519483203101277391574816592770565043223420348622932176410474445546387135776654041019460909364363666357182047595681050127456613054609818049696131643529512600714472775850731447063823001252242706072487812244832804138842543429661049285496317419017210231050672623423324602629137431269683277182602189443155862282353126862467509672976269115038122604193474065803642907189365075722298182802160504169250833496270436838873383647907936401223014968673535045528832518671533802081323842246582149712338591073336946952063844044378178663630970164036559249347741979898762103124957773515894085401000054519892121634208829007698859930210052082621888063583402154047531332150271699538781520748436299761547078390045277031695144312043773193369355175491394706014353648806517901943704380870042916924645012156906699861591410569766276618789963234664551812632418629668980370298736386731651510791509139229714627318721328805003910912723247979274988363315554645913012651865533321206850036988828485470201437678567646476101365903848679582056846688060136352415936605865074618131908842061259044510495588014966736635190905363932491339689388218745424385625911486706253769885181583037794331922070675377300154421161087293777101978849916353299016521032268628102170488572267587506134716409230568876911276078215764152850058115021361976444778102623688789700593937887018977531098754278870840252415388327856470531667555915972054346486504750481434825124131838583970999244903561771309055776264958489736019730698204391176155226183660172306301112414993700100127912359080264222864315375307497616994284636850528545560421403878269961175967669424341872089382899300684550016411017151915848728456070801975691818070673731825520495765641222701653287032060104523999186132443911564891459699974885400894518546216523840786014756173632875003351637650616927611045543788744354178591085717150476958863040297782819886344973708567877896263613674995133420241902002169176085085949792724172377838068122276796259944164409944401419860941399391801222150735977594298099767047124783728020301784939310069186586178564608853387003249081468526076703521437793216744501599791328948134882708025777630871020302093899582242427461943886903433334333316649973024488696455653429677663344047838205882236096060702138743388458954171542311938760429331505901918901082472067197093555885690294274351199089789933692957348186428837936286040863314325021250559627078595683106217515030242874441140696536607177914543070682995600731056306202260095174711102632146496449222313782380552149880377597470172280421183634950406412704764421269120701587625566994572059559502633314768712123430499935601822336615966491666963343580559801332264675533353709215814603307671089411642367609867216897221293536791217395485442853470052681313803039553931267628230687696309418448245186473360610453787211639831255210035637964136814877998497386813768593503581266905322313373660033354348868146932981099321535254101153735227440760051833875288784181714523871202242365076651337905034545610187486433284633155322935936977054346016591970194552312117465276920165157166622222398487294585486111716993582577116369225825305684716420651649735919560311290520451434684791866050055693282084114429547928138754023157301465625142024959052270846916651910589439626467358591476897764550050979415747761332349929663634699879639836648329254919370905315344696268119700882546962293663627065222483604605814875081676830759173531341850494123568368546032294479457351841891566210417149007257509996063625951984281914624309163359533410488453264290467932294830128822390170751834996825670837527366636205532414874239947397866003963201041805051596697037462800410362148944412936946436948404358369385869068307272077674102566648149681834185272679384280954782737034627629485340550698540672504374964357100692016211954329405509690496553864931678534181134372700742974128879763375316834989804595259650109853447891920736813036925632756746462876174696036811865840343544097908009090908844787594871601692058357397804941951308387930034965271254590139084601844973557987268278778875915131865859077578777227299973019027564061961040250801698215951635747809781969507951512996768239658330929095789888411808923845256926066147957105297841067814231108336023019392067096842072802263985199233076034875253880044521660387163616150006134555985957613843790398419051157187727971993712289074332757810809039919109313984783560187749294252405970349276887420680152690933588799831212481320415467716477350131058669610824085160525740558650067335935101506968783731176144968042440763028245152911784642908439460863740372269889857495324005974930449229979136667711790823915391976277256773585999765361100070842806065644302735253161413764853474803539323154462347828009245806375942807442883126344370197287332832202161813394351071332475352855028514797323457466460238103018824931650888948219828, 2) : Nat × Nat) from rfl, mixDecAll43]
  rfl

theorem random53_43 : random53 (pythonKey 43) = 347244098548544 := by
  rw [show pythonKey 43 = [43] from rfl]
  simp only [random53]
  rw [initByArray_43]
  rfl

theorem mixKeyChunk44x0 : (mixKeyStep [44])^[100] (62685089405509111925910797243914719854890513935494713084094713797279779630627496305943786046941309007281293105221577504421353501605599255248785149356818580886163074212016138319710181437623915839386196989339984175865611290932895638485827512283879634622589907034847096838980553398268338905605705315464924834076955485269257682765843392777664062904318116756644819538761883164862381873685805923051342196114892111881287659915424456096361326051748180740843339721465950121631833352165428366344241754810081140762710579390137795215443629123183303201044796731629341661542390258966032612552126580439913324626563213547393121217728067632048719897064596438939163041106934301355643192260261867872030533878188557727018817797219012064641958276099544136480610826250078810896212505254064619595899307426216931651016613164877613570296351724055264357110051005104450572173606849938075379012356137114572525910752676385589168436483206759652170097284388598518122222819376116616668668677988651997615236221431416155794821321118852088948452164682783715959922435191327367306488124638818446090532334864386359317233873012285172875896330714873881780586230596002778688422250420590175698633544778262136505069053046737202152515000629854634631225453245996997340762744567896897683212149150732909707719966588817675821630380251456266588599804209831660991462715440400663143017564651072677052296295930367391822676512661642282350234567553218318066651318510488484545671729568971887621684270732981974442582657502555066960418690332945218280990034155505553171409775830458482159957769211244505225186771766058316021949327301666418107251589707938065072144733816368743637495699897181007119363672460040974223449086641663004605507793014252452324150238463715514559124307431648478948480649031081489229583165223570218974125422263886587593014744330199975749832650568652404661542746543584685860761547297457070273167102314576665676644281998277713093924236551494770138725647883566971887853912300960949802636372591951717316415323846182747445131420005722224687602711525724505110953736568981699982016588947035894059736087136235396798804019434387781559696138411966704777989194870090051835909943079457649936020314680876367897457337488804889342331824364904005266943816631681518612047693872607083945336048154993001716858914072302230374294986610531277637599664647525761147514008899238689946802093944865612982597431648203028809043429562401771290925843222821220221381984318518256971016750121270624021542153515130386081256853244444367484914891752438843250797295149886721543902585582757118492217204960123203770309672216674331373413106027454841661967870247822106376003696537006476355273043676224973894002060133928765135363584693312631060562155459381152426642778209514491263275588735458188352331628933634618912177576995916817414488324819680108333628484452298807271017999262374749573133359090629722111402666396222385680310709557844049479865847370371052888681758484468279513921172987571336140289500145715018352119752770038578015899178947425013401300127437407370742417936980607757405410607208376626705322894782663757703548808362869195819947150150865798288136994832911439410269353230208345410503242199606186650417333579047848825834242257112060317620885151293421378661990197161958015730358249113963865616811805417654957899792836277351433146683316643158745577273742588847277405020330699298979666450169324546781433015633218213248018986767013905101885085728066131985273947793365444250280947765884488609302913437528001802423347517836456663978922564542901160075954132077499502061844004777463229898312792357201472450520034421742281215395838957029567457078867297742321364249618062920323524100796395855490398720473188748064226082130624085325443879193454095100721902723688608983702297802922465778395428510531587340343771240068168890882622394112252370643121994567113348850616779414952571984309063927162547038575769391208822294299053225776973195785292510157058775147687493667385905281728614066936870793483631104130486096422866739022254251631022238998824784309871214211336594149372534724828516536519652291847191320934127662041939033266344757810255450761243406685982638804631309022215852991706323223872506356963395668107287976200691035733250165615782065576159415303394415966535152327550107294310945533761757937224536792146711105700674959937207778503501562879445241463662142281185819506210181780721218897488871995890898495582077564387715740371190275817001449471008660140255770382875594805433223352833476546594040372715841292252983175468170554585838014797017976570586587751089146553833551413146641975370517778330202052282190648141351908509904289169596729111939424597802445523234111653813513351586367960175769546506050051493655326103823629699245586418016468660736051425039803522537493270385743437525903109563398688573456345292160567787373069854610200635728800730405759403691875432721043746233636765094325962472698626875833148826372580999341547042531665331710768365982359935219565301595187067772247975847412037958098451506998773182171027695752045356894447709388159633645629545493246019135820915900506906032640701290570506299065346661219735445730896769091171352761432210047450382980030625592142825700677633624952217795344145832513082782540989616413040988227257601039794195623143595351637462190706636535912449334420058581521218743569834717812580171279915160794789675762903718339466089866492140118823551337811927493524761760551434001520245324751568861558716803095718510972066599595072196209156923318071322517301806566620458899402166430591631348363311478802800521980525250372511467674969151489645720009661369785217086930227581405674315978920044798755483144811069077253851302610194739624245401270682864202663540116818822475326676741780611737275972111438408802370422377608919256570335384654037352344114105999356653180812503717835632673409647782213628400383443178293619326757139369589058612122088577237252104060778375287897543799460272211546791798613974575310224299012205778134871255296492395729078221387894808011355820153110205338707003138385845672884757408327786763143168159295742358655797897448897721796416755370, 1, 0) = (62685089405509111925910797243914719854890513935494713084094713797279779630627496305943786046941309007281293105221577504421353501605599255248785149356818580886163074212016138319710181437623915839386196989339984175865611290932895638485827512283879634622589907034847096838980553398268338905605705315464924834076955485269257682765843392777664062904318116756644819538761883164862381873685805923051342196114892111881287659915424456096361326051748180740843339721465950121631833352165428366344241754810081140762710579390137795215443629123183303201044796731629341661542390258966032612552126580439913324626563213547393121217728067632048719897064596438939163041106934301355643192260261867872030533878188557727018817797219012064641958276099544136480610826250078810896212505254064619595899307426216931651016613164877613570296351724055264357110051005104450572173606849938075379012356137114572525910752676385589168436483206759652170097284388598518122222819376116616668668677988651997615236221431416155794821321118852088948452164682783715959922435191327367306488124638818446090532334864386359317233873012285172875896330714873881780586230596002778688422250420590175698633544778262136505069053046737202152515000629854634631225453245996997340762744567896897683212149150732909707719966588817675821630380251456266588599804209831660991462715440400663143017564651072677052296295930367391822676512661642282350234567553218318066651318510488484545671729568971887621684270732981974442582657502555066960418690332945218280990034155505553171409775830458482159957769211244505225186771766058316021949327301666418107251589707938065072144733816368743637495699897181007119363672460040974223449086641663004605507793014252452324150238463715514559124307431648478948480649031081489229583165223570218974125422263886587593014744330199975749832650568652404661542746543584685860761547297457070273167102314576665676644281998277713093924236551494770138725647883566971887853912300960949802636372591951717316415323846182747445131420005722224687602711525724505110953736568981699982016588947035894059736087136235396798804019434387781559696138411966704777989194870090051835909943079457649936020314680876367897457337488804889342331824364904005266943816631681518612047693872607083945336048154993001716858914072302230374294986610531277637599664647525761147514008899238689946802093944865612982597431648203028809043429562401771290925843222821220221381984318518256971016750121270624021542153515130386081256853244444367484914891752438843250797295149886721543902585582757118492217204960123203770309672216674331373413106027454841661967870247822106376003696537006476355273043676224973894002060133928765135363584693312631060562155459381152426642778209514491263275588735458188352331628933634618912177576995916817414488324819680108333628484452298807271017999262374749573133359090629722111402666396222385680310709557844049479865847370371052888681758484468279513921172987571336140289500145715018352119752770038578015899178947425013401300127437407370742417936980607757405410607208376626705322894782663757703548808362869195819947150150865798288136994832911439410269353230208345410503242199606186650417333579047848825834242257112060317620885151293421378661990197161958015730358249113963865616811805417654957899792836277351433146683316643158745577273742588847277405020330699298979666450169324546781433015633218213248018986767013905101885085728066131985273947793365444250280947765884488609302913437528001802423347517836456663978922564542901160075954132077499502061844004777463229898312792357201472450520034421742281215395838957029567457078867297742321364249618062920323524100796395855490398720473188748064226082130624085325443879193454095100721902723688608983702297802922465778395428510531587340343771240068168890882622394112252370643121994567113348850616779414952571984309063927162547038575769391208822294299053225776973195785292510157058775147687493667385905281728614066936870793483631104130486096422866739022254251631022238998824784309871214211336594149372534724828516536519652291847191320934127662041939033266344757810255450761243406685982638804631309022215852991706323223872506356963395668107287976200691035733250165615782065576159415303394415966535152327550107294310945533761757937224536792146711105700674959937207778503501562879445241463662142281185819506210181780721218897488871995890898495582077564387715740371190275817001449471008660140255770382875594805433223352833476546594040372715841292252983175468170554585838014797017976570586587751089146553833551413146641975370517778330202052282190648141351908509904289169596729111939424597802445523234111653813513351586367960175769546506050051493655326103823629699245586418016468660736051425039803522537493270385743437525903109563398688573456345292160567787373069854610200635728800730405759403691875432721043746233636765094325962472698626875833148826372580999341547042531665331710768365982359935219565301595187067772247975847412037958098451506998773182171027695752045356894447709388159633645629545493246019135820915900506906032640701290570506299065346661220174532648808588401967480041269304239588467711872550300040901090101389092978281129270345452620393298639041420318347340182258954609126084276934260197116686152717929960031094354591567055869161206506052640513945263560704204527460787768663251158742709081040827884687392120990358016394413899756729018505131347768162743552138880917418800552113554387778490461248972408205202865156168883503125560063980782057126833477136515884319751127863780992988185757897685558917193446675735749703527748952588352082165427108641980725491844545476576940349437185156362367569228691884437094560863747426418743279364458628765223721095710290432538056557369933544499651173225821251552466445547661806145936187765880830340939890883556048731808211164593341758995479724742676661225228133459885771551784551132209280283697966306916956403124974349585657818783308872080325637033635742087649524652560047381872700675722207158401096253884532606433056883396664288497013227351417865128492236654468797745541757523626, 101, 0) := by rfl

theorem mixKeyChunk44x1 : (mixKeyStep [44])^[100] (62685089405509111925910797243914719854890513935494713084094713797279779630627496305943786046941309007281293105221577504421353501605599255248785149356818580886163074212016138319710181437623915839386196989339984175865611290932895638485827512283879634622589907034847096838980553398268338905605705315464924834076955485269257682765843392777664062904318116756644819538761883164862381873685805923051342196114892111881287659915424456096361326051748180740843339721465950121631833352165428366344241754810081140762710579390137795215443629123183303201044796731629341661542390258966032612552126580439913324626563213547393121217728067632048719897064596438939163041106934301355643192260261867872030533878188557727018817797219012064641958276099544136480610826250078810896212505254064619595899307426216931651016613164877613570296351724055264357110051005104450572173606849938075379012356137114572525910752676385589168436483206759652170097284388598518122222819376116616668668677988651997615236221431416155794821321118852088948452164682783715959922435191327367306488124638818446090532334864386359317233873012285172875896330714873881780586230596002778688422250420590175698633544778262136505069053046737202152515000629854634631225453245996997340762744567896897683212149150732909707719966588817675821630380251456266588599804209831660991462715440400663143017564651072677052296295930367391822676512661642282350234567553218318066651318510488484545671729568971887621684270732981974442582657502555066960418690332945218280990034155505553171409775830458482159957769211244505225186771766058316021949327301666418107251589707938065072144733816368743637495699897181007119363672460040974223449086641663004605507793014252452324150238463715514559124307431648478948480649031081489229583165223570218974125422263886587593014744330199975749832650568652404661542746543584685860761547297457070273167102314576665676644281998277713093924236551494770138725647883566971887853912300960949802636372591951717316415323846182747445131420005722224687602711525724505110953736568981699982016588947035894059736087136235396798804019434387781559696138411966704777989194870090051835909943079457649936020314680876367897457337488804889342331824364904005266943816631681518612047693872607083945336048154993001716858914072302230374294986610531277637599664647525761147514008899238689946802093944865612982597431648203028809043429562401771290925843222821220221381984318518256971016750121270624021542153515130386081256853244444367484914891752438843250797295149886721543902585582757118492217204960123203770309672216674331373413106027454841661967870247822106376003696537006476355273043676224973894002060133928765135363584693312631060562155459381152426642778209514491263275588735458188352331628933634618912177576995916817414488324819680108333628484452298807271017999262374749573133359090629722111402666396222385680310709557844049479865847370371052888681758484468279513921172987571336140289500145715018352119752770038578015899178947425013401300127437407370742417936980607757405410607208376626705322894782663757703548808362869195819947150150865798288136994832911439410269353230208345410503242199606186650417333579047848825834242257112060317620885151293421378661990197161958015730358249113963865616811805417654957899792836277351433146683316643158745577273742588847277405020330699298979666450169324546781433015633218213248018986767013905101885085728066131985273947793365444250280947765884488609302913437528001802423347517836456663978922564542901160075954132077499502061844004777463229898312792357201472450520034421742281215395838957029567457078867297742321364249618062920323524100796395855490398720473188748064226082130624085325443879193454095100721902723688608983702297802922465778395428510531587340343771240068168890882622394112252370643121994567113348850616779414952571984309063927162547038575769391208822294299053225776973195785292510157058775147687493667385905281728614066936870793483631104130486096422866739022254251631022238998824784309871214211336594149372534724828516536519652291847191320934127662041939033266344757810255450761243406685982638804631309022215852991706323223872506356963395668107287976200691035733250165615782065576159415303394415966535152327550107294310945533761757937224536792146711105700674959937207778503501562879445241463662142281185819506210181780721218897488871995890898495582077564387715740371190275817001449471008660140255770382875594805433223352833476546594040372715841292252983175468170554585838014797017976570586587751089146553833551413146641975370517778330202052282190648141351908509904289169596729111939424597802445523234111653813513351586367960175769546506050051493655326103823629699245586418016468660736051425039803522537493270385743437525903109563398688573456345292160567787373069854610200635728800730405759403691875432721043746233636765094325962472698626875833148826372580999341547042531665331710768365982359935219565301595187067772247975847412037958098451506998773182171027695752045356894447709388159633645629545493246019135820915900506906032640701290570506299065346661220174532648808588401967480041269304239588467711872550300040901090101389092978281129270345452620393298639041420318347340182258954609126084276934260197116686152717929960031094354591567055869161206506052640513945263560704204527460787768663251158742709081040827884687392120990358016394413899756729018505131347768162743552138880917418800552113554387778490461248972408205202865156168883503125560063980782057126833477136515884319751127863780992988185757897685558917193446675735749703527748952588352082165427108641980725491844545476576940349437185156362367569228691884437094560863747426418743279364458628765223721095710290432538056557369933544499651173225821251552466445547661806145936187765880830340939890883556048731808211164593341758995479724742676661225228133459885771551784551132209280283697966306916956403124974349585657818783308872080325637033635742087649524652560047381872700675722207158401096253884532606433056883396664288497013227351417865128492236654468797745541757523626, 101, 0) = (62685089405509111925910797243914719854890513935494713084094713797279779630627496305943786046941309007281293105221577504421353501605599255248785149356818580886163074212016138319710181437623915839386196989339984175865611290932895638485827512283879634622589907034847096838980553398268338905605705315464924834076955485269257682765843392777664062904318116756644819538761883164862381873685805923051342196114892111881287659915424456096361326051748180740843339721465950121631833352165428366344241754810081140762710579390137795215443629123183303201044796731629341661542390258966032612552126580439913324626563213547393121217728067632048719897064596438939163041106934301355643192260261867872030533878188557727018817797219012064641958276099544136480610826250078810896212505254064619595899307426216931651016613164877613570296351724055264357110051005104450572173606849938075379012356137114572525910752676385589168436483206759652170097284388598518122222819376116616668668677988651997615236221431416155794821321118852088948452164682783715959922435191327367306488124638818446090532334864386359317233873012285172875896330714873881780586230596002778688422250420590175698633544778262136505069053046737202152515000629854634631225453245996997340762744567896897683212149150732909707719966588817675821630380251456266588599804209831660991462715440400663143017564651072677052296295930367391822676512661642282350234567553218318066651318510488484545671729568971887621684270732981974442582657502555066960418690332945218280990034155505553171409775830458482159957769211244505225186771766058316021949327301666418107251589707938065072144733816368743637495699897181007119363672460040974223449086641663004605507793014252452324150238463715514559124307431648478948480649031081489229583165223570218974125422263886587593014744330199975749832650568652404661542746543584685860761547297457070273167102314576665676644281998277713093924236551494770138725647883566971887853912300960949802636372591951717316415323846182747445131420005722224687602711525724505110953736568981699982016588947035894059736087136235396798804019434387781559696138411966704777989194870090051835909943079457649936020314680876367897457337488804889342331824364904005266943816631681518612047693872607083945336048154993001716858914072302230374294986610531277637599664647525761147514008899238689946802093944865612982597431648203028809043429562401771290925843222821220221381984318518256971016750121270624021542153515130386081256853244444367484914891752438843250797295149886721543902585582757118492217204960123203770309672216674331373413106027454841661967870247822106376003696537006476355273043676224973894002060133928765135363584693312631060562155459381152426642778209514491263275588735458188352331628933634618912177576995916817414488324819680108333628484452298807271017999262374749573133359090629722111402666396222385680310709557844049479865847370371052888681758484468279513921172987571336140289500145715018352119752770038578015899178947425013401300127437407370742417936980607757405410607208376626705322894782663757703548808362869195819947150150865798288136994832911439410269353230208345410503242199606186650417333579047848825834242257112060317620885151293421378661990197161958015730358249113963865616811805417654957899792836277351433146683316643158745577273742588847277405020330699298979666450169324546781433015633218213248018986767013905101885085728066131985273947793365444250280947765884488609302913437528001802423347517836456663978922564542901160075954132077499502061844004777463229898312792357201472450520034421742281215395838957029567457078867297742321364249618062920323524100796395855490398720473188748064226082130624085325443879193454095100721902723688608983702297802922465778395428510531587340343771240068168890882622394112252370643121994567113348850616779414952571984309063927162547038575769391208822294299053225776973195785292510157058775147687493667385905281728614066936870793483631104130486096422866739022254251631022238998824784309871214211336594149372534724828516536519652291847191320934127662041939033266344757810255450761243406685982634932439921256270404461430044329826305692465541590566630383514587302758114493170427386051540134341032147757193275831665897562512637934432014894038881511271965913321284015719135872537516972815174481644023946650428996519062000981746702356380082986961998283097936705282173980956491373133981880091950307749125174404763055024379892972731811109206067694752759051539266329657836689340188352358642045378979868630378216115938318742864715151237940758357058779354472665431335143723399734098452652916940191947122888876731944970380998659284302428458889731052967721226252767297719806166773985570008640532787304783115532751236764246420799648899171463787958033362869918414409772602430014251218284541058845614908817366701703082747516522022204600480452521630997149191431514631082083733890291219820244859662707955399097817920387590937145794641398699930792117171362608067884856072991704674129896252994338510251967849368872021289395196753716748606916080730068369520562907995315144881375165726336121767362759066156430252713488333269504889842002199772462446138161954098611507539354094519487738197635925188471117041126874487353351026546259980364728094733756265841456890817990072402463737104070907228573195242923080062874374948166447868699889974595372913013126117860335710588732119373441105086141772158835701506256038366783473177314733063463001343830257442862975234325248616867136738962088814276093529440583979776724074218222118654578766074420128398798149465427828489042614666377453259584227064494309286951481505970243845566324121187274884598788048749841563196846284293208793133295221833262720780066428417968607877003090535776052545362229872384602445534240606424997115799846238170654795625248269289100112118697342715918773321944356705431366160292125765084572571454354960228774423547048455751641668293150872984964009287743216598349530408234680751715372148443144372058131965780633748777885480583516435854582417015122552162781043093982215356310940396452662326580906, 201, 0) := by rfl

theorem mixKeyChunk44x2 : (mixKeyStep [44])^[100] (62685089405509111925910797243914719854890513935494713084094713797279779630627496305943786046941309007281293105221577504421353501605599255248785149356818580886163074212016138319710181437623915839386196989339984175865611290932895638485827512283879634622589907034847096838980553398268338905605705315464924834076955485269257682765843392777664062904318116756644819538761883164862381873685805923051342196114892111881287659915424456096361326051748180740843339721465950121631833352165428366344241754810081140762710579390137795215443629123183303201044796731629341661542390258966032612552126580439913324626563213547393121217728067632048719897064596438939163041106934301355643192260261867872030533878188557727018817797219012064641958276099544136480610826250078810896212505254064619595899307426216931651016613164877613570296351724055264357110051005104450572173606849938075379012356137114572525910752676385589168436483206759652170097284388598518122222819376116616668668677988651997615236221431416155794821321118852088948452164682783715959922435191327367306488124638818446090532334864386359317233873012285172875896330714873881780586230596002778688422250420590175698633544778262136505069053046737202152515000629854634631225453245996997340762744567896897683212149150732909707719966588817675821630380251456266588599804209831660991462715440400663143017564651072677052296295930367391822676512661642282350234567553218318066651318510488484545671729568971887621684270732981974442582657502555066960418690332945218280990034155505553171409775830458482159957769211244505225186771766058316021949327301666418107251589707938065072144733816368743637495699897181007119363672460040974223449086641663004605507793014252452324150238463715514559124307431648478948480649031081489229583165223570218974125422263886587593014744330199975749832650568652404661542746543584685860761547297457070273167102314576665676644281998277713093924236551494770138725647883566971887853912300960949802636372591951717316415323846182747445131420005722224687602711525724505110953736568981699982016588947035894059736087136235396798804019434387781559696138411966704777989194870090051835909943079457649936020314680876367897457337488804889342331824364904005266943816631681518612047693872607083945336048154993001716858914072302230374294986610531277637599664647525761147514008899238689946802093944865612982597431648203028809043429562401771290925843222821220221381984318518256971016750121270624021542153515130386081256853244444367484914891752438843250797295149886721543902585582757118492217204960123203770309672216674331373413106027454841661967870247822106376003696537006476355273043676224973894002060133928765135363584693312631060562155459381152426642778209514491263275588735458188352331628933634618912177576995916817414488324819680108333628484452298807271017999262374749573133359090629722111402666396222385680310709557844049479865847370371052888681758484468279513921172987571336140289500145715018352119752770038578015899178947425013401300127437407370742417936980607757405410607208376626705322894782663757703548808362869195819947150150865798288136994832911439410269353230208345410503242199606186650417333579047848825834242257112060317620885151293421378661990197161958015730358249113963865616811805417654957899792836277351433146683316643158745577273742588847277405020330699298979666450169324546781433015633218213248018986767013905101885085728066131985273947793365444250280947765884488609302913437528001802423347517836456663978922564542901160075954132077499502061844004777463229898312792357201472450520034421742281215395838957029567457078867297742321364249618062920323524100796395855490398720473188748064226082130624085325443879193454095100721902723688608983702297802922465778395428510531587340343771240068168890882622394112252370643121994567113348850616779414952571984309063927162547038575769391208822294299053225776973195785292510157058775147687493667385905281728614066936870793483631104130486096422866739022254251631022238998824784309871214211336594149372534724828516536519652291847191320934127662041939033266344757810255450761243406685982634932439921256270404461430044329826305692465541590566630383514587302758114493170427386051540134341032147757193275831665897562512637934432014894038881511271965913321284015719135872537516972815174481644023946650428996519062000981746702356380082986961998283097936705282173980956491373133981880091950307749125174404763055024379892972731811109206067694752759051539266329657836689340188352358642045378979868630378216115938318742864715151237940758357058779354472665431335143723399734098452652916940191947122888876731944970380998659284302428458889731052967721226252767297719806166773985570008640532787304783115532751236764246420799648899171463787958033362869918414409772602430014251218284541058845614908817366701703082747516522022204600480452521630997149191431514631082083733890291219820244859662707955399097817920387590937145794641398699930792117171362608067884856072991704674129896252994338510251967849368872021289395196753716748606916080730068369520562907995315144881375165726336121767362759066156430252713488333269504889842002199772462446138161954098611507539354094519487738197635925188471117041126874487353351026546259980364728094733756265841456890817990072402463737104070907228573195242923080062874374948166447868699889974595372913013126117860335710588732119373441105086141772158835701506256038366783473177314733063463001343830257442862975234325248616867136738962088814276093529440583979776724074218222118654578766074420128398798149465427828489042614666377453259584227064494309286951481505970243845566324121187274884598788048749841563196846284293208793133295221833262720780066428417968607877003090535776052545362229872384602445534240606424997115799846238170654795625248269289100112118697342715918773321944356705431366160292125765084572571454354960228774423547048455751641668293150872984964009287743216598349530408234680751715372148443144372058131965780633748777885480583516435854582417015122552162781043093982215356310940396452662326580906, 201, 0) = (62685089405509111925910797243914719854890513935494713084094713797279779630627496305943786046941309007281293105221577504421353501605599255248785149356818580886163074212016138319710181437623915839386196989339984175865611290932895638485827512283879634622589907034847096838980553398268338905605705315464924834076955485269257682765843392777664062904318116756644819538761883164862381873685805923051342196114892111881287659915424456096361326051748180740843339721465950121631833352165428366344241754810081140762710579390137795215443629123183303201044796731629341661542390258966032612552126580439913324626563213547393121217728067632048719897064596438939163041106934301355643192260261867872030533878188557727018817797219012064641958276099544136480610826250078810896212505254064619595899307426216931651016613164877613570296351724055264357110051005104450572173606849938075379012356137114572525910752676385589168436483206759652170097284388598518122222819376116616668668677988651997615236221431416155794821321118852088948452164682783715959922435191327367306488124638818446090532334864386359317233873012285172875896330714873881780586230596002778688422250420590175698633544778262136505069053046737202152515000629854634631225453245996997340762744567896897683212149150732909707719966588817675821630380251456266588599804209831660991462715440400663143017564651072677052296295930367391822676512661642282350234567553218318066651318510488484545671729568971887621684270732981974442582657502555066960418690332945218280990034155505553171409775830458482159957769211244505225186771766058316021949327301666418107251589707938065072144733816368743637495699897181007119363672460040974223449086641663004605507793014252452324150238463715514559124307431648478948480649031081489229583165223570218974125422263886587593014744330199975749832650568652404661542746543584685860761547297457070273167102314576665676644281998277713093924236551494770138725647883566971887853912300960949802636372591951717316415323846182747445131420005722224687602711525724505110953736568981699982016588947035894059736087136235396798804019434387781559696138411966704777989194870090051835909943079457649936020314680876367897457337488804889342331824364904005266943816631681518612047693872607083945336048154993001716858914072302230374294986610531277637599664647525761147514008899238689946802093944865612982597431648203028809043429562401771290925843222821220221381984318518256971016750121270624021542153515130386081256853244444367484914891752438843250797295149886721543902585582757118492217204960123203770309672216674331373413106027454841661967870247822106376003696537006476355273043676224973894002060133928765135363584693312631060562155459381152426642778209514491263275588735458188352331628933634618912177576995916817414488324819680108333628484452298807271017999262374749573133359090629722111402666396222385680310709557844049479865847370371052888681758484468279513921172987571336140289500145715018352119752770038578015899178947425013401300127437407370742417936980607757405410607208376626705322894782663757703548808362869195819947150150865798288136994832911439410269353230208345422263866656628611067369935216748703242573866649794080725811866885716706433855563274376869234972812326407398326759295912720675851825274094264704030971319696102870400111443624413473906765981925503284457676190723671841016171251541903215938183621408121307330315553879453085925781379238997113314340442180640646876876212048425589296721589287556423509643197752600420935356032246368624351591414389752635946249785315656367033638326532821378659575291202670231656665476492092185426284675170732293278625100996685135352954125768716694246115062759969903641242999855717669621068873782527177852456244929991255397656810686539110126438773542487618735324241778061833723779623089427943050575525382082281838578843960941467637090834163746301246688615491272228202718777196919001797487562317255071267897328866478062436228369225949604191148879880608652938768361504707392590804421652491218815464813137828233047696735325905359273781171887011595606538436374010422661998164000193274673106835941034941157852841112617366542207578976243710924485724070533380054487623016850689937338450709410191909283282948052281596645190611727794930196024665404608339799240284639044777862042363798729552010738550831961167851486492551352781951706504915342079620659872668374421038437696715304972718864942603073119178265204713604830268508381609498479893458456305195407181851338465826827234441316497527912476281082341710429801081670078957620929279866401500283445903668883751172467506510675150147051077742901441094189436993631993613918004100006950356706202683568949100216102962385328621290428090998331259698740064007961955926296934195896437735320685528978581656672893886819449944604348097746184189904764421961014542371002668709793574266548937577842159156134526073875943225744121207515623775448265647299685513678611939545333907943445884066698668138365209899236517149576577361447650567745122114729499476893495857407486311111630909333099681223066855856296697420060002962849308411422959400979316446601247181262032370287885666869306871223307544776955803407656703422256117628446751582417482120185719898990411583146389725481588227965298358597870573725481957031510998207344438626723207901457848061200297562245661948512828862738468078308578342858128852797112271428932095091619318894473498594694732549187209758138633372081216036755224445569373746236977165978835940285788641912707339665134882742301766560618767940879422172322531327311539897070372184589088365665050071198263149465917359158876107394877468170324982180322788887358271510396976145527400531276715029163868231806890432614728736080521068051032788218039554390094253101448005710282476496842894744488513399741906974353151309943576763619476395617183488586547476803386846169534901529972872655781444132826145303385667954788310054422576556311992090069597693110310954067133887610348813726373744597736009658117029022644232152113526096122012005804725017911051960263214317960480197028604300191160356755811556110620330, 301, 0) := by rfl

theorem mixKeyChunk44x3 : (mixKeyStep [44])^[100] (62685089405509111925910797243914719854890513935494713084094713797279779630627496305943786046941309007281293105221577504421353501605599255248785149356818580886163074212016138319710181437623915839386196989339984175865611290932895638485827512283879634622589907034847096838980553398268338905605705315464924834076955485269257682765843392777664062904318116756644819538761883164862381873685805923051342196114892111881287659915424456096361326051748180740843339721465950121631833352165428366344241754810081140762710579390137795215443629123183303201044796731629341661542390258966032612552126580439913324626563213547393121217728067632048719897064596438939163041106934301355643192260261867872030533878188557727018817797219012064641958276099544136480610826250078810896212505254064619595899307426216931651016613164877613570296351724055264357110051005104450572173606849938075379012356137114572525910752676385589168436483206759652170097284388598518122222819376116616668668677988651997615236221431416155794821321118852088948452164682783715959922435191327367306488124638818446090532334864386359317233873012285172875896330714873881780586230596002778688422250420590175698633544778262136505069053046737202152515000629854634631225453245996997340762744567896897683212149150732909707719966588817675821630380251456266588599804209831660991462715440400663143017564651072677052296295930367391822676512661642282350234567553218318066651318510488484545671729568971887621684270732981974442582657502555066960418690332945218280990034155505553171409775830458482159957769211244505225186771766058316021949327301666418107251589707938065072144733816368743637495699897181007119363672460040974223449086641663004605507793014252452324150238463715514559124307431648478948480649031081489229583165223570218974125422263886587593014744330199975749832650568652404661542746543584685860761547297457070273167102314576665676644281998277713093924236551494770138725647883566971887853912300960949802636372591951717316415323846182747445131420005722224687602711525724505110953736568981699982016588947035894059736087136235396798804019434387781559696138411966704777989194870090051835909943079457649936020314680876367897457337488804889342331824364904005266943816631681518612047693872607083945336048154993001716858914072302230374294986610531277637599664647525761147514008899238689946802093944865612982597431648203028809043429562401771290925843222821220221381984318518256971016750121270624021542153515130386081256853244444367484914891752438843250797295149886721543902585582757118492217204960123203770309672216674331373413106027454841661967870247822106376003696537006476355273043676224973894002060133928765135363584693312631060562155459381152426642778209514491263275588735458188352331628933634618912177576995916817414488324819680108333628484452298807271017999262374749573133359090629722111402666396222385680310709557844049479865847370371052888681758484468279513921172987571336140289500145715018352119752770038578015899178947425013401300127437407370742417936980607757405410607208376626705322894782663757703548808362869195819947150150865798288136994832911439410269353230208345422263866656628611067369935216748703242573866649794080725811866885716706433855563274376869234972812326407398326759295912720675851825274094264704030971319696102870400111443624413473906765981925503284457676190723671841016171251541903215938183621408121307330315553879453085925781379238997113314340442180640646876876212048425589296721589287556423509643197752600420935356032246368624351591414389752635946249785315656367033638326532821378659575291202670231656665476492092185426284675170732293278625100996685135352954125768716694246115062759969903641242999855717669621068873782527177852456244929991255397656810686539110126438773542487618735324241778061833723779623089427943050575525382082281838578843960941467637090834163746301246688615491272228202718777196919001797487562317255071267897328866478062436228369225949604191148879880608652938768361504707392590804421652491218815464813137828233047696735325905359273781171887011595606538436374010422661998164000193274673106835941034941157852841112617366542207578976243710924485724070533380054487623016850689937338450709410191909283282948052281596645190611727794930196024665404608339799240284639044777862042363798729552010738550831961167851486492551352781951706504915342079620659872668374421038437696715304972718864942603073119178265204713604830268508381609498479893458456305195407181851338465826827234441316497527912476281082341710429801081670078957620929279866401500283445903668883751172467506510675150147051077742901441094189436993631993613918004100006950356706202683568949100216102962385328621290428090998331259698740064007961955926296934195896437735320685528978581656672893886819449944604348097746184189904764421961014542371002668709793574266548937577842159156134526073875943225744121207515623775448265647299685513678611939545333907943445884066698668138365209899236517149576577361447650567745122114729499476893495857407486311111630909333099681223066855856296697420060002962849308411422959400979316446601247181262032370287885666869306871223307544776955803407656703422256117628446751582417482120185719898990411583146389725481588227965298358597870573725481957031510998207344438626723207901457848061200297562245661948512828862738468078308578342858128852797112271428932095091619318894473498594694732549187209758138633372081216036755224445569373746236977165978835940285788641912707339665134882742301766560618767940879422172322531327311539897070372184589088365665050071198263149465917359158876107394877468170324982180322788887358271510396976145527400531276715029163868231806890432614728736080521068051032788218039554390094253101448005710282476496842894744488513399741906974353151309943576763619476395617183488586547476803386846169534901529972872655781444132826145303385667954788310054422576556311992090069597693110310954067133887610348813726373744597736009658117029022644232152113526096122012005804725017911051960263214317960480197028604300191160356755811556110620330, 301, 0) = (62685089405509111925910797243914719854890513935494713084094713797279779630627496305943786046941309007281293105221577504421353501605599255248785149356818580886163074212016138319710181437623915839386196989339984175865611290932895638485827512283879634622589907034847096838980553398268338905605705315464924834076955485269257682765843392777664062904318116756644819538761883164862381873685805923051342196114892111881287659915424456096361326051748180740843339721465950121631833352165428366344241754810081140762710579390137795215443629123183303201044796731629341661542390258966032612552126580439913324626563213547393121217728067632048719897064596438939163041106934301355643192260261867872030533878188557727018817797219012064641958276099544136480610826250078810896212505254064619595899307426216931651016613164877613570296351724055264357110051005104450572173606849938075379012356137114572525910752676385589168436483206759652170097284388598518122222819376116616668668677988651997615236221431416155794821321118852088948452164682783715959922435191327367306488124638818446090532334864386359317233873012285172875896330714873881780586230596002778688422250420590175698633544778262136505069053046737202152515000629854634631225453245996997340762744567896897683212149150732909707719966588817675821630380251456266588599804209831660991462715440400663143017564651072677052296295930367391822676512661642282350234567553218318066651318510488484545671729568971887621684270732981974442582657502555066960418690332945218280990034155505553171409775830458482159957769211244505225186771766058316021949327301666418107251589707938065072144733816368743637495699897181007119363672460040974223449086641663004605507793014252452324150238463715514559124307431648478948480649031081489229583165223570218974125422263886587593014744330199975749832650568652404661542746543584685860761547297457070273167102314576665676644281998277713093924236551494770138725647883566971887853912300960949802636372591951717316415323846182747445131420005722224687602711525724505110953736568981699982016588947035894059736087136235396798804019434387781559696138411966704777989194870090051835909943079457649936020314700695664299103022501138142888484505454284410048927740988172320118091906777120698028972961485345497751240893962935149456617668754011374106091272729919352086929859338203529420721196912183527696909630527004978122422814076597611946162349840132542107820266018610186696883348079409949582964578476121296066894466742424776966337244313381835207679710372885397674503873448390117904999156671970293988757257709275211885793010821373384649568067349362728124660886464934337141999509244410858812208235111415733504218844165924429338818848551179355202550887359201439613183144215877840788395547950683186976494610642031231943947432275450587951872196462147814720131777335191541785223572324433313340194160321021438087270335185598936224875153866344322886847864878773238451573520309820927244919149222619325564129976261965456111168340259127058619767378679464281569047196023228079509833635637675407987364421968980272639068375749925942685789407239563230578835081447938098277175502220246384053826534643488347477755761847677228746201056161276695331809867877418282477892497366638034486445651346289765901402490403803931358988864683047048881854421363033670412034107508138964952656525278271161163996923772242668553300138602383406488268624921398238813936806663349353168532297415053173701051603437988901955419642228076125149984738047496538833697135105131706696229058184335176548130089214847204662091957238815123895747223253628917650105617798303899617171810722317006411563553005956897396729198982657029030355421547614111483317589765807248794148520533259297417755755757571551949071635881388707505441398500722493922721322788618731427240332820943690964759757701136452113398192467096899309209540328470408812485434027148113577440060051353263748022647656590845128020288642227940290966769357239000602670658812276729031231654678541440256676711977888772205108763334306623078039333493766308506336224544975631135667584891812465107506602152062306121714660490129223286808620369532041325841293022675884775696390265730610315732147364528047887056839663042620896457328479385825341572066969377198472799937944156079938583751347373218526735178249743211683092672498525059987658911044949788293613462485462556408874287309974957063455707942128571575201658526624989160761924779632695987600894781897648031506877547358688464368166238086064587769650470507143289096962037340428355050630343784043307348288851522791714496547781657566165600896891656905595407671001259114905149918919750904342877604739316872561824663596711177901083029211919180249239271929834463402269811526350515744725759222534464668893719597738676448664799818418044865924794580787785239371649276256647095171579906364308956933944793740961438945025943407832796863690882388042574533297017931549766851379779420834016567932170424020959293390285823636265307750439339391043118586795312717078137881454066743613553182122980711175186416346974449395193311199726241272373751464589059446382064675934815971616442663516914796417348819035313075802291178739018270239187952875967327286396157584959983907736152990029387817867533379650588071821591881276148154248188538701913798205419808358959548376200957495739913748521473087495898271533047049792652859509769491556838568735963762659375159966603290980319644337548064864511885040280887056051851767915716452958704198533713758406150502449121627364733899871758723016967612014659194872744537347862892191021814780076247456066608274572289812622377318644931672002313666880844215656783037109485789981846022269404874058777782571414895361102912908678288442360190994346030254604196903202710345152246917676187286280782032733346646967722822134070266367712691231060049502696689321894789518261214768743984575514351438101800307774148506718101448103267682146100671549964772940824837499338119888605691450998105314230469748633416111460610293396845217818431909623560186239720791659467833011599669411883845120349740839992186226350117859518766190236902610602, 401, 0) := by rfl

theorem mixKeyChunk44x4 : (mixKeyStep [44])^[100] (62685089405509111925910797243914719854890513935494713084094713797279779630627496305943786046941309007281293105221577504421353501605599255248785149356818580886163074212016138319710181437623915839386196989339984175865611290932895638485827512283879634622589907034847096838980553398268338905605705315464924834076955485269257682765843392777664062904318116756644819538761883164862381873685805923051342196114892111881287659915424456096361326051748180740843339721465950121631833352165428366344241754810081140762710579390137795215443629123183303201044796731629341661542390258966032612552126580439913324626563213547393121217728067632048719897064596438939163041106934301355643192260261867872030533878188557727018817797219012064641958276099544136480610826250078810896212505254064619595899307426216931651016613164877613570296351724055264357110051005104450572173606849938075379012356137114572525910752676385589168436483206759652170097284388598518122222819376116616668668677988651997615236221431416155794821321118852088948452164682783715959922435191327367306488124638818446090532334864386359317233873012285172875896330714873881780586230596002778688422250420590175698633544778262136505069053046737202152515000629854634631225453245996997340762744567896897683212149150732909707719966588817675821630380251456266588599804209831660991462715440400663143017564651072677052296295930367391822676512661642282350234567553218318066651318510488484545671729568971887621684270732981974442582657502555066960418690332945218280990034155505553171409775830458482159957769211244505225186771766058316021949327301666418107251589707938065072144733816368743637495699897181007119363672460040974223449086641663004605507793014252452324150238463715514559124307431648478948480649031081489229583165223570218974125422263886587593014744330199975749832650568652404661542746543584685860761547297457070273167102314576665676644281998277713093924236551494770138725647883566971887853912300960949802636372591951717316415323846182747445131420005722224687602711525724505110953736568981699982016588947035894059736087136235396798804019434387781559696138411966704777989194870090051835909943079457649936020314700695664299103022501138142888484505454284410048927740988172320118091906777120698028972961485345497751240893962935149456617668754011374106091272729919352086929859338203529420721196912183527696909630527004978122422814076597611946162349840132542107820266018610186696883348079409949582964578476121296066894466742424776966337244313381835207679710372885397674503873448390117904999156671970293988757257709275211885793010821373384649568067349362728124660886464934337141999509244410858812208235111415733504218844165924429338818848551179355202550887359201439613183144215877840788395547950683186976494610642031231943947432275450587951872196462147814720131777335191541785223572324433313340194160321021438087270335185598936224875153866344322886847864878773238451573520309820927244919149222619325564129976261965456111168340259127058619767378679464281569047196023228079509833635637675407987364421968980272639068375749925942685789407239563230578835081447938098277175502220246384053826534643488347477755761847677228746201056161276695331809867877418282477892497366638034486445651346289765901402490403803931358988864683047048881854421363033670412034107508138964952656525278271161163996923772242668553300138602383406488268624921398238813936806663349353168532297415053173701051603437988901955419642228076125149984738047496538833697135105131706696229058184335176548130089214847204662091957238815123895747223253628917650105617798303899617171810722317006411563553005956897396729198982657029030355421547614111483317589765807248794148520533259297417755755757571551949071635881388707505441398500722493922721322788618731427240332820943690964759757701136452113398192467096899309209540328470408812485434027148113577440060051353263748022647656590845128020288642227940290966769357239000602670658812276729031231654678541440256676711977888772205108763334306623078039333493766308506336224544975631135667584891812465107506602152062306121714660490129223286808620369532041325841293022675884775696390265730610315732147364528047887056839663042620896457328479385825341572066969377198472799937944156079938583751347373218526735178249743211683092672498525059987658911044949788293613462485462556408874287309974957063455707942128571575201658526624989160761924779632695987600894781897648031506877547358688464368166238086064587769650470507143289096962037340428355050630343784043307348288851522791714496547781657566165600896891656905595407671001259114905149918919750904342877604739316872561824663596711177901083029211919180249239271929834463402269811526350515744725759222534464668893719597738676448664799818418044865924794580787785239371649276256647095171579906364308956933944793740961438945025943407832796863690882388042574533297017931549766851379779420834016567932170424020959293390285823636265307750439339391043118586795312717078137881454066743613553182122980711175186416346974449395193311199726241272373751464589059446382064675934815971616442663516914796417348819035313075802291178739018270239187952875967327286396157584959983907736152990029387817867533379650588071821591881276148154248188538701913798205419808358959548376200957495739913748521473087495898271533047049792652859509769491556838568735963762659375159966603290980319644337548064864511885040280887056051851767915716452958704198533713758406150502449121627364733899871758723016967612014659194872744537347862892191021814780076247456066608274572289812622377318644931672002313666880844215656783037109485789981846022269404874058777782571414895361102912908678288442360190994346030254604196903202710345152246917676187286280782032733346646967722822134070266367712691231060049502696689321894789518261214768743984575514351438101800307774148506718101448103267682146100671549964772940824837499338119888605691450998105314230469748633416111460610293396845217818431909623560186239720791659467833011599669411883845120349740839992186226350117859518766190236902610602, 401, 0) = (62685089405509111925910797243914719854890513935494713084094713797279779630627496305943786046941309007281293105221577504421353501605599255248785149356818580886163074212016138319710181437623915839386196989339984175865611290932895638485827512283879634622589907034847096838980553398268338905605705315464924834076955485269257682765843392777664062904318116756644819538761883164862381873685805923051342196114892111881287659915424456096361326051748180740843339721465950121631833352165428366344241754810081140762710579390137795215443629123183303201044796731629341661542390258966032612552126580439913324626563213547393121217728067632048719897064596438939163041106934301355643192260261867872030533878188557727018817797219012064641958276099544136480610826250078810896212505254064619595899307426216931651016613164877613570296351724055264357110051005104450572173606849938075379012356137114572525910752676385589168436483206759652170097284388598518122222819376116616668668677988651997615236221431416155794821321118852088948452164682783715959922435191327367306488124638818446090532334864386359317233873012285172875896330714873881780586230596002778688422250420590175698633544778262136505069053046737202109286991394129237166250835632117307828122933533628684804585821541637501025271179239246597042707313529310820727396369829299649297051498377333084508374873452342094306985005564334231081614164806163815136799575679200159919246937435598614580464769817227843378269465248823743912150816680384322886508952751039536692648891629714748674538128406011139534730351270909482526642751293654911895657837721801165193463042854745283537837421599761376861972360506740880020845590477806068322669775399268718402570863779700357206656468787473618984811764194243575081606415439327704541589240629612267986915700697396457578746047885441386193311683664150659707936542493735311312637845985312238575162372094281185378531486554831259537377685091216121765623166280272115589194487386620153133978891191786484729504834668640967488653789882020120333654866154002654840663443663545964968246954639318979738722273997633839796694728037837094939329687350405126427439612686007582751617019082017691047743136576355622309642452569813225361811470128728851417873370670818679573827470467000341185715091726427593504216921490318841834697766400083849133386353634925968255160299718852409165893560074269755111275646762078894012339086291482295233818772131247249456373929932875833350937689290945980008887556239462531047584902692719286998291958446142984065490722867021608671909001539156134183907882353098201975975577921925457138178893977238066186307028783861231778324056895206266726500724059186574687146501259054886748193141068905538848563430845346723963309433200063185114355756163464073646789883785414097492470626072794518163217338351004379659167884229532837738730693998837908378784224591819438837482938885106415040034741689564243008429240812077195843242219173337261125107130005547491109571524247592170128946614106465956644102670809847695195818366533851305646859866946637523087391586364833028792749529840350286877982228822801972385765629019493971757173247568134856626928564009301097769346945650556322231623003644435855964964142845079158337284303695981947178025474009958423811152419243970016912702687141139519590606583946202867000084717390953291156837734897597665170301523779428601962393551907461610007872904941276002464847707696643399880273797683718592485966634633350809373038864266582123550137936194689430406655906652085899257480685367303820631327127426532706155572250518764318439086093200548872939804950325512413456161068395056420405176731972264681973125930577655195038736357936321679349830826889671151310125906433041404653477666936776646517791861809896408642451754890104169712978878035121738909493585110556086353282219449449365997231701905205982568006764647710196066259460236019540132980994119702956182482267011180400983267602480010756322766993996033825688050866876883059115981906752367950129050992010612611672259151136182971780672592622431638001353030994358442267913468881016271685347091000363978850551196738300882313528433985450950740054988621955607037304045102210616820511372356812727673915086919046734790793252489151497909399879670179727167123378485015156633058421616395193890519105241199308640371714150543620802754518335320787738117547702319347605092108302873327464421835155312050649621454032515596841636748609575364096314681141335043744105684670622684861400717112966202248180462321050815098545425822314415349102509505894628358651543400015511782452237601506795571037685351682040675727957968526547163056416331214967943265603147524803664439658561418118924899092776738718614102080357959511933159325602238629139908240239887859273708547145047472621502633259238851818669833136978683857508508124894881473100189452191040053998184657883684721576408256569816228588085695060816155285314962434479224400698946622104934858012855222176903692853101628536010070042450760349340517020486226229961278919038214816461651961688402345747269809155667661935109185472157462890403853440063399623767150180805082362553604256581680804520451891010817082623478792129351765691929285513747828404736594554321827908763160650431487002436393242145824034763441189543709790641278811266846409787215088493538910019400988521006298345250335629407060100588844464271898405706074128827764772300534578312543541741855292221128141859008535645889314506676976745115872325743286595031610973719642898897513481119532437612271471679956840478053439966560793912618125417841063052759198392532347561989342321935716025485629812502900150717062524094766428403439453196748437642609283761559449442821440810747596747748201997920152169941984480261078779120122636988912468100012585524516624883810954803389637512646681142762462664487822504302801994921726306011386810567045609491539851444431322545630125064564357794113373448703815539744967337786647973078801090420000887679551040963932773334014777363733746503400806346965096274449929112785620643879924419155894189527203900083752532432698488538025548615284089102828016644397181592707964461306861226, 501, 0) := by rfl

theorem mixKeyChunk44x5 : (mixKeyStep [44])^[100] (62685089405509111925910797243914719854890513935494713084094713797279779630627496305943786046941309007281293105221577504421353501605599255248785149356818580886163074212016138319710181437623915839386196989339984175865611290932895638485827512283879634622589907034847096838980553398268338905605705315464924834076955485269257682765843392777664062904318116756644819538761883164862381873685805923051342196114892111881287659915424456096361326051748180740843339721465950121631833352165428366344241754810081140762710579390137795215443629123183303201044796731629341661542390258966032612552126580439913324626563213547393121217728067632048719897064596438939163041106934301355643192260261867872030533878188557727018817797219012064641958276099544136480610826250078810896212505254064619595899307426216931651016613164877613570296351724055264357110051005104450572173606849938075379012356137114572525910752676385589168436483206759652170097284388598518122222819376116616668668677988651997615236221431416155794821321118852088948452164682783715959922435191327367306488124638818446090532334864386359317233873012285172875896330714873881780586230596002778688422250420590175698633544778262136505069053046737202109286991394129237166250835632117307828122933533628684804585821541637501025271179239246597042707313529310820727396369829299649297051498377333084508374873452342094306985005564334231081614164806163815136799575679200159919246937435598614580464769817227843378269465248823743912150816680384322886508952751039536692648891629714748674538128406011139534730351270909482526642751293654911895657837721801165193463042854745283537837421599761376861972360506740880020845590477806068322669775399268718402570863779700357206656468787473618984811764194243575081606415439327704541589240629612267986915700697396457578746047885441386193311683664150659707936542493735311312637845985312238575162372094281185378531486554831259537377685091216121765623166280272115589194487386620153133978891191786484729504834668640967488653789882020120333654866154002654840663443663545964968246954639318979738722273997633839796694728037837094939329687350405126427439612686007582751617019082017691047743136576355622309642452569813225361811470128728851417873370670818679573827470467000341185715091726427593504216921490318841834697766400083849133386353634925968255160299718852409165893560074269755111275646762078894012339086291482295233818772131247249456373929932875833350937689290945980008887556239462531047584902692719286998291958446142984065490722867021608671909001539156134183907882353098201975975577921925457138178893977238066186307028783861231778324056895206266726500724059186574687146501259054886748193141068905538848563430845346723963309433200063185114355756163464073646789883785414097492470626072794518163217338351004379659167884229532837738730693998837908378784224591819438837482938885106415040034741689564243008429240812077195843242219173337261125107130005547491109571524247592170128946614106465956644102670809847695195818366533851305646859866946637523087391586364833028792749529840350286877982228822801972385765629019493971757173247568134856626928564009301097769346945650556322231623003644435855964964142845079158337284303695981947178025474009958423811152419243970016912702687141139519590606583946202867000084717390953291156837734897597665170301523779428601962393551907461610007872904941276002464847707696643399880273797683718592485966634633350809373038864266582123550137936194689430406655906652085899257480685367303820631327127426532706155572250518764318439086093200548872939804950325512413456161068395056420405176731972264681973125930577655195038736357936321679349830826889671151310125906433041404653477666936776646517791861809896408642451754890104169712978878035121738909493585110556086353282219449449365997231701905205982568006764647710196066259460236019540132980994119702956182482267011180400983267602480010756322766993996033825688050866876883059115981906752367950129050992010612611672259151136182971780672592622431638001353030994358442267913468881016271685347091000363978850551196738300882313528433985450950740054988621955607037304045102210616820511372356812727673915086919046734790793252489151497909399879670179727167123378485015156633058421616395193890519105241199308640371714150543620802754518335320787738117547702319347605092108302873327464421835155312050649621454032515596841636748609575364096314681141335043744105684670622684861400717112966202248180462321050815098545425822314415349102509505894628358651543400015511782452237601506795571037685351682040675727957968526547163056416331214967943265603147524803664439658561418118924899092776738718614102080357959511933159325602238629139908240239887859273708547145047472621502633259238851818669833136978683857508508124894881473100189452191040053998184657883684721576408256569816228588085695060816155285314962434479224400698946622104934858012855222176903692853101628536010070042450760349340517020486226229961278919038214816461651961688402345747269809155667661935109185472157462890403853440063399623767150180805082362553604256581680804520451891010817082623478792129351765691929285513747828404736594554321827908763160650431487002436393242145824034763441189543709790641278811266846409787215088493538910019400988521006298345250335629407060100588844464271898405706074128827764772300534578312543541741855292221128141859008535645889314506676976745115872325743286595031610973719642898897513481119532437612271471679956840478053439966560793912618125417841063052759198392532347561989342321935716025485629812502900150717062524094766428403439453196748437642609283761559449442821440810747596747748201997920152169941984480261078779120122636988912468100012585524516624883810954803389637512646681142762462664487822504302801994921726306011386810567045609491539851444431322545630125064564357794113373448703815539744967337786647973078801090420000887679551040963932773334014777363733746503400806346965096274449929112785620643879924419155894189527203900083752532432698488538025548615284089102828016644397181592707964461306861226, 501, 0) = (62685089405509111925910797243914719854890513935494713084094713797279779630627496305943786046941309007281293105221577504421353501605599255248785149356818580886163074212016138319710181437623915839386196989339984175865611290905002941435100343038633489596384622530764784655850905414168092054357669131287984251945124589183303821524828260952230306843308270817694870608390130492969919494896405438091432283798115993418303607448952866635133489357918473551650275508251164176619103802997834058673012315313416198971513885230972597616987043461134094045663165759229584318534864022326440367295783606864705927558572251870023842642004815640671990685255394119863019105939981613711229803164868422885916207382590705185333103797494136818711571629579206452547451648754047445285530230436569326198837023776326187476579141554559098856453360640574412211751825024842894690632708266170463756549750342943031064372644705714661573404150659250266733503037278644199251972552962116575113560604577879519566203457843978486438969190482253384563197804682879182278715159457219354690977107856258234522231744564315684957983814782229212194341019275528992433073036794354542773553970204664652936096126111932087966999342401734943629448950035548374711417063239796699407167492502561902003179231706187887917538406365852803111559933856308168198132157177316493300061979990941965265094685998569925327424859564957858863307646237104759258326931105088955491802112867924210405470578594951960893584099244641363261778073333036088884913826669642384272096349966295903516584053545325346858009074841471631370290074246693237642679718588819058037055739202107564272824716912738144334044205302687168995770207339648838314828115232522084772920212688614321527433734925005664084601947749968107852929124795976439231351384238905719350053162358515661211629583588318953646191646926288429424469754017122964059028141784922027059565660542451081866847879154577495551414843555258490992614196213940929082817678928060522671261648503062857478929435223799979878506049650761092753831887235234387650609963334322377532971542821670005836257681112795258909338155154180429800951759689374639478630269664068592299903899159062229115718626573469973145614799079793232516941838985845871549127251948664832206155178492965153703808438013708352401523300518265869756288423799139752953761421406675188040578933186341317502641682687383995393094999946034537308293484802077176534021504393712123432635875609430382500894292891516158600161382288578974088234595226453829085053474735352398915666898993475724337546460083940373287043379571906824669818416995821844100138560775100208694288313364337791799800665925926543845926262170665473659671248668955649005079865719903010747293363717712172435813363466313146673559526984272791673112269158221068240352375239463834928505611453727539555992228924574815476234317574808520869829123140011891923707016138201161342967850086052766954055748023067103050088450440064467277484325801046441771189816718914714312989396425808416413632687145402569725690700409948261170411718019634102277704683143064411748613488263816012219889867960425902388189227892555081245303283957340539668138281132021680980464831436766687353952532595376568435866871725908877172321374228787457788021766766164452391332901353907723738312018466183380063983588475300831932891569891330025498633461341268274917803192514134505849957138459101335447988551926311326346497212585427599617910632943906581256927667190829309374448754833364399197642924992182585430144557054657361221736244781082739538349638881338492859426395629212916851592412934750893203105477762111045717923098297159738886300028383979105451370871824742276245945282895293779507689845972354812509862953801462407059383974147663815784311458725934013859605414772448076746929566973032042821771672498140994886359050930595627143435534576139983739478265380961840966964704148619117935697231417212871287339351012453983451822996172438383717601445655094205128414440426685498189099734943023046353606430379076961304581406519818051856661667508632067735085557614147008463443664239724852401047906747907969006367998928709400786351587358531625373836494587932365054227017200636560343025489056062455390343996718711550720725252775887994476801845511628320925421524633575384459241792033259061997443438740125165321550396322409853163708932821476827201302708148532433709223067057401814318075008456895350458120334769579965042532075290487304486511857114280637847134826475751112251151623520938920427303222292255666894615314133814248528112429141773411519380253824421650004561492548327650030729235807451172965732434217855124978553388312700544450148745520803200947085836346494797709373627892548854908052887510991002119344482631249988631946249148424165853041617512044943874684909145174046689918835851289848741834168025653675586649276607103736931258424241874746934579662885285282370443859378214417315473250992702901630282602255554883151822962146778657185825138847818146560006973889473447817916664193222994599492709636292376462933030647099942442454750658345346704578103656330625443662283892616224443400719797422674079038708003688744123652731378271293131250394591448599709746960719564860427900019435312309711912477923589342109532351220447383343932361872062195207776979244822579628622862332066870194627847549317204904680219050487577938533339533498456841811638733671681233454366019542014639236947083630417503605571705155460940331385294952139646199928756882205408766352643008938580223493120463612979134985166606946085347525116107945473727829643825803460598356569048204195774461089658696809893278567495187251933989653122753418570542007135138319784206204432580461243549740250251710496136938097385586200228292134798261974411787504884956750441555836477258723517699094656078576272722705933138659835722343518862066905366931227727643028518864030178039467980555238801270493404514327378254474491657865404070805663842800428863825321285980366416736237391646380729317352421111513968129393607929753571004346012786524507377078373950505016486583379437919843762006748392176800065544808187697596064183995008428116438588840466090, 601, 0) := by rfl

theorem mixKeyChunk44x6 : (mixKeyStep [44])^[24] (62685089405509111925910797243914719854890513935494713084094713797279779630627496305943786046941309007281293105221577504421353501605599255248785149356818580886163074212016138319710181437623915839386196989339984175865611290905002941435100343038633489596384622530764784655850905414168092054357669131287984251945124589183303821524828260952230306843308270817694870608390130492969919494896405438091432283798115993418303607448952866635133489357918473551650275508251164176619103802997834058673012315313416198971513885230972597616987043461134094045663165759229584318534864022326440367295783606864705927558572251870023842642004815640671990685255394119863019105939981613711229803164868422885916207382590705185333103797494136818711571629579206452547451648754047445285530230436569326198837023776326187476579141554559098856453360640574412211751825024842894690632708266170463756549750342943031064372644705714661573404150659250266733503037278644199251972552962116575113560604577879519566203457843978486438969190482253384563197804682879182278715159457219354690977107856258234522231744564315684957983814782229212194341019275528992433073036794354542773553970204664652936096126111932087966999342401734943629448950035548374711417063239796699407167492502561902003179231706187887917538406365852803111559933856308168198132157177316493300061979990941965265094685998569925327424859564957858863307646237104759258326931105088955491802112867924210405470578594951960893584099244641363261778073333036088884913826669642384272096349966295903516584053545325346858009074841471631370290074246693237642679718588819058037055739202107564272824716912738144334044205302687168995770207339648838314828115232522084772920212688614321527433734925005664084601947749968107852929124795976439231351384238905719350053162358515661211629583588318953646191646926288429424469754017122964059028141784922027059565660542451081866847879154577495551414843555258490992614196213940929082817678928060522671261648503062857478929435223799979878506049650761092753831887235234387650609963334322377532971542821670005836257681112795258909338155154180429800951759689374639478630269664068592299903899159062229115718626573469973145614799079793232516941838985845871549127251948664832206155178492965153703808438013708352401523300518265869756288423799139752953761421406675188040578933186341317502641682687383995393094999946034537308293484802077176534021504393712123432635875609430382500894292891516158600161382288578974088234595226453829085053474735352398915666898993475724337546460083940373287043379571906824669818416995821844100138560775100208694288313364337791799800665925926543845926262170665473659671248668955649005079865719903010747293363717712172435813363466313146673559526984272791673112269158221068240352375239463834928505611453727539555992228924574815476234317574808520869829123140011891923707016138201161342967850086052766954055748023067103050088450440064467277484325801046441771189816718914714312989396425808416413632687145402569725690700409948261170411718019634102277704683143064411748613488263816012219889867960425902388189227892555081245303283957340539668138281132021680980464831436766687353952532595376568435866871725908877172321374228787457788021766766164452391332901353907723738312018466183380063983588475300831932891569891330025498633461341268274917803192514134505849957138459101335447988551926311326346497212585427599617910632943906581256927667190829309374448754833364399197642924992182585430144557054657361221736244781082739538349638881338492859426395629212916851592412934750893203105477762111045717923098297159738886300028383979105451370871824742276245945282895293779507689845972354812509862953801462407059383974147663815784311458725934013859605414772448076746929566973032042821771672498140994886359050930595627143435534576139983739478265380961840966964704148619117935697231417212871287339351012453983451822996172438383717601445655094205128414440426685498189099734943023046353606430379076961304581406519818051856661667508632067735085557614147008463443664239724852401047906747907969006367998928709400786351587358531625373836494587932365054227017200636560343025489056062455390343996718711550720725252775887994476801845511628320925421524633575384459241792033259061997443438740125165321550396322409853163708932821476827201302708148532433709223067057401814318075008456895350458120334769579965042532075290487304486511857114280637847134826475751112251151623520938920427303222292255666894615314133814248528112429141773411519380253824421650004561492548327650030729235807451172965732434217855124978553388312700544450148745520803200947085836346494797709373627892548854908052887510991002119344482631249988631946249148424165853041617512044943874684909145174046689918835851289848741834168025653675586649276607103736931258424241874746934579662885285282370443859378214417315473250992702901630282602255554883151822962146778657185825138847818146560006973889473447817916664193222994599492709636292376462933030647099942442454750658345346704578103656330625443662283892616224443400719797422674079038708003688744123652731378271293131250394591448599709746960719564860427900019435312309711912477923589342109532351220447383343932361872062195207776979244822579628622862332066870194627847549317204904680219050487577938533339533498456841811638733671681233454366019542014639236947083630417503605571705155460940331385294952139646199928756882205408766352643008938580223493120463612979134985166606946085347525116107945473727829643825803460598356569048204195774461089658696809893278567495187251933989653122753418570542007135138319784206204432580461243549740250251710496136938097385586200228292134798261974411787504884956750441555836477258723517699094656078576272722705933138659835722343518862066905366931227727643028518864030178039467980555238801270493404514327378254474491657865404070805663842800428863825321285980366416736237391646380729317352421111513968129393607929753571004346012786524507377078373950505016486583379437919843762006748392176800065544808187697596064183995008428116438588840466090, 601, 0) = (7139767419848862453471665119573390998551493225546791336300294858105855601634918473725290567320847914948082385410418671867537791480875984794775296521626071367943457013653505439711655183975115755970330777683935226389343414786981629807694684677460964783891734357399116237620433385403407210799982085402164567214370502763178063232766921169891522098392523570331805985751659351985199801598875621858074627283119178542571105260841775983432067560805221121440131401369180029976289883176311538493085548497479339768784670176466529592015948057203573430174791203651250287853643096047678349406644887094606096765423239505630501346450581449107669721575217669090309495846947816411759565408265670665807829590516518404784816982382646055928311465739287785350754503980743145740165752488384502618614237436088904943274171509148145380711858460982150302069623895013699851774347832305785354103325793558865219811764586110919559882260302837913048399516702605889511435477295235141968375604293731373937924383838293667902518837419832109927153216018722605699973410354974414313959628258632662607309486647780166151173861389724058494282531416916931938084839796685435132429504895608108311985394900520930577369727601032477974342890854290190543964145284242400445665669305202369069115142839198144845920796354275457792921012138944377415331532034794728429879453723502436974332713840342412297446361029530704062112558561682882210425609314131730430304655231302256298449950025342391791730668178031758879588534476962933274972468192572300146292158914837343429640710657792679664366754887969585161247620277234773928650582634653340275109865222051447020245731672820706297768579189867762842850520377240516738114830514797449908620339334819505108517244144550924947997928061469844222808329391789860023481487112793535354141361012664367155563123743909290441408251653012877137595041197223582753398658110310273844494310683851112068902523809926680470104883409827988852191854516730060762175452022887038149754327381398278796130947506820077855278171608369185731460790799860170170485849703102193603429289392358671125795769210603256476930168826528675856618207998277320647006382326484887689730355210720284966743739409394366957385519885579326154628335980281327255721516908024869923184505505162005730128270172261283072808580018632296736259889001345449714257181199386799170005905201288858156387315396846889080786933743024865432305468419511790662075508290495413919360002255744906014551841903960244837837063295152997760236692819254396766124494912513732863232339615760872431638947290646639670088140892790431209933669635113029811255175763658225805985585181381734196022088243934406712720642948389153011058352382004960951874948380748527337162541272789036940358827390780784234056155187497640948945645681411390960014200509198496877019014942836090647951821642495823086809552976117296974772842519686233284363243425656972807449325854281849789463855235679850432357678293427006318475012559923714389321147066091732664586898605253593721246269183645035921147781192760950128867955434426611299840735679132316526934543604729199294000325718254966260130932744082823061919084065968048374526803467858416365731094329746372414779999249323632485883253730172673450646942704638074410024989777927678766624717598428510586327210332207374689540575663677104411462027061984555952886273542776387538127036951867614166640362121647671909815188816541749204064462030422482947212392925119029855276997250923757669864680980301300952346236080159852722126395507899502259239441957551499363786415294819897079983161272319277174820539193977367830813665090571221677616200164675074190783465078144712259544435328438627241329710624373916470831071976692741652735508886704978444822468825392517242149709458889648252095484219058504372533423470290857942827501289193305982509059841869528871597195875740632532553527946642676429832441883360597456511265175445428136732324781606741410131151518221572308525170045985159148926229235966454290291077261647163584884065557197488035069159999572232964361407201698919942305870660407254539528597704262993474757646019685313348023125420819458989355810610268210711535921116522577746434398108560484975329429282587904411065275569245926586580647207788325722435953609232832940326267088740882870205420347012238330326159005778746985043833666450149412364810580508092504268161527259264564259897711592534864221529264833691026853761436846654900174701122175551537627071700333768754837632544967487612918084396820585414844774446873059479904075115874393324806354161718132147093668680728802834318973208864173147204202239909221872108170503692162313197353204058009454567487546523039269290440642064908463854387140115633726603590293789245653997065732665294378281967877408105601403821659950654723216629564207045400159996114936409607605456806187349274604080365654812211852940435422542891980654293375273297598292985948328451983914030221101540685019528913683686325317528717919760448162281573975366324935091613525832184078659770546653258571038589422495301619422279773544799641944143279820284945958758679190097825065155826753990398699124942607968542454064108524959946512773420370652272743613891474569570942977292653995387839057805569680968265101292243507816057080374340619053178584427744169529076540323100922182822827307598350845300442970888747079575628705716631610830258473715319135129292700365228200659806247872909409206993826023022103475301188241606210032540045024008982184640297272602499259568622100826370654736688846470097896620669622762226530667650550233098223321404023564626178546706588962310069054963968546422938920457168899672386498596318608985409075380213189005194456185928223993958822685599183160063949529070692005991594081831594753278069841616493095161764754668547638467058898028346447449624886519158561479633848108327120448432988239202380250969306332359424977744266609273734185510202733930129139294044967020238188580636101760360124264497004917363359510783880367122462258136025886956636551187385242074177142383873178988241166534044449858695961865399807368821304462515448372808338937051546868203354369373066157359904657278, 2, 0) := by rfl

theorem mixKeyAll44 : (mixKeyStep [44])^[624] (62685089405509111925910797243914719854890513935494713084094713797279779630627496305943786046941309007281293105221577504421353501605599255248785149356818580886163074212016138319710181437623915839386196989339984175865611290932895638485827512283879634622589907034847096838980553398268338905605705315464924834076955485269257682765843392777664062904318116756644819538761883164862381873685805923051342196114892111881287659915424456096361326051748180740843339721465950121631833352165428366344241754810081140762710579390137795215443629123183303201044796731629341661542390258966032612552126580439913324626563213547393121217728067632048719897064596438939163041106934301355643192260261867872030533878188557727018817797219012064641958276099544136480610826250078810896212505254064619595899307426216931651016613164877613570296351724055264357110051005104450572173606849938075379012356137114572525910752676385589168436483206759652170097284388598518122222819376116616668668677988651997615236221431416155794821321118852088948452164682783715959922435191327367306488124638818446090532334864386359317233873012285172875896330714873881780586230596002778688422250420590175698633544778262136505069053046737202152515000629854634631225453245996997340762744567896897683212149150732909707719966588817675821630380251456266588599804209831660991462715440400663143017564651072677052296295930367391822676512661642282350234567553218318066651318510488484545671729568971887621684270732981974442582657502555066960418690332945218280990034155505553171409775830458482159957769211244505225186771766058316021949327301666418107251589707938065072144733816368743637495699897181007119363672460040974223449086641663004605507793014252452324150238463715514559124307431648478948480649031081489229583165223570218974125422263886587593014744330199975749832650568652404661542746543584685860761547297457070273167102314576665676644281998277713093924236551494770138725647883566971887853912300960949802636372591951717316415323846182747445131420005722224687602711525724505110953736568981699982016588947035894059736087136235396798804019434387781559696138411966704777989194870090051835909943079457649936020314680876367897457337488804889342331824364904005266943816631681518612047693872607083945336048154993001716858914072302230374294986610531277637599664647525761147514008899238689946802093944865612982597431648203028809043429562401771290925843222821220221381984318518256971016750121270624021542153515130386081256853244444367484914891752438843250797295149886721543902585582757118492217204960123203770309672216674331373413106027454841661967870247822106376003696537006476355273043676224973894002060133928765135363584693312631060562155459381152426642778209514491263275588735458188352331628933634618912177576995916817414488324819680108333628484452298807271017999262374749573133359090629722111402666396222385680310709557844049479865847370371052888681758484468279513921172987571336140289500145715018352119752770038578015899178947425013401300127437407370742417936980607757405410607208376626705322894782663757703548808362869195819947150150865798288136994832911439410269353230208345410503242199606186650417333579047848825834242257112060317620885151293421378661990197161958015730358249113963865616811805417654957899792836277351433146683316643158745577273742588847277405020330699298979666450169324546781433015633218213248018986767013905101885085728066131985273947793365444250280947765884488609302913437528001802423347517836456663978922564542901160075954132077499502061844004777463229898312792357201472450520034421742281215395838957029567457078867297742321364249618062920323524100796395855490398720473188748064226082130624085325443879193454095100721902723688608983702297802922465778395428510531587340343771240068168890882622394112252370643121994567113348850616779414952571984309063927162547038575769391208822294299053225776973195785292510157058775147687493667385905281728614066936870793483631104130486096422866739022254251631022238998824784309871214211336594149372534724828516536519652291847191320934127662041939033266344757810255450761243406685982638804631309022215852991706323223872506356963395668107287976200691035733250165615782065576159415303394415966535152327550107294310945533761757937224536792146711105700674959937207778503501562879445241463662142281185819506210181780721218897488871995890898495582077564387715740371190275817001449471008660140255770382875594805433223352833476546594040372715841292252983175468170554585838014797017976570586587751089146553833551413146641975370517778330202052282190648141351908509904289169596729111939424597802445523234111653813513351586367960175769546506050051493655326103823629699245586418016468660736051425039803522537493270385743437525903109563398688573456345292160567787373069854610200635728800730405759403691875432721043746233636765094325962472698626875833148826372580999341547042531665331710768365982359935219565301595187067772247975847412037958098451506998773182171027695752045356894447709388159633645629545493246019135820915900506906032640701290570506299065346661219735445730896769091171352761432210047450382980030625592142825700677633624952217795344145832513082782540989616413040988227257601039794195623143595351637462190706636535912449334420058581521218743569834717812580171279915160794789675762903718339466089866492140118823551337811927493524761760551434001520245324751568861558716803095718510972066599595072196209156923318071322517301806566620458899402166430591631348363311478802800521980525250372511467674969151489645720009661369785217086930227581405674315978920044798755483144811069077253851302610194739624245401270682864202663540116818822475326676741780611737275972111438408802370422377608919256570335384654037352344114105999356653180812503717835632673409647782213628400383443178293619326757139369589058612122088577237252104060778375287897543799460272211546791798613974575310224299012205778134871255296492395729078221387894808011355820153110205338707003138385845672884757408327786763143168159295742358655797897448897721796416755370, 1, 0) = (7139767419848862453471665119573390998551493225546791336300294858105855601634918473725290567320847914948082385410418671867537791480875984794775296521626071367943457013653505439711655183975115755970330777683935226389343414786981629807694684677460964783891734357399116237620433385403407210799982085402164567214370502763178063232766921169891522098392523570331805985751659351985199801598875621858074627283119178542571105260841775983432067560805221121440131401369180029976289883176311538493085548497479339768784670176466529592015948057203573430174791203651250287853643096047678349406644887094606096765423239505630501346450581449107669721575217669090309495846947816411759565408265670665807829590516518404784816982382646055928311465739287785350754503980743145740165752488384502618614237436088904943274171509148145380711858460982150302069623895013699851774347832305785354103325793558865219811764586110919559882260302837913048399516702605889511435477295235141968375604293731373937924383838293667902518837419832109927153216018722605699973410354974414313959628258632662607309486647780166151173861389724058494282531416916931938084839796685435132429504895608108311985394900520930577369727601032477974342890854290190543964145284242400445665669305202369069115142839198144845920796354275457792921012138944377415331532034794728429879453723502436974332713840342412297446361029530704062112558561682882210425609314131730430304655231302256298449950025342391791730668178031758879588534476962933274972468192572300146292158914837343429640710657792679664366754887969585161247620277234773928650582634653340275109865222051447020245731672820706297768579189867762842850520377240516738114830514797449908620339334819505108517244144550924947997928061469844222808329391789860023481487112793535354141361012664367155563123743909290441408251653012877137595041197223582753398658110310273844494310683851112068902523809926680470104883409827988852191854516730060762175452022887038149754327381398278796130947506820077855278171608369185731460790799860170170485849703102193603429289392358671125795769210603256476930168826528675856618207998277320647006382326484887689730355210720284966743739409394366957385519885579326154628335980281327255721516908024869923184505505162005730128270172261283072808580018632296736259889001345449714257181199386799170005905201288858156387315396846889080786933743024865432305468419511790662075508290495413919360002255744906014551841903960244837837063295152997760236692819254396766124494912513732863232339615760872431638947290646639670088140892790431209933669635113029811255175763658225805985585181381734196022088243934406712720642948389153011058352382004960951874948380748527337162541272789036940358827390780784234056155187497640948945645681411390960014200509198496877019014942836090647951821642495823086809552976117296974772842519686233284363243425656972807449325854281849789463855235679850432357678293427006318475012559923714389321147066091732664586898605253593721246269183645035921147781192760950128867955434426611299840735679132316526934543604729199294000325718254966260130932744082823061919084065968048374526803467858416365731094329746372414779999249323632485883253730172673450646942704638074410024989777927678766624717598428510586327210332207374689540575663677104411462027061984555952886273542776387538127036951867614166640362121647671909815188816541749204064462030422482947212392925119029855276997250923757669864680980301300952346236080159852722126395507899502259239441957551499363786415294819897079983161272319277174820539193977367830813665090571221677616200164675074190783465078144712259544435328438627241329710624373916470831071976692741652735508886704978444822468825392517242149709458889648252095484219058504372533423470290857942827501289193305982509059841869528871597195875740632532553527946642676429832441883360597456511265175445428136732324781606741410131151518221572308525170045985159148926229235966454290291077261647163584884065557197488035069159999572232964361407201698919942305870660407254539528597704262993474757646019685313348023125420819458989355810610268210711535921116522577746434398108560484975329429282587904411065275569245926586580647207788325722435953609232832940326267088740882870205420347012238330326159005778746985043833666450149412364810580508092504268161527259264564259897711592534864221529264833691026853761436846654900174701122175551537627071700333768754837632544967487612918084396820585414844774446873059479904075115874393324806354161718132147093668680728802834318973208864173147204202239909221872108170503692162313197353204058009454567487546523039269290440642064908463854387140115633726603590293789245653997065732665294378281967877408105601403821659950654723216629564207045400159996114936409607605456806187349274604080365654812211852940435422542891980654293375273297598292985948328451983914030221101540685019528913683686325317528717919760448162281573975366324935091613525832184078659770546653258571038589422495301619422279773544799641944143279820284945958758679190097825065155826753990398699124942607968542454064108524959946512773420370652272743613891474569570942977292653995387839057805569680968265101292243507816057080374340619053178584427744169529076540323100922182822827307598350845300442970888747079575628705716631610830258473715319135129292700365228200659806247872909409206993826023022103475301188241606210032540045024008982184640297272602499259568622100826370654736688846470097896620669622762226530667650550233098223321404023564626178546706588962310069054963968546422938920457168899672386498596318608985409075380213189005194456185928223993958822685599183160063949529070692005991594081831594753278069841616493095161764754668547638467058898028346447449624886519158561479633848108327120448432988239202380250969306332359424977744266609273734185510202733930129139294044967020238188580636101760360124264497004917363359510783880367122462258136025886956636551187385242074177142383873178988241166534044449858695961865399807368821304462515448372808338937051546868203354369373066157359904657278, 2, 0) := by
  rw [show (624 : Nat) = 24 + (100 + (100 + (100 + (100 + (100 + 100))))) from rfl,
      Function.iterate_add_apply, Function.iterate_add_apply, Function.iterate_add_apply,
      Function.iterate_add_apply, Function.iterate_add_apply, Function.iterate_add_apply,
      mixKeyChunk44x0, mixKeyChunk44x1, mixKeyChunk44x2, mixKeyChunk44x3,
      mixKeyChunk44x4, mixKeyChunk44x5, mixKeyChunk44x6]

theorem mixDecChunk44x0 : mixDecStep^[100] (7139767419848862453471665119573390998551493225546791336300294858105855601634918473725290567320847914948082385410418671867537791480875984794775296521626071367943457013653505439711655183975115755970330777683935226389343414786981629807694684677460964783891734357399116237620433385403407210799982085402164567214370502763178063232766921169891522098392523570331805985751659351985199801598875621858074627283119178542571105260841775983432067560805221121440131401369180029976289883176311538493085548497479339768784670176466529592015948057203573430174791203651250287853643096047678349406644887094606096765423239505630501346450581449107669721575217669090309495846947816411759565408265670665807829590516518404784816982382646055928311465739287785350754503980743145740165752488384502618614237436088904943274171509148145380711858460982150302069623895013699851774347832305785354103325793558865219811764586110919559882260302837913048399516702605889511435477295235141968375604293731373937924383838293667902518837419832109927153216018722605699973410354974414313959628258632662607309486647780166151173861389724058494282531416916931938084839796685435132429504895608108311985394900520930577369727601032477974342890854290190543964145284242400445665669305202369069115142839198144845920796354275457792921012138944377415331532034794728429879453723502436974332713840342412297446361029530704062112558561682882210425609314131730430304655231302256298449950025342391791730668178031758879588534476962933274972468192572300146292158914837343429640710657792679664366754887969585161247620277234773928650582634653340275109865222051447020245731672820706297768579189867762842850520377240516738114830514797449908620339334819505108517244144550924947997928061469844222808329391789860023481487112793535354141361012664367155563123743909290441408251653012877137595041197223582753398658110310273844494310683851112068902523809926680470104883409827988852191854516730060762175452022887038149754327381398278796130947506820077855278171608369185731460790799860170170485849703102193603429289392358671125795769210603256476930168826528675856618207998277320647006382326484887689730355210720284966743739409394366957385519885579326154628335980281327255721516908024869923184505505162005730128270172261283072808580018632296736259889001345449714257181199386799170005905201288858156387315396846889080786933743024865432305468419511790662075508290495413919360002255744906014551841903960244837837063295152997760236692819254396766124494912513732863232339615760872431638947290646639670088140892790431209933669635113029811255175763658225805985585181381734196022088243934406712720642948389153011058352382004960951874948380748527337162541272789036940358827390780784234056155187497640948945645681411390960014200509198496877019014942836090647951821642495823086809552976117296974772842519686233284363243425656972807449325854281849789463855235679850432357678293427006318475012559923714389321147066091732664586898605253593721246269183645035921147781192760950128867955434426611299840735679132316526934543604729199294000325718254966260130932744082823061919084065968048374526803467858416365731094329746372414779999249323632485883253730172673450646942704638074410024989777927678766624717598428510586327210332207374689540575663677104411462027061984555952886273542776387538127036951867614166640362121647671909815188816541749204064462030422482947212392925119029855276997250923757669864680980301300952346236080159852722126395507899502259239441957551499363786415294819897079983161272319277174820539193977367830813665090571221677616200164675074190783465078144712259544435328438627241329710624373916470831071976692741652735508886704978444822468825392517242149709458889648252095484219058504372533423470290857942827501289193305982509059841869528871597195875740632532553527946642676429832441883360597456511265175445428136732324781606741410131151518221572308525170045985159148926229235966454290291077261647163584884065557197488035069159999572232964361407201698919942305870660407254539528597704262993474757646019685313348023125420819458989355810610268210711535921116522577746434398108560484975329429282587904411065275569245926586580647207788325722435953609232832940326267088740882870205420347012238330326159005778746985043833666450149412364810580508092504268161527259264564259897711592534864221529264833691026853761436846654900174701122175551537627071700333768754837632544967487612918084396820585414844774446873059479904075115874393324806354161718132147093668680728802834318973208864173147204202239909221872108170503692162313197353204058009454567487546523039269290440642064908463854387140115633726603590293789245653997065732665294378281967877408105601403821659950654723216629564207045400159996114936409607605456806187349274604080365654812211852940435422542891980654293375273297598292985948328451983914030221101540685019528913683686325317528717919760448162281573975366324935091613525832184078659770546653258571038589422495301619422279773544799641944143279820284945958758679190097825065155826753990398699124942607968542454064108524959946512773420370652272743613891474569570942977292653995387839057805569680968265101292243507816057080374340619053178584427744169529076540323100922182822827307598350845300442970888747079575628705716631610830258473715319135129292700365228200659806247872909409206993826023022103475301188241606210032540045024008982184640297272602499259568622100826370654736688846470097896620669622762226530667650550233098223321404023564626178546706588962310069054963968546422938920457168899672386498596318608985409075380213189005194456185928223993958822685599183160063949529070692005991594081831594753278069841616493095161764754668547638467058898028346447449624886519158561479633848108327120448432988239202380250969306332359424977744266609273734185510202733930129139294044967020238188580636101760360124264497004917363359510783880367122462258136025886956636551187385242074177142383873178988241166534044449858695961865399807368821304462515448372808338937051546868203354369373066157359904657278, 2) = (7139767419848862453471665119573390998551493225546791336300294858105855601634918473725290567320847914948082385410418671867537791480875984794775296521626071367943457013653505439711655183975115755970330777683935226389343414786981629807694684677460964783891734357399116237620433385403407210799982085402164567214370502763178063232766921169891522098392523570331805985751659351985199801598875621858074627283119178542571105260841775983432067560805221121440131401369180029976289883176311538493085548497479339768784670176466529592015948057203573430174791203651250287853643096047678349406644887094606096765423239505630501346450581449107669721575217669090309495846947816411759565408265670665807829590516518404784816982382646055928311465739287785350754503980743145740165752488384502618614237436088904943274171509148145380711858460982150302069623895013699851774347832305785354103325793558865219811764586110919559882260302837913048399516702605889511435477295235141968375604293731373937924383838293667902518837419832109927153216018722605699973410354974414313959628258632662607309486647780166151173861389724058494282531416916931938084839796685435132429504895608108311985394900520930577369727601032477974342890854290190543964145284242400445665669305202369069115142839198144845920796354275457792921012138944377415331532034794728429879453723502436974332713840342412297446361029530704062112558561682882210425609314131730430304655231302256298449950025342391791730668178031758879588534476962933274972468192572300146292158914837343429640710657792679664366754887969585161247620277234773928650582634653340275109865222051447020245731672820706297768579189867762842850520377240516738114830514797449908620339334819505108517244144550924947997928061469844222808329391789860023481487112793535354141361012664367155563123743909290441408251653012877137595041197223582753398658110310273844494310683851112068902523809926680470104883409827988852191854516730060762175452022887038149754327381398278796130947506820077855278171608369185731460790799860170170485849703102193603429289392358671125795769210603256476930168826528675856618207998277320647006382326484887689730355210720284966743739409394366957385519885579326154628335980281327255721516908024869923184505505162005730128270172261283072808580018632296736259889001345449714257181199386799170005905201288858156387315396846889080786933743024865432305468419511790662075508290495413919360002255744906014551841903960244837837063295152997760236692819254396766124494912513732863232339615760872431638947290646639670088140892790431209933669635113029811255175763658225805985585181381734196022088243934406712720642948389153011058352382004960951874948380748527337162541272789036940358827390780784234056155187497640948945645681411390960014200509198496877019014942836090647951821642495823086809552976117296974772842519686233284363243425656972807449325854281849789463855235679850432357678293427006318475012559923714389321147066091732664586898605253593721246269183645035921147781192760950128867955434426611299840735679132316526934543604729199294000325718254966260130932744082823061919084065968048374526803467858416365731094329746372414779999249323632485883253730172673450646942704638074410024989777927678766624717598428510586327210332207374689540575663677104411462027061984555952886273542776387538127036951867614166640362121647671909815188816541749204064462030422482947212392925119029855276997250923757669864680980301300952346236080159852722126395507899502259239441957551499363786415294819897079983161272319277174820539193977367830813665090571221677616200164675074190783465078144712259544435328438627241329710624373916470831071976692741652735508886704978444822468825392517242149709458889648252095484219058504372533423470290857942827501289193305982509059841869528871597195875740632532553527946642676429832441883360597456511265175445428136732324781606741410131151518221572308525170045985159148926229235966454290291077261647163584884065557197488035069159999572232964361407201698919942305870660407254539528597704262993474757646019685313348023125420819458989355810610268210711535921116522577746434398108560484975329429282587904411065275569245926586580647207788325722435953609232832940326267088740882870205420347012238330326159005778746985043833666450149412364810580508092504268161527259264564259897711592534864221529264833691026853761436846654900174701122175551537627071700333768754837632544967487612918084396820585414844774446873059479904075115874393324806354161718132147093668680728802834318973208864173147204202239909221872108170503692162313197353204058009454567487546523039269290440642064908463854387140115633726603590293789245653997065732665294378281967877408105601403821659950654723216629564207045400159996114936409607605456806187349274604080365654812211852940435422542891980654293375273297598292985948328451983914030221101540685019528913683686325317528717919760448162281573975366324935091613525832184078659770546653258571038589422495301619422279773544799641944143279820284945958758679190097825065155826753990398699124942607968542467001148753503327046683399142578589502655724466453595251014207900268408809877357617002899294820492891695863446560669612801547238029744766338316621488269838297831127519950867104918071722727906155965572666470145067495760386895909567553987943914335306278866844578206378926965059084250926517989141153041898944070660933695136567299514220963314233873304908547826178206967974265402845229023936455736856108369678656018388585099742511656748363586569309696775377756452184830380692157698337949159714859925947054715830509859213101146750436845287309031127430880478509927352747484640044436437274866477063931580172549619193099501517051583550507986912332135464792592612942351767791813558162239835606142236300612589970843430825552496415036339221901372997331641052294780696835920140718953359654109325306059298223507118762768673055800973195112236595308336411158800239667956742544056124171026488567163840147646557474545146383328354219866055993357189003033939334217287558998899443456854778576932368355198, 102) := by rfl

theorem mixDecChunk44x1 : mixDecStep^[100] (7139767419848862453471665119573390998551493225546791336300294858105855601634918473725290567320847914948082385410418671867537791480875984794775296521626071367943457013653505439711655183975115755970330777683935226389343414786981629807694684677460964783891734357399116237620433385403407210799982085402164567214370502763178063232766921169891522098392523570331805985751659351985199801598875621858074627283119178542571105260841775983432067560805221121440131401369180029976289883176311538493085548497479339768784670176466529592015948057203573430174791203651250287853643096047678349406644887094606096765423239505630501346450581449107669721575217669090309495846947816411759565408265670665807829590516518404784816982382646055928311465739287785350754503980743145740165752488384502618614237436088904943274171509148145380711858460982150302069623895013699851774347832305785354103325793558865219811764586110919559882260302837913048399516702605889511435477295235141968375604293731373937924383838293667902518837419832109927153216018722605699973410354974414313959628258632662607309486647780166151173861389724058494282531416916931938084839796685435132429504895608108311985394900520930577369727601032477974342890854290190543964145284242400445665669305202369069115142839198144845920796354275457792921012138944377415331532034794728429879453723502436974332713840342412297446361029530704062112558561682882210425609314131730430304655231302256298449950025342391791730668178031758879588534476962933274972468192572300146292158914837343429640710657792679664366754887969585161247620277234773928650582634653340275109865222051447020245731672820706297768579189867762842850520377240516738114830514797449908620339334819505108517244144550924947997928061469844222808329391789860023481487112793535354141361012664367155563123743909290441408251653012877137595041197223582753398658110310273844494310683851112068902523809926680470104883409827988852191854516730060762175452022887038149754327381398278796130947506820077855278171608369185731460790799860170170485849703102193603429289392358671125795769210603256476930168826528675856618207998277320647006382326484887689730355210720284966743739409394366957385519885579326154628335980281327255721516908024869923184505505162005730128270172261283072808580018632296736259889001345449714257181199386799170005905201288858156387315396846889080786933743024865432305468419511790662075508290495413919360002255744906014551841903960244837837063295152997760236692819254396766124494912513732863232339615760872431638947290646639670088140892790431209933669635113029811255175763658225805985585181381734196022088243934406712720642948389153011058352382004960951874948380748527337162541272789036940358827390780784234056155187497640948945645681411390960014200509198496877019014942836090647951821642495823086809552976117296974772842519686233284363243425656972807449325854281849789463855235679850432357678293427006318475012559923714389321147066091732664586898605253593721246269183645035921147781192760950128867955434426611299840735679132316526934543604729199294000325718254966260130932744082823061919084065968048374526803467858416365731094329746372414779999249323632485883253730172673450646942704638074410024989777927678766624717598428510586327210332207374689540575663677104411462027061984555952886273542776387538127036951867614166640362121647671909815188816541749204064462030422482947212392925119029855276997250923757669864680980301300952346236080159852722126395507899502259239441957551499363786415294819897079983161272319277174820539193977367830813665090571221677616200164675074190783465078144712259544435328438627241329710624373916470831071976692741652735508886704978444822468825392517242149709458889648252095484219058504372533423470290857942827501289193305982509059841869528871597195875740632532553527946642676429832441883360597456511265175445428136732324781606741410131151518221572308525170045985159148926229235966454290291077261647163584884065557197488035069159999572232964361407201698919942305870660407254539528597704262993474757646019685313348023125420819458989355810610268210711535921116522577746434398108560484975329429282587904411065275569245926586580647207788325722435953609232832940326267088740882870205420347012238330326159005778746985043833666450149412364810580508092504268161527259264564259897711592534864221529264833691026853761436846654900174701122175551537627071700333768754837632544967487612918084396820585414844774446873059479904075115874393324806354161718132147093668680728802834318973208864173147204202239909221872108170503692162313197353204058009454567487546523039269290440642064908463854387140115633726603590293789245653997065732665294378281967877408105601403821659950654723216629564207045400159996114936409607605456806187349274604080365654812211852940435422542891980654293375273297598292985948328451983914030221101540685019528913683686325317528717919760448162281573975366324935091613525832184078659770546653258571038589422495301619422279773544799641944143279820284945958758679190097825065155826753990398699124942607968542467001148753503327046683399142578589502655724466453595251014207900268408809877357617002899294820492891695863446560669612801547238029744766338316621488269838297831127519950867104918071722727906155965572666470145067495760386895909567553987943914335306278866844578206378926965059084250926517989141153041898944070660933695136567299514220963314233873304908547826178206967974265402845229023936455736856108369678656018388585099742511656748363586569309696775377756452184830380692157698337949159714859925947054715830509859213101146750436845287309031127430880478509927352747484640044436437274866477063931580172549619193099501517051583550507986912332135464792592612942351767791813558162239835606142236300612589970843430825552496415036339221901372997331641052294780696835920140718953359654109325306059298223507118762768673055800973195112236595308336411158800239667956742544056124171026488567163840147646557474545146383328354219866055993357189003033939334217287558998899443456854778576932368355198, 102) = (7139767419848862453471665119573390998551493225546791336300294858105855601634918473725290567320847914948082385410418671867537791480875984794775296521626071367943457013653505439711655183975115755970330777683935226389343414786981629807694684677460964783891734357399116237620433385403407210799982085402164567214370502763178063232766921169891522098392523570331805985751659351985199801598875621858074627283119178542571105260841775983432067560805221121440131401369180029976289883176311538493085548497479339768784670176466529592015948057203573430174791203651250287853643096047678349406644887094606096765423239505630501346450581449107669721575217669090309495846947816411759565408265670665807829590516518404784816982382646055928311465739287785350754503980743145740165752488384502618614237436088904943274171509148145380711858460982150302069623895013699851774347832305785354103325793558865219811764586110919559882260302837913048399516702605889511435477295235141968375604293731373937924383838293667902518837419832109927153216018722605699973410354974414313959628258632662607309486647780166151173861389724058494282531416916931938084839796685435132429504895608108311985394900520930577369727601032477974342890854290190543964145284242400445665669305202369069115142839198144845920796354275457792921012138944377415331532034794728429879453723502436974332713840342412297446361029530704062112558561682882210425609314131730430304655231302256298449950025342391791730668178031758879588534476962933274972468192572300146292158914837343429640710657792679664366754887969585161247620277234773928650582634653340275109865222051447020245731672820706297768579189867762842850520377240516738114830514797449908620339334819505108517244144550924947997928061469844222808329391789860023481487112793535354141361012664367155563123743909290441408251653012877137595041197223582753398658110310273844494310683851112068902523809926680470104883409827988852191854516730060762175452022887038149754327381398278796130947506820077855278171608369185731460790799860170170485849703102193603429289392358671125795769210603256476930168826528675856618207998277320647006382326484887689730355210720284966743739409394366957385519885579326154628335980281327255721516908024869923184505505162005730128270172261283072808580018632296736259889001345449714257181199386799170005905201288858156387315396846889080786933743024865432305468419511790662075508290495413919360002255744906014551841903960244837837063295152997760236692819254396766124494912513732863232339615760872431638947290646639670088140892790431209933669635113029811255175763658225805985585181381734196022088243934406712720642948389153011058352382004960951874948380748527337162541272789036940358827390780784234056155187497640948945645681411390960014200509198496877019014942836090647951821642495823086809552976117296974772842519686233284363243425656972807449325854281849789463855235679850432357678293427006318475012559923714389321147066091732664586898605253593721246269183645035921147781192760950128867955434426611299840735679132316526934543604729199294000325718254966260130932744082823061919084065968048374526803467858416365731094329746372414779999249323632485883253730172673450646942704638074410024989777927678766624717598428510586327210332207374689540575663677104411462027061984555952886273542776387538127036951867614166640362121647671909815188816541749204064462030422482947212392925119029855276997250923757669864680980301300952346236080159852722126395507899502259239441957551499363786415294819897079983161272319277174820539193977367830813665090571221677616200164675074190783465078144712259544435328438627241329710624373916470831071976692741652735508886704978444822468825392517242149709458889648252095484219058504372533423470290857942827501289193305982509059841869528871597195875740632532553527946642676429832441883360597456511265175445428136732324781606741410131151518221572308525170045985159148926229235966454290291077261647163584884065557197488035069159999572232964361407201698919942305870660407254539528597704262993474757646019685313348023125420819458989355810610268210754672331936074569022906896228256099126848181382359106489672386687545545990915308243521115144881202959919589881366951532248470810506053036016830592198504389200062680071614066218255756582592488401022593117537480190134307584072528393508848587204423216258236245312152698940738614464405899334223252860028059055835877268336107737426322191096245612218919886434095744282588599554799363011147032466573893888271491917622745822924458458629155489719075131716445361605033564312231983923810122084715779351588775687619919625914510691733646859139764405749278234337957614784988737581467835224546688884362136191473897276623774851215039097837958037973117044845152061520397038124282965100296189839960978254223870709813667439467357728838418504446341980788168985276448239428131153016268355592004867669349497494367777521744585919912602518944917433330506571903876725707829009972805130710565459694112073080183948625221225357238786075623258854359461489290152520947348047262966144064561297730243163559116659519024526461407249542309226766463143765134354993486718361688307779947593805393556811047443842280056190296735054459047258792466481627742458954871196302343902105372962770390777448065537877170535936736087354392475246377355377531930971186733026606024299888175779282617056483081043124225402899465395277823438221692048036314206209986916866244367646960452928215431477471787440738180322209952995548509993263986640002393442555534179752126844562092273444107225795942886602595161959008937620462593822923456930479663814348364607820544567273126945982086070952676587040788685417433637612360183839828294011382534259334640710865227770877461107606069002396715324239465743615974001069151946783630803760527474731500758685946787238941315250540377798283563473150584189523270045763034117068376834890141401888341141951254475058284913968086060702558113117444583224693162294707060965699192875241586238497173133175479448383644240526891195245437245953484415297521825149313994033342197580500862, 202) := by rfl

theorem mixDecChunk44x2 : mixDecStep^[100] (7139767419848862453471665119573390998551493225546791336300294858105855601634918473725290567320847914948082385410418671867537791480875984794775296521626071367943457013653505439711655183975115755970330777683935226389343414786981629807694684677460964783891734357399116237620433385403407210799982085402164567214370502763178063232766921169891522098392523570331805985751659351985199801598875621858074627283119178542571105260841775983432067560805221121440131401369180029976289883176311538493085548497479339768784670176466529592015948057203573430174791203651250287853643096047678349406644887094606096765423239505630501346450581449107669721575217669090309495846947816411759565408265670665807829590516518404784816982382646055928311465739287785350754503980743145740165752488384502618614237436088904943274171509148145380711858460982150302069623895013699851774347832305785354103325793558865219811764586110919559882260302837913048399516702605889511435477295235141968375604293731373937924383838293667902518837419832109927153216018722605699973410354974414313959628258632662607309486647780166151173861389724058494282531416916931938084839796685435132429504895608108311985394900520930577369727601032477974342890854290190543964145284242400445665669305202369069115142839198144845920796354275457792921012138944377415331532034794728429879453723502436974332713840342412297446361029530704062112558561682882210425609314131730430304655231302256298449950025342391791730668178031758879588534476962933274972468192572300146292158914837343429640710657792679664366754887969585161247620277234773928650582634653340275109865222051447020245731672820706297768579189867762842850520377240516738114830514797449908620339334819505108517244144550924947997928061469844222808329391789860023481487112793535354141361012664367155563123743909290441408251653012877137595041197223582753398658110310273844494310683851112068902523809926680470104883409827988852191854516730060762175452022887038149754327381398278796130947506820077855278171608369185731460790799860170170485849703102193603429289392358671125795769210603256476930168826528675856618207998277320647006382326484887689730355210720284966743739409394366957385519885579326154628335980281327255721516908024869923184505505162005730128270172261283072808580018632296736259889001345449714257181199386799170005905201288858156387315396846889080786933743024865432305468419511790662075508290495413919360002255744906014551841903960244837837063295152997760236692819254396766124494912513732863232339615760872431638947290646639670088140892790431209933669635113029811255175763658225805985585181381734196022088243934406712720642948389153011058352382004960951874948380748527337162541272789036940358827390780784234056155187497640948945645681411390960014200509198496877019014942836090647951821642495823086809552976117296974772842519686233284363243425656972807449325854281849789463855235679850432357678293427006318475012559923714389321147066091732664586898605253593721246269183645035921147781192760950128867955434426611299840735679132316526934543604729199294000325718254966260130932744082823061919084065968048374526803467858416365731094329746372414779999249323632485883253730172673450646942704638074410024989777927678766624717598428510586327210332207374689540575663677104411462027061984555952886273542776387538127036951867614166640362121647671909815188816541749204064462030422482947212392925119029855276997250923757669864680980301300952346236080159852722126395507899502259239441957551499363786415294819897079983161272319277174820539193977367830813665090571221677616200164675074190783465078144712259544435328438627241329710624373916470831071976692741652735508886704978444822468825392517242149709458889648252095484219058504372533423470290857942827501289193305982509059841869528871597195875740632532553527946642676429832441883360597456511265175445428136732324781606741410131151518221572308525170045985159148926229235966454290291077261647163584884065557197488035069159999572232964361407201698919942305870660407254539528597704262993474757646019685313348023125420819458989355810610268210754672331936074569022906896228256099126848181382359106489672386687545545990915308243521115144881202959919589881366951532248470810506053036016830592198504389200062680071614066218255756582592488401022593117537480190134307584072528393508848587204423216258236245312152698940738614464405899334223252860028059055835877268336107737426322191096245612218919886434095744282588599554799363011147032466573893888271491917622745822924458458629155489719075131716445361605033564312231983923810122084715779351588775687619919625914510691733646859139764405749278234337957614784988737581467835224546688884362136191473897276623774851215039097837958037973117044845152061520397038124282965100296189839960978254223870709813667439467357728838418504446341980788168985276448239428131153016268355592004867669349497494367777521744585919912602518944917433330506571903876725707829009972805130710565459694112073080183948625221225357238786075623258854359461489290152520947348047262966144064561297730243163559116659519024526461407249542309226766463143765134354993486718361688307779947593805393556811047443842280056190296735054459047258792466481627742458954871196302343902105372962770390777448065537877170535936736087354392475246377355377531930971186733026606024299888175779282617056483081043124225402899465395277823438221692048036314206209986916866244367646960452928215431477471787440738180322209952995548509993263986640002393442555534179752126844562092273444107225795942886602595161959008937620462593822923456930479663814348364607820544567273126945982086070952676587040788685417433637612360183839828294011382534259334640710865227770877461107606069002396715324239465743615974001069151946783630803760527474731500758685946787238941315250540377798283563473150584189523270045763034117068376834890141401888341141951254475058284913968086060702558113117444583224693162294707060965699192875241586238497173133175479448383644240526891195245437245953484415297521825149313994033342197580500862, 202) = (7139767419848862453471665119573390998551493225546791336300294858105855601634918473725290567320847914948082385410418671867537791480875984794775296521626071367943457013653505439711655183975115755970330777683935226389343414786981629807694684677460964783891734357399116237620433385403407210799982085402164567214370502763178063232766921169891522098392523570331805985751659351985199801598875621858074627283119178542571105260841775983432067560805221121440131401369180029976289883176311538493085548497479339768784670176466529592015948057203573430174791203651250287853643096047678349406644887094606096765423239505630501346450581449107669721575217669090309495846947816411759565408265670665807829590516518404784816982382646055928311465739287785350754503980743145740165752488384502618614237436088904943274171509148145380711858460982150302069623895013699851774347832305785354103325793558865219811764586110919559882260302837913048399516702605889511435477295235141968375604293731373937924383838293667902518837419832109927153216018722605699973410354974414313959628258632662607309486647780166151173861389724058494282531416916931938084839796685435132429504895608108311985394900520930577369727601032477974342890854290190543964145284242400445665669305202369069115142839198144845920796354275457792921012138944377415331532034794728429879453723502436974332713840342412297446361029530704062112558561682882210425609314131730430304655231302256298449950025342391791730668178031758879588534476962933274972468192572300146292158914837343429640710657792679664366754887969585161247620277234773928650582634653340275109865222051447020245731672820706297768579189867762842850520377240516738114830514797449908620339334819505108517244144550924947997928061469844222808329391789860023481487112793535354141361012664367155563123743909290441408251653012877137595041197223582753398658110310273844494310683851112068902523809926680470104883409827988852191854516730060762175452022887038149754327381398278796130947506820077855278171608369185731460790799860170170485849703102193603429289392358671125795769210603256476930168826528675856618207998277320647006382326484887689730355210720284966743739409394366957385519885579326154628335980281327255721516908024869923184505505162005730128270172261283072808580018632296736259889001345449714257181199386799170005905201288858156387315396846889080786933743024865432305468419511790662075508290495413919360002255744906014551841903960244837837063295152997760236692819254396766124494912513732863232339615760872431638947290646639670088140892790431209933669635113029811255175763658225805985585181381734196022088243934406712720642948389153011058352382004960951874948380748527337162541272789036940358827390780784234056155187497640948945645681411390960014200509198496877019014942836090647951821642495823086809552976117296974772842519686233284363243425656972807449325854281849789463855235679850432357678293427006318475012559923714389321147066091732664586898605253593721246269183645035921147781192760950128867955434426611299840735679132316526934543604729199294000325718254966260130932744082823061919084065968048374526803549465147192066041907136858560857580034951084202762062698281537628278693570789802574839767440102580410097155144632315567898757172917847382107863873631391718443152512148059715732221532287200646166301500397262182369565621410281131331047964814091107188726550103910146353937794834445890689093381580902036592556713736067336500495718903648041551206782215596975274790904685570319163775048553676398511390214884654390801505793116004347428338054227713321922401659553110396688580102207122178207509229746133697506654655926172252828056012662023698045271864383211351640556090977052125774400316092683078497486344651046392798559007624496196703597335409331674093736945682255923275450069314544081446790703285957411364664914179951696747350472260182905893995346853263114903190705557741965686302410857955169330568885471056945390817247151672907844732969529524959980298093904925798606642797779230478204515079870503190478096366189311205942273543045829536526497202495352295001421005157985422467590598023380756755848373185485649364997294691663520896121510915763855530876426394658579644838470035241894274944229290721888003312553328586679629735903983959926491587671200245155878149474735368655801290799619089755919933512064299296205390487382452838925829322093326954497477239109377605026297231704197331833573147248251296836395144098880414467537842619281626986164491186011072033928378828507609342096289400450682173755609895998352470482633799727010790839506316037325227399190353985913207190889348821578778094298630451227134248826453004192274799831590980411242948853086439949014559103289141073179352705820165861385339876263618509158513936399069092377392442776408239200552164391784671704649827952209210795755989819031526564844558289692705366428055489584195076257122733955954335129307946540474572637221584865518539613662781662412958989945385289672019206507254860729289070521646797262572858941808431018170718400839829409870319302627769329300948746012013391029255171351149389636807292479459132533236410797542523478408845934667431369485331412420502747843305063600747679886672081524484829825181101409906851602199135098550837605403683041752846256842141149842280301822774991008248892789919632179155369651184635552898492962531610038842912288421897274969875983686249032533941769674364783301031080650810974039760909737342789132556062279407920005754798628895540798246186873387763670708062367995894365931759397362239983832104301802170786310780502899423453270752718098663735400769184881307334123118665019330220915177224001606012776456682097671157525664496452038449986867180704317349304664854576126436270145620506743103284287797210272768919864772590187338103158117758655926634669738078277123147310924753285202655752343138272012546269742088830385857680427964739754050516377169244809997817571820885497116641789390618779836918446740738203797143218556744164304567778362481094647472629268515802068880144883416067443965214980640562530296917222683264181264992243582, 302) := by rfl

theorem mixDecChunk44x3 : mixDecStep^[100] (7139767419848862453471665119573390998551493225546791336300294858105855601634918473725290567320847914948082385410418671867537791480875984794775296521626071367943457013653505439711655183975115755970330777683935226389343414786981629807694684677460964783891734357399116237620433385403407210799982085402164567214370502763178063232766921169891522098392523570331805985751659351985199801598875621858074627283119178542571105260841775983432067560805221121440131401369180029976289883176311538493085548497479339768784670176466529592015948057203573430174791203651250287853643096047678349406644887094606096765423239505630501346450581449107669721575217669090309495846947816411759565408265670665807829590516518404784816982382646055928311465739287785350754503980743145740165752488384502618614237436088904943274171509148145380711858460982150302069623895013699851774347832305785354103325793558865219811764586110919559882260302837913048399516702605889511435477295235141968375604293731373937924383838293667902518837419832109927153216018722605699973410354974414313959628258632662607309486647780166151173861389724058494282531416916931938084839796685435132429504895608108311985394900520930577369727601032477974342890854290190543964145284242400445665669305202369069115142839198144845920796354275457792921012138944377415331532034794728429879453723502436974332713840342412297446361029530704062112558561682882210425609314131730430304655231302256298449950025342391791730668178031758879588534476962933274972468192572300146292158914837343429640710657792679664366754887969585161247620277234773928650582634653340275109865222051447020245731672820706297768579189867762842850520377240516738114830514797449908620339334819505108517244144550924947997928061469844222808329391789860023481487112793535354141361012664367155563123743909290441408251653012877137595041197223582753398658110310273844494310683851112068902523809926680470104883409827988852191854516730060762175452022887038149754327381398278796130947506820077855278171608369185731460790799860170170485849703102193603429289392358671125795769210603256476930168826528675856618207998277320647006382326484887689730355210720284966743739409394366957385519885579326154628335980281327255721516908024869923184505505162005730128270172261283072808580018632296736259889001345449714257181199386799170005905201288858156387315396846889080786933743024865432305468419511790662075508290495413919360002255744906014551841903960244837837063295152997760236692819254396766124494912513732863232339615760872431638947290646639670088140892790431209933669635113029811255175763658225805985585181381734196022088243934406712720642948389153011058352382004960951874948380748527337162541272789036940358827390780784234056155187497640948945645681411390960014200509198496877019014942836090647951821642495823086809552976117296974772842519686233284363243425656972807449325854281849789463855235679850432357678293427006318475012559923714389321147066091732664586898605253593721246269183645035921147781192760950128867955434426611299840735679132316526934543604729199294000325718254966260130932744082823061919084065968048374526803549465147192066041907136858560857580034951084202762062698281537628278693570789802574839767440102580410097155144632315567898757172917847382107863873631391718443152512148059715732221532287200646166301500397262182369565621410281131331047964814091107188726550103910146353937794834445890689093381580902036592556713736067336500495718903648041551206782215596975274790904685570319163775048553676398511390214884654390801505793116004347428338054227713321922401659553110396688580102207122178207509229746133697506654655926172252828056012662023698045271864383211351640556090977052125774400316092683078497486344651046392798559007624496196703597335409331674093736945682255923275450069314544081446790703285957411364664914179951696747350472260182905893995346853263114903190705557741965686302410857955169330568885471056945390817247151672907844732969529524959980298093904925798606642797779230478204515079870503190478096366189311205942273543045829536526497202495352295001421005157985422467590598023380756755848373185485649364997294691663520896121510915763855530876426394658579644838470035241894274944229290721888003312553328586679629735903983959926491587671200245155878149474735368655801290799619089755919933512064299296205390487382452838925829322093326954497477239109377605026297231704197331833573147248251296836395144098880414467537842619281626986164491186011072033928378828507609342096289400450682173755609895998352470482633799727010790839506316037325227399190353985913207190889348821578778094298630451227134248826453004192274799831590980411242948853086439949014559103289141073179352705820165861385339876263618509158513936399069092377392442776408239200552164391784671704649827952209210795755989819031526564844558289692705366428055489584195076257122733955954335129307946540474572637221584865518539613662781662412958989945385289672019206507254860729289070521646797262572858941808431018170718400839829409870319302627769329300948746012013391029255171351149389636807292479459132533236410797542523478408845934667431369485331412420502747843305063600747679886672081524484829825181101409906851602199135098550837605403683041752846256842141149842280301822774991008248892789919632179155369651184635552898492962531610038842912288421897274969875983686249032533941769674364783301031080650810974039760909737342789132556062279407920005754798628895540798246186873387763670708062367995894365931759397362239983832104301802170786310780502899423453270752718098663735400769184881307334123118665019330220915177224001606012776456682097671157525664496452038449986867180704317349304664854576126436270145620506743103284287797210272768919864772590187338103158117758655926634669738078277123147310924753285202655752343138272012546269742088830385857680427964739754050516377169244809997817571820885497116641789390618779836918446740738203797143218556744164304567778362481094647472629268515802068880144883416067443965214980640562530296917222683264181264992243582, 302) = (7139767419848862453471665119573390998551493225546791336300294858105855601634918473725290567320847914948082385410418671867537791480875984794775296521626071367943457013653505439711655183975115755970330777683935226389343414786981629807694684677460964783891734357399116237620433385403407210799982085402164567214370502763178063232766921169891522098392523570331805985751659351985199801598875621858074627283119178542571105260841775983432067560805221121440131401369180029976289883176311538493085548497479339768784670176466529592015948057203573430174791203651250287853643096047678349406644887094606096765423239505630501346450581449107669721575217669090309495846947816411759565408265670665807829590516518404784816982382646055928311465739287785350754503980743145740165752488384502618614237436088904943274171509148145380711858460982150302069623895013699851774347832305785354103325793558865219811764586110919559882260302837913048399516702605889511435477295235141968375604293731373937924383838293667902518837419832109927153216018722605699973410354974414313959628258632662607309486647780166151173861389724058494282531416916931938084839796685435132429504895608108311985394900520930577369727601032477974342890854290190543964145284242400445665669305202369069115142839198144845920796354275457792921012138944377415331532034794728429879453723502436974332713840342412297446361029530704062112558561682882210425609314131730430304655231302256298449950025342391791730668178031758879588534476962933274972468192572300146292158914837343429640710657792679664366754887969585161247620277234773928650582634653340275109865222051447020245731672820706297768579189867762842850520377240516738114830514797449908620339334819505108517244144550924947997928061469844222808329391789860023481487112793535354141361012664367155563123743909290441408251653012877137595041197223582753398658110310273844494310683851112068902523809926680470104883409827988852191854516730060762175452022887038149754327381398278796130947506820077855278171608369185731460790799860170170485849703102193603429289392358671125795769210603256476930168826528675856618207998277320647006382326484887689730355210720284849278659426294778563699416011553664129378919321257927861758891596579895322808956806695329645642617871827886107328865719441231579686832046129951339451549417051539947505536135260098850403429811664056734023488187886390762676177303740679385646572254820395461136651636800735810625703304118077629271885326156096340623536727997570296443017389940401941171688917369795619263988379354925529785251829128963732647544471407992083946474392980466100455397043089585254334794952040243608098515631103867115020810612614761192305864847560996853528288234877235481530415270876796255886811658482616589207564192000306357992625064915483544496012539566566953717871740606929392803281980246232954624204289312929850966840699482399727323339155080721492299760182210923645659373526139914741535745364731953488216195227061944377161024208474752828476129915995730958941908294674693262767151146201052662858202108488785061415731675503065233988389119840561308699912541541386639971975431282404894903406414572800227955562255776082337322179316304677341826650012934310062404408489216338807414157645984893344265677224402489069003002034260771601114280583990906720769948461313189582944998767255724004961706628633779503350393524260829433064983620297340645811498085084583093171648588978393957444807504931028028736912499629044820181631741954619780296970225217108507083998155269356875260475399554068654228059468261371600781512086590825206750084565617726935757698515453363351147024336236028761539736276177581588863275915749002637217633118589377531250084201488443159463268993077438789286358849738206262583391232898339068343868869866428139292534245466988959542537397972196776343851974533088013692824501288613607432347531606855765748973329729464388408428407933098338255770997236315488691860388945014621895297444182702122011933900937170183897094370942673704686979026180070435278513915028248339221271697504518786440278136995879133613290056694936096272241700701573205629979136591030483038932794715655854800001708423113575967139167169650402900964362712391559068582637158080406384738512262856643940499852668086878753397595422773287597028929774543228774351731216582018560260278206185188133969993900964272149186177842881798167968247852535156942708969266482439378618017349867849675854866134012441698753491115549949827600064184378811266592237687867991465035177378783295178956336235136923778315701077657583907692986935159893443737971622783652374744573337374160551058730787772544757321719432430279153271969908973993699246782770125936605974226123519547490599506745378520811648741104974019310123867597246334578196194787336576201849708269425778745853049456216152285246061458741295312277600091477416313643045715830769388816533375616089578756661661709269022289115749219466513296712032160241486734228681794239876242924148158780111458546198296780387788113949703843512383220421301051600590855572399513629860971885678903877659943091346609150842994434090641093636499935177471593450752112957008950824451182728860373123871232981995044114548627126523260075990260315579717786172257262305918335516469318139358973507832727032805744047678122360242374218116393705737214745956379510683524915072416390516984061829380708874536448407078841379465671410425493828532533699007111779591941650847233416635866670219993720390973711603443597598963597394072424664864025559756952389667665095926227785282436722776794653121524603586740385628389251752191281261058974786462624503616085710431883746401985491135610527885416889840371476693224948032383712602855665862318406016475762979654780894053795303871659002536170739532393897552717551641553405146171620487209881738538692390469129255190517139220588142088832924065536628036237527389513384519423600686928403085683920439005194130201128364442298613486271285511283777410080720997567238197666362436761888541032746123724982144493539729848587953716154421675453542674057058977416471850921770799315686774961639175834930180632104996734, 402) := by rfl

theorem mixDecChunk44x4 : mixDecStep^[100] (7139767419848862453471665119573390998551493225546791336300294858105855601634918473725290567320847914948082385410418671867537791480875984794775296521626071367943457013653505439711655183975115755970330777683935226389343414786981629807694684677460964783891734357399116237620433385403407210799982085402164567214370502763178063232766921169891522098392523570331805985751659351985199801598875621858074627283119178542571105260841775983432067560805221121440131401369180029976289883176311538493085548497479339768784670176466529592015948057203573430174791203651250287853643096047678349406644887094606096765423239505630501346450581449107669721575217669090309495846947816411759565408265670665807829590516518404784816982382646055928311465739287785350754503980743145740165752488384502618614237436088904943274171509148145380711858460982150302069623895013699851774347832305785354103325793558865219811764586110919559882260302837913048399516702605889511435477295235141968375604293731373937924383838293667902518837419832109927153216018722605699973410354974414313959628258632662607309486647780166151173861389724058494282531416916931938084839796685435132429504895608108311985394900520930577369727601032477974342890854290190543964145284242400445665669305202369069115142839198144845920796354275457792921012138944377415331532034794728429879453723502436974332713840342412297446361029530704062112558561682882210425609314131730430304655231302256298449950025342391791730668178031758879588534476962933274972468192572300146292158914837343429640710657792679664366754887969585161247620277234773928650582634653340275109865222051447020245731672820706297768579189867762842850520377240516738114830514797449908620339334819505108517244144550924947997928061469844222808329391789860023481487112793535354141361012664367155563123743909290441408251653012877137595041197223582753398658110310273844494310683851112068902523809926680470104883409827988852191854516730060762175452022887038149754327381398278796130947506820077855278171608369185731460790799860170170485849703102193603429289392358671125795769210603256476930168826528675856618207998277320647006382326484887689730355210720284849278659426294778563699416011553664129378919321257927861758891596579895322808956806695329645642617871827886107328865719441231579686832046129951339451549417051539947505536135260098850403429811664056734023488187886390762676177303740679385646572254820395461136651636800735810625703304118077629271885326156096340623536727997570296443017389940401941171688917369795619263988379354925529785251829128963732647544471407992083946474392980466100455397043089585254334794952040243608098515631103867115020810612614761192305864847560996853528288234877235481530415270876796255886811658482616589207564192000306357992625064915483544496012539566566953717871740606929392803281980246232954624204289312929850966840699482399727323339155080721492299760182210923645659373526139914741535745364731953488216195227061944377161024208474752828476129915995730958941908294674693262767151146201052662858202108488785061415731675503065233988389119840561308699912541541386639971975431282404894903406414572800227955562255776082337322179316304677341826650012934310062404408489216338807414157645984893344265677224402489069003002034260771601114280583990906720769948461313189582944998767255724004961706628633779503350393524260829433064983620297340645811498085084583093171648588978393957444807504931028028736912499629044820181631741954619780296970225217108507083998155269356875260475399554068654228059468261371600781512086590825206750084565617726935757698515453363351147024336236028761539736276177581588863275915749002637217633118589377531250084201488443159463268993077438789286358849738206262583391232898339068343868869866428139292534245466988959542537397972196776343851974533088013692824501288613607432347531606855765748973329729464388408428407933098338255770997236315488691860388945014621895297444182702122011933900937170183897094370942673704686979026180070435278513915028248339221271697504518786440278136995879133613290056694936096272241700701573205629979136591030483038932794715655854800001708423113575967139167169650402900964362712391559068582637158080406384738512262856643940499852668086878753397595422773287597028929774543228774351731216582018560260278206185188133969993900964272149186177842881798167968247852535156942708969266482439378618017349867849675854866134012441698753491115549949827600064184378811266592237687867991465035177378783295178956336235136923778315701077657583907692986935159893443737971622783652374744573337374160551058730787772544757321719432430279153271969908973993699246782770125936605974226123519547490599506745378520811648741104974019310123867597246334578196194787336576201849708269425778745853049456216152285246061458741295312277600091477416313643045715830769388816533375616089578756661661709269022289115749219466513296712032160241486734228681794239876242924148158780111458546198296780387788113949703843512383220421301051600590855572399513629860971885678903877659943091346609150842994434090641093636499935177471593450752112957008950824451182728860373123871232981995044114548627126523260075990260315579717786172257262305918335516469318139358973507832727032805744047678122360242374218116393705737214745956379510683524915072416390516984061829380708874536448407078841379465671410425493828532533699007111779591941650847233416635866670219993720390973711603443597598963597394072424664864025559756952389667665095926227785282436722776794653121524603586740385628389251752191281261058974786462624503616085710431883746401985491135610527885416889840371476693224948032383712602855665862318406016475762979654780894053795303871659002536170739532393897552717551641553405146171620487209881738538692390469129255190517139220588142088832924065536628036237527389513384519423600686928403085683920439005194130201128364442298613486271285511283777410080720997567238197666362436761888541032746123724982144493539729848587953716154421675453542674057058977416471850921770799315686774961639175834930180632104996734, 402) = (7139767419848862453471665119573390998551493225546791336300294858105855601634918473725290567320847914948082385410418671867537791480875984794775296521626071367943457013653505439711655183975115755970330777683935226389343414786981629807694684677460964783891734357399116237620433385403407210799982085402164567214370502763178063232766921169891522098392523570331805985751659351985199801598875621858074627283119178542571105260841775983432067560805221121440131401369180029976289883176311538493085548497479339768784670176466529592015948057203573430174791203651250287853643096047678349406644887094606096765423239505630501346450581449107669721575217669090309495846947816411759565408265670665807829590516518404784816982382646055928311465739287785350754503980743145740165752488384502618614237436088904943274171509148145380711858460982150302069623895013699851774347832305785354103325793558865219811764586110919559882260302837913048399516702605889511435477295235141968375604293731373937924383838293667902518837419832109927153216018722605699973410354974414313959628258632662607309486647780166151173861389724058494282531416916931938084839796685435132429504895608108311985394900520930577369727782582676005285420805938653860327313675784888175840832608013459851900584183776555594890930441932162328489091515600695745042619947283013287758955868722293770020490108687981041885784820474855139930825947005119826796975778057025105330895685372922850346500359072630459101845133665614369329557340986659164797968542038854059750282169844436715771669795156500706209145783227042679705402210230328025155931505111247746251032074784474788347353852013301079718205912282090971507509751262324161725814952572831510421540905494575453838405751586724099549233850260350229476558674101614497755407721990323018821044081138359993571526294968337682142023836608207294095945828643264421867144735309984695098288145002852574592824834622208098944411710816110324466653533073356152198535254373353167972246684319960421156517909700656378994046569964870837063300187536207885973308494493638078112507145200344308631522095979490680069282120078695443241955194520986732611058538861144286964358053470575967251397461034005370759672582852448255254429514120692318655549565641374133957330432638049795215592880725752262852306228530804527845720160059163707103001183288408440456322699126893796889403202754939571991455423846536911941653011861877404412923105118700832053877052269093360916670668354384207563828548109667937273269825608436422025882821083406242288709027458313678999710681316669823335912595042303367409312141572128598131286016105207979817247695648314882031792955404014671973229184299321549254785106665601377593362420389305376697927875675917992050851552205536392660999456102554516403607739580459544932447729170527093517161059460978860327463501748652142714753531352060734577836623208144601544620140256099986735472563516679020247393074058376349413825893412469434620289484074028335244816143505118450640472536559813932992135922466798513809746053589859604556930810218696321861492919472217353403184499565275060853603108782269040796513357598634202879461803868401358949021839235945517276818888942553542055101867767299245883203135817707124989853048534870815561904429741848200602621098821800526954869572113728533328095118427600485828528499304026460657670563541047594276281979574145740009223371281418972683464913371032019367528836986579817457844301926165612417298834934656538342354657265482178245994963645301918477086471120222934957970252126329363045898291785039463510278268599697360302077809645259662983033000525621342783210035487728299680325014541598734803860264303741559449323407812925806430392878239941013916863210205596807178749956823993799294376520982140042380058366030451488371848858883382148195816668840350604871308147814924381367205395053252865573668603146243829752316411376075687886714153103419114975422641363319435075442647651788823004493917879015743946140986438805803884544381010559804631456816509622794121471829491398374474844309439949489700217728667142390602906402249932041890248513422327071663728418116702425594564442000415723539529145751404747378454216744502029361189855666436369456050384889354005829065347218046813035309389027939531063074167281513857123613187669685293358894222971641316427494131581702161022505899931891992346770713923678507757223770331721672420535219780264392975091636526549253141810238147098193398715597753247257451354755857745664203960439753107457132437531690393652234687017855548728043664934599361757858558052351308197074634014065989606712210524428062102477530526252967714873660973844815330071495249814469449741881742133849492633106439670798663364266961682507400457303055573729092859155053457181038656664430760924407844086432762644045375854846733512183249516720092552061485746730833531642399349595897780640302145032301117556477066459801178514870321905001394159977412073921165628909359656473358826774111852992267805968789790535220828951898557243549231172776921599593039055203385937584249442171163175311791469819961305235949839236681417358441012428471541290262065245541826937746691082732476821121881360892622169899247475835992616867088529081816980053014438201476054998563356567392175954348029075287086326933644500308685650418938449850868794711003575689122944233163226998826789978166995232103880297021599689965619098456444637762790163911262984625625680597781177491789627497035180047957014935290183039054484283389592649781973623090556426441121887407176346375534799703595514547654228293456511019765905838347871471075279409340323355609392728250399232847407941608363356541180733319939329240864326391651189291557131432498870081032539479247094105459261618773359224533291191247416499183572180770478372779108391912039597888158302693012328121548312608484727287272256447022582717334292489618693658034307141020613669944633311583309535460886955003026722950001717448359947381147693066701804809788885097273210881114101487527924741393560977180715691638674975905505488866551339193752745983538314520540612633183903548303185996020370844582181797072143812333905978658686, 502) := by rfl

theorem mixDecChunk44x5 : mixDecStep^[100] (7139767419848862453471665119573390998551493225546791336300294858105855601634918473725290567320847914948082385410418671867537791480875984794775296521626071367943457013653505439711655183975115755970330777683935226389343414786981629807694684677460964783891734357399116237620433385403407210799982085402164567214370502763178063232766921169891522098392523570331805985751659351985199801598875621858074627283119178542571105260841775983432067560805221121440131401369180029976289883176311538493085548497479339768784670176466529592015948057203573430174791203651250287853643096047678349406644887094606096765423239505630501346450581449107669721575217669090309495846947816411759565408265670665807829590516518404784816982382646055928311465739287785350754503980743145740165752488384502618614237436088904943274171509148145380711858460982150302069623895013699851774347832305785354103325793558865219811764586110919559882260302837913048399516702605889511435477295235141968375604293731373937924383838293667902518837419832109927153216018722605699973410354974414313959628258632662607309486647780166151173861389724058494282531416916931938084839796685435132429504895608108311985394900520930577369727782582676005285420805938653860327313675784888175840832608013459851900584183776555594890930441932162328489091515600695745042619947283013287758955868722293770020490108687981041885784820474855139930825947005119826796975778057025105330895685372922850346500359072630459101845133665614369329557340986659164797968542038854059750282169844436715771669795156500706209145783227042679705402210230328025155931505111247746251032074784474788347353852013301079718205912282090971507509751262324161725814952572831510421540905494575453838405751586724099549233850260350229476558674101614497755407721990323018821044081138359993571526294968337682142023836608207294095945828643264421867144735309984695098288145002852574592824834622208098944411710816110324466653533073356152198535254373353167972246684319960421156517909700656378994046569964870837063300187536207885973308494493638078112507145200344308631522095979490680069282120078695443241955194520986732611058538861144286964358053470575967251397461034005370759672582852448255254429514120692318655549565641374133957330432638049795215592880725752262852306228530804527845720160059163707103001183288408440456322699126893796889403202754939571991455423846536911941653011861877404412923105118700832053877052269093360916670668354384207563828548109667937273269825608436422025882821083406242288709027458313678999710681316669823335912595042303367409312141572128598131286016105207979817247695648314882031792955404014671973229184299321549254785106665601377593362420389305376697927875675917992050851552205536392660999456102554516403607739580459544932447729170527093517161059460978860327463501748652142714753531352060734577836623208144601544620140256099986735472563516679020247393074058376349413825893412469434620289484074028335244816143505118450640472536559813932992135922466798513809746053589859604556930810218696321861492919472217353403184499565275060853603108782269040796513357598634202879461803868401358949021839235945517276818888942553542055101867767299245883203135817707124989853048534870815561904429741848200602621098821800526954869572113728533328095118427600485828528499304026460657670563541047594276281979574145740009223371281418972683464913371032019367528836986579817457844301926165612417298834934656538342354657265482178245994963645301918477086471120222934957970252126329363045898291785039463510278268599697360302077809645259662983033000525621342783210035487728299680325014541598734803860264303741559449323407812925806430392878239941013916863210205596807178749956823993799294376520982140042380058366030451488371848858883382148195816668840350604871308147814924381367205395053252865573668603146243829752316411376075687886714153103419114975422641363319435075442647651788823004493917879015743946140986438805803884544381010559804631456816509622794121471829491398374474844309439949489700217728667142390602906402249932041890248513422327071663728418116702425594564442000415723539529145751404747378454216744502029361189855666436369456050384889354005829065347218046813035309389027939531063074167281513857123613187669685293358894222971641316427494131581702161022505899931891992346770713923678507757223770331721672420535219780264392975091636526549253141810238147098193398715597753247257451354755857745664203960439753107457132437531690393652234687017855548728043664934599361757858558052351308197074634014065989606712210524428062102477530526252967714873660973844815330071495249814469449741881742133849492633106439670798663364266961682507400457303055573729092859155053457181038656664430760924407844086432762644045375854846733512183249516720092552061485746730833531642399349595897780640302145032301117556477066459801178514870321905001394159977412073921165628909359656473358826774111852992267805968789790535220828951898557243549231172776921599593039055203385937584249442171163175311791469819961305235949839236681417358441012428471541290262065245541826937746691082732476821121881360892622169899247475835992616867088529081816980053014438201476054998563356567392175954348029075287086326933644500308685650418938449850868794711003575689122944233163226998826789978166995232103880297021599689965619098456444637762790163911262984625625680597781177491789627497035180047957014935290183039054484283389592649781973623090556426441121887407176346375534799703595514547654228293456511019765905838347871471075279409340323355609392728250399232847407941608363356541180733319939329240864326391651189291557131432498870081032539479247094105459261618773359224533291191247416499183572180770478372779108391912039597888158302693012328121548312608484727287272256447022582717334292489618693658034307141020613669944633311583309535460886955003026722950001717448359947381147693066701804809788885097273210881114101487527924741393560977180715691638674975905505488866551339193752745983538314520540612633183903548303185996020370844582181797072143812333905978658686, 502) = (7139767419848862453471665119573390998551493225546791336300294858105855601634918473725290567320847914948082385410418671867537791480875984794775296521626071367943457013653505439711655183975115755970330777683935226093451211907513997979266035873095136759271643740750293449708554616881551796387913932287022886096291321821177568309532190819855412769696080533959180303837495653910231741948352029008192103113781044882001699775497054598599633847995100440282042902056666536322685062656713207555402079318958321000875144026729343384705306717871501661511229538062073411048701796501571020331958970034045893009544218346044814602600184948454500230903907179017896181301239048979628867531071788325301046097253274060026250295951941927456145089256264130510348884774840790751204608558987229519405100600189364740267601234032000554946932510364997075245149405878101385793093089732492264553243929550851953328762597353251557150421830730445085535293652711744069000296804584112582884709463373358474072466999882788314015451257256025078892675922397783578645716979692581882728192092950002035894832919660731378328377656034518239286383813383829218976985156811612092417260703157113074633953438625153357919713777984681556220752211716579393593027942718231554397686729266609116817499556915000666256969272158150713934620518325245194443383639829517670035634295711681935385527866420057913724882416359154365045384941012746747425589266408541085163141940101795038122199632967895663132064332338967052555712399044846147861125524064880295202829060799424570429329608323424572655632451725167726561447521727877358883451343907940119405827104961335044558541956376229697734409305923630529988023083559090296618768668290583518240705032123577076529356111856498082068084210680459038255096648427567922930677087993695059251679423426833643885881041357707258144263053416233318866222158616850351548768577031173929555342049045734288399124457126526439338215701798511645665774015820222886099133379149037067583247787228779383491482099660063759767472584178773613384004968796670808301956750063190053286411109376924226642014571256129784391435295231955728287149230805379790916552688922787277206789531186324876313561366916256017822391317845978541018886964955426572642490505327229632958022390187470557676673788477871881635608592236976727013452477574329480447173183983423928600292421077345062082750814533101934287701342857676317282018833639025417918062478608817424414921426299104715798993890959902581600616094855622388458776596570138546075724877443126812784231818589585663623849934836027840784291530198785249018136845256723822860992258814364798052357550989398261707488276779951671503844958811861256862266551849842368808581528303387411923097223967586468257835440567675227794494429982029967373417290790990024239971156347892149209599696176135297875992795051586590064542563422618763907565828512629529041068868531263410634461983568067304534919033820302507727419405452938116091886044089416022964546784088535207125683452760746510899482288764888194852834368258838955469195253787424606715371045421808038436818386030137994426891978480694839236595495883075165237005069771924640084089899631927015190880001961623555195132576366817279045214805937626149211901234959342767671676558263677255657410402746577456082753907113975227920591921348604710991448394579650583046638943901481158374772400004842162895275251258391913512769438744602115118212676162816729776578573025376118466036931710220849983254979696061692318478590242260267216768467400230144601879934452520340037242875813368509144019777427063825201260226084233846828463585397855112692750267046652054600396044838217577011946437445243633210980387923489537263362885364321801407574997297695825199780582812190296676555549695096157648678995370128269239098663240192120819600013746450384196809447616322260649607847906191231873676733778052712512372834087896191397977886536750871085677441143565224812992058557490888698652105638246897382197185142726285655828941706929620969994708990441885271469794786693400855815901886675968697099913957770172512350023357083548130220339811512562545278769766360374922310589453614365869748072925279702803510363560241554873397741320917767399908535148145373593723882777817346399350223504349528745960056298433917585085176387094115033869815479272920361163597879733742011133578271763405972740207296831444890207692813531232647827259799605404197482791817331464142474546696592640195419713061656109391054896401705600527589703623292285726196823810054652686166237367518381611797962853089369010635948115769628166471868286477967082125407036082716513290159791281694885241985796342723665646208383373423327863797581911151457599041448187054613062395974536692210962195617057534568802731226561708910050840848306517887859506075136935339166376708430480138558183863973738517036445246831942789112432366230375398965287762545855473477346722997165108527178575626904611141506994294138701330027747626572438054225477846270462633092531746718100456258971266273227624423049098509684279841659028593609306928997874539385752171952856464255426678510667549219417644227003846569183240792955547857329827977597809200671050416211671790558341499166011628064727088225319536677281403740614354542153210170578345346902164163766566756651025927293935801124906091247597300346670968002752235850990979857309935571717544249775692722718423190073790369126005206664713725443911116646244893473449009220174094241753328292099238176824885579506865329422476736271229926042950520325482062084877000169074470545649180039580679249846365854892539105948759558077240226438638535689545200134663250746672832982258979788271635965633094279173813333171409752060747930021268742631752873234132303929966999583716610526188659098977920760450076377773758142272207388771465461027801219778313638268395374013350400524680072378123581643086115850870716592565514543597354248000459218889692290567449133813678084679116147339879397313322490046018888318500036676798612650265385855560319092574330382722828727753053435074062709591569160125542773714218900228272799011897805325166107694764099592359444468071860390137726, 602) := by rfl

theorem mixDecChunk44x6 : mixDecStep^[23] (7139767419848862453471665119573390998551493225546791336300294858105855601634918473725290567320847914948082385410418671867537791480875984794775296521626071367943457013653505439711655183975115755970330777683935226093451211907513997979266035873095136759271643740750293449708554616881551796387913932287022886096291321821177568309532190819855412769696080533959180303837495653910231741948352029008192103113781044882001699775497054598599633847995100440282042902056666536322685062656713207555402079318958321000875144026729343384705306717871501661511229538062073411048701796501571020331958970034045893009544218346044814602600184948454500230903907179017896181301239048979628867531071788325301046097253274060026250295951941927456145089256264130510348884774840790751204608558987229519405100600189364740267601234032000554946932510364997075245149405878101385793093089732492264553243929550851953328762597353251557150421830730445085535293652711744069000296804584112582884709463373358474072466999882788314015451257256025078892675922397783578645716979692581882728192092950002035894832919660731378328377656034518239286383813383829218976985156811612092417260703157113074633953438625153357919713777984681556220752211716579393593027942718231554397686729266609116817499556915000666256969272158150713934620518325245194443383639829517670035634295711681935385527866420057913724882416359154365045384941012746747425589266408541085163141940101795038122199632967895663132064332338967052555712399044846147861125524064880295202829060799424570429329608323424572655632451725167726561447521727877358883451343907940119405827104961335044558541956376229697734409305923630529988023083559090296618768668290583518240705032123577076529356111856498082068084210680459038255096648427567922930677087993695059251679423426833643885881041357707258144263053416233318866222158616850351548768577031173929555342049045734288399124457126526439338215701798511645665774015820222886099133379149037067583247787228779383491482099660063759767472584178773613384004968796670808301956750063190053286411109376924226642014571256129784391435295231955728287149230805379790916552688922787277206789531186324876313561366916256017822391317845978541018886964955426572642490505327229632958022390187470557676673788477871881635608592236976727013452477574329480447173183983423928600292421077345062082750814533101934287701342857676317282018833639025417918062478608817424414921426299104715798993890959902581600616094855622388458776596570138546075724877443126812784231818589585663623849934836027840784291530198785249018136845256723822860992258814364798052357550989398261707488276779951671503844958811861256862266551849842368808581528303387411923097223967586468257835440567675227794494429982029967373417290790990024239971156347892149209599696176135297875992795051586590064542563422618763907565828512629529041068868531263410634461983568067304534919033820302507727419405452938116091886044089416022964546784088535207125683452760746510899482288764888194852834368258838955469195253787424606715371045421808038436818386030137994426891978480694839236595495883075165237005069771924640084089899631927015190880001961623555195132576366817279045214805937626149211901234959342767671676558263677255657410402746577456082753907113975227920591921348604710991448394579650583046638943901481158374772400004842162895275251258391913512769438744602115118212676162816729776578573025376118466036931710220849983254979696061692318478590242260267216768467400230144601879934452520340037242875813368509144019777427063825201260226084233846828463585397855112692750267046652054600396044838217577011946437445243633210980387923489537263362885364321801407574997297695825199780582812190296676555549695096157648678995370128269239098663240192120819600013746450384196809447616322260649607847906191231873676733778052712512372834087896191397977886536750871085677441143565224812992058557490888698652105638246897382197185142726285655828941706929620969994708990441885271469794786693400855815901886675968697099913957770172512350023357083548130220339811512562545278769766360374922310589453614365869748072925279702803510363560241554873397741320917767399908535148145373593723882777817346399350223504349528745960056298433917585085176387094115033869815479272920361163597879733742011133578271763405972740207296831444890207692813531232647827259799605404197482791817331464142474546696592640195419713061656109391054896401705600527589703623292285726196823810054652686166237367518381611797962853089369010635948115769628166471868286477967082125407036082716513290159791281694885241985796342723665646208383373423327863797581911151457599041448187054613062395974536692210962195617057534568802731226561708910050840848306517887859506075136935339166376708430480138558183863973738517036445246831942789112432366230375398965287762545855473477346722997165108527178575626904611141506994294138701330027747626572438054225477846270462633092531746718100456258971266273227624423049098509684279841659028593609306928997874539385752171952856464255426678510667549219417644227003846569183240792955547857329827977597809200671050416211671790558341499166011628064727088225319536677281403740614354542153210170578345346902164163766566756651025927293935801124906091247597300346670968002752235850990979857309935571717544249775692722718423190073790369126005206664713725443911116646244893473449009220174094241753328292099238176824885579506865329422476736271229926042950520325482062084877000169074470545649180039580679249846365854892539105948759558077240226438638535689545200134663250746672832982258979788271635965633094279173813333171409752060747930021268742631752873234132303929966999583716610526188659098977920760450076377773758142272207388771465461027801219778313638268395374013350400524680072378123581643086115850870716592565514543597354248000459218889692290567449133813678084679116147339879397313322490046018888318500036676798612650265385855560319092574330382722828727753053435074062709591569160125542773714218900228272799011897805325166107694764099592359444468071860390137726, 602) = (82847526476649131582080083423382741432756460443422228157660492488447495871292258976660727037699240774339766976266910410584517161457371599802061069641732038914309089952206384028859530554051018691857147554209503772038166474191842997224541556301567708111881969853400205076888594147407716555702837026893063869265040455975628539385169570907757429600386966605022505664675343597543919094355215517258693118687652574648475711043504649150568693446286090884630602880448305394906726899058643900926052382850311174513718024554339928608865707987227984992869612199977359153726821659637595328312507450534115421345432795889354825861533430521112296652653787004341585640182655283609132309347400167642587181076683260296477974593013512518509297869027105338860334783172068018367654371743618560407935727428056533032894907228553565877897845828840689532813675517259073692081812757769563830134139571322406739738037507142358915150272522686965267220314690165454267375024497813051720522800710094626930568496993394205185202995393064843792743184711274346292193381299882590735811502109368169761435792223659772453916952756141868915728946472993504724904482459205271991838053709518359432332077732687550665437576647563439428284267804671630244027390304097871425806596177383740384178079892338645826621149293064446296396051321999485989852152602544239223878861463467817585043322079959422161595589043036348082902351001256391978768503405796432973948761459325840115014402813843027141108739099975656217841637041355267447723094218479745191299098794482316280288089746094074314466406537893937970452178437440879966653675560577334834572785364856872482089229547781473403861208115409601079132427593896118341042568305843196588192814452979853301092132323473391186793730112461315070049117460386354285405319433251017881439015697302622831177190295439818305310653264123998016055082301286306292111826559023020139535967452723558197552422971945243099648272659525460565211589686240387575777916433385739342490631832291267925525067026856000545610833443140825653946245408291199935122268142903552554150906968897937465329140711717896911778714919918656565229020380958948933190617462356690396954835391523698031849666500088364330345468520418881704672321705391550687135366872647432181221103335725902120829459908851972805887998001427364655364206472088423971658003227785673784212035751040913288559016712887605798451187316148699817465226697312211218827056176945806660105813238996822150784488441418139838455081430973037324070739374274082461305212787018069560161007973613266741959405196808250896183291513625739777911078665139568565401942464791933947415244535089930024063889475065158597520248791358057820291275035068637680398728450494785037571504082683825542611035074773584376524836301915135122120822127798652513879745686377283138647241724723922129732104301511662436214723637616170929198515498420199205933875112488049394030835707357792284957978137077605060504856770198269855833794174064296987910741028234765189567628993877275375311871885876361374167102034226266550689841542618216865192716997315211578293405337116450573563093919124409364628653051524401675245922469560356018061507854683412293151159305889237730733517713967766547620817395378038029914394045200638996473328273809582186369625574232950970481871374283537762512637465197723642813403288965785841451157892179822222765148251620863809461990127014844439369188829960144400286663920484686575201078690895572527357539120411295362984414793946603316308348629743909181554091363104692060022922778822398814144604610406172466484901785317399834220424692957458517835017327584772822972433898743439103444802102736806516746318421122471259005568732117722711740815685961558802421080302488829791487134039866248267284093851082343322590240923296279628881473551257402459002592813156480555209888778437020488146098556001917521321902602465527773465413091771469223588778723198872616055397035325327359443570066061044859101571459048205144200716827031728700291754963865736534536444978743756373605328483137575072082881748133527092565570274012756501242382155587521990497474314043996518364549002978949394730893997407245170385909180980958143091699063932290324541098460539121944266266008513828926023052574635758315407381702179652224432801722140208665133930370659675050418340647648812135803698501729636835584509857005192834970758877642350737865339412388312706631543214118661671081758423440263034473586272753974170092289713859544853864158648588862512276406070431863194253010778001892189262348181880987918540205507361362301425864864299382323648405384258055028840772039643926659489757945210887439638984954406983168655471387441366751758451278802446698437832720929485064216366946364925054152622161253909994689255888093555821901565719227672129797542942264039043348686111616299283822051934563551169644059511879714654987636377552744855134036902953015522084405319061360671466048810063207564736474506111852424099437762695671721709367467292945566021766678068630214424359969240548078082328017181701992804763843995394956274251214102664415262822046015493674487894082738346034937102054651061351255890165666207712942120282407577280185349449355690593739205430280935821355610470796693802647931574701863637970832176429737473268326341346200921271753800138521327880310841825059436506920067023517684429149306850548371466443635449524142538650530176959858963739701481781216063013564985720129153952765481903651248519192076594546710184420820391584846959254122226013229420337566401778732676485030183235993372175358591076654359011808425013410147273809190963977680875470609430735413634020113156819584461126185434275406807557376426059142110771325127473507564478019751662270757091052122453221577461230477405206328207106589758244653592473754110609959882592812216896127747560751729413636594456317984140481804585722465085698879248288203027046223798872161384829651244793999248443995415457226870893113898492027870547301842521125566289248989391325626051474652521497440481387527404465900509912061993386274546390470947146636113721028924557791560004773439491539995752347418899371101039298337567292850756625848, 2) := by rfl

theorem mixDecAll44 : mixDecStep^[623] (7139767419848862453471665119573390998551493225546791336300294858105855601634918473725290567320847914948082385410418671867537791480875984794775296521626071367943457013653505439711655183975115755970330777683935226389343414786981629807694684677460964783891734357399116237620433385403407210799982085402164567214370502763178063232766921169891522098392523570331805985751659351985199801598875621858074627283119178542571105260841775983432067560805221121440131401369180029976289883176311538493085548497479339768784670176466529592015948057203573430174791203651250287853643096047678349406644887094606096765423239505630501346450581449107669721575217669090309495846947816411759565408265670665807829590516518404784816982382646055928311465739287785350754503980743145740165752488384502618614237436088904943274171509148145380711858460982150302069623895013699851774347832305785354103325793558865219811764586110919559882260302837913048399516702605889511435477295235141968375604293731373937924383838293667902518837419832109927153216018722605699973410354974414313959628258632662607309486647780166151173861389724058494282531416916931938084839796685435132429504895608108311985394900520930577369727601032477974342890854290190543964145284242400445665669305202369069115142839198144845920796354275457792921012138944377415331532034794728429879453723502436974332713840342412297446361029530704062112558561682882210425609314131730430304655231302256298449950025342391791730668178031758879588534476962933274972468192572300146292158914837343429640710657792679664366754887969585161247620277234773928650582634653340275109865222051447020245731672820706297768579189867762842850520377240516738114830514797449908620339334819505108517244144550924947997928061469844222808329391789860023481487112793535354141361012664367155563123743909290441408251653012877137595041197223582753398658110310273844494310683851112068902523809926680470104883409827988852191854516730060762175452022887038149754327381398278796130947506820077855278171608369185731460790799860170170485849703102193603429289392358671125795769210603256476930168826528675856618207998277320647006382326484887689730355210720284966743739409394366957385519885579326154628335980281327255721516908024869923184505505162005730128270172261283072808580018632296736259889001345449714257181199386799170005905201288858156387315396846889080786933743024865432305468419511790662075508290495413919360002255744906014551841903960244837837063295152997760236692819254396766124494912513732863232339615760872431638947290646639670088140892790431209933669635113029811255175763658225805985585181381734196022088243934406712720642948389153011058352382004960951874948380748527337162541272789036940358827390780784234056155187497640948945645681411390960014200509198496877019014942836090647951821642495823086809552976117296974772842519686233284363243425656972807449325854281849789463855235679850432357678293427006318475012559923714389321147066091732664586898605253593721246269183645035921147781192760950128867955434426611299840735679132316526934543604729199294000325718254966260130932744082823061919084065968048374526803467858416365731094329746372414779999249323632485883253730172673450646942704638074410024989777927678766624717598428510586327210332207374689540575663677104411462027061984555952886273542776387538127036951867614166640362121647671909815188816541749204064462030422482947212392925119029855276997250923757669864680980301300952346236080159852722126395507899502259239441957551499363786415294819897079983161272319277174820539193977367830813665090571221677616200164675074190783465078144712259544435328438627241329710624373916470831071976692741652735508886704978444822468825392517242149709458889648252095484219058504372533423470290857942827501289193305982509059841869528871597195875740632532553527946642676429832441883360597456511265175445428136732324781606741410131151518221572308525170045985159148926229235966454290291077261647163584884065557197488035069159999572232964361407201698919942305870660407254539528597704262993474757646019685313348023125420819458989355810610268210711535921116522577746434398108560484975329429282587904411065275569245926586580647207788325722435953609232832940326267088740882870205420347012238330326159005778746985043833666450149412364810580508092504268161527259264564259897711592534864221529264833691026853761436846654900174701122175551537627071700333768754837632544967487612918084396820585414844774446873059479904075115874393324806354161718132147093668680728802834318973208864173147204202239909221872108170503692162313197353204058009454567487546523039269290440642064908463854387140115633726603590293789245653997065732665294378281967877408105601403821659950654723216629564207045400159996114936409607605456806187349274604080365654812211852940435422542891980654293375273297598292985948328451983914030221101540685019528913683686325317528717919760448162281573975366324935091613525832184078659770546653258571038589422495301619422279773544799641944143279820284945958758679190097825065155826753990398699124942607968542454064108524959946512773420370652272743613891474569570942977292653995387839057805569680968265101292243507816057080374340619053178584427744169529076540323100922182822827307598350845300442970888747079575628705716631610830258473715319135129292700365228200659806247872909409206993826023022103475301188241606210032540045024008982184640297272602499259568622100826370654736688846470097896620669622762226530667650550233098223321404023564626178546706588962310069054963968546422938920457168899672386498596318608985409075380213189005194456185928223993958822685599183160063949529070692005991594081831594753278069841616493095161764754668547638467058898028346447449624886519158561479633848108327120448432988239202380250969306332359424977744266609273734185510202733930129139294044967020238188580636101760360124264497004917363359510783880367122462258136025886956636551187385242074177142383873178988241166534044449858695961865399807368821304462515448372808338937051546868203354369373066157359904657278, 2) = (82847526476649131582080083423382741432756460443422228157660492488447495871292258976660727037699240774339766976266910410584517161457371599802061069641732038914309089952206384028859530554051018691857147554209503772038166474191842997224541556301567708111881969853400205076888594147407716555702837026893063869265040455975628539385169570907757429600386966605022505664675343597543919094355215517258693118687652574648475711043504649150568693446286090884630602880448305394906726899058643900926052382850311174513718024554339928608865707987227984992869612199977359153726821659637595328312507450534115421345432795889354825861533430521112296652653787004341585640182655283609132309347400167642587181076683260296477974593013512518509297869027105338860334783172068018367654371743618560407935727428056533032894907228553565877897845828840689532813675517259073692081812757769563830134139571322406739738037507142358915150272522686965267220314690165454267375024497813051720522800710094626930568496993394205185202995393064843792743184711274346292193381299882590735811502109368169761435792223659772453916952756141868915728946472993504724904482459205271991838053709518359432332077732687550665437576647563439428284267804671630244027390304097871425806596177383740384178079892338645826621149293064446296396051321999485989852152602544239223878861463467817585043322079959422161595589043036348082902351001256391978768503405796432973948761459325840115014402813843027141108739099975656217841637041355267447723094218479745191299098794482316280288089746094074314466406537893937970452178437440879966653675560577334834572785364856872482089229547781473403861208115409601079132427593896118341042568305843196588192814452979853301092132323473391186793730112461315070049117460386354285405319433251017881439015697302622831177190295439818305310653264123998016055082301286306292111826559023020139535967452723558197552422971945243099648272659525460565211589686240387575777916433385739342490631832291267925525067026856000545610833443140825653946245408291199935122268142903552554150906968897937465329140711717896911778714919918656565229020380958948933190617462356690396954835391523698031849666500088364330345468520418881704672321705391550687135366872647432181221103335725902120829459908851972805887998001427364655364206472088423971658003227785673784212035751040913288559016712887605798451187316148699817465226697312211218827056176945806660105813238996822150784488441418139838455081430973037324070739374274082461305212787018069560161007973613266741959405196808250896183291513625739777911078665139568565401942464791933947415244535089930024063889475065158597520248791358057820291275035068637680398728450494785037571504082683825542611035074773584376524836301915135122120822127798652513879745686377283138647241724723922129732104301511662436214723637616170929198515498420199205933875112488049394030835707357792284957978137077605060504856770198269855833794174064296987910741028234765189567628993877275375311871885876361374167102034226266550689841542618216865192716997315211578293405337116450573563093919124409364628653051524401675245922469560356018061507854683412293151159305889237730733517713967766547620817395378038029914394045200638996473328273809582186369625574232950970481871374283537762512637465197723642813403288965785841451157892179822222765148251620863809461990127014844439369188829960144400286663920484686575201078690895572527357539120411295362984414793946603316308348629743909181554091363104692060022922778822398814144604610406172466484901785317399834220424692957458517835017327584772822972433898743439103444802102736806516746318421122471259005568732117722711740815685961558802421080302488829791487134039866248267284093851082343322590240923296279628881473551257402459002592813156480555209888778437020488146098556001917521321902602465527773465413091771469223588778723198872616055397035325327359443570066061044859101571459048205144200716827031728700291754963865736534536444978743756373605328483137575072082881748133527092565570274012756501242382155587521990497474314043996518364549002978949394730893997407245170385909180980958143091699063932290324541098460539121944266266008513828926023052574635758315407381702179652224432801722140208665133930370659675050418340647648812135803698501729636835584509857005192834970758877642350737865339412388312706631543214118661671081758423440263034473586272753974170092289713859544853864158648588862512276406070431863194253010778001892189262348181880987918540205507361362301425864864299382323648405384258055028840772039643926659489757945210887439638984954406983168655471387441366751758451278802446698437832720929485064216366946364925054152622161253909994689255888093555821901565719227672129797542942264039043348686111616299283822051934563551169644059511879714654987636377552744855134036902953015522084405319061360671466048810063207564736474506111852424099437762695671721709367467292945566021766678068630214424359969240548078082328017181701992804763843995394956274251214102664415262822046015493674487894082738346034937102054651061351255890165666207712942120282407577280185349449355690593739205430280935821355610470796693802647931574701863637970832176429737473268326341346200921271753800138521327880310841825059436506920067023517684429149306850548371466443635449524142538650530176959858963739701481781216063013564985720129153952765481903651248519192076594546710184420820391584846959254122226013229420337566401778732676485030183235993372175358591076654359011808425013410147273809190963977680875470609430735413634020113156819584461126185434275406807557376426059142110771325127473507564478019751662270757091052122453221577461230477405206328207106589758244653592473754110609959882592812216896127747560751729413636594456317984140481804585722465085698879248288203027046223798872161384829651244793999248443995415457226870893113898492027870547301842521125566289248989391325626051474652521497440481387527404465900509912061993386274546390470947146636113721028924557791560004773439491539995752347418899371101039298337567292850756625848, 2) := by
  rw [show (623 : Nat) = 23 + (100 + (100 + (100 + (100 + (100 + 100))))) from rfl,
      Function.iterate_add_apply, Function.iterate_add_apply, Function.iterate_add_apply,
      Function.iterate_add_apply, Function.iterate_add_apply, Function.iterate_add_apply,
      mixDecChunk44x0, mixDecChunk44x1, mixDecChunk44x2, mixDecChunk44x3,
      mixDecChunk44x4, mixDecChunk44x5, mixDecChunk44x6]

theorem initByArray_44 : initByArray [44] = 82847526476649131582080083423382741432756460443422228157660492488447495871292258976660727037699240774339766976266910410584517161457371599802061069641732038914309089952206384028859530554051018691857147554209503772038166474191842997224541556301567708111881969853400205076888594147407716555702837026893063869265040455975628539385169570907757429600386966605022505664675343597543919094355215517258693118687652574648475711043504649150568693446286090884630602880448305394906726899058643900926052382850311174513718024554339928608865707987227984992869612199977359153726821659637595328312507450534115421345432795889354825861533430521112296652653787004341585640182655283609132309347400167642587181076683260296477974593013512518509297869027105338860334783172068018367654371743618560407935727428056533032894907228553565877897845828840689532813675517259073692081812757769563830134139571322406739738037507142358915150272522686965267220314690165454267375024497813051720522800710094626930568496993394205185202995393064843792743184711274346292193381299882590735811502109368169761435792223659772453916952756141868915728946472993504724904482459205271991838053709518359432332077732687550665437576647563439428284267804671630244027390304097871425806596177383740384178079892338645826621149293064446296396051321999485989852152602544239223878861463467817585043322079959422161595589043036348082902351001256391978768503405796432973948761459325840115014402813843027141108739099975656217841637041355267447723094218479745191299098794482316280288089746094074314466406537893937970452178437440879966653675560577334834572785364856872482089229547781473403861208115409601079132427593896118341042568305843196588192814452979853301092132323473391186793730112461315070049117460386354285405319433251017881439015697302622831177190295439818305310653264123998016055082301286306292111826559023020139535967452723558197552422971945243099648272659525460565211589686240387575777916433385739342490631832291267925525067026856000545610833443140825653946245408291199935122268142903552554150906968897937465329140711717896911778714919918656565229020380958948933190617462356690396954835391523698031849666500088364330345468520418881704672321705391550687135366872647432181221103335725902120829459908851972805887998001427364655364206472088423971658003227785673784212035751040913288559016712887605798451187316148699817465226697312211218827056176945806660105813238996822150784488441418139838455081430973037324070739374274082461305212787018069560161007973613266741959405196808250896183291513625739777911078665139568565401942464791933947415244535089930024063889475065158597520248791358057820291275035068637680398728450494785037571504082683825542611035074773584376524836301915135122120822127798652513879745686377283138647241724723922129732104301511662436214723637616170929198515498420199205933875112488049394030835707357792284957978137077605060504856770198269855833794174064296987910741028234765189567628993877275375311871885876361374167102034226266550689841542618216865192716997315211578293405337116450573563093919124409364628653051524401675245922469560356018061507854683412293151159305889237730733517713967766547620817395378038029914394045200638996473328273809582186369625574232950970481871374283537762512637465197723642813403288965785841451157892179822222765148251620863809461990127014844439369188829960144400286663920484686575201078690895572527357539120411295362984414793946603316308348629743909181554091363104692060022922778822398814144604610406172466484901785317399834220424692957458517835017327584772822972433898743439103444802102736806516746318421122471259005568732117722711740815685961558802421080302488829791487134039866248267284093851082343322590240923296279628881473551257402459002592813156480555209888778437020488146098556001917521321902602465527773465413091771469223588778723198872616055397035325327359443570066061044859101571459048205144200716827031728700291754963865736534536444978743756373605328483137575072082881748133527092565570274012756501242382155587521990497474314043996518364549002978949394730893997407245170385909180980958143091699063932290324541098460539121944266266008513828926023052574635758315407381702179652224432801722140208665133930370659675050418340647648812135803698501729636835584509857005192834970758877642350737865339412388312706631543214118661671081758423440263034473586272753974170092289713859544853864158648588862512276406070431863194253010778001892189262348181880987918540205507361362301425864864299382323648405384258055028840772039643926659489757945210887439638984954406983168655471387441366751758451278802446698437832720929485064216366946364925054152622161253909994689255888093555821901565719227672129797542942264039043348686111616299283822051934563551169644059511879714654987636377552744855134036902953015522084405319061360671466048810063207564736474506111852424099437762695671721709367467292945566021766678068630214424359969240548078082328017181701992804763843995394956274251214102664415262822046015493674487894082738346034937102054651061351255890165666207712942120282407577280185349449355690593739205430280935821355610470796693802647931574701863637970832176429737473268326341346200921271753800138521327880310841825059436506920067023517684429149306850548371466443635449524142538650530176959858963739701481781216063013564985720129153952765481903651248519192076594546710184420820391584846959254122226013229420337566401778732676485030183235993372175358591076654359011808425013410147273809190963977680875470609430735413634020113156819584461126185434275406807557376426059142110771325127473507564478019751662270757091052122453221577461230477405206328207106589758244653592473754110609959882592812216896127747560751729413636594456317984140481804585722465085698879248288203027046223798872161384829651244793999248443995415457226870893113898492027870547301842521125566289248989391325626051474652521497440481387527404465900509912061993386274546390470947146636113721028924557791560004773439491539995752347418899371101039298337567292849064509440 := by
  simp only [initByArray]
  rw [show (max 624 (List.length ([44] : List Nat))) = 624 from rfl,
      initGenrand_19650218, mixKeyAll44]
  rw [show (((7139767419848862453471665119573390998551493225546791336300294858105855601634918473725290567320847914948082385410418671867537791480875984794775296521626071367943457013653505439711655183975115755970330777683935226389343414786981629807694684677460964783891734357399116237620433385403407210799982085402164567214370502763178063232766921169891522098392523570331805985751659351985199801598875621858074627283119178542571105260841775983432067560805221121440131401369180029976289883176311538493085548497479339768784670176466529592015948057203573430174791203651250287853643096047678349406644887094606096765423239505630501346450581449107669721575217669090309495846947816411759565408265670665807829590516518404784816982382646055928311465739287785350754503980743145740165752488384502618614237436088904943274171509148145380711858460982150302069623895013699851774347832305785354103325793558865219811764586110919559882260302837913048399516702605889511435477295235141968375604293731373937924383838293667902518837419832109927153216018722605699973410354974414313959628258632662607309486647780166151173861389724058494282531416916931938084839796685435132429504895608108311985394900520930577369727601032477974342890854290190543964145284242400445665669305202369069115142839198144845920796354275457792921012138944377415331532034794728429879453723502436974332713840342412297446361029530704062112558561682882210425609314131730430304655231302256298449950025342391791730668178031758879588534476962933274972468192572300146292158914837343429640710657792679664366754887969585161247620277234773928650582634653340275109865222051447020245731672820706297768579189867762842850520377240516738114830514797449908620339334819505108517244144550924947997928061469844222808329391789860023481487112793535354141361012664367155563123743909290441408251653012877137595041197223582753398658110310273844494310683851112068902523809926680470104883409827988852191854516730060762175452022887038149754327381398278796130947506820077855278171608369185731460790799860170170485849703102193603429289392358671125795769210603256476930168826528675856618207998277320647006382326484887689730355210720284966743739409394366957385519885579326154628335980281327255721516908024869923184505505162005730128270172261283072808580018632296736259889001345449714257181199386799170005905201288858156387315396846889080786933743024865432305468419511790662075508290495413919360002255744906014551841903960244837837063295152997760236692819254396766124494912513732863232339615760872431638947290646639670088140892790431209933669635113029811255175763658225805985585181381734196022088243934406712720642948389153011058352382004960951874948380748527337162541272789036940358827390780784234056155187497640948945645681411390960014200509198496877019014942836090647951821642495823086809552976117296974772842519686233284363243425656972807449325854281849789463855235679850432357678293427006318475012559923714389321147066091732664586898605253593721246269183645035921147781192760950128867955434426611299840735679132316526934543604729199294000325718254966260130932744082823061919084065968048374526803467858416365731094329746372414779999249323632485883253730172673450646942704638074410024989777927678766624717598428510586327210332207374689540575663677104411462027061984555952886273542776387538127036951867614166640362121647671909815188816541749204064462030422482947212392925119029855276997250923757669864680980301300952346236080159852722126395507899502259239441957551499363786415294819897079983161272319277174820539193977367830813665090571221677616200164675074190783465078144712259544435328438627241329710624373916470831071976692741652735508886704978444822468825392517242149709458889648252095484219058504372533423470290857942827501289193305982509059841869528871597195875740632532553527946642676429832441883360597456511265175445428136732324781606741410131151518221572308525170045985159148926229235966454290291077261647163584884065557197488035069159999572232964361407201698919942305870660407254539528597704262993474757646019685313348023125420819458989355810610268210711535921116522577746434398108560484975329429282587904411065275569245926586580647207788325722435953609232832940326267088740882870205420347012238330326159005778746985043833666450149412364810580508092504268161527259264564259897711592534864221529264833691026853761436846654900174701122175551537627071700333768754837632544967487612918084396820585414844774446873059479904075115874393324806354161718132147093668680728802834318973208864173147204202239909221872108170503692162313197353204058009454567487546523039269290440642064908463854387140115633726603590293789245653997065732665294378281967877408105601403821659950654723216629564207045400159996114936409607605456806187349274604080365654812211852940435422542891980654293375273297598292985948328451983914030221101540685019528913683686325317528717919760448162281573975366324935091613525832184078659770546653258571038589422495301619422279773544799641944143279820284945958758679190097825065155826753990398699124942607968542454064108524959946512773420370652272743613891474569570942977292653995387839057805569680968265101292243507816057080374340619053178584427744169529076540323100922182822827307598350845300442970888747079575628705716631610830258473715319135129292700365228200659806247872909409206993826023022103475301188241606210032540045024008982184640297272602499259568622100826370654736688846470097896620669622762226530667650550233098223321404023564626178546706588962310069054963968546422938920457168899672386498596318608985409075380213189005194456185928223993958822685599183160063949529070692005991594081831594753278069841616493095161764754668547638467058898028346447449624886519158561479633848108327120448432988239202380250969306332359424977744266609273734185510202733930129139294044967020238188580636101760360124264497004917363359510783880367122462258136025886956636551187385242074177142383873178988241166534044449858695961865399807368821304462515448372808338937051546868203354369373066157359904657278, 2, 0) : Nat × Nat × Nat).1, ((7139767419848862453471665119573390998551493225546791336300294858105855601634918473725290567320847914948082385410418671867537791480875984794775296521626071367943457013653505439711655183975115755970330777683935226389343414786981629807694684677460964783891734357399116237620433385403407210799982085402164567214370502763178063232766921169891522098392523570331805985751659351985199801598875621858074627283119178542571105260841775983432067560805221121440131401369180029976289883176311538493085548497479339768784670176466529592015948057203573430174791203651250287853643096047678349406644887094606096765423239505630501346450581449107669721575217669090309495846947816411759565408265670665807829590516518404784816982382646055928311465739287785350754503980743145740165752488384502618614237436088904943274171509148145380711858460982150302069623895013699851774347832305785354103325793558865219811764586110919559882260302837913048399516702605889511435477295235141968375604293731373937924383838293667902518837419832109927153216018722605699973410354974414313959628258632662607309486647780166151173861389724058494282531416916931938084839796685435132429504895608108311985394900520930577369727601032477974342890854290190543964145284242400445665669305202369069115142839198144845920796354275457792921012138944377415331532034794728429879453723502436974332713840342412297446361029530704062112558561682882210425609314131730430304655231302256298449950025342391791730668178031758879588534476962933274972468192572300146292158914837343429640710657792679664366754887969585161247620277234773928650582634653340275109865222051447020245731672820706297768579189867762842850520377240516738114830514797449908620339334819505108517244144550924947997928061469844222808329391789860023481487112793535354141361012664367155563123743909290441408251653012877137595041197223582753398658110310273844494310683851112068902523809926680470104883409827988852191854516730060762175452022887038149754327381398278796130947506820077855278171608369185731460790799860170170485849703102193603429289392358671125795769210603256476930168826528675856618207998277320647006382326484887689730355210720284966743739409394366957385519885579326154628335980281327255721516908024869923184505505162005730128270172261283072808580018632296736259889001345449714257181199386799170005905201288858156387315396846889080786933743024865432305468419511790662075508290495413919360002255744906014551841903960244837837063295152997760236692819254396766124494912513732863232339615760872431638947290646639670088140892790431209933669635113029811255175763658225805985585181381734196022088243934406712720642948389153011058352382004960951874948380748527337162541272789036940358827390780784234056155187497640948945645681411390960014200509198496877019014942836090647951821642495823086809552976117296974772842519686233284363243425656972807449325854281849789463855235679850432357678293427006318475012559923714389321147066091732664586898605253593721246269183645035921147781192760950128867955434426611299840735679132316526934543604729199294000325718254966260130932744082823061919084065968048374526803467858416365731094329746372414779999249323632485883253730172673450646942704638074410024989777927678766624717598428510586327210332207374689540575663677104411462027061984555952886273542776387538127036951867614166640362121647671909815188816541749204064462030422482947212392925119029855276997250923757669864680980301300952346236080159852722126395507899502259239441957551499363786415294819897079983161272319277174820539193977367830813665090571221677616200164675074190783465078144712259544435328438627241329710624373916470831071976692741652735508886704978444822468825392517242149709458889648252095484219058504372533423470290857942827501289193305982509059841869528871597195875740632532553527946642676429832441883360597456511265175445428136732324781606741410131151518221572308525170045985159148926229235966454290291077261647163584884065557197488035069159999572232964361407201698919942305870660407254539528597704262993474757646019685313348023125420819458989355810610268210711535921116522577746434398108560484975329429282587904411065275569245926586580647207788325722435953609232832940326267088740882870205420347012238330326159005778746985043833666450149412364810580508092504268161527259264564259897711592534864221529264833691026853761436846654900174701122175551537627071700333768754837632544967487612918084396820585414844774446873059479904075115874393324806354161718132147093668680728802834318973208864173147204202239909221872108170503692162313197353204058009454567487546523039269290440642064908463854387140115633726603590293789245653997065732665294378281967877408105601403821659950654723216629564207045400159996114936409607605456806187349274604080365654812211852940435422542891980654293375273297598292985948328451983914030221101540685019528913683686325317528717919760448162281573975366324935091613525832184078659770546653258571038589422495301619422279773544799641944143279820284945958758679190097825065155826753990398699124942607968542454064108524959946512773420370652272743613891474569570942977292653995387839057805569680968265101292243507816057080374340619053178584427744169529076540323100922182822827307598350845300442970888747079575628705716631610830258473715319135129292700365228200659806247872909409206993826023022103475301188241606210032540045024008982184640297272602499259568622100826370654736688846470097896620669622762226530667650550233098223321404023564626178546706588962310069054963968546422938920457168899672386498596318608985409075380213189005194456185928223993958822685599183160063949529070692005991594081831594753278069841616493095161764754668547638467058898028346447449624886519158561479633848108327120448432988239202380250969306332359424977744266609273734185510202733930129139294044967020238188580636101760360124264497004917363359510783880367122462258136025886956636551187385242074177142383873178988241166534044449858695961865399807368821304462515448372808338937051546868203354369373066157359904657278, 2, 0) : Nat × Nat × Nat).2.1) = ((7139767419848862453471665119573390998551493225546791336300294858105855601634918473725290567320847914948082385410418671867537791480875984794775296521626071367943457013653505439711655183975115755970330777683935226389343414786981629807694684677460964783891734357399116237620433385403407210799982085402164567214370502763178063232766921169891522098392523570331805985751659351985199801598875621858074627283119178542571105260841775983432067560805221121440131401369180029976289883176311538493085548497479339768784670176466529592015948057203573430174791203651250287853643096047678349406644887094606096765423239505630501346450581449107669721575217669090309495846947816411759565408265670665807829590516518404784816982382646055928311465739287785350754503980743145740165752488384502618614237436088904943274171509148145380711858460982150302069623895013699851774347832305785354103325793558865219811764586110919559882260302837913048399516702605889511435477295235141968375604293731373937924383838293667902518837419832109927153216018722605699973410354974414313959628258632662607309486647780166151173861389724058494282531416916931938084839796685435132429504895608108311985394900520930577369727601032477974342890854290190543964145284242400445665669305202369069115142839198144845920796354275457792921012138944377415331532034794728429879453723502436974332713840342412297446361029530704062112558561682882210425609314131730430304655231302256298449950025342391791730668178031758879588534476962933274972468192572300146292158914837343429640710657792679664366754887969585161247620277234773928650582634653340275109865222051447020245731672820706297768579189867762842850520377240516738114830514797449908620339334819505108517244144550924947997928061469844222808329391789860023481487112793535354141361012664367155563123743909290441408251653012877137595041197223582753398658110310273844494310683851112068902523809926680470104883409827988852191854516730060762175452022887038149754327381398278796130947506820077855278171608369185731460790799860170170485849703102193603429289392358671125795769210603256476930168826528675856618207998277320647006382326484887689730355210720284966743739409394366957385519885579326154628335980281327255721516908024869923184505505162005730128270172261283072808580018632296736259889001345449714257181199386799170005905201288858156387315396846889080786933743024865432305468419511790662075508290495413919360002255744906014551841903960244837837063295152997760236692819254396766124494912513732863232339615760872431638947290646639670088140892790431209933669635113029811255175763658225805985585181381734196022088243934406712720642948389153011058352382004960951874948380748527337162541272789036940358827390780784234056155187497640948945645681411390960014200509198496877019014942836090647951821642495823086809552976117296974772842519686233284363243425656972807449325854281849789463855235679850432357678293427006318475012559923714389321147066091732664586898605253593721246269183645035921147781192760950128867955434426611299840735679132316526934543604729199294000325718254966260130932744082823061919084065968048374526803467858416365731094329746372414779999249323632485883253730172673450646942704638074410024989777927678766624717598428510586327210332207374689540575663677104411462027061984555952886273542776387538127036951867614166640362121647671909815188816541749204064462030422482947212392925119029855276997250923757669864680980301300952346236080159852722126395507899502259239441957551499363786415294819897079983161272319277174820539193977367830813665090571221677616200164675074190783465078144712259544435328438627241329710624373916470831071976692741652735508886704978444822468825392517242149709458889648252095484219058504372533423470290857942827501289193305982509059841869528871597195875740632532553527946642676429832441883360597456511265175445428136732324781606741410131151518221572308525170045985159148926229235966454290291077261647163584884065557197488035069159999572232964361407201698919942305870660407254539528597704262993474757646019685313348023125420819458989355810610268210711535921116522577746434398108560484975329429282587904411065275569245926586580647207788325722435953609232832940326267088740882870205420347012238330326159005778746985043833666450149412364810580508092504268161527259264564259897711592534864221529264833691026853761436846654900174701122175551537627071700333768754837632544967487612918084396820585414844774446873059479904075115874393324806354161718132147093668680728802834318973208864173147204202239909221872108170503692162313197353204058009454567487546523039269290440642064908463854387140115633726603590293789245653997065732665294378281967877408105601403821659950654723216629564207045400159996114936409607605456806187349274604080365654812211852940435422542891980654293375273297598292985948328451983914030221101540685019528913683686325317528717919760448162281573975366324935091613525832184078659770546653258571038589422495301619422279773544799641944143279820284945958758679190097825065155826753990398699124942607968542454064108524959946512773420370652272743613891474569570942977292653995387839057805569680968265101292243507816057080374340619053178584427744169529076540323100922182822827307598350845300442970888747079575628705716631610830258473715319135129292700365228200659806247872909409206993826023022103475301188241606210032540045024008982184640297272602499259568622100826370654736688846470097896620669622762226530667650550233098223321404023564626178546706588962310069054963968546422938920457168899672386498596318608985409075380213189005194456185928223993958822685599183160063949529070692005991594081831594753278069841616493095161764754668547638467058898028346447449624886519158561479633848108327120448432988239202380250969306332359424977744266609273734185510202733930129139294044967020238188580636101760360124264497004917363359510783880367122462258136025886956636551187385242074177142383873178988241166534044449858695961865399807368821304462515448372808338937051546868203354369373066157359904657278, 2) : Nat × Nat) from rfl, mixDecAll44]
  rfl

theorem random53_44 : random53 (pythonKey 44) = 3679764067156032 := by
  rw [show pythonKey 44 = [44] from rfl]
  simp only [random53]
  rw [initByArray_44]
  rfl

end PyRandom

namespace PyRandom

/-! Range facts: every value `random.Random(z).random()` lies in `[0, 1)`. -/

theorem getWord_lt (s i : Nat) : getWord s i < 2 ^ 32 :=
  Nat.mod_lt _ (by decide)

theorem shiftRight_self_le (y k : Nat) : y >>> k ≤ y := by
  rw [Nat.shiftRight_eq_div_pow]
  exact Nat.div_le_self _ _

theorem mag01_lt (y : Nat) : mag01 y < 2 ^ 32 := by
  unfold mag01
  split <;> decide

theorem temper_lt {y : Nat} (h : y < 2 ^ 32) : temper y < 2 ^ 32 := by
  have hand : ∀ a c : Nat, c < 2 ^ 32 → a &&& c < 2 ^ 32 :=
    fun a c hc => Nat.lt_of_le_of_lt Nat.and_le_right hc
  have hsh : ∀ a k : Nat, a < 2 ^ 32 → a >>> k < 2 ^ 32 :=
    fun a k ha => Nat.lt_of_le_of_lt (shiftRight_self_le a k) ha
  have h1 : y ^^^ y >>> 11 < 2 ^ 32 := Nat.xor_lt_two_pow h (hsh _ _ h)
  have h2 : (y ^^^ y >>> 11) ^^^ ((y ^^^ y >>> 11) <<< 7 &&& 2636928640) < 2 ^ 32 :=
    Nat.xor_lt_two_pow h1 (hand _ _ (by decide))
  have h3 : ((y ^^^ y >>> 11) ^^^ ((y ^^^ y >>> 11) <<< 7 &&& 2636928640)) ^^^
      (((y ^^^ y >>> 11) ^^^ ((y ^^^ y >>> 11) <<< 7 &&& 2636928640)) <<< 15 &&& 4022730752)
        < 2 ^ 32 :=
    Nat.xor_lt_two_pow h2 (hand _ _ (by decide))
  unfold temper
  exact Nat.xor_lt_two_pow h3 (hsh _ _ h3)

theorem genrandFirstTwo_fst_lt (mt : Nat) : (genrandFirstTwo mt).1 < 2 ^ 32 := by
  unfold genrandFirstTwo
  refine temper_lt (Nat.xor_lt_two_pow (Nat.xor_lt_two_pow (getWord_lt mt 397) ?_) (mag01_lt _))
  refine Nat.lt_of_le_of_lt (shiftRight_self_le _ 1) ?_
  exact Nat.or_lt_two_pow (Nat.lt_of_le_of_lt Nat.and_le_right (by decide))
    (Nat.lt_of_le_of_lt Nat.and_le_right (by decide))

theorem genrandFirstTwo_snd_lt (mt : Nat) : (genrandFirstTwo mt).2 < 2 ^ 32 := by
  unfold genrandFirstTwo
  refine temper_lt (Nat.xor_lt_two_pow (Nat.xor_lt_two_pow (getWord_lt mt 398) ?_) (mag01_lt _))
  refine Nat.lt_of_le_of_lt (shiftRight_self_le _ 1) ?_
  exact Nat.or_lt_two_pow (Nat.lt_of_le_of_lt Nat.and_le_right (by decide))
    (Nat.lt_of_le_of_lt Nat.and_le_right (by decide))

theorem random53_lt (key : List Nat) : random53 key < 9007199254740992 := by
  have ha := genrandFirstTwo_fst_lt (initByArray key)
  have hb := genrandFirstTwo_snd_lt (initByArray key)
  show ((genrandFirstTwo (initByArray key)).1 >>> 5) * 67108864 +
      ((genrandFirstTwo (initByArray key)).2 >>> 6) < 9007199254740992
  have h32 : (2 : Nat) ^ 32 = 4294967296 := by norm_num
  rw [h32] at ha hb
  omega

theorem pyRandom_nonneg (z : Int) : 0 ≤ pyRandom z := by
  unfold pyRandom
  positivity

theorem pyRandom_lt_one (z : Int) : pyRandom z < 1 := by
  unfold pyRandom
  rw [div_lt_one (by norm_num)]
  exact_mod_cast random53_lt (pythonKey z)

/-- The two variates the hidden-counter decision compares for a base seed
of 42: `random.Random(43).random()` is below 1/10 while
`random.Random(44).random()` is not. -/
theorem pyRandom_43_lt : pyRandom 43 < 1 / 10 := by
  unfold pyRandom
  rw [random53_43]
  norm_num

theorem pyRandom_44_not_lt : ¬ pyRandom 44 < 1 / 10 := by
  unfold pyRandom
  rw [random53_44]
  norm_num

end PyRandom

namespace ChaosEngine

open PyRandom

/-- The hidden mutable per-instance state of `ChaosAgent`: the
`self._call_counter` attribute, read via `getattr(self, '_call_counter', 0)`
so a fresh instance behaves as counter 0. -/
structure AgentState where
  counter : Nat
deriving DecidableEq

/-- `ChaosAgent._should_inject_chaos(failure_rate, seed)`: returns the
decision together with the updated instance state.  The two boundary
returns happen before the counter update, exactly as in the source; in
the remaining branch the counter is incremented, the varied seed is
`seed + counter`, and the decision is
`random.Random(varied_seed).random() < failure_rate`. -/
def shouldInjectChaos (failure_rate : ℚ) (seed : ℤ) (st : AgentState) :
    Bool × AgentState :=
  if failure_rate ≤ 0 then (false, st)
  else if 1 ≤ failure_rate then (true, st)
  else
    let c := st.counter + 1
    (decide (pyRandom (seed + (c : ℤ)) < failure_rate), ⟨c⟩)

/-- Association-list lookup; Python dicts preserve insertion order, so an
association list models `self.chaos_strategies` and
`self.config.error_weights` faithfully. -/
def lookupAssoc {α : Type} (l : List (String × α)) (k : String) : Option α :=
  (l.find? (fun p => p.1 == k)).map Prod.snd

/-- Cumulative sums, as `itertools.accumulate` produces them inside
`random.choices`. -/
def cumSumsAux (acc : ℚ) : List ℚ → List ℚ
  | [] => []
  | w :: ws => (acc + w) :: cumSumsAux (acc + w) ws

def cumSums (l : List ℚ) : List ℚ := cumSumsAux 0 l

/-- `random.Random(seed).choices(population, weights=weights, k=1)[0]` for
the single draw the engine performs: cumulative weights, the CPython
guards (`len(cum_weights) != len(population)` and `total <= 0` raise
`ValueError`, modelled as `none`; an empty list makes `cum_weights[-1]`
raise, also `none`), then
`population[bisect.bisect(cum_weights, random() * total, 0, len - 1)]`.
On the non-decreasing cumulative list the bisection point equals the
number of entries `≤ x` among the first `len - 1`. -/
def pyChoices (population : List String) (weights : List ℚ) (seed : ℤ) :
    Option String :=
  let cum := cumSums weights
  if cum.length ≠ population.length then none
  else
    match cum.getLast? with
    | none => none
    | some total =>
      if total ≤ 0 then none
      else
        let x := pyRandom seed * total
        let idx := (cum.take (population.length - 1)).countP (fun c => decide (c ≤ x))
        some (population.getD idx "")

/-- `ChaosAgent.select_error_code(tool_name, seed)`: falls back to `"400"`
for unknown operations or operations without error codes, otherwise draws
from the operation's error-code list weighted by
`self.config.error_weights.get(code, 10)` using a fresh
`random.Random(seed)`. -/
def selectErrorCode (strategies : List (String × List (String × String)))
    (error_weights : List (String × ℚ)) (tool_name : String) (seed : ℤ) :
    Option String :=
  match lookupAssoc strategies tool_name with
  | none => some "400"
  | some codeTable =>
    let available := codeTable.map Prod.fst
    if available.isEmpty then some "400"
    else
      let weights := available.map (fun code => (lookupAssoc error_weights code).getD 10)
      pyChoices available weights seed

/-- Response bodies.  Mocked success payloads are produced by
`generate_mock_success_data`, which the specification scopes out as an
external payload generator; they are kept opaque behind the `payload`
constructor supplied by a generator parameter. -/
inductive RespBody where
  | errorBody (code typ message : String)
  | msg (message : String)
  | payload (tag : Nat)
deriving DecidableEq

/-- The dictionary `ChaosAgent.call` and the mock builders return. -/
structure Response where
  status_code : ℤ
  body : RespBody
  error : Option String
  tool_name : String
  chaos_injected : Bool
deriving DecidableEq

/-- `ChaosAgent.mock_success_response`: always HTTP 200 and
`chaos_injected = False`; the body is the opaque generated payload, or a
fixed message when mocking is disabled.  The `params` argument of the
source is unused there and omitted. -/
def mockSuccessResponse (mock_success_enabled : Bool)
    (genSuccess : String → RespBody) (tool_name : String) : Response :=
  if mock_success_enabled then
    { status_code := 200, body := genSuccess tool_name, error := none,
      tool_name := tool_name, chaos_injected := false }
  else
    { status_code := 200, body := .msg "Success mock disabled", error := none,
      tool_name := tool_name, chaos_injected := false }

/-- A decimal digit's value, for the `int()` embedding below. -/
def digitVal (c : Char) : Option Nat :=
  if 48 ≤ c.toNat ∧ c.toNat ≤ 57 then some (c.toNat - 48) else none

/-- Digit-list accumulator for the `int()` embedding below. -/
def parseDigitsAux (acc : Nat) : List Char → Option Nat
  | [] => some acc
  | c :: cs =>
    match digitVal c with
    | none => none
    | some d => parseDigitsAux (acc * 10 + d) cs

/-- CPython `int(s)` on the strings that occur as OpenAPI response-code
keys: an optional minus sign followed by decimal digits; anything else
(including the empty string, or wildcard keys such as `"4XX"`) raises
`ValueError`, modelled as `none`.  (`int()` additionally strips
whitespace and underscores, which cannot occur in such keys.) -/
def pyInt (s : String) : Option Int :=
  match s.data with
  | [] => none
  | '-' :: cs =>
    match cs with
    | [] => none
    | _ => (parseDigitsAux 0 cs).map (fun n => -(n : Int))
  | cs => (parseDigitsAux 0 cs).map (fun n => (n : Int))

/-- `ChaosAgent.mock_error_response(tool_name, error_code)`.  The final
branch converts the code with `int(error_code)`, which raises on a
non-numeric string; that exception is modelled as `none`. -/
def mockErrorResponse (strategies : List (String × List (String × String)))
    (tool_name error_code : String) : Option Response :=
  match lookupAssoc strategies tool_name with
  | none => some
      { status_code := 404,
        body := .errorBody "404" "error" ("Unknown operation: " ++ tool_name),
        error := some "Unknown operation", tool_name := tool_name,
        chaos_injected := false }
  | some codeTable =>
    match lookupAssoc codeTable error_code with
    | none => some
        { status_code := 500,
          body := .errorBody "500" "error" "Internal server error",
          error := some "Internal error", tool_name := tool_name,
          chaos_injected := true }
    | some message =>
      match pyInt error_code with
      | none => none
      | some n => some
          { status_code := n,
            body := .errorBody error_code "error" message,
            error := some ("HTTP " ++ error_code), tool_name := tool_name,
            chaos_injected := true }

/-- Configuration fields of `ChaosAgentConfig` that `call` reads. -/
structure ChaosConfig where
  default_failure_rate : ℚ
  default_seed : ℤ
  error_weights : List (String × ℚ)
  mock_success_enabled : Bool

/-- `ChaosAgent.call(tool_name, params, failure_rate, seed)`: resolves the
defaults, runs the injection decision (threading the hidden counter),
then either mocks a success or selects and mocks an error.  A raising
path (`random.choices` guard, `int(error_code)`) yields `none`; the
counter update always survives, as in the source. -/
def call (cfg : ChaosConfig) (strategies : List (String × List (String × String)))
    (genSuccess : String → RespBody) (st : AgentState) (tool_name : String)
    (fr? : Option ℚ) (seed? : Option ℤ) : Option Response × AgentState :=
  let failure_rate := fr?.getD cfg.default_failure_rate
  let seed := seed?.getD cfg.default_seed
  let inj := shouldInjectChaos failure_rate seed st
  if inj.1 = false then
    (some (mockSuccessResponse cfg.mock_success_enabled genSuccess tool_name), inj.2)
  else
    match selectErrorCode strategies cfg.error_weights tool_name seed with
    | none => (none, inj.2)
    | some code => (mockErrorResponse strategies tool_name code, inj.2)

end ChaosEngine

namespace TestAgent

/-- One parsed reasoner JSON response.  Each required field is optional
because the model's JSON may omit it (raising `KeyError` on bracket
access in v2, or hitting the `.get` default in v3). -/
structure LlmJson where
  should_retry : Option Bool
  reasoning : Option String
  confidence : Option ℚ
  error_type : Option String
deriving DecidableEq

/-- Outcome of one external reasoner invocation as observed by the retry
decision tools: the model call (or anything else before `json.loads`)
raised, the response text failed to parse as JSON, or it parsed.  The
carried string is the exception text. -/
inductive ReasonerOutcome where
  | raises (msg : String)
  | malformed (msg : String)
  | parsed (j : LlmJson)
deriving DecidableEq

/-- The decision dictionary built by `decide_retry_tool`
(`test_agent_adk_v3.py`) and by the module-level `_tool_decide_retry`
(`test_agent_adk_v3_v2.py`): both branches populate the same six keys. -/
structure DecisionV3 where
  action : String
  reason : String
  confidence : ℚ
  error_type : String
  llm_reasoning : Option LlmJson
  llm_called : Bool
deriving DecidableEq

/-- `decide_retry_tool(error_code, attempt, max_retries, strategy_action)`
from `test_agent_adk_v3.py`.  On a parsed response every missing field is
replaced by its `.get` default (`should_retry` → `False`,
`reasoning` → `"No reasoning"`, `confidence` → `0.5`,
`error_type` → `"unknown"`) and the result is marked `llm_called = True`.
On any exception (model call raised, or malformed JSON) the except block
computes the hardcoded heuristic
`error_code != 400 and error_code != 422 and attempt < max_retries`
and marks `llm_called = False`.  `strategy_action` only feeds the prompt
and never the decision. -/
def decideRetryTool (o : ReasonerOutcome) (error_code attempt max_retries : ℤ)
    (strategy_action : String) : DecisionV3 :=
  match o with
  | .parsed j =>
    { action := if j.should_retry.getD false then "retry" else "fail",
      reason := j.reasoning.getD "No reasoning",
      confidence := j.confidence.getD (1/2),
      error_type := j.error_type.getD "unknown",
      llm_reasoning := some j,
      llm_called := true }
  | .raises _ | .malformed _ =>
    if error_code ≠ 400 ∧ error_code ≠ 422 ∧ attempt < max_retries then
      { action := "retry", reason := "Fallback heuristic", confidence := 1/2,
        error_type := "unknown", llm_reasoning := none, llm_called := false }
    else
      { action := "fail", reason := "Fallback heuristic", confidence := 1/2,
        error_type := "unknown", llm_reasoning := none, llm_called := false }

/-- The strategy dictionary v2's `_tool_check_playbook` produces (its
found-branch shape, the type over which retry contexts quantify). -/
structure StrategyV2 where
  found : Bool
  error_code : ℤ
  action : String
  max_retries : ℤ
  backoff_seconds : ℚ
  reason : String
deriving DecidableEq

/-- The decision dictionary of `test_agent_adk_v2.py`: the LLM branch and
the fallback branch populate different key sets, so the keys present in
only one branch are optional. -/
structure DecisionV2 where
  action : String
  reason : String
  confidence : Option ℚ
  error_type : Option String
  attempt : ℤ
  max_retries : ℤ
  llm_reasoning : Option LlmJson
  llm_called : Bool
  fallback : Option Bool
deriving DecidableEq

/-- `TestAgentADK._fallback_decide_retry` from `test_agent_adk_v2.py`:
fail on exhausted attempts, otherwise follow the playbook action; always
marked `llm_called = False, fallback = True`. -/
def fallbackDecideRetry (error_code attempt max_retries : ℤ)
    (strategy : StrategyV2) : DecisionV2 :=
  if attempt ≥ max_retries then
    { action := "fail", reason := "Max retries reached", confidence := none,
      error_type := none, attempt := attempt, max_retries := max_retries,
      llm_reasoning := none, llm_called := false, fallback := some true }
  else if strategy.action = "retry" then
    { action := "retry", reason := "Playbook recommends retry", confidence := none,
      error_type := none, attempt := attempt, max_retries := max_retries,
      llm_reasoning := none, llm_called := false, fallback := some true }
  else
    { action := "fail", reason := "Playbook recommends failure", confidence := none,
      error_type := none, attempt := attempt, max_retries := max_retries,
      llm_reasoning := none, llm_called := false, fallback := some true }

/-- `TestAgentADK._tool_decide_retry` from `test_agent_adk_v2.py`.  The
LLM branch accesses `result_json['should_retry']`, `['reasoning']` and
`['confidence']` with brackets, so a missing required field raises
`KeyError`; that exception, a `json.JSONDecodeError`, and any exception
from the model call are all caught and delegated to
`_fallback_decide_retry`. -/
def decideRetryV2 (o : ReasonerOutcome) (error_code attempt max_retries : ℤ)
    (strategy : StrategyV2) : DecisionV2 :=
  match o with
  | .parsed j =>
    match j.should_retry, j.reasoning, j.confidence with
    | some sr, some rs, some cf =>
      { action := if sr then "retry" else "fail", reason := rs,
        confidence := some cf, error_type := some (j.error_type.getD "unknown"),
        attempt := attempt, max_retries := max_retries, llm_reasoning := some j,
        llm_called := true, fallback := none }
    | _, _, _ => fallbackDecideRetry error_code attempt max_retries strategy
  | .raises _ => fallbackDecideRetry error_code attempt max_retries strategy
  | .malformed _ => fallbackDecideRetry error_code attempt max_retries strategy

/-- One playbook procedure as consumed by `_tool_check_playbook` in
`test_agent_adk_v3.py` and `test_agent_adk_v3_v2.py`:
`{error_codes: [str], recovery_strategy: str}`. -/
structure Procedure where
  error_codes : List String
  recovery_strategy : String
deriving DecidableEq

/-- The strategy dictionary those two `_tool_check_playbook` versions
return: `{error_code, action, max_retries}`. -/
structure Strategy3 where
  error_code : ℤ
  action : String
  max_retries : ℤ
deriving DecidableEq

/-- `TestAgentADK._tool_check_playbook(error_code)` from
`test_agent_adk_v3.py` (identical in `test_agent_adk_v3_v2.py`): walk the
procedures in order, return the first whose `error_codes` list contains
`str(error_code)` with `max_retries` hard-coded to 3; return the default
`{action: "fail", max_retries: 0}` when none matches. -/
def checkPlaybook (procedures : List Procedure) (error_code : ℤ) : Strategy3 :=
  match procedures with
  | [] => { error_code := error_code, action := "fail", max_retries := 0 }
  | p :: rest =>
    if toString error_code ∈ p.error_codes then
      { error_code := error_code, action := p.recovery_strategy, max_retries := 3 }
    else checkPlaybook rest error_code

/-- The delay computed by `TestAgentADK._tool_apply_backoff(attempt,
base_delay=0.5)`: `min(base_delay * 2 ** (attempt - 1), 10)`. -/
def applyBackoffDelay (attempt : ℤ) (base_delay : ℚ) : ℚ :=
  min (base_delay * (2 : ℚ) ^ (attempt - 1)) 10

end TestAgent

namespace TestAgent

/-- What `_run_single_test` reads off one operation call's result
dictionary: `result.get('status_code', 500)` and `result.get('error')`. -/
structure OpResult where
  status_code : ℤ
  error : Option String
deriving DecidableEq

/-- The result dictionary `_run_single_test` returns.  Keys that a branch
omits are `none` (`final_status`, `error`, `reason`, `decision`). -/
structure TestResult where
  test_id : String
  operation : String
  ok : Bool
  attempts : Nat
  final_status : Option ℤ
  error : Option String
  reason : Option String
  decision : Option DecisionV3
deriving DecidableEq

/-- A run result together with two ghost observations that the source
only logs: the ordered list of retry decisions the run made, and the
ordered list of backoff delays it applied.  The `result` component alone
is what the caller receives. -/
structure RunLog where
  result : TestResult
  trail : List DecisionV3
  delays : List ℚ
deriving DecidableEq

/-- Loop body of `TestAgentADK._run_single_test` from
`test_agent_adk_v3.py`.  `remaining` is `max_retries - attempt`, so the
`while attempt < max_retries` guard failing is the `remaining = 0` case;
inside the body `attempt` has already been incremented to `a`.  The
operation outcome of attempt `a` is `op a` and the reasoner outcome
feeding `decide_retry_tool` on attempt `a` is `rs a`.  The backoff sleep
is dropped; the computed delay is appended to the ghost `delays`. -/
def runAuxV3 (pb : List Procedure) (op : Nat → OpResult)
    (rs : Nat → ReasonerOutcome) (test_id operation : String) (maxR : Nat) :
    Nat → Nat → List DecisionV3 → List ℚ → RunLog
  | 0, attempt, trail, delays =>
    let res : TestResult :=
        { test_id := test_id, operation := operation, ok := false,
          attempts := attempt, final_status := none, error := none,
          reason := some "max_retries_exceeded", decision := none }
    { result := res, trail := trail, delays := delays }
  | remaining+1, attempt, trail, delays =>
    let a := attempt + 1
    let r := op a
    if r.status_code = 200 then
      let res : TestResult :=
        { test_id := test_id, operation := operation, ok := true,
          attempts := a, final_status := some r.status_code, error := none,
          reason := none, decision := none }
      { result := res, trail := trail, delays := delays }
    else
      let strategy := checkPlaybook pb r.status_code
      let decision := decideRetryTool (rs a) r.status_code (a : ℤ) (maxR : ℤ)
        strategy.action
      let trail2 := trail ++ [decision]
      if decision.action ≠ "retry" ∨ maxR ≤ a then
        let res : TestResult :=
        { test_id := test_id, operation := operation, ok := false,
          attempts := a, final_status := some r.status_code, error := r.error,
          reason := some decision.action, decision := some decision }
        { result := res, trail := trail2, delays := delays }
      else
        runAuxV3 pb op rs test_id operation maxR remaining a trail2
          (delays ++ [applyBackoffDelay (a : ℤ) (1/2)])

/-- `TestAgentADK._run_single_test(test_id, operation, params)` from
`test_agent_adk_v3.py`: `attempt = 0`, `max_retries = 3`, then the loop.
`params` only feeds the operation call and is part of the `op` oracle. -/
def runSingleTestV3 (pb : List Procedure) (op : Nat → OpResult)
    (rs : Nat → ReasonerOutcome) (test_id operation : String) : RunLog :=
  runAuxV3 pb op rs test_id operation 3 3 0 [] []

/-- The module-level `_tool_decide_retry` of `test_agent_adk_v3_v2.py`
(the file's indentation detaches it and everything after it from the
class body; its decision logic is embedded as written): identical to
`decide_retry_tool` of v3 except that the fallback's `reason` interpolates
the exception text and the strategy is passed as the dictionary. -/
def decideRetryToolV32 (o : ReasonerOutcome) (error_code attempt max_retries : ℤ)
    (strategy : Strategy3) : DecisionV3 :=
  match o with
  | .parsed j =>
    { action := if j.should_retry.getD false then "retry" else "fail",
      reason := j.reasoning.getD "No reasoning",
      confidence := j.confidence.getD (1/2),
      error_type := j.error_type.getD "unknown",
      llm_reasoning := some j,
      llm_called := true }
  | .raises e | .malformed e =>
    if error_code ≠ 400 ∧ error_code ≠ 422 ∧ attempt < max_retries then
      { action := "retry", reason := "Fallback (error: " ++ e ++ ")",
        confidence := 1/2, error_type := "unknown", llm_reasoning := none,
        llm_called := false }
    else
      { action := "fail", reason := "Fallback (error: " ++ e ++ ")",
        confidence := 1/2, error_type := "unknown", llm_reasoning := none,
        llm_called := false }

/-- Loop body of `_run_single_test` from `test_agent_adk_v3_v2.py` (same
indentation caveat as above).  This variant checks the playbook strategy
before consulting the decision tool: a non-retry strategy or an exhausted
attempt returns with `reason = strategy.action`; a refusing decision
returns with the decision attached and no `reason` key. -/
def runAuxV32 (pb : List Procedure) (op : Nat → OpResult)
    (rs : Nat → ReasonerOutcome) (test_id operation : String) (maxR : Nat) :
    Nat → Nat → List DecisionV3 → List ℚ → RunLog
  | 0, attempt, trail, delays =>
    let res : TestResult :=
        { test_id := test_id, operation := operation, ok := false,
          attempts := attempt, final_status := none, error := none,
          reason := some "max_retries_exceeded", decision := none }
    { result := res, trail := trail, delays := delays }
  | remaining+1, attempt, trail, delays =>
    let a := attempt + 1
    let r := op a
    if r.status_code = 200 then
      let res : TestResult :=
        { test_id := test_id, operation := operation, ok := true,
          attempts := a, final_status := some r.status_code, error := none,
          reason := none, decision := none }
      { result := res, trail := trail, delays := delays }
    else
      let strategy := checkPlaybook pb r.status_code
      if strategy.action ≠ "retry" ∨ maxR ≤ a then
        let res : TestResult :=
        { test_id := test_id, operation := operation, ok := false,
          attempts := a, final_status := some r.status_code, error := r.error,
          reason := some strategy.action, decision := none }
        { result := res, trail := trail, delays := delays }
      else
        let decision := decideRetryToolV32 (rs a) r.status_code (a : ℤ) (maxR : ℤ)
          strategy
        let trail2 := trail ++ [decision]
        if decision.action ≠ "retry" then
          let res : TestResult :=
        { test_id := test_id, operation := operation, ok := false,
          attempts := a, final_status := some r.status_code, error := r.error,
          reason := none, decision := some decision }
          { result := res, trail := trail2, delays := delays }
        else
          runAuxV32 pb op rs test_id operation maxR remaining a trail2
            (delays ++ [applyBackoffDelay (a : ℤ) (1/2)])

/-- `_run_single_test` from `test_agent_adk_v3_v2.py`: `attempt = 0`,
`max_retries = 3`, then the loop. -/
def runSingleTestV32 (pb : List Procedure) (op : Nat → OpResult)
    (rs : Nat → ReasonerOutcome) (test_id operation : String) : RunLog :=
  runAuxV32 pb op rs test_id operation 3 3 0 [] []

end TestAgent

section Claims

open ChaosEngine TestAgent

/-- In the open interval `0 < failure_rate < 1`, `_should_inject_chaos`
increments the hidden counter and compares the variate of
`random.Random(seed + counter)` with the failure rate. -/
theorem shouldInjectChaos_mid (fr : ℚ) (seed : ℤ) (st : AgentState)
    (h0 : 0 < fr) (h1 : fr < 1) :
    shouldInjectChaos fr seed st =
      (decide (PyRandom.pyRandom (seed + ((st.counter + 1 : ℕ) : ℤ)) < fr),
        ⟨st.counter + 1⟩) := by
  unfold shouldInjectChaos
  rw [if_neg (by linarith), if_neg (by linarith)]

/-- Claim C5: for every failure rate, seed and hidden-counter state, the
injection decision is `false` when `failure_rate ≤ 0`, `true` when
`failure_rate ≥ 1`, and otherwise `true` exactly when the generated
variate — which always lies in `[0, 1)` — is strictly below the failure
rate. -/
theorem c5_should_inject_contract (fr : ℚ) (seed : ℤ) (st : AgentState) :
    (fr ≤ 0 → (shouldInjectChaos fr seed st).1 = false) ∧
    (1 ≤ fr → (shouldInjectChaos fr seed st).1 = true) ∧
    (0 < fr → fr < 1 →
      (((shouldInjectChaos fr seed st).1 = true ↔
          PyRandom.pyRandom (seed + ((st.counter + 1 : ℕ) : ℤ)) < fr) ∧
        0 ≤ PyRandom.pyRandom (seed + ((st.counter + 1 : ℕ) : ℤ)) ∧
        PyRandom.pyRandom (seed + ((st.counter + 1 : ℕ) : ℤ)) < 1)) := by
  refine ⟨fun h => ?_, fun h => ?_, fun h0 h1 => ?_⟩
  · unfold shouldInjectChaos
    rw [if_pos h]
  · unfold shouldInjectChaos
    rw [if_neg (by linarith), if_pos h]
  · rw [shouldInjectChaos_mid fr seed st h0 h1]
    exact ⟨by simp, PyRandom.pyRandom_nonneg _, PyRandom.pyRandom_lt_one _⟩

/-- Witness for C5 at `failure_rate = 1/2`, `seed = 42`, a fresh state. -/
theorem c5_witness :
    ((1 : ℚ)/2 ≤ 0 → (shouldInjectChaos (1/2) 42 ⟨0⟩).1 = false) ∧
    (1 ≤ (1 : ℚ)/2 → (shouldInjectChaos (1/2) 42 ⟨0⟩).1 = true) ∧
    (0 < (1 : ℚ)/2 → (1 : ℚ)/2 < 1 →
      (((shouldInjectChaos (1/2) 42 ⟨0⟩).1 = true ↔
          PyRandom.pyRandom (42 + (((0 : ℕ) + 1 : ℕ) : ℤ)) < 1/2) ∧
        0 ≤ PyRandom.pyRandom (42 + (((0 : ℕ) + 1 : ℕ) : ℤ)) ∧
        PyRandom.pyRandom (42 + (((0 : ℕ) + 1 : ℕ) : ℤ)) < 1)) :=
  c5_should_inject_contract (1/2) 42 ⟨0⟩

/-- Claim C1 is refuted on the code: with `failure_rate = 1/10` and
`seed = 42`, a first call on a fresh `ChaosAgent` instance returns `true`
(`random.Random(43).random() ≈ 0.0386 < 0.1`) while the immediately
following call with identical arguments returns `false`
(`random.Random(44).random() ≈ 0.4085`), because the instance's hidden
`_call_counter` advanced. -/
theorem c1_counterexample :
    (shouldInjectChaos (1/10) 42 ⟨0⟩).1 ≠
      (shouldInjectChaos (1/10) 42 (shouldInjectChaos (1/10) 42 ⟨0⟩).2).1 := by
  have hs : (shouldInjectChaos (1/10) 42 ⟨0⟩).2 = (⟨1⟩ : AgentState) := by
    rw [shouldInjectChaos_mid (1/10) 42 ⟨0⟩ (by norm_num) (by norm_num)]
  have h1 : (shouldInjectChaos (1/10) 42 ⟨0⟩).1 = true := by
    rw [shouldInjectChaos_mid (1/10) 42 ⟨0⟩ (by norm_num) (by norm_num)]
    show decide (PyRandom.pyRandom (42 + (((0 : ℕ) + 1 : ℕ) : ℤ)) < 1/10) = true
    rw [show ((42 : ℤ) + (((0 : ℕ) + 1 : ℕ) : ℤ)) = 43 from by norm_num]
    exact decide_eq_true PyRandom.pyRandom_43_lt
  have h2 : (shouldInjectChaos (1/10) 42 ⟨1⟩).1 = false := by
    rw [shouldInjectChaos_mid (1/10) 42 ⟨1⟩ (by norm_num) (by norm_num)]
    show decide (PyRandom.pyRandom (42 + (((1 : ℕ) + 1 : ℕ) : ℤ)) < 1/10) = false
    rw [show ((42 : ℤ) + (((1 : ℕ) + 1 : ℕ) : ℤ)) = 44 from by norm_num]
    exact decide_eq_false PyRandom.pyRandom_44_not_lt
  rw [hs, h1, h2]
  simp

/-- Claim C1 (amended): the decision engine does carry hidden mutable
state — each effective draw (`0 < failure_rate < 1`) increments the
per-instance `_call_counter` — and the decision is deterministic only as
a function of `(failure_rate, seed, counter)`: two calls with identical
arguments agree exactly when their hidden counter states agree. -/
theorem c1_amended_determinism (fr : ℚ) (seed : ℤ) (st st2 : AgentState)
    (h0 : 0 < fr) (h1 : fr < 1) (hc : st2.counter = st.counter) :
    (shouldInjectChaos fr seed st).1 = (shouldInjectChaos fr seed st2).1 ∧
    (shouldInjectChaos fr seed st).2.counter = st.counter + 1 := by
  rw [shouldInjectChaos_mid fr seed st h0 h1,
    shouldInjectChaos_mid fr seed st2 h0 h1, hc]
  exact ⟨rfl, rfl⟩

/-- Witness for the amended C1 at `failure_rate = 1/10`, `seed = 42`,
two distinct states with equal counters. -/
theorem c1_witness :
    (0 : ℚ) < 1/10 ∧ (1 : ℚ)/10 < 1 ∧
    ((shouldInjectChaos (1/10) 42 ⟨5⟩).1 = (shouldInjectChaos (1/10) 42 ⟨5⟩).1 ∧
      (shouldInjectChaos (1/10) 42 ⟨5⟩).2.counter = 5 + 1) :=
  ⟨by norm_num, by norm_num,
    c1_amended_determinism (1/10) 42 ⟨5⟩ ⟨5⟩ (by norm_num) (by norm_num) rfl⟩

end Claims

section Claims2

open ChaosEngine TestAgent

/-- Claim C6: for attempts from 1 on, the backoff delay equals
`min(base_delay * 2^(attempt-1), 10)`, is monotonically non-decreasing in
the attempt, never exceeds the 10-second cap, and once it reaches the cap
it stays there. -/
theorem c6_backoff_delay (a b : ℤ) (base : ℚ) (h1 : 1 ≤ a) (hab : a ≤ b)
    (hbase : 0 ≤ base) :
    applyBackoffDelay a base = min (base * (2 : ℚ) ^ (a - 1)) 10 ∧
    applyBackoffDelay a base ≤ applyBackoffDelay b base ∧
    applyBackoffDelay a base ≤ 10 ∧
    (applyBackoffDelay a base = 10 → applyBackoffDelay b base = 10) := by
  have hmono : applyBackoffDelay a base ≤ applyBackoffDelay b base := by
    unfold applyBackoffDelay
    refine min_le_min ?_ le_rfl
    refine mul_le_mul_of_nonneg_left ?_ hbase
    exact zpow_le_zpow_right₀ (by norm_num) (by omega)
  have hcap : applyBackoffDelay a base ≤ 10 := min_le_right _ _
  refine ⟨rfl, hmono, hcap, fun h => ?_⟩
  exact le_antisymm (min_le_right _ _) (h ▸ hmono)

/-- Witness for C6 at `attempt = 2 ≤ 5`, `base_delay = 1/2`. -/
theorem c6_witness :
    (1 : ℤ) ≤ 2 ∧ (2 : ℤ) ≤ 5 ∧ (0 : ℚ) ≤ 1/2 ∧
    (applyBackoffDelay 2 (1/2) = min ((1 : ℚ)/2 * (2 : ℚ) ^ ((2 : ℤ) - 1)) 10 ∧
      applyBackoffDelay 2 (1/2) ≤ applyBackoffDelay 5 (1/2) ∧
      applyBackoffDelay 2 (1/2) ≤ 10 ∧
      (applyBackoffDelay 2 (1/2) = 10 → applyBackoffDelay 5 (1/2) = 10)) :=
  ⟨by norm_num, by norm_num, by norm_num,
    c6_backoff_delay 2 5 (1/2) (by norm_num) (by norm_num) (by norm_num)⟩

/-- Claim C7: the playbook lookup returns the strategy of the first
procedure, in list order, whose error-code list contains `str(error_code)`
(with `max_retries = 3`), and the default `{action: "fail",
max_retries: 0}` when no procedure matches. -/
theorem c7_playbook_lookup (procedures : List Procedure) (error_code : ℤ) :
    ((∀ p ∈ procedures, toString error_code ∉ p.error_codes) →
      checkPlaybook procedures error_code =
        { error_code := error_code, action := "fail", max_retries := 0 }) ∧
    (∀ l1 p l2, procedures = l1 ++ p :: l2 →
      (∀ q ∈ l1, toString error_code ∉ q.error_codes) →
      toString error_code ∈ p.error_codes →
      checkPlaybook procedures error_code =
        { error_code := error_code, action := p.recovery_strategy,
          max_retries := 3 }) := by
  constructor
  · intro hall
    induction procedures with
    | nil => rfl
    | cons p rest ih =>
      simp only [checkPlaybook]
      rw [if_neg (hall p (List.mem_cons_self p rest))]
      exact ih fun q hq => hall q (List.mem_cons_of_mem p hq)
  · intro l1 p l2 heq hnone hmem
    subst heq
    induction l1 with
    | nil =>
      simp only [checkPlaybook, List.nil_append]
      rw [if_pos hmem]
    | cons q l1 ih =>
      simp only [checkPlaybook, List.cons_append]
      rw [if_neg (hnone q (List.mem_cons_self q l1))]
      exact ih fun r hr => hnone r (List.mem_cons_of_mem q hr)

/-- Witness for C7: a two-procedure playbook, one matching code 503 in
second position and one unmatched code 418. -/
theorem c7_witness :
    checkPlaybook [⟨["404"], "escalate"⟩, ⟨["503"], "retry"⟩] 503 =
      { error_code := 503, action := "retry", max_retries := 3 } ∧
    checkPlaybook [⟨["404"], "escalate"⟩, ⟨["503"], "retry"⟩] 418 =
      { error_code := 418, action := "fail", max_retries := 0 } :=
  ⟨(c7_playbook_lookup _ 503).2 [⟨["404"], "escalate"⟩] ⟨["503"], "retry"⟩ []
      rfl (by decide) (by decide),
    (c7_playbook_lookup _ 418).1 (by decide)⟩

end Claims2

section Claims3

open ChaosEngine TestAgent

/-- Any chaos-injected response produced by `ChaosAgent.call` is the mock
error response for the error code selected by `select_error_code` with
the call's resolved seed — independent of the hidden counter state. -/
theorem call_injected_shape (cfg : ChaosConfig)
    (strat : List (String × List (String × String)))
    (gen : String → RespBody) (st : AgentState) (tool : String)
    (fr? : Option ℚ) (seed? : Option ℤ) (r : Response) (s2 : AgentState)
    (h : call cfg strat gen st tool fr? seed? = (some r, s2))
    (hi : r.chaos_injected = true) :
    ∃ code, selectErrorCode strat cfg.error_weights tool
        (seed?.getD cfg.default_seed) = some code ∧
      mockErrorResponse strat tool code = some r := by
  unfold call at h
  by_cases hinj :
      (shouldInjectChaos (fr?.getD cfg.default_failure_rate)
        (seed?.getD cfg.default_seed) st).1 = false
  · rw [if_pos hinj] at h
    have hr : mockSuccessResponse cfg.mock_success_enabled gen tool = r :=
      Option.some.inj (congrArg Prod.fst h)
    have : r.chaos_injected = false := by
      rw [← hr]
      unfold mockSuccessResponse
      by_cases he : cfg.mock_success_enabled
      · rw [if_pos he]
      · rw [if_neg he]
    rw [this] at hi
    exact absurd hi (by simp)
  · rw [if_neg hinj] at h
    revert h
    cases hsel : selectErrorCode strat cfg.error_weights tool
        (seed?.getD cfg.default_seed) with
    | none =>
      intro h
      exact absurd (congrArg Prod.fst h) (by simp)
    | some code =>
      intro h
      exact ⟨code, rfl, congrArg Prod.fst h⟩

/-- Claim C10: for a fixed `(tool_name, seed)` pair, any two
chaos-injected responses of `ChaosAgent.call` are identical — whatever
the hidden counter states, params or failure rates of the two calls —
because `select_error_code` reseeds `random.Random(seed)` afresh on every
invocation.  Within one call sequence with a fixed seed, every injected
failure for an operation therefore carries the same error class. -/
theorem c10_injected_error_determinism (cfg : ChaosConfig)
    (strat : List (String × List (String × String)))
    (gen1 gen2 : String → RespBody) (st1 st2 : AgentState) (tool : String)
    (fr1 fr2 : Option ℚ) (seed? : Option ℤ) (r1 r2 : Response)
    (s1 s2 : AgentState)
    (h1 : call cfg strat gen1 st1 tool fr1 seed? = (some r1, s1))
    (h2 : call cfg strat gen2 st2 tool fr2 seed? = (some r2, s2))
    (hi1 : r1.chaos_injected = true) (hi2 : r2.chaos_injected = true) :
    r1 = r2 := by
  obtain ⟨c1, hc1, hm1⟩ := call_injected_shape cfg strat gen1 st1 tool fr1 seed? r1 s1 h1 hi1
  obtain ⟨c2, hc2, hm2⟩ := call_injected_shape cfg strat gen2 st2 tool fr2 seed? r2 s2 h2 hi2
  have : c1 = c2 := Option.some.inj (hc1 ▸ hc2)
  rw [this] at hm1
  exact Option.some.inj (hm1 ▸ hm2)

/-- Witness for C10: failure rate 1 forces injection on a single-error
operation; two calls in different hidden states yield the same 404
response. -/
theorem c10_witness :
    call ⟨0, 42, [("404", 30)], true⟩ [("getPet", [("404", "Not found")])]
        (fun _ => RespBody.msg "ok") ⟨0⟩ "getPet" (some 1) (some 42) =
      (some { status_code := 404,
              body := RespBody.errorBody "404" "error" "Not found",
              error := some "HTTP 404", tool_name := "getPet",
              chaos_injected := true }, ⟨0⟩) ∧
    call ⟨0, 42, [("404", 30)], true⟩ [("getPet", [("404", "Not found")])]
        (fun _ => RespBody.msg "other") ⟨7⟩ "getPet" (some 1) (some 42) =
      (some { status_code := 404,
              body := RespBody.errorBody "404" "error" "Not found",
              error := some "HTTP 404", tool_name := "getPet",
              chaos_injected := true }, ⟨7⟩) ∧
    ({ status_code := 404, body := RespBody.errorBody "404" "error" "Not found",
       error := some "HTTP 404", tool_name := "getPet",
       chaos_injected := true } : Response) =
      { status_code := 404, body := RespBody.errorBody "404" "error" "Not found",
        error := some "HTTP 404", tool_name := "getPet",
        chaos_injected := true } := by
  have h1 : call ⟨0, 42, [("404", 30)], true⟩ [("getPet", [("404", "Not found")])]
      (fun _ => RespBody.msg "ok") ⟨0⟩ "getPet" (some 1) (some 42) =
      (some { status_code := 404,
              body := RespBody.errorBody "404" "error" "Not found",
              error := some "HTTP 404", tool_name := "getPet",
              chaos_injected := true }, ⟨0⟩) := by
    norm_num [call, shouldInjectChaos, selectErrorCode, pyChoices, cumSums,
      cumSumsAux, lookupAssoc, mockErrorResponse, List.find?, List.getD]
    rfl
  have h2 : call ⟨0, 42, [("404", 30)], true⟩ [("getPet", [("404", "Not found")])]
      (fun _ => RespBody.msg "other") ⟨7⟩ "getPet" (some 1) (some 42) =
      (some { status_code := 404,
              body := RespBody.errorBody "404" "error" "Not found",
              error := some "HTTP 404", tool_name := "getPet",
              chaos_injected := true }, ⟨7⟩) := by
    norm_num [call, shouldInjectChaos, selectErrorCode, pyChoices, cumSums,
      cumSumsAux, lookupAssoc, mockErrorResponse, List.find?, List.getD]
    rfl
  exact ⟨h1, h2, c10_injected_error_determinism ⟨0, 42, [("404", 30)], true⟩
    [("getPet", [("404", "Not found")])] (fun _ => RespBody.msg "ok")
    (fun _ => RespBody.msg "other") ⟨0⟩ ⟨7⟩ "getPet" (some 1) (some 1)
    (some 42) _ _ ⟨0⟩ ⟨7⟩ h1 h2 rfl rfl⟩

end Claims3

section Claims4

open ChaosEngine TestAgent

/-- Claim C8 is refuted on `decide_retry_tool` of `test_agent_adk_v3.py`:
its fallback heuristic ignores the playbook strategy.  At
`(error_code, attempt, max_retries, strategy_action) = (503, 1, 3, "fail")`
the claim demands `action = "fail"` (the strategy is not `retry`), but the
heuristic returns `"retry"`. -/
theorem c8_counterexample :
    ¬ (decideRetryTool (.raises "boom") 503 1 3 "fail").action = "fail" := by
  decide

/-- Claim C8 (amended): v2's `_fallback_decide_retry` satisfies the stated
rule — `fail` once `attempt ≥ max_retries`, otherwise `retry` iff the
strategy action is `retry` — and is a total function of the retry context
(it cannot raise).  The fallback heuristic inside v3's
`decide_retry_tool`, by contrast, ignores the strategy and retries iff
`error_code ∉ {400, 422}` and `attempt < max_retries`. -/
theorem c8_heuristic_amended (error_code attempt max_retries : ℤ)
    (strategy : StrategyV2) (sa e : String) :
    (max_retries ≤ attempt →
      (fallbackDecideRetry error_code attempt max_retries strategy).action = "fail") ∧
    (attempt < max_retries →
      ((fallbackDecideRetry error_code attempt max_retries strategy).action = "retry"
        ↔ strategy.action = "retry")) ∧
    ((decideRetryTool (.raises e) error_code attempt max_retries sa).action = "retry"
      ↔ (error_code ≠ 400 ∧ error_code ≠ 422 ∧ attempt < max_retries)) := by
  refine ⟨fun h => ?_, fun h => ?_, ?_⟩
  · unfold fallbackDecideRetry
    rw [if_pos h]
  · unfold fallbackDecideRetry
    rw [if_neg (not_le.mpr h)]
    by_cases hs : strategy.action = "retry"
    · rw [if_pos hs]
      simp [hs]
    · rw [if_neg hs]
      simp [hs]
  · show ((if error_code ≠ 400 ∧ error_code ≠ 422 ∧ attempt < max_retries then _ else _ :
      DecisionV3)).action = "retry" ↔ _
    by_cases hc : error_code ≠ 400 ∧ error_code ≠ 422 ∧ attempt < max_retries
    · rw [if_pos hc]
      simp [hc]
    · rw [if_neg hc]
      simp [hc]

/-- Witness for the amended C8: an exhausted context, a retry-strategy
context, and the v3 heuristic at error code 500. -/
theorem c8_witness :
    (fallbackDecideRetry 500 5 3 ⟨true, 500, "retry", 3, 1, "r"⟩).action = "fail" ∧
    ((fallbackDecideRetry 500 1 3 ⟨true, 500, "retry", 3, 1, "r"⟩).action = "retry"
      ↔ (⟨true, 500, "retry", 3, 1, "r"⟩ : StrategyV2).action = "retry") ∧
    ((decideRetryTool (.raises "boom") 500 1 3 "x").action = "retry"
      ↔ ((500 : ℤ) ≠ 400 ∧ (500 : ℤ) ≠ 422 ∧ (1 : ℤ) < 3)) :=
  ⟨(c8_heuristic_amended 500 5 3 ⟨true, 500, "retry", 3, 1, "r"⟩ "x" "boom").1
      (by norm_num),
    (c8_heuristic_amended 500 1 3 ⟨true, 500, "retry", 3, 1, "r"⟩ "x" "boom").2.1
      (by norm_num),
    (c8_heuristic_amended 500 1 3 ⟨true, 500, "retry", 3, 1, "r"⟩ "x" "boom").2.2⟩

/-- Claim C2 is refuted on `decide_retry_tool` of `test_agent_adk_v3.py`:
when the reasoner response parses but misses the required fields, v3 does
not fall back — it fills the `.get` defaults and returns a decision marked
`llm_called = True`. -/
theorem c2_counterexample :
    ¬ (decideRetryTool (.parsed ⟨none, none, none, none⟩) 503 1 3 "retry").llm_called
      = false := by
  decide

/-- Claim C2 (amended): no reasoner failure ever propagates — both
decision tools are total.  In v2 every failure mode (the model call
raising, malformed JSON, or a missing required field, whose bracket
access raises `KeyError`) is answered by `_fallback_decide_retry`, marked
`llm_called = false, fallback = true`.  In v3 a raising call or malformed
JSON likewise falls back with `llm_called = false`, but a parsed response
with missing fields is instead completed with defaults and returned with
`llm_called = true`. -/
theorem c2_fallback_amended (error_code attempt max_retries : ℤ)
    (s : StrategyV2) (sa e : String) (j : LlmJson) :
    (decideRetryV2 (.raises e) error_code attempt max_retries s =
      fallbackDecideRetry error_code attempt max_retries s) ∧
    (decideRetryV2 (.malformed e) error_code attempt max_retries s =
      fallbackDecideRetry error_code attempt max_retries s) ∧
    ((j.should_retry = none ∨ j.reasoning = none ∨ j.confidence = none) →
      decideRetryV2 (.parsed j) error_code attempt max_retries s =
        fallbackDecideRetry error_code attempt max_retries s) ∧
    ((fallbackDecideRetry error_code attempt max_retries s).llm_called = false ∧
      (fallbackDecideRetry error_code attempt max_retries s).fallback = some true) ∧
    ((decideRetryTool (.raises e) error_code attempt max_retries sa).llm_called
        = false ∧
      (decideRetryTool (.malformed e) error_code attempt max_retries sa).llm_called
        = false) ∧
    (decideRetryTool (.parsed j) error_code attempt max_retries sa).llm_called
      = true := by
  refine ⟨rfl, rfl, fun h => ?_, ?_, ?_, rfl⟩
  · rcases j with ⟨sr, rs, cf, et⟩
    rcases sr with _ | sr
    · rfl
    rcases rs with _ | rs
    · rfl
    rcases cf with _ | cf
    · rfl
    simp only at h
    rcases h with h | h | h <;> exact absurd h (by simp)
  · unfold fallbackDecideRetry
    constructor <;> (split <;> try split) <;> rfl
  · constructor <;>
      (show (if error_code ≠ 400 ∧ error_code ≠ 422 ∧ attempt < max_retries
          then _ else _ : DecisionV3).llm_called = false) <;>
      (split <;> rfl)

/-- Witness for the amended C2 at a concrete retry context, with an
empty parsed response for the missing-field clause. -/
theorem c2_witness :
    (decideRetryV2 (.raises "timeout") 503 1 3 ⟨true, 503, "retry", 3, 1, "r"⟩ =
      fallbackDecideRetry 503 1 3 ⟨true, 503, "retry", 3, 1, "r"⟩) ∧
    (decideRetryV2 (.malformed "bad json") 503 1 3 ⟨true, 503, "retry", 3, 1, "r"⟩ =
      fallbackDecideRetry 503 1 3 ⟨true, 503, "retry", 3, 1, "r"⟩) ∧
    (decideRetryV2 (.parsed ⟨none, none, none, none⟩) 503 1 3
        ⟨true, 503, "retry", 3, 1, "r"⟩ =
      fallbackDecideRetry 503 1 3 ⟨true, 503, "retry", 3, 1, "r"⟩) ∧
    ((fallbackDecideRetry 503 1 3 ⟨true, 503, "retry", 3, 1, "r"⟩).llm_called
        = false ∧
      (fallbackDecideRetry 503 1 3 ⟨true, 503, "retry", 3, 1, "r"⟩).fallback
        = some true) ∧
    ((decideRetryTool (.raises "timeout") 503 1 3 "retry").llm_called = false ∧
      (decideRetryTool (.malformed "bad json") 503 1 3 "retry").llm_called = false) ∧
    (decideRetryTool (.parsed ⟨none, none, none, none⟩) 503 1 3 "retry").llm_called
      = true := by
  have h := c2_fallback_amended 503 1 3 ⟨true, 503, "retry", 3, 1, "r"⟩ "retry"
    "timeout" ⟨none, none, none, none⟩
  have h2 := c2_fallback_amended 503 1 3 ⟨true, 503, "retry", 3, 1, "r"⟩ "retry"
    "bad json" ⟨none, none, none, none⟩
  exact ⟨h.1, h2.2.1, h.2.2.1 (Or.inl rfl), h.2.2.2.1,
    ⟨h.2.2.2.2.1.1, h2.2.2.2.2.1.2⟩, h.2.2.2.2.2⟩

end Claims4

section Claims5

open ChaosEngine TestAgent

/-- The v3 loop body caps `attempts` at `attempt + remaining`. -/
theorem runAuxV3_attempts_le (pb : List Procedure) (op : Nat → OpResult)
    (rs : Nat → ReasonerOutcome) (tid opn : String) (maxR : Nat) :
    ∀ remaining attempt trail delays,
      (runAuxV3 pb op rs tid opn maxR remaining attempt trail delays).result.attempts
        ≤ attempt + remaining := by
  intro remaining
  induction remaining with
  | zero =>
    intro attempt trail delays
    exact le_of_eq rfl
  | succ k ih =>
    intro attempt trail delays
    simp only [runAuxV3]
    split
    · show attempt + 1 ≤ attempt + (k + 1)
      omega
    · split
      · show attempt + 1 ≤ attempt + (k + 1)
        omega
      · exact le_trans (ih (attempt + 1) _ _) (by omega)

/-- The v3_v2 loop body caps `attempts` at `attempt + remaining`. -/
theorem runAuxV32_attempts_le (pb : List Procedure) (op : Nat → OpResult)
    (rs : Nat → ReasonerOutcome) (tid opn : String) (maxR : Nat) :
    ∀ remaining attempt trail delays,
      (runAuxV32 pb op rs tid opn maxR remaining attempt trail delays).result.attempts
        ≤ attempt + remaining := by
  intro remaining
  induction remaining with
  | zero =>
    intro attempt trail delays
    exact le_of_eq rfl
  | succ k ih =>
    intro attempt trail delays
    simp only [runAuxV32]
    split
    · show attempt + 1 ≤ attempt + (k + 1)
      omega
    · split
      · show attempt + 1 ≤ attempt + (k + 1)
        omega
      · split
        · show attempt + 1 ≤ attempt + (k + 1)
          omega
        · exact le_trans (ih (attempt + 1) _ _) (by omega)

/-- Claim C3: for a test whose operation never returns 200, the result's
`attempts` never exceeds the hard-coded `max_retries = 3`, in both
`_run_single_test` versions (`test_agent_adk_v3.py` and
`test_agent_adk_v3_v2.py`).  (The bound holds for every operation
behavior; the hypothesis restricts it to the claimed always-failing
case.) -/
theorem c3_retry_bound (pb : List Procedure) (op : Nat → OpResult)
    (rs : Nat → ReasonerOutcome) (tid opn : String)
    (hop : ∀ n, (op n).status_code ≠ 200) :
    (runSingleTestV3 pb op rs tid opn).result.attempts ≤ 3 ∧
    (runSingleTestV32 pb op rs tid opn).result.attempts ≤ 3 :=
  ⟨runAuxV3_attempts_le pb op rs tid opn 3 3 0 [] [],
    runAuxV32_attempts_le pb op rs tid opn 3 3 0 [] []⟩

/-- Witness for C3: the operation always answers 503. -/
theorem c3_witness :
    (∀ n : Nat, ((fun _ => (⟨503, some "HTTP 503"⟩ : OpResult)) n).status_code ≠ 200) ∧
    (runSingleTestV3 [] (fun _ => ⟨503, some "HTTP 503"⟩)
        (fun _ => .raises "down") "t" "o").result.attempts ≤ 3 ∧
    (runSingleTestV32 [] (fun _ => ⟨503, some "HTTP 503"⟩)
        (fun _ => .raises "down") "t" "o").result.attempts ≤ 3 := by
  have hop : ∀ n : Nat,
      ((fun _ => (⟨503, some "HTTP 503"⟩ : OpResult)) n).status_code ≠ 200 := by
    intro n
    show (503 : ℤ) ≠ 200
    decide
  have h := c3_retry_bound [] (fun _ => ⟨503, some "HTTP 503"⟩)
    (fun _ => .raises "down") "t" "o" hop
  exact ⟨hop, h.1, h.2⟩

end Claims5

section Claims6

open ChaosEngine TestAgent

/-- Every decision `decide_retry_tool` produces carries action `"retry"`
or `"fail"` — never any other string. -/
theorem decideRetryTool_action_cases (o : ReasonerOutcome) (ec a mr : ℤ)
    (sa : String) :
    (decideRetryTool o ec a mr sa).action = "retry" ∨
    (decideRetryTool o ec a mr sa).action = "fail" := by
  cases o with
  | parsed j =>
    cases hj : j.should_retry.getD false
    · right
      simp [decideRetryTool, hj]
    · left
      simp [decideRetryTool, hj]
  | raises e =>
    simp only [decideRetryTool]
    split
    · left
      rfl
    · right
      rfl
  | malformed e =>
    simp only [decideRetryTool]
    split
    · left
      rfl
    · right
      rfl

/-- The `max_retries_exceeded` return after the v3 loop is dead code: as
long as the loop starts with `attempt + remaining = max_retries` and at
least one iteration to go, the early return at `attempt >= max_retries`
fires first, so no run result ever carries that reason. -/
theorem runAuxV3_reason_ne (pb : List Procedure) (op : Nat → OpResult)
    (rs : Nat → ReasonerOutcome) (tid opn : String) (maxR : Nat) :
    ∀ k attempt trail delays, attempt + k = maxR → 1 ≤ k →
      (runAuxV3 pb op rs tid opn maxR k attempt trail delays).result.reason ≠
        some "max_retries_exceeded" := by
  intro k
  induction k with
  | zero =>
    intro attempt trail delays _ h
    exact absurd h (by omega)
  | succ k ih =>
    intro attempt trail delays hsum _
    simp only [runAuxV3]
    split
    · intro hEq
      simp at hEq
    · split
      · intro hEq
        rcases decideRetryTool_action_cases (rs (attempt + 1))
            ((op (attempt + 1)).status_code) ((attempt : ℤ) + 1) ((maxR : ℕ) : ℤ)
            (checkPlaybook pb (op (attempt + 1)).status_code).action with h | h <;>
          simp [h] at hEq
      · next hcond =>
        rcases not_or.mp hcond with ⟨_, h2⟩
        exact ih (attempt + 1) _ _ (by omega) (by omega)

/-- Claim C4 names the spec's intended behavior, but the code diverges:
with the playbook mapping 503 to retry, an operation that always answers
503, and a reasoner that always says retry, v3's `_run_single_test` does
end with `ok = false` and `attempts = 3`, yet its recorded reason is the
final decision's action `"retry"` — not `"max_retries_exceeded"`.  The
trailing return that would produce `"max_retries_exceeded"` is
unreachable (last conjunct), evidencing that the early return's
`attempt >= max_retries` disjunct swallowed the intended terminal path. -/
theorem c4_exhaustion_reason_eval :
    (runSingleTestV3 [⟨["503"], "retry"⟩] (fun _ => ⟨503, some "HTTP 503"⟩)
        (fun _ => .parsed ⟨some true, some "transient error", some (9/10),
          some "transient"⟩) "t503" "getPetById").result.ok = false ∧
    (runSingleTestV3 [⟨["503"], "retry"⟩] (fun _ => ⟨503, some "HTTP 503"⟩)
        (fun _ => .parsed ⟨some true, some "transient error", some (9/10),
          some "transient"⟩) "t503" "getPetById").result.attempts = 3 ∧
    (runSingleTestV3 [⟨["503"], "retry"⟩] (fun _ => ⟨503, some "HTTP 503"⟩)
        (fun _ => .parsed ⟨some true, some "transient error", some (9/10),
          some "transient"⟩) "t503" "getPetById").result.final_status = some 503 ∧
    (runSingleTestV3 [⟨["503"], "retry"⟩] (fun _ => ⟨503, some "HTTP 503"⟩)
        (fun _ => .parsed ⟨some true, some "transient error", some (9/10),
          some "transient"⟩) "t503" "getPetById").result.reason = some "retry" ∧
    ("retry" : String) ≠ "max_retries_exceeded" ∧
    (∀ pb op rs tid opn,
      (runSingleTestV3 pb op rs tid opn).result.reason ≠
        some "max_retries_exceeded") := by
  refine ⟨rfl, rfl, rfl, rfl, by decide, fun pb op rs tid opn => ?_⟩
  exact runAuxV3_reason_ne pb op rs tid opn 3 3 0 [] [] rfl (by omega)

end Claims6

section Claims7

open ChaosEngine TestAgent

/-- The v3 loop records at most the final decision: the result's
`decision` field is absent (success and the dead exhaustion return) or
holds exactly the last element of the decision history. -/
theorem runAuxV3_decision_getLast (pb : List Procedure) (op : Nat → OpResult)
    (rs : Nat → ReasonerOutcome) (tid opn : String) (maxR : Nat) :
    ∀ k attempt trail delays,
      (runAuxV3 pb op rs tid opn maxR k attempt trail delays).result.decision
          = none ∨
      (runAuxV3 pb op rs tid opn maxR k attempt trail delays).result.decision
          = (runAuxV3 pb op rs tid opn maxR k attempt trail delays).trail.getLast? := by
  intro k
  induction k with
  | zero =>
    intro attempt trail delays
    left
    rfl
  | succ k ih =>
    intro attempt trail delays
    simp only [runAuxV3]
    split
    · left
      rfl
    · split
      · right
        simp [List.getLast?_concat]
      · exact ih (attempt + 1) _ _

/-- Claim C9 is refuted on `_run_single_test` of `test_agent_adk_v3.py`:
two runs that differ in their first retry decision (different reasoning
strings) but share the final refusing decision return identical result
dictionaries, so the returned TestResult cannot contain every
RetryDecision made.  The ghost `trail` component records what the spec's
`decision_trail` would have held. -/
theorem c9_counterexample :
    (runSingleTestV3 [] (fun _ => ⟨503, some "HTTP 503"⟩)
        (fun n => if n = 1
          then .parsed ⟨some true, some "flaky upstream", some (1/2), some "transient"⟩
          else .parsed ⟨some false, some "give up", some (1/2), some "permanent"⟩)
        "t" "o").result =
      (runSingleTestV3 [] (fun _ => ⟨503, some "HTTP 503"⟩)
        (fun n => if n = 1
          then .parsed ⟨some true, some "second opinion", some (1/2), some "transient"⟩
          else .parsed ⟨some false, some "give up", some (1/2), some "permanent"⟩)
        "t" "o").result ∧
    (runSingleTestV3 [] (fun _ => ⟨503, some "HTTP 503"⟩)
        (fun n => if n = 1
          then .parsed ⟨some true, some "flaky upstream", some (1/2), some "transient"⟩
          else .parsed ⟨some false, some "give up", some (1/2), some "permanent"⟩)
        "t" "o").trail ≠
      (runSingleTestV3 [] (fun _ => ⟨503, some "HTTP 503"⟩)
        (fun n => if n = 1
          then .parsed ⟨some true, some "second opinion", some (1/2), some "transient"⟩
          else .parsed ⟨some false, some "give up", some (1/2), some "permanent"⟩)
        "t" "o").trail := by
  constructor
  · rfl
  · intro h
    have hA : ((runSingleTestV3 [] (fun _ => ⟨503, some "HTTP 503"⟩)
        (fun n => if n = 1
          then .parsed ⟨some true, some "flaky upstream", some (1/2), some "transient"⟩
          else .parsed ⟨some false, some "give up", some (1/2), some "permanent"⟩)
        "t" "o").trail.map DecisionV3.reason) = ["flaky upstream", "give up"] := by
      rfl
    have hB : ((runSingleTestV3 [] (fun _ => ⟨503, some "HTTP 503"⟩)
        (fun n => if n = 1
          then .parsed ⟨some true, some "second opinion", some (1/2), some "transient"⟩
          else .parsed ⟨some false, some "give up", some (1/2), some "permanent"⟩)
        "t" "o").trail.map DecisionV3.reason) = ["second opinion", "give up"] := by
      rfl
    rw [congrArg (List.map DecisionV3.reason) h, hB] at hA
    exact absurd hA (by decide)

/-- Claim C9 (amended): the v3 result dictionary keeps no decision trail;
its single `decision` key is either absent or holds only the last
RetryDecision of the run's decision history. -/
theorem c9_decision_field_amended (pb : List Procedure) (op : Nat → OpResult)
    (rs : Nat → ReasonerOutcome) (tid opn : String) :
    (runSingleTestV3 pb op rs tid opn).result.decision = none ∨
    (runSingleTestV3 pb op rs tid opn).result.decision =
      (runSingleTestV3 pb op rs tid opn).trail.getLast? :=
  runAuxV3_decision_getLast pb op rs tid opn 3 3 0 [] []

end Claims7
